import Mathlib

/-!
Triple-effect evaporator health assessment (`main.go`).

Shallow embedding of the numeric core of `main.go`: the density table, the
two-axis interpolation `getConc`, and the evaluation steps of `indexHandler`.

The arithmetic of the code is given twice.

* Exact: `getConc`, `stepCapacity`, `stepThroughput`, `stepHealth`, `evaluate` and
  `handlePost` evaluate the expressions of the source in exact rational
  arithmetic `ℚ`.  They give the value of each formula before any rounding.
* Binary64: `getConc64`, `evaluate64` and `handlePost64` evaluate the same
  expressions with every operation rounded to IEEE 754 binary64, as Go `float64`
  does (round to nearest, ties to even, gradual underflow, each operation rounded
  on its own as the compiler does on amd64).  A `float64` number is held as the
  rational it denotes.  Where Go would continue with an infinity or a NaN (an
  overflow, a division by zero) the evaluation ends with `none`.

In both, a Go run-time panic (slice index out of range) is `none`.  Statements
about formulas are proved on the exact definitions; a relation among results
that rounding can break is examined on the binary64 definitions.
-/

namespace Evaporator

/-! ## The density table -/

/-- The map literal `densityTable` (temperature ℃ ↦ rows of
`{mass fraction %, density g/cm³}`), as an association list. -/
def densityTable : List (ℚ × List (ℚ × ℚ)) :=
  [ (20,  [(0, 1.000), (10, 1.092), (15, 1.142), (20, 1.195), (25, 1.250), (30, 1.308), (35, 1.368), (40, 1.431), (45, 1.497), (48, 1.540), (50, 1.569), (51, 1.584), (52, 1.599)]),
    (40,  [(0, 1.000), (15, 1.126), (20, 1.175), (25, 1.227), (30, 1.282), (35, 1.340), (40, 1.401), (45, 1.465), (48, 1.505), (50, 1.533), (51, 1.547), (52, 1.561)]),
    (50,  [(0, 1.000), (20, 1.160), (25, 1.210), (30, 1.263), (35, 1.319), (40, 1.378), (45, 1.440), (48, 1.478), (50, 1.505), (51, 1.519), (52, 1.533)]),
    (55,  [(0, 1.000), (30, 1.247), (34, 1.293), (38, 1.345), (42, 1.400), (46, 1.458), (49, 1.500), (50, 1.515), (51, 1.530), (51.8, 1.540)]),
    (60,  [(0, 1.000), (32, 1.268), (36, 1.316), (40, 1.368), (44, 1.423), (48, 1.482), (50, 1.512), (51, 1.527), (52, 1.542), (53, 1.557)]),
    (80,  [(0, 0.992), (40, 1.315), (45, 1.367), (48, 1.405), (50, 1.433), (51, 1.447), (52, 1.461)]),
    (100, [(0, 0.980), (45, 1.330), (48, 1.365), (50, 1.392), (51, 1.405), (52, 1.418)]) ]

/-- Map indexing `densityTable[t]`: a key that is absent yields the zero value
of the element type, the nil slice. -/
def tableRow (t : ℚ) : List (ℚ × ℚ) :=
  match densityTable.find? (fun p => decide (p.1 = t)) with
  | some p => p.2
  | none => []

/-- The slice `keys` after `sort.Float64s(keys)`: the map keys in ascending order. -/
def sortedKeys : List ℚ :=
  (densityTable.map Prod.fst).insertionSort (fun a b => a ≤ b)

/-! ## `getConc` -/

/-- The loop `for _, t := range keys` of `getConc`, on the state `(t1, t2)`;
the `break` ends the scan. -/
def scanKeys (temp : ℚ) : List ℚ → ℚ × ℚ → ℚ × ℚ
  | [], s => s
  | t :: rest, (t1, t2) =>
    let t1n := if t ≤ temp then t else t1
    if t ≥ temp ∧ t2 = 0 then (t1n, t) else scanKeys temp rest (t1n, t2)

/-- The bounding temperatures `(t1, t2)` of `getConc`: both start at the zero
value, the keys are scanned, and `t2` falls back to `t1` when still zero. -/
def bounds (temp : ℚ) : ℚ × ℚ :=
  let s := scanKeys temp sortedKeys (0, 0)
  if s.2 = 0 then (s.1, s.1) else s

/-- The loop `for i := 0; i < len(tbl)-1; i++` of `interp`: the first consecutive
pair whose densities enclose `d` gives the interpolated value; `none` when the
loop ends without returning. -/
def interpLoop (d : ℚ) : List (ℚ × ℚ) → Option ℚ
  | p :: q :: rest =>
    if d ≥ p.2 ∧ d ≤ q.2 then
      let a := (d - p.2) / (q.2 - p.2)
      some (p.1 + a * (q.1 - p.1))
    else interpLoop d (q :: rest)
  | _ => none

/-- The closure `interp` of `getConc`.  After the loop the code reads `tbl[0]`
and `tbl[len(tbl)-1]`; on an empty slice the index is out of range (`none`). -/
def interp (tbl : List (ℚ × ℚ)) (d : ℚ) : Option ℚ :=
  match interpLoop d tbl with
  | some c => some c
  | none =>
    match tbl.head? with
    | none => none
    | some first =>
      if d < first.2 then some first.1
      else
        match tbl.getLast? with
        | none => none
        | some last => some last.1

/-- The function `getConc(temp, density)`. -/
def getConc (temp density : ℚ) : Option ℚ :=
  let t1 := (bounds temp).1
  let t2 := (bounds temp).2
  match interp (tableRow t1) density with
  | none => none
  | some c1 =>
    if t1 = t2 then some c1
    else
      match interp (tableRow t2) density with
      | none => none
      | some c2 => some (c1 + (c2 - c1) / (t2 - t1) * (temp - t1))


/-- Densities strictly increase along a row. -/
def DensityIncreasing (tbl : List (ℚ × ℚ)) : Prop :=
  tbl.Pairwise (fun p q => p.2 < q.2)

instance (tbl : List (ℚ × ℚ)) : Decidable (DensityIncreasing tbl) :=
  inferInstanceAs (Decidable (tbl.Pairwise (fun (p q : ℚ × ℚ) => p.2 < q.2)))

/-! ## The evaluation of `indexHandler` -/

/-- The struct `EffectData`. -/
structure EffectData where
  Qnom1 : ℚ
  Qnom2 : ℚ
  Qnom3 : ℚ
  DtDesign1 : ℚ
  DtDesign2 : ℚ
  DtDesign3 : ℚ
  Qset1 : ℚ
  Qset2 : ℚ
  Qset3 : ℚ
  DtSet1 : ℚ
  DtSet2 : ℚ
  DtSet3 : ℚ
  TempOut1 : ℚ
  TempOut2 : ℚ
  TempOut3 : ℚ
  DensOut1 : ℚ
  DensOut2 : ℚ
  DensOut3 : ℚ
  ConcOut1 : ℚ
  ConcOut2 : ℚ
  ConcOut3 : ℚ
  Qrun1 : ℚ
  Qrun2 : ℚ
  Qrun3 : ℚ
  Health1 : ℚ
  Health2 : ℚ
  Health3 : ℚ
  Status1 : String
  Status2 : String
  Status3 : String

/-- The struct `PageData` (without the display field `Time`). -/
structure PageData where
  FeedConc : ℚ
  TargetConc : ℚ
  TotalQset : ℚ
  TheoreticalMax : ℚ
  RecommendLow : ℚ
  RecommendHigh : ℚ
  SuggestFlow : ℚ
  ActualFlow : ℚ
  Effect : EffectData

/-- The constant `LatentHeatOfVaporization` (kJ/kg). -/
def LatentHeatOfVaporization : ℚ := 2257.0

/-- The function `heatLoadToEvaporation`: heat load (kW) to evaporation capacity (t/h). -/
def heatLoadToEvaporation (q_kW : ℚ) : ℚ :=
  q_kW * 3600.0 / (LatentHeatOfVaporization * 1000.0)

/-- The composite literal that `indexHandler` starts from; fields that the
literal leaves out hold the zero value. -/
def defaultData : PageData :=
  { FeedConc := 18.0, TargetConc := 52.5, TotalQset := 0, TheoreticalMax := 0,
    RecommendLow := 0, RecommendHigh := 0, SuggestFlow := 0, ActualFlow := 55.0,
    Effect :=
      { Qnom1 := 1200, Qnom2 := 1000, Qnom3 := 800,
        DtDesign1 := 25, DtDesign2 := 22, DtDesign3 := 18,
        Qset1 := 0, Qset2 := 0, Qset3 := 0,
        DtSet1 := 24, DtSet2 := 20, DtSet3 := 16,
        TempOut1 := 92, TempOut2 := 78, TempOut3 := 62,
        DensOut1 := 1.190, DensOut2 := 1.290, DensOut3 := 1.550,
        ConcOut1 := 0, ConcOut2 := 0, ConcOut3 := 0,
        Qrun1 := 0, Qrun2 := 0, Qrun3 := 0,
        Health1 := 0, Health2 := 0, Health3 := 0,
        Status1 := "", Status2 := "", Status3 := "" } }

/-- The form fields of a POST request after `strconv.ParseFloat`: `none` stands
for a field that does not parse. -/
structure FormInput where
  feed_conc : Option ℚ
  actual_flow : Option ℚ
  qnom_1 : Option ℚ
  dt_design_1 : Option ℚ
  dt_set_1 : Option ℚ
  temp_1 : Option ℚ
  dens_1 : Option ℚ
  qnom_2 : Option ℚ
  dt_design_2 : Option ℚ
  dt_set_2 : Option ℚ
  temp_2 : Option ℚ
  dens_2 : Option ℚ
  qnom_3 : Option ℚ
  dt_design_3 : Option ℚ
  dt_set_3 : Option ℚ
  temp_3 : Option ℚ
  dens_3 : Option ℚ

/-- The pattern `if v, err := ParseFloat(..); err == nil && v > 0 { field = v }`:
the parsed value replaces the current one only when it is positive. -/
def acceptPositive (cur : ℚ) (parsed : Option ℚ) : ℚ :=
  match parsed with
  | some v => if v > 0 then v else cur
  | none => cur

/-- The block `if r.Method == "POST" { ... }` of `indexHandler`. -/
def applyForm (f : FormInput) (data : PageData) : PageData :=
  { data with
    FeedConc := acceptPositive data.FeedConc f.feed_conc
    ActualFlow := acceptPositive data.ActualFlow f.actual_flow
    Effect :=
      { data.Effect with
        Qnom1 := acceptPositive data.Effect.Qnom1 f.qnom_1
        DtDesign1 := acceptPositive data.Effect.DtDesign1 f.dt_design_1
        DtSet1 := acceptPositive data.Effect.DtSet1 f.dt_set_1
        TempOut1 := acceptPositive data.Effect.TempOut1 f.temp_1
        DensOut1 := acceptPositive data.Effect.DensOut1 f.dens_1
        Qnom2 := acceptPositive data.Effect.Qnom2 f.qnom_2
        DtDesign2 := acceptPositive data.Effect.DtDesign2 f.dt_design_2
        DtSet2 := acceptPositive data.Effect.DtSet2 f.dt_set_2
        TempOut2 := acceptPositive data.Effect.TempOut2 f.temp_2
        DensOut2 := acceptPositive data.Effect.DensOut2 f.dens_2
        Qnom3 := acceptPositive data.Effect.Qnom3 f.qnom_3
        DtDesign3 := acceptPositive data.Effect.DtDesign3 f.dt_design_3
        DtSet3 := acceptPositive data.Effect.DtSet3 f.dt_set_3
        TempOut3 := acceptPositive data.Effect.TempOut3 f.temp_3
        DensOut3 := acceptPositive data.Effect.DensOut3 f.dens_3 } }

/-- Part one of `indexHandler`: the theoretical capacities `qSet1..3`, their sum,
and the theoretical maximum feed with its recommended range. -/
def stepCapacity (data : PageData) : PageData :=
  let qSet1 := heatLoadToEvaporation data.Effect.Qnom1 * (data.Effect.DtSet1 / data.Effect.DtDesign1)
  let qSet2 := heatLoadToEvaporation data.Effect.Qnom2 * (data.Effect.DtSet2 / data.Effect.DtDesign2)
  let qSet3 := heatLoadToEvaporation data.Effect.Qnom3 * (data.Effect.DtSet3 / data.Effect.DtDesign3)
  let data := { data with
    TotalQset := qSet1 + qSet2 + qSet3
    Effect := { data.Effect with Qset1 := qSet1, Qset2 := qSet2, Qset3 := qSet3 } }
  if data.TargetConc > data.FeedConc then
    let concentrationRatio := data.TargetConc / (data.TargetConc - data.FeedConc)
    let data := { data with TheoreticalMax := data.TotalQset * concentrationRatio }
    let data := { data with RecommendLow := data.TheoreticalMax * 0.75 }
    let data := { data with RecommendHigh := data.TheoreticalMax * 0.95 }
    { data with SuggestFlow := data.TheoreticalMax * 0.90 }
  else
    { data with TheoreticalMax := 0, RecommendLow := 0, RecommendHigh := 0, SuggestFlow := 0 }

/-- Part two of `indexHandler`: the outlet concentrations by `getConc`; a panic
inside `getConc` aborts the evaluation. -/
def stepConc (data : PageData) : Option PageData :=
  match getConc data.Effect.TempOut1 data.Effect.DensOut1 with
  | none => none
  | some c1 =>
    match getConc data.Effect.TempOut2 data.Effect.DensOut2 with
    | none => none
    | some c2 =>
      match getConc data.Effect.TempOut3 data.Effect.DensOut3 with
      | none => none
      | some c3 =>
        some { data with Effect := { data.Effect with ConcOut1 := c1, ConcOut2 := c2, ConcOut3 := c3 } }

/-- The assignment of `Qrun1` (effect I; the feed concentration is `FeedConc`). -/
def stepQrun1 (data : PageData) : PageData :=
  if data.Effect.ConcOut1 > data.FeedConc ∧ data.Effect.ConcOut1 > 0 then
    { data with Effect := { data.Effect with
        Qrun1 := data.ActualFlow * (data.Effect.ConcOut1 - data.FeedConc) / data.Effect.ConcOut1 } }
  else
    { data with Effect := { data.Effect with Qrun1 := 0 } }

/-- The assignment of `Qrun2` (effect II; `cin2` is the outlet concentration of
effect I, and `Qrun1` is read back from the record). -/
def stepQrun2 (data : PageData) : PageData :=
  let cin2 := data.Effect.ConcOut1
  if data.Effect.ConcOut2 > cin2 ∧ data.Effect.ConcOut2 > 0 then
    { data with Effect := { data.Effect with
        Qrun2 := (data.ActualFlow - data.Effect.Qrun1) * (data.Effect.ConcOut2 - cin2) /
          data.Effect.ConcOut2 } }
  else
    { data with Effect := { data.Effect with Qrun2 := 0 } }

/-- The assignment of `Qrun3` (effect III; `cin3` is the outlet concentration of
effect II, and `Qrun1`, `Qrun2` are read back from the record). -/
def stepQrun3 (data : PageData) : PageData :=
  let cin3 := data.Effect.ConcOut2
  if data.Effect.ConcOut3 > cin3 ∧ data.Effect.ConcOut3 > 0 then
    { data with Effect := { data.Effect with
        Qrun3 := (data.ActualFlow - data.Effect.Qrun1 - data.Effect.Qrun2) *
          (data.Effect.ConcOut3 - cin3) / data.Effect.ConcOut3 } }
  else
    { data with Effect := { data.Effect with Qrun3 := 0 } }

/-- The actual evaporation of the three effects, assigned in source order;
`actualFlow := data.ActualFlow` is not changed in between. -/
def stepThroughput (data : PageData) : PageData :=
  stepQrun3 (stepQrun2 (stepQrun1 data))

/-- The assignment of `Health1`. -/
def stepHealth1 (data : PageData) : PageData :=
  if data.Effect.Qset1 > 0 then
    { data with Effect := { data.Effect with Health1 := data.Effect.Qrun1 / data.Effect.Qset1 } }
  else
    { data with Effect := { data.Effect with Health1 := 0 } }

/-- The assignment of `Health2`. -/
def stepHealth2 (data : PageData) : PageData :=
  if data.Effect.Qset2 > 0 then
    { data with Effect := { data.Effect with Health2 := data.Effect.Qrun2 / data.Effect.Qset2 } }
  else
    { data with Effect := { data.Effect with Health2 := 0 } }

/-- The assignment of `Health3`. -/
def stepHealth3 (data : PageData) : PageData :=
  if data.Effect.Qset3 > 0 then
    { data with Effect := { data.Effect with Health3 := data.Effect.Qrun3 / data.Effect.Qset3 } }
  else
    { data with Effect := { data.Effect with Health3 := 0 } }

/-- The health ratios `Health1..3`, assigned in source order. -/
def stepHealth (data : PageData) : PageData :=
  stepHealth3 (stepHealth2 (stepHealth1 data))

/-- The `switch` that is written out once per effect: the first case that holds
gives the status. -/
def statusOf (health : ℚ) : String :=
  if health > 1.1 then "超负荷运行"
  else if health > 0.9 then "运行良好"
  else if health > 0.7 then "轻微结垢"
  else if health > 0.5 then "中度结垢"
  else "严重结垢"

/-- The three status switches. -/
def stepStatus (data : PageData) : PageData :=
  let data := { data with Effect := { data.Effect with Status1 := statusOf data.Effect.Health1 } }
  let data := { data with Effect := { data.Effect with Status2 := statusOf data.Effect.Health2 } }
  { data with Effect := { data.Effect with Status3 := statusOf data.Effect.Health3 } }

/-- The computation of `indexHandler` between the form handling and the
rendering of the page. -/
def evaluate (data : PageData) : Option PageData :=
  match stepConc (stepCapacity data) with
  | none => none
  | some data => some (stepStatus (stepHealth (stepThroughput data)))

/-- The handler on a POST request with the parsed form `f`. -/
def handlePost (f : FormInput) : Option PageData :=
  evaluate (applyForm f defaultData)

/-- A record with the outlet concentrations set to given values (the state
after part two of the evaluation), used to instantiate the throughput chain. -/
def withConc (data : PageData) (c1 c2 c3 : ℚ) : PageData :=
  { data with Effect := { data.Effect with ConcOut1 := c1, ConcOut2 := c2, ConcOut3 := c3 } }

/-- A POST request in which no field parses: every field keeps its default. -/
def emptyForm : FormInput :=
  { feed_conc := none, actual_flow := none,
    qnom_1 := none, dt_design_1 := none, dt_set_1 := none, temp_1 := none, dens_1 := none,
    qnom_2 := none, dt_design_2 := none, dt_set_2 := none, temp_2 := none, dens_2 := none,
    qnom_3 := none, dt_design_3 := none, dt_set_3 := none, temp_3 := none, dens_3 := none }

/-- Concentrations strictly increase along a row. -/
def ConcIncreasing (tbl : List (ℚ × ℚ)) : Prop :=
  tbl.Pairwise (fun p q => p.1 < q.1)

instance (tbl : List (ℚ × ℚ)) : Decidable (ConcIncreasing tbl) :=
  inferInstanceAs (Decidable (tbl.Pairwise (fun (p q : ℚ × ℚ) => p.1 < q.1)))

/-! ## Binary64 arithmetic -/

/-- Rounding of a rational to the nearest integer, ties to the even one. -/
def roundHalfEven (s : ℚ) : ℤ :=
  if s - Int.floor s < 1 / 2 then Int.floor s
  else if s - Int.floor s > 1 / 2 then Int.floor s + 1
  else if Int.floor s % 2 = 0 then Int.floor s
  else Int.floor s + 1

/-- Rounding of a rational to binary64 (IEEE 754 double precision, Go `float64`):
with `e` the exponent of the last place of `x`, that is
`2 ^ (e + 52) ≤ |x| < 2 ^ (e + 53)` but not below -1074 (subnormal range), the
result is the multiple of `2 ^ e` nearest to `x`, ties to the even multiple;
`none` when that is not finite (`2 ^ 1024` or more in absolute value). -/
def roundF64 (x : ℚ) : Option ℚ :=
  let e : ℤ := max (Int.log 2 (abs x) - 52) (-1074)
  let v : ℚ := (roundHalfEven (x / 2 ^ e) : ℚ) * 2 ^ e
  if abs v ≥ 2 ^ 1024 then none else some v

/-- A decimal constant of the source as a `float64`. -/
def lit64 (x : ℚ) : ℚ :=
  (roundF64 x).getD 0

/-- The `float64` sum of two `float64` numbers; `none` when it is not finite. -/
def fadd (a b : ℚ) : Option ℚ := roundF64 (a + b)

/-- The `float64` difference; `none` when it is not finite. -/
def fsub (a b : ℚ) : Option ℚ := roundF64 (a - b)

/-- The `float64` product; `none` when it is not finite. -/
def fmul (a b : ℚ) : Option ℚ := roundF64 (a * b)

/-- The `float64` quotient; `none` when it is not finite or the divisor is 0. -/
def fdiv (a b : ℚ) : Option ℚ := if b = 0 then none else roundF64 (a / b)

/-! ## The code in binary64

The same code as above with every arithmetic operation rounded to `float64`
(each operation on its own, no fused multiply-add).  A `float64` number is held
as the rational it denotes; `none` stands for a panic or for a value that is not
finite. -/

/-- A row of the map literal `densityTable` with its constants converted to
`float64`. -/
def row64 (tbl : List (ℚ × ℚ)) : List (ℚ × ℚ) :=
  tbl.map (fun p => (lit64 p.1, lit64 p.2))

/-- Map indexing `densityTable[t]` in binary64: the keys 20, 40, 50, 55, 60, 80
and 100 of the literal are `float64` numbers, so the lookup is that of
`tableRow`; the constants of the row are rounded. -/
def tableRow64 (t : ℚ) : List (ℚ × ℚ) :=
  row64 (tableRow t)

/-- The expression `tbl[i][0] + a*(tbl[i+1][0]-tbl[i][0])` with
`a := (d - tbl[i][1]) / (tbl[i+1][1] - tbl[i][1])`, every operation rounded. -/
def interpPair64 (p q : ℚ × ℚ) (d : ℚ) : Option ℚ :=
  (fsub d p.2).bind fun x =>
  (fsub q.2 p.2).bind fun y =>
  (fdiv x y).bind fun a =>
  (fsub q.1 p.1).bind fun z =>
  (fmul a z).bind fun w =>
  fadd p.1 w

/-- The three ways in which the loop of `interp` ends in binary64. -/
inductive LoopOutcome where
  | returned (c : ℚ)
  | finished
  | notFinite

/-- The loop `for i := 0; i < len(tbl)-1; i++` of `interp` in binary64. -/
def interpLoop64 (d : ℚ) : List (ℚ × ℚ) → LoopOutcome
  | p :: q :: rest =>
    if d ≥ p.2 ∧ d ≤ q.2 then
      match interpPair64 p q d with
      | some c => LoopOutcome.returned c
      | none => LoopOutcome.notFinite
    else interpLoop64 d (q :: rest)
  | _ => LoopOutcome.finished

/-- The closure `interp` of `getConc` in binary64. -/
def interp64 (tbl : List (ℚ × ℚ)) (d : ℚ) : Option ℚ :=
  match interpLoop64 d tbl with
  | LoopOutcome.returned c => some c
  | LoopOutcome.notFinite => none
  | LoopOutcome.finished =>
    match tbl.head? with
    | none => none
    | some first =>
      if d < first.2 then some first.1
      else
        match tbl.getLast? with
        | none => none
        | some last => some last.1

/-- The expression `c1 + (c2-c1)/(t2-t1)*(temp-t1)`, every operation rounded. -/
def tempStep64 (c1 c2 t1 t2 temp : ℚ) : Option ℚ :=
  (fsub c2 c1).bind fun x =>
  (fsub t2 t1).bind fun y =>
  (fdiv x y).bind fun s =>
  (fsub temp t1).bind fun z =>
  (fmul s z).bind fun w =>
  fadd c1 w

/-- The function `getConc(temp, density)` in binary64; the bounding temperatures
are those of `bounds` (comparisons of `float64` numbers are exact, and the keys
are `float64` numbers). -/
def getConc64 (temp density : ℚ) : Option ℚ :=
  let t1 := (bounds temp).1
  let t2 := (bounds temp).2
  match interp64 (tableRow64 t1) density with
  | none => none
  | some c1 =>
    if t1 = t2 then some c1
    else
      match interp64 (tableRow64 t2) density with
      | none => none
      | some c2 => tempStep64 c1 c2 t1 t2 temp

/-- The composite literal of `indexHandler` in binary64: the three densities are
rounded, every other constant of the literal is a `float64` number. -/
def defaultData64 : PageData :=
  { defaultData with
    Effect := { defaultData.Effect with
      DensOut1 := lit64 1.190, DensOut2 := lit64 1.290, DensOut3 := lit64 1.550 } }

/-- The pattern `if v, err := ParseFloat(..); err == nil && v > 0 { field = v }`
in binary64: `parsed` is the decimal number that the field spells (`none` when it
does not parse); `ParseFloat` rounds it to the nearest `float64` and reports an
error when that is not finite. -/
def acceptPositive64 (cur : ℚ) (parsed : Option ℚ) : ℚ :=
  match parsed.bind roundF64 with
  | some v => if v > 0 then v else cur
  | none => cur

/-- The block `if r.Method == "POST" { ... }` of `indexHandler` in binary64. -/
def applyForm64 (f : FormInput) (data : PageData) : PageData :=
  { data with
    FeedConc := acceptPositive64 data.FeedConc f.feed_conc
    ActualFlow := acceptPositive64 data.ActualFlow f.actual_flow
    Effect :=
      { data.Effect with
        Qnom1 := acceptPositive64 data.Effect.Qnom1 f.qnom_1
        DtDesign1 := acceptPositive64 data.Effect.DtDesign1 f.dt_design_1
        DtSet1 := acceptPositive64 data.Effect.DtSet1 f.dt_set_1
        TempOut1 := acceptPositive64 data.Effect.TempOut1 f.temp_1
        DensOut1 := acceptPositive64 data.Effect.DensOut1 f.dens_1
        Qnom2 := acceptPositive64 data.Effect.Qnom2 f.qnom_2
        DtDesign2 := acceptPositive64 data.Effect.DtDesign2 f.dt_design_2
        DtSet2 := acceptPositive64 data.Effect.DtSet2 f.dt_set_2
        TempOut2 := acceptPositive64 data.Effect.TempOut2 f.temp_2
        DensOut2 := acceptPositive64 data.Effect.DensOut2 f.dens_2
        Qnom3 := acceptPositive64 data.Effect.Qnom3 f.qnom_3
        DtDesign3 := acceptPositive64 data.Effect.DtDesign3 f.dt_design_3
        DtSet3 := acceptPositive64 data.Effect.DtSet3 f.dt_set_3
        TempOut3 := acceptPositive64 data.Effect.TempOut3 f.temp_3
        DensOut3 := acceptPositive64 data.Effect.DensOut3 f.dens_3 } }

/-- The expression `heatLoadToEvaporation(qnom) * (dtSet / dtDesign)` in binary64:
in `heatLoadToEvaporation` the product `q_kW * 3600.0` is rounded, then the
quotient by the constant `LatentHeatOfVaporization * 1000.0`, which the compiler
evaluates exactly (2257000). -/
def qSet64 (qnom dtSet dtDesign : ℚ) : Option ℚ :=
  (fmul qnom 3600.0).bind fun x =>
  (fdiv x (LatentHeatOfVaporization * 1000.0)).bind fun h =>
  (fdiv dtSet dtDesign).bind fun r =>
  fmul h r

/-- The values `TheoreticalMax`, `RecommendLow`, `RecommendHigh` and
`SuggestFlow` (in this order) of the recommendation block, in binary64. -/
def recommend64 (total target feed : ℚ) : Option (ℚ × ℚ × ℚ × ℚ) :=
  if target > feed then
    (fsub target feed).bind fun diff =>
    (fdiv target diff).bind fun concentrationRatio =>
    (fmul total concentrationRatio).bind fun tmax =>
    (fmul tmax 0.75).bind fun lo =>
    (fmul tmax (lit64 0.95)).bind fun hi =>
    (fmul tmax (lit64 0.90)).bind fun sg =>
    some (tmax, lo, hi, sg)
  else some (0, 0, 0, 0)

/-- The expression `flow * (cout - cin) / cout` in binary64: difference, product
and quotient, each rounded. -/
def removed64 (flow cout cin : ℚ) : Option ℚ :=
  (fsub cout cin).bind fun x =>
  (fmul flow x).bind fun y =>
  fdiv y cout

/-- The value assigned to `Qrun1`, in binary64. -/
def qrun1F (flow feed c1 : ℚ) : Option ℚ :=
  if c1 > feed ∧ c1 > 0 then removed64 flow c1 feed else some 0

/-- The value assigned to `Qrun2`, in binary64; the flow `actualFlow - Qrun1` is
rounded. -/
def qrun2F (flow q1 c1 c2 : ℚ) : Option ℚ :=
  if c2 > c1 ∧ c2 > 0 then
    (fsub flow q1).bind fun rest => removed64 rest c2 c1
  else some 0

/-- The value assigned to `Qrun3`, in binary64; the flow
`actualFlow - Qrun1 - Qrun2` is two rounded differences. -/
def qrun3F (flow q1 q2 c2 c3 : ℚ) : Option ℚ :=
  if c3 > c2 ∧ c3 > 0 then
    (fsub flow q1).bind fun r1 =>
    (fsub r1 q2).bind fun rest => removed64 rest c3 c2
  else some 0

/-- The capacities `qSet1`, `qSet2`, `qSet3` and their sum `TotalQset` (two
rounded additions), in binary64. -/
def capacity64 (data : PageData) : Option (ℚ × ℚ × ℚ × ℚ) :=
  (qSet64 data.Effect.Qnom1 data.Effect.DtSet1 data.Effect.DtDesign1).bind fun qSet1 =>
  (qSet64 data.Effect.Qnom2 data.Effect.DtSet2 data.Effect.DtDesign2).bind fun qSet2 =>
  (qSet64 data.Effect.Qnom3 data.Effect.DtSet3 data.Effect.DtDesign3).bind fun qSet3 =>
  (fadd qSet1 qSet2).bind fun s12 =>
  (fadd s12 qSet3).bind fun total =>
  some (qSet1, qSet2, qSet3, total)

/-- The three outlet concentrations by `getConc`, in binary64. -/
def concentrations64 (data : PageData) : Option (ℚ × ℚ × ℚ) :=
  (getConc64 data.Effect.TempOut1 data.Effect.DensOut1).bind fun c1 =>
  (getConc64 data.Effect.TempOut2 data.Effect.DensOut2).bind fun c2 =>
  (getConc64 data.Effect.TempOut3 data.Effect.DensOut3).bind fun c3 =>
  some (c1, c2, c3)

/-- The three throughputs `Qrun1`, `Qrun2`, `Qrun3` of the chain, in binary64. -/
def throughput64 (flow feed c1 c2 c3 : ℚ) : Option (ℚ × ℚ × ℚ) :=
  (qrun1F flow feed c1).bind fun q1 =>
  (qrun2F flow q1 c1 c2).bind fun q2 =>
  (qrun3F flow q1 q2 c2 c3).bind fun q3 =>
  some (q1, q2, q3)

/-- The computation of `indexHandler` in binary64 from the capacities to the
throughput chain (lines 209 to 263; the health ratios and the status follow in
the source and do not change these fields). -/
def evaluate64 (data : PageData) : Option PageData :=
  (capacity64 data).bind fun cap =>
  (recommend64 cap.2.2.2 data.TargetConc data.FeedConc).bind fun rec =>
  (concentrations64 data).bind fun c =>
  (throughput64 data.ActualFlow data.FeedConc c.1 c.2.1 c.2.2).bind fun q =>
  some { data with
    TotalQset := cap.2.2.2
    TheoreticalMax := rec.1
    RecommendLow := rec.2.1
    RecommendHigh := rec.2.2.1
    SuggestFlow := rec.2.2.2
    Effect := { data.Effect with
      Qset1 := cap.1, Qset2 := cap.2.1, Qset3 := cap.2.2.1
      ConcOut1 := c.1, ConcOut2 := c.2.1, ConcOut3 := c.2.2
      Qrun1 := q.1, Qrun2 := q.2.1, Qrun3 := q.2.2 } }

/-- The handler on a POST request with the form `f`, in binary64. -/
def handlePost64 (f : FormInput) : Option PageData :=
  evaluate64 (applyForm64 f defaultData64)

/-! ## Auxiliary notions for binary64 -/

/-- The exponent of the last place of `x` in binary64. -/
def lastPlace (x : ℚ) : ℤ :=
  max (Int.log 2 (abs x) - 52) (-1074)

/-- The multiple of the last place of `x` nearest to `x`, ties to even: the value
of `roundF64 x` when it is finite. -/
def roundValue (x : ℚ) : ℚ :=
  (roundHalfEven (x / 2 ^ lastPlace x) : ℚ) * 2 ^ lastPlace x

/-- A segment `p`, `q` of a row on which the binary64 interpolation closes: the
densities increase, the left concentration is a binary64 number, the rounded
density step is positive, and the rounded concentration step added to the left
concentration gives the right concentration. -/
def Seg64 (p q : ℚ × ℚ) : Prop :=
  p.2 < q.2 ∧ roundF64 p.1 = some p.1 ∧
    ∃ y z, fsub q.2 p.2 = some y ∧ 0 < y ∧ fsub q.1 p.1 = some z ∧ 0 ≤ z ∧
      fadd p.1 z = some q.1

/-! ## Auxiliary facts -/

theorem sortedKeys_eq : sortedKeys = [20, 40, 50, 55, 60, 80, 100] := by decide

theorem bounds_below (temp : ℚ) (h : temp < 20) : bounds temp = (0, 20) := by
  have h1 : ¬ (20 ≤ temp) := not_le.mpr h
  have h2 : temp ≤ 20 := h.le
  simp [bounds, sortedKeys_eq, scanKeys, h1, h2]

theorem bounds_above (temp : ℚ) (h : 100 < temp) : bounds temp = (100, 100) := by
  have a1 : (20:ℚ) ≤ temp := by linarith
  have a2 : (40:ℚ) ≤ temp := by linarith
  have a3 : (50:ℚ) ≤ temp := by linarith
  have a4 : (55:ℚ) ≤ temp := by linarith
  have a5 : (60:ℚ) ≤ temp := by linarith
  have a6 : (80:ℚ) ≤ temp := by linarith
  have a7 : (100:ℚ) ≤ temp := by linarith
  have b1 : ¬ (temp ≤ 20) := by linarith
  have b2 : ¬ (temp ≤ 40) := by linarith
  have b3 : ¬ (temp ≤ 50) := by linarith
  have b4 : ¬ (temp ≤ 55) := by linarith
  have b5 : ¬ (temp ≤ 60) := by linarith
  have b6 : ¬ (temp ≤ 80) := by linarith
  have b7 : ¬ (temp ≤ 100) := by linarith
  simp [bounds, sortedKeys_eq, scanKeys, a1, a2, a3, a4, a5, a6, a7, b1, b2, b3, b4, b5, b6, b7]

theorem bounds_key (temp : ℚ) (h : temp ∈ sortedKeys) : bounds temp = (temp, temp) := by
  simp only [sortedKeys_eq, List.mem_cons, List.mem_singleton, List.not_mem_nil, or_false] at h
  rcases h with h | h | h | h | h | h | h <;> subst h <;>
    norm_num [bounds, sortedKeys_eq, scanKeys]

theorem bounds_between (ta tb temp : ℚ) (h : (ta, tb) ∈ sortedKeys.zip sortedKeys.tail)
    (h1 : ta < temp) (h2 : temp < tb) : bounds temp = (ta, tb) := by
  simp only [sortedKeys_eq, List.tail_cons, List.zip_cons_cons, List.zip_nil_right, List.mem_cons,
    List.mem_singleton, List.not_mem_nil, or_false, Prod.mk.injEq] at h
  have key : ∀ k : ℚ, k ≤ ta ∨ tb ≤ k → ((k ≤ temp ↔ k ≤ ta) ∧ (temp ≤ k ↔ tb ≤ k)) := by
    intro k hk
    rcases hk with hk | hk
    · exact ⟨⟨fun _ => hk, fun _ => by linarith⟩, ⟨fun _ => by linarith, fun _ => by linarith⟩⟩
    · exact ⟨⟨fun _ => by linarith, fun _ => by linarith⟩, ⟨fun _ => hk, fun _ => by linarith⟩⟩
  rcases h with ⟨rfl, rfl⟩ | ⟨rfl, rfl⟩ | ⟨rfl, rfl⟩ | ⟨rfl, rfl⟩ | ⟨rfl, rfl⟩ | ⟨rfl, rfl⟩ <;>
    norm_num [bounds, sortedKeys_eq, scanKeys, key 20 (by norm_num), key 40 (by norm_num),
      key 50 (by norm_num), key 55 (by norm_num), key 60 (by norm_num), key 80 (by norm_num),
      key 100 (by norm_num)]

theorem lerp_bounds (lo hi c0 c1 d0 d1 d : ℚ) (hd : d0 < d1) (h0 : d0 ≤ d) (h1 : d ≤ d1)
    (l0 : lo ≤ c0) (u0 : c0 ≤ hi) (l1 : lo ≤ c1) (u1 : c1 ≤ hi) :
    lo ≤ c0 + (d - d0) / (d1 - d0) * (c1 - c0) ∧ c0 + (d - d0) / (d1 - d0) * (c1 - c0) ≤ hi := by
  have hpos : 0 < d1 - d0 := by linarith
  have a0 : 0 ≤ (d - d0) / (d1 - d0) := div_nonneg (by linarith) hpos.le
  have a1 : (d - d0) / (d1 - d0) ≤ 1 := (div_le_one hpos).mpr (by linarith)
  constructor <;> nlinarith

theorem interpLoop_bounds (lo hi d c : ℚ) :
    ∀ tbl : List (ℚ × ℚ), DensityIncreasing tbl → (∀ p ∈ tbl, lo ≤ p.1 ∧ p.1 ≤ hi) →
      interpLoop d tbl = some c → lo ≤ c ∧ c ≤ hi
  | [], _, _, h => by simp [interpLoop] at h
  | [_], _, _, h => by simp [interpLoop] at h
  | p :: q :: rest, hinc, hc, h => by
    have hinc2 : DensityIncreasing (q :: rest) := (List.pairwise_cons.mp hinc).2
    have hpq : p.2 < q.2 := (List.pairwise_cons.mp hinc).1 q (List.mem_cons_self _ _)
    have hp := hc p (List.mem_cons_self _ _)
    have hq := hc q (List.mem_cons_of_mem _ (List.mem_cons_self _ _))
    by_cases hcond : d ≥ p.2 ∧ d ≤ q.2
    · simp only [interpLoop, hcond, and_self, if_true, Option.some.injEq] at h
      rw [← h]
      exact lerp_bounds lo hi p.1 q.1 p.2 q.2 d hpq hcond.1 hcond.2 hp.1 hp.2 hq.1 hq.2
    · simp only [interpLoop, hcond, if_false] at h
      exact interpLoop_bounds lo hi d c (q :: rest) hinc2
        (fun r hr => hc r (List.mem_cons_of_mem _ hr)) h

theorem interp_bounds (lo hi d c : ℚ) (tbl : List (ℚ × ℚ)) (hinc : DensityIncreasing tbl)
    (hc : ∀ p ∈ tbl, lo ≤ p.1 ∧ p.1 ≤ hi) (h : interp tbl d = some c) : lo ≤ c ∧ c ≤ hi := by
  unfold interp at h
  cases hl : interpLoop d tbl with
  | some c0 =>
    simp only [hl, Option.some.injEq] at h
    exact h ▸ interpLoop_bounds lo hi d c0 tbl hinc hc hl
  | none =>
    simp only [hl] at h
    cases hh : tbl.head? with
    | none => simp [hh] at h
    | some first =>
      simp only [hh] at h
      have hf := hc first (List.mem_of_mem_head? hh)
      by_cases hlt : d < first.2
      · simp only [hlt, if_true, Option.some.injEq] at h
        exact h ▸ hf
      · simp only [hlt, if_false] at h
        cases hg : tbl.getLast? with
        | none => simp [hg] at h
        | some last =>
          simp only [hg, Option.some.injEq] at h
          exact h ▸ hc last (List.mem_of_mem_getLast? hg)

theorem interp_isSome (d : ℚ) (tbl : List (ℚ × ℚ)) (hne : tbl ≠ []) :
    ∃ c, interp tbl d = some c := by
  unfold interp
  cases hl : interpLoop d tbl with
  | some c0 => exact ⟨c0, rfl⟩
  | none =>
    cases tbl with
    | nil => exact absurd rfl hne
    | cons p rest =>
      simp only [List.head?_cons]
      by_cases hlt : d < p.2
      · exact ⟨p.1, by simp [hlt]⟩
      · cases hg : (p :: rest).getLast? with
        | none => simp at hg
        | some last => exact ⟨last.1, by simp [hlt]⟩

theorem interp_nil (d : ℚ) : interp [] d = none := by
  simp [interp, interpLoop]

theorem interpLoop_none_below (d : ℚ) :
    ∀ tbl : List (ℚ × ℚ), (∀ p ∈ tbl, d < p.2) → interpLoop d tbl = none
  | [], _ => by simp [interpLoop]
  | [_], _ => by simp [interpLoop]
  | p :: q :: rest, h => by
    have hp := h p (List.mem_cons_self _ _)
    have hcond : ¬ (d ≥ p.2 ∧ d ≤ q.2) := fun hc => absurd hc.1 (not_le.mpr hp)
    simp only [interpLoop, hcond, if_false]
    exact interpLoop_none_below d (q :: rest) (fun r hr => h r (List.mem_cons_of_mem _ hr))

theorem interpLoop_none_above (d : ℚ) :
    ∀ tbl : List (ℚ × ℚ), (∀ p ∈ tbl, p.2 < d) → interpLoop d tbl = none
  | [], _ => by simp [interpLoop]
  | [_], _ => by simp [interpLoop]
  | p :: q :: rest, h => by
    have hq := h q (List.mem_cons_of_mem _ (List.mem_cons_self _ _))
    have hcond : ¬ (d ≥ p.2 ∧ d ≤ q.2) := fun hc => absurd hc.2 (not_le.mpr hq)
    simp only [interpLoop, hcond, if_false]
    exact interpLoop_none_above d (q :: rest) (fun r hr => h r (List.mem_cons_of_mem _ hr))

theorem density_head_le (tbl : List (ℚ × ℚ)) (hinc : DensityIncreasing tbl) (first : ℚ × ℚ)
    (hf : tbl.head? = some first) : ∀ p ∈ tbl, first.2 ≤ p.2 := by
  cases tbl with
  | nil => simp at hf
  | cons a rest =>
    simp only [List.head?_cons, Option.some.injEq] at hf
    subst hf
    intro p hp
    rcases List.mem_cons.mp hp with rfl | hp
    · exact le_refl _
    · exact ((List.pairwise_cons.mp hinc).1 p hp).le

theorem density_le_last : ∀ (tbl : List (ℚ × ℚ)), DensityIncreasing tbl → ∀ (last : ℚ × ℚ),
    tbl.getLast? = some last → ∀ p ∈ tbl, p.2 ≤ last.2
  | [], _, _, hl => by simp at hl
  | [a], _, last, hl => by
    simp only [List.getLast?_singleton, Option.some.injEq] at hl
    subst hl
    intro p hp
    simp only [List.mem_singleton] at hp
    exact hp ▸ le_refl _
  | a :: b :: rest, hinc, last, hl => by
    have hl2 : (b :: rest).getLast? = some last := by
      rw [List.getLast?_cons_cons] at hl
      exact hl
    have ih := density_le_last (b :: rest) (List.pairwise_cons.mp hinc).2 last hl2
    intro p hp
    rcases List.mem_cons.mp hp with rfl | hp
    · exact ((List.pairwise_cons.mp hinc).1 last (List.mem_of_mem_getLast? hl2)).le
    · exact ih p hp

theorem interp_below (d : ℚ) (tbl : List (ℚ × ℚ)) (hinc : DensityIncreasing tbl)
    (first : ℚ × ℚ) (hf : tbl.head? = some first) (hd : d < first.2) :
    interp tbl d = some first.1 := by
  have hn := interpLoop_none_below d tbl
    (fun p hp => lt_of_lt_of_le hd (density_head_le tbl hinc first hf p hp))
  simp [interp, hn, hf, hd]

theorem interp_above (d : ℚ) (tbl : List (ℚ × ℚ)) (hinc : DensityIncreasing tbl)
    (last : ℚ × ℚ) (hl : tbl.getLast? = some last) (hd : last.2 < d) :
    interp tbl d = some last.1 := by
  have hall : ∀ p ∈ tbl, p.2 < d :=
    fun p hp => lt_of_le_of_lt (density_le_last tbl hinc last hl p hp) hd
  have hn := interpLoop_none_above d tbl hall
  cases hh : tbl.head? with
  | none =>
    cases tbl with
    | nil => simp at hl
    | cons a rest => simp at hh
  | some first =>
    have hnot : ¬ d < first.2 := not_lt.mpr (hall first (List.mem_of_mem_head? hh)).le
    simp [interp, hn, hh, hnot, hl]

theorem interpLoop_pair (d : ℚ) : ∀ (tbl : List (ℚ × ℚ)), DensityIncreasing tbl →
    ∀ (i : Nat) (p q : ℚ × ℚ), tbl[i]? = some p → tbl[i + 1]? = some q → p.2 ≤ d → d ≤ q.2 →
      interpLoop d tbl = some (p.1 + (d - p.2) / (q.2 - p.2) * (q.1 - p.1))
  | [], _, i, p, q, hp, _, _, _ => by simp at hp
  | [_], _, i, p, q, _, hq, _, _ => by simp at hq
  | a :: b :: rest, hinc, 0, p, q, hp, hq, h1, h2 => by
    simp only [List.getElem?_cons_zero, Option.some.injEq, zero_add, List.getElem?_cons_succ] at hp hq
    subst hp hq
    simp [interpLoop, h1, h2]
  | a :: b :: rest, hinc, k + 1, p, q, hp, hq, h1, h2 => by
    have hinc2 : DensityIncreasing (b :: rest) := (List.pairwise_cons.mp hinc).2
    have hab : a.2 < b.2 := (List.pairwise_cons.mp hinc).1 b (List.mem_cons_self _ _)
    simp only [List.getElem?_cons_succ] at hp
    rw [List.getElem?_cons_succ] at hq
    have ih := interpLoop_pair d (b :: rest) hinc2 k p q hp hq h1 h2
    by_cases hcond : d ≥ a.2 ∧ d ≤ b.2
    · have hbp : b.2 ≤ p.2 := density_head_le (b :: rest) hinc2 b rfl p (List.getElem?_mem hp)
      have hdb : d = b.2 := le_antisymm hcond.2 (le_trans hbp h1)
      have hpb : p.2 = b.2 := le_antisymm (hdb ▸ h1) hbp
      have hk : k = 0 := by
        rcases Nat.eq_zero_or_pos k with hk | hk
        · exact hk
        · exfalso
          obtain ⟨j, rfl⟩ : ∃ j, k = j + 1 := ⟨k - 1, by omega⟩
          simp only [List.getElem?_cons_succ] at hp
          have := (List.pairwise_cons.mp hinc2).1 p (List.getElem?_mem hp)
          linarith
      subst hk
      simp only [List.getElem?_cons_zero, Option.some.injEq] at hp
      subst hp
      have hne : b.2 - a.2 ≠ 0 := by linarith
      simp only [interpLoop, hcond, and_self, if_true, Option.some.injEq]
      rw [hdb]
      field_simp
    · simp only [interpLoop, hcond, if_false]
      exact ih

theorem tableRow_of_mem (T : ℚ) (row : List (ℚ × ℚ)) (h : (T, row) ∈ densityTable) :
    tableRow T = row := by
  simp only [densityTable, List.mem_cons, List.mem_singleton, List.not_mem_nil, or_false,
    Prod.mk.injEq] at h
  rcases h with ⟨rfl, rfl⟩ | ⟨rfl, rfl⟩ | ⟨rfl, rfl⟩ | ⟨rfl, rfl⟩ | ⟨rfl, rfl⟩ | ⟨rfl, rfl⟩ |
    ⟨rfl, rfl⟩ <;> norm_num [tableRow, densityTable, List.find?]

theorem tableRow_zero : tableRow 0 = [] := by
  norm_num [tableRow, densityTable, List.find?]

theorem mem_sortedKeys_of_mem (T : ℚ) (row : List (ℚ × ℚ)) (h : (T, row) ∈ densityTable) :
    T ∈ sortedKeys := by
  simp only [densityTable, List.mem_cons, List.mem_singleton, List.not_mem_nil, or_false,
    Prod.mk.injEq] at h
  rw [sortedKeys_eq]
  rcases h with ⟨rfl, _⟩ | ⟨rfl, _⟩ | ⟨rfl, _⟩ | ⟨rfl, _⟩ | ⟨rfl, _⟩ | ⟨rfl, _⟩ | ⟨rfl, _⟩ <;>
    simp

theorem exists_row_of_mem_sortedKeys (T : ℚ) (h : T ∈ sortedKeys) :
    ∃ row, (T, row) ∈ densityTable := by
  have h2 : T ∈ densityTable.map Prod.fst := by
    have := (List.perm_insertionSort (fun a b : ℚ => a ≤ b) (densityTable.map Prod.fst)).subset h
    exact this
  obtain ⟨p, hp, rfl⟩ := List.mem_map.mp h2
  exact ⟨p.2, hp⟩

theorem densityIncreasing_of_chain (tbl : List (ℚ × ℚ))
    (h : tbl.Chain' (fun p q => p.2 < q.2)) : DensityIncreasing tbl := by
  haveI : IsTrans (ℚ × ℚ) (fun p q => p.2 < q.2) := ⟨fun _ _ _ hab hbc => lt_trans hab hbc⟩
  exact List.chain'_iff_pairwise.mp h

theorem densityTable_increasing (T : ℚ) (row : List (ℚ × ℚ)) (h : (T, row) ∈ densityTable) :
    DensityIncreasing row := by
  apply densityIncreasing_of_chain
  simp only [densityTable, List.mem_cons, List.mem_singleton, List.not_mem_nil, or_false,
    Prod.mk.injEq] at h
  rcases h with ⟨_, rfl⟩ | ⟨_, rfl⟩ | ⟨_, rfl⟩ | ⟨_, rfl⟩ | ⟨_, rfl⟩ | ⟨_, rfl⟩ | ⟨_, rfl⟩ <;>
    norm_num [List.chain'_cons]

theorem densityTable_conc_range (T : ℚ) (row : List (ℚ × ℚ)) (h : (T, row) ∈ densityTable) :
    ∀ p ∈ row, (0 : ℚ) ≤ p.1 ∧ p.1 ≤ 53 := by
  simp only [densityTable, List.mem_cons, List.mem_singleton, List.not_mem_nil, or_false,
    Prod.mk.injEq] at h
  rcases h with ⟨_, rfl⟩ | ⟨_, rfl⟩ | ⟨_, rfl⟩ | ⟨_, rfl⟩ | ⟨_, rfl⟩ | ⟨_, rfl⟩ | ⟨_, rfl⟩ <;>
    norm_num

theorem densityTable_ne_nil (T : ℚ) (row : List (ℚ × ℚ)) (h : (T, row) ∈ densityTable) :
    row ≠ [] := by
  simp only [densityTable, List.mem_cons, List.mem_singleton, List.not_mem_nil, or_false,
    Prod.mk.injEq] at h
  rcases h with ⟨_, rfl⟩ | ⟨_, rfl⟩ | ⟨_, rfl⟩ | ⟨_, rfl⟩ | ⟨_, rfl⟩ | ⟨_, rfl⟩ | ⟨_, rfl⟩ <;>
    simp

theorem getConc_key (T d : ℚ) (h : T ∈ sortedKeys) : getConc T d = interp (tableRow T) d := by
  simp only [getConc, bounds_key T h, if_true]
  cases interp (tableRow T) d <;> rfl

theorem getConc_above (temp d : ℚ) (h : 100 < temp) :
    getConc temp d = interp (tableRow 100) d := by
  simp only [getConc, bounds_above temp h, if_true]
  cases interp (tableRow 100) d <;> rfl

theorem getConc_below (temp d : ℚ) (h : temp < 20) : getConc temp d = none := by
  simp [getConc, bounds_below temp h, tableRow_zero, interp_nil]

theorem getConc_between (ta tb temp d : ℚ) (h : (ta, tb) ∈ sortedKeys.zip sortedKeys.tail)
    (h1 : ta < temp) (h2 : temp < tb) :
    getConc temp d =
      match interp (tableRow ta) d, interp (tableRow tb) d with
      | some c1, some c2 => some (c1 + (c2 - c1) / (tb - ta) * (temp - ta))
      | _, _ => none := by
  have hne : ta ≠ tb := ne_of_lt (lt_trans h1 h2)
  simp only [getConc, bounds_between ta tb temp h h1 h2, hne, if_false]
  cases interp (tableRow ta) d <;> cases interp (tableRow tb) d <;> rfl

theorem adjacent_mem (ta tb : ℚ) (h : (ta, tb) ∈ sortedKeys.zip sortedKeys.tail) :
    ta ∈ sortedKeys ∧ tb ∈ sortedKeys ∧ ta < tb := by
  refine ⟨(List.of_mem_zip h).1, List.mem_of_mem_tail (List.of_mem_zip h).2, ?_⟩
  simp only [sortedKeys_eq, List.tail_cons, List.zip_cons_cons, List.zip_nil_right, List.mem_cons,
    List.mem_singleton, List.not_mem_nil, or_false, Prod.mk.injEq] at h
  rcases h with ⟨rfl, rfl⟩ | ⟨rfl, rfl⟩ | ⟨rfl, rfl⟩ | ⟨rfl, rfl⟩ | ⟨rfl, rfl⟩ | ⟨rfl, rfl⟩ <;>
    norm_num

theorem temp_cases (temp : ℚ) (h : 20 ≤ temp) :
    temp ∈ sortedKeys ∨ 100 < temp ∨
      ∃ ta tb, (ta, tb) ∈ sortedKeys.zip sortedKeys.tail ∧ ta < temp ∧ temp < tb := by
  have hk : ∀ k : ℚ, k ∈ [20, 40, 50, 55, 60, 80, 100] → temp = k → temp ∈ sortedKeys := by
    intro k hk e
    rw [sortedKeys_eq, e]
    exact hk
  have hz : ∀ ta tb : ℚ, (ta, tb) ∈ [((20 : ℚ), (40 : ℚ)), (40, 50), (50, 55), (55, 60), (60, 80),
      (80, 100)] → ta < temp → temp < tb →
      ∃ ta tb, (ta, tb) ∈ sortedKeys.zip sortedKeys.tail ∧ ta < temp ∧ temp < tb := by
    intro ta tb hm h1 h2
    refine ⟨ta, tb, ?_, h1, h2⟩
    rw [sortedKeys_eq]
    exact hm
  rcases lt_trichotomy temp 20 with c | c | c
  · exact absurd h (not_le.mpr c)
  · exact Or.inl (hk 20 (by simp) c)
  rcases lt_trichotomy temp 40 with c1 | c1 | c1
  · exact Or.inr (Or.inr (hz 20 40 (by simp) c c1))
  · exact Or.inl (hk 40 (by simp) c1)
  rcases lt_trichotomy temp 50 with c2 | c2 | c2
  · exact Or.inr (Or.inr (hz 40 50 (by simp) c1 c2))
  · exact Or.inl (hk 50 (by simp) c2)
  rcases lt_trichotomy temp 55 with c3 | c3 | c3
  · exact Or.inr (Or.inr (hz 50 55 (by simp) c2 c3))
  · exact Or.inl (hk 55 (by simp) c3)
  rcases lt_trichotomy temp 60 with c4 | c4 | c4
  · exact Or.inr (Or.inr (hz 55 60 (by simp) c3 c4))
  · exact Or.inl (hk 60 (by simp) c4)
  rcases lt_trichotomy temp 80 with c5 | c5 | c5
  · exact Or.inr (Or.inr (hz 60 80 (by simp) c4 c5))
  · exact Or.inl (hk 80 (by simp) c5)
  rcases lt_trichotomy temp 100 with c6 | c6 | c6
  · exact Or.inr (Or.inr (hz 80 100 (by simp) c5 c6))
  · exact Or.inl (hk 100 (by simp) c6)
  · exact Or.inr (Or.inl c6)

/-- For a table key, `interp` on its row returns a value between 0 and 53. -/
theorem interp_row_range (T d : ℚ) (h : T ∈ sortedKeys) :
    ∃ c, interp (tableRow T) d = some c ∧ 0 ≤ c ∧ c ≤ 53 := by
  obtain ⟨row, hrow⟩ := exists_row_of_mem_sortedKeys T h
  rw [tableRow_of_mem T row hrow]
  obtain ⟨c, hc⟩ := interp_isSome d row (densityTable_ne_nil T row hrow)
  exact ⟨c, hc, interp_bounds 0 53 d c row (densityTable_increasing T row hrow)
    (densityTable_conc_range T row hrow) hc⟩

/-! ## The concentration estimator `getConc` -/

theorem tableRow_mem (T : ℚ) (h : T ∈ sortedKeys) : (T, tableRow T) ∈ densityTable := by
  obtain ⟨row, hrow⟩ := exists_row_of_mem_sortedKeys T h
  rw [tableRow_of_mem T row hrow]
  exact hrow

/-- C1: `getConc` does not return for every input: at temperature 10 (below the
lowest table temperature 20) and density 1.19 the row lookup `densityTable[t1]`
uses the absent key `t1 = 0`, yields the nil slice, and `interp` indexes it out
of range. -/
theorem getConc_fails_below_table :
    (bounds 10).1 = 0 ∧ tableRow (bounds 10).1 = [] ∧ interp [] 1.19 = none ∧
      getConc 10 1.19 = none := by
  have hb : bounds 10 = (0, 20) := bounds_below 10 (by norm_num)
  refine ⟨by rw [hb], by rw [hb]; exact tableRow_zero, interp_nil _, getConc_below _ _ (by norm_num)⟩

/-- C2: for every density and every temperature at or above 20 (also above 100),
`getConc` returns a value between 0 and 53; every concentration stored in
`densityTable` lies between 0 and 53, and both 0 and 53 are stored. -/
theorem getConc_within_table_range (temp d : ℚ) (h : 20 ≤ temp) :
    (∃ c, getConc temp d = some c ∧ 0 ≤ c ∧ c ≤ 53) ∧
      (∀ T row, (T, row) ∈ densityTable → ∀ p ∈ row, (0 : ℚ) ≤ p.1 ∧ p.1 ≤ 53) ∧
      (∃ T row p, (T, row) ∈ densityTable ∧ p ∈ row ∧ p.1 = 0) ∧
      (∃ T row p, (T, row) ∈ densityTable ∧ p ∈ row ∧ p.1 = 53) := by
  refine ⟨?_, densityTable_conc_range, ?_, ?_⟩
  · rcases temp_cases temp h with hk | hab | ⟨ta, tb, hadj, h1, h2⟩
    · rw [getConc_key temp d hk]
      exact interp_row_range temp d hk
    · rw [getConc_above temp d hab]
      exact interp_row_range 100 d (by rw [sortedKeys_eq]; simp)
    · obtain ⟨ha, hb, hlt⟩ := adjacent_mem ta tb hadj
      obtain ⟨ca, hca, la, ua⟩ := interp_row_range ta d ha
      obtain ⟨cb, hcb, lb, ub⟩ := interp_row_range tb d hb
      rw [getConc_between ta tb temp d hadj h1 h2, hca, hcb]
      refine ⟨_, rfl, ?_⟩
      have e : ca + (cb - ca) / (tb - ta) * (temp - ta)
          = ca + (temp - ta) / (tb - ta) * (cb - ca) := by ring
      rw [e]
      exact lerp_bounds 0 53 ca cb ta tb temp hlt h1.le h2.le la ua lb ub
  · exact ⟨20, tableRow 20, (0, 1.000), tableRow_mem 20 (by rw [sortedKeys_eq]; simp),
      by norm_num [tableRow, densityTable, List.find?], rfl⟩
  · exact ⟨60, tableRow 60, (53, 1.557), tableRow_mem 60 (by rw [sortedKeys_eq]; simp),
      by norm_num [tableRow, densityTable, List.find?], rfl⟩

/-- C2 at the default stage-1 reading (92 ℃, 1.190 g/cm³). -/
theorem getConc_within_table_range_witness :
    (20 : ℚ) ≤ 92 ∧ ((∃ c, getConc 92 1.190 = some c ∧ 0 ≤ c ∧ c ≤ 53) ∧
      (∀ T row, (T, row) ∈ densityTable → ∀ p ∈ row, (0 : ℚ) ≤ p.1 ∧ p.1 ≤ 53) ∧
      (∃ T row p, (T, row) ∈ densityTable ∧ p ∈ row ∧ p.1 = 0) ∧
      (∃ T row p, (T, row) ∈ densityTable ∧ p ∈ row ∧ p.1 = 53)) :=
  ⟨by norm_num, getConc_within_table_range 92 1.190 (by norm_num)⟩

theorem interp_sample (tbl : List (ℚ × ℚ)) (hinc : DensityIncreasing tbl)
    (hlen : 2 ≤ tbl.length) (p : ℚ × ℚ) (hp : p ∈ tbl) : interp tbl p.2 = some p.1 := by
  obtain ⟨i, hi⟩ := List.getElem?_of_mem hp
  have hil : i < tbl.length := by
    by_contra hcon
    rw [List.getElem?_eq_none (not_lt.mp hcon)] at hi
    exact absurd hi (by simp)
  have key : interpLoop p.2 tbl = some p.1 := by
    by_cases hnext : i + 1 < tbl.length
    · have hq : tbl[i + 1]? = some tbl[i + 1] := List.getElem?_eq_getElem hnext
      rw [interpLoop_pair p.2 tbl hinc i p tbl[i + 1] hi hq (le_refl _)
        ((List.pairwise_iff_getElem.mp hinc i (i + 1) hil hnext (Nat.lt_succ_self i)
          |> fun h => by
            have e : tbl[i] = p := by
              have := List.getElem?_eq_getElem hil
              rw [this] at hi
              exact Option.some.inj hi
            rw [e] at h
            exact h.le))]
      simp
    · obtain ⟨j, rfl⟩ : ∃ j, i = j + 1 := ⟨i - 1, by omega⟩
      have hjl : j < tbl.length := by omega
      have hr : tbl[j]? = some tbl[j] := List.getElem?_eq_getElem hjl
      have e : tbl[j + 1] = p := by
        have := List.getElem?_eq_getElem hil
        rw [this] at hi
        exact Option.some.inj hi
      have hlt : tbl[j].2 < p.2 := by
        have := List.pairwise_iff_getElem.mp hinc j (j + 1) hjl hil (Nat.lt_succ_self j)
        rw [e] at this
        exact this
      rw [interpLoop_pair p.2 tbl hinc j tbl[j] p hr hi hlt.le (le_refl _)]
      have hne : p.2 - tbl[j].2 ≠ 0 := by linarith
      rw [div_self hne]
      simp
  simp [interp, key]

theorem densityTable_length (T : ℚ) (row : List (ℚ × ℚ)) (h : (T, row) ∈ densityTable) :
    2 ≤ row.length := by
  simp only [densityTable, List.mem_cons, List.mem_singleton, List.not_mem_nil, or_false,
    Prod.mk.injEq] at h
  rcases h with ⟨_, rfl⟩ | ⟨_, rfl⟩ | ⟨_, rfl⟩ | ⟨_, rfl⟩ | ⟨_, rfl⟩ | ⟨_, rfl⟩ | ⟨_, rfl⟩ <;>
    simp

/-- C3: at every stored coordinate of the table, `getConc` returns the stored
concentration: for a table temperature `T` and a pair `(c, d)` of its row,
`getConc T d = c`. -/
theorem getConc_at_sample (T : ℚ) (row : List (ℚ × ℚ)) (hrow : (T, row) ∈ densityTable)
    (p : ℚ × ℚ) (hp : p ∈ row) : getConc T p.2 = some p.1 := by
  rw [getConc_key T p.2 (mem_sortedKeys_of_mem T row hrow), tableRow_of_mem T row hrow]
  exact interp_sample row (densityTable_increasing T row hrow) (densityTable_length T row hrow) p hp

/-- C3 at the spec's example: `getConc 20 1.195 = 20`. -/
theorem getConc_at_sample_witness :
    getConc 20 1.195 = some 20 :=
  getConc_at_sample 20 (tableRow 20) (tableRow_mem 20 (by rw [sortedKeys_eq]; simp))
    (20, 1.195) (by norm_num [tableRow, densityTable, List.find?])

/-- C4: below the lowest table temperature `getConc` does not clamp to the row
of 20 ℃: at temperature 10 the bounding temperatures are `(0, 20)` instead of
`(20, 20)`, and `getConc 10 1.195` fails while `getConc 20 1.195 = 20`. -/
theorem getConc_no_clamp_below :
    bounds 10 = (0, 20) ∧ bounds 20 = (20, 20) ∧ getConc 10 1.195 = none ∧
      getConc 20 1.195 = some 20 := by
  refine ⟨bounds_below 10 (by norm_num), bounds_key 20 (by rw [sortedKeys_eq]; simp),
    getConc_below _ _ (by norm_num), ?_⟩
  norm_num [getConc, bounds_key 20 (by rw [sortedKeys_eq]; simp), tableRow, densityTable,
    List.find?, interp, interpLoop]

/-- C5: for every temperature at or above 100 and every density, both bounding
temperatures are 100 and `getConc` returns what it returns at temperature 100. -/
theorem getConc_clamps_above (temp d : ℚ) (h : 100 ≤ temp) :
    bounds temp = (100, 100) ∧ ∃ c, getConc temp d = some c ∧ getConc 100 d = some c := by
  have h100 : (100 : ℚ) ∈ sortedKeys := by rw [sortedKeys_eq]; simp
  obtain ⟨c, hc, -, -⟩ := interp_row_range 100 d h100
  rcases eq_or_lt_of_le h with e | hlt
  · subst e
    exact ⟨bounds_key 100 h100, c, by rw [getConc_key 100 d h100, hc],
      by rw [getConc_key 100 d h100, hc]⟩
  · exact ⟨bounds_above temp hlt, c, by rw [getConc_above temp d hlt, hc],
      by rw [getConc_key 100 d h100, hc]⟩

/-- C5 at temperature 120 and density 1.19. -/
theorem getConc_clamps_above_witness :
    (100 : ℚ) ≤ 120 ∧ bounds 120 = (100, 100) ∧
      ∃ c, getConc 120 1.19 = some c ∧ getConc 100 1.19 = some c :=
  ⟨by norm_num, getConc_clamps_above 120 1.19 (by norm_num)⟩

/-- C6: at a table temperature `T` with row `row`, `getConc T d` is the linear
interpolation on any consecutive pair of the row whose densities enclose `d`,
the first concentration of the row when `d` is below the first density, and the
last concentration of the row when `d` is above the last density. -/
theorem getConc_row_interpolation (T : ℚ) (row : List (ℚ × ℚ))
    (hrow : (T, row) ∈ densityTable) (d : ℚ) :
    (∀ (i : Nat) (p q : ℚ × ℚ), row[i]? = some p → row[i + 1]? = some q → p.2 ≤ d → d ≤ q.2 →
        getConc T d = some (p.1 + (d - p.2) / (q.2 - p.2) * (q.1 - p.1))) ∧
      (∀ first : ℚ × ℚ, row.head? = some first → d < first.2 → getConc T d = some first.1) ∧
      (∀ last : ℚ × ℚ, row.getLast? = some last → last.2 < d → getConc T d = some last.1) := by
  have hinc := densityTable_increasing T row hrow
  rw [getConc_key T d (mem_sortedKeys_of_mem T row hrow), tableRow_of_mem T row hrow]
  refine ⟨?_, ?_, ?_⟩
  · intro i p q hp hq h1 h2
    simp [interp, interpLoop_pair d row hinc i p q hp hq h1 h2]
  · intro first hf hd
    exact interp_below d row hinc first hf hd
  · intro last hl hd
    exact interp_above d row hinc last hl hd

/-- C6 on the row of 20 ℃: density 1.2 between the stored densities 1.195 and
1.250, density 0.9 below the row, density 2 above the row. -/
theorem getConc_row_interpolation_witness :
    getConc 20 1.2 = some (20 + (1.2 - 1.195) / (1.250 - 1.195) * (25 - 20)) ∧
      getConc 20 0.9 = some 0 ∧ getConc 20 2 = some 52 :=
  have hrow : ((20 : ℚ), tableRow 20) ∈ densityTable :=
    tableRow_mem 20 (by rw [sortedKeys_eq]; simp)
  have hr : tableRow 20 = [(0, 1.000), (10, 1.092), (15, 1.142), (20, 1.195), (25, 1.250),
      (30, 1.308), (35, 1.368), (40, 1.431), (45, 1.497), (48, 1.540), (50, 1.569), (51, 1.584),
      (52, 1.599)] := by norm_num [tableRow, densityTable, List.find?]
  ⟨(getConc_row_interpolation 20 (tableRow 20) hrow 1.2).1 3 (20, 1.195) (25, 1.250)
      (by rw [hr]; rfl) (by rw [hr]; rfl) (by norm_num) (by norm_num),
    (getConc_row_interpolation 20 (tableRow 20) hrow 0.9).2.1 (0, 1.000)
      (by rw [hr]; rfl) (by norm_num),
    (getConc_row_interpolation 20 (tableRow 20) hrow 2).2.2 (52, 1.599)
      (by rw [hr]; rfl) (by norm_num)⟩

/-- C7: between two adjacent table temperatures `ta < tb`, `getConc` is affine
in the temperature: for `ta ≤ T ≤ tb` it returns
`getConc ta d + (getConc tb d - getConc ta d) / (tb - ta) * (T - ta)`. -/
theorem getConc_affine_in_temperature (ta tb T d : ℚ)
    (hadj : (ta, tb) ∈ sortedKeys.zip sortedKeys.tail) (h1 : ta ≤ T) (h2 : T ≤ tb) :
    ∃ ca cb, getConc ta d = some ca ∧ getConc tb d = some cb ∧
      getConc T d = some (ca + (cb - ca) / (tb - ta) * (T - ta)) := by
  obtain ⟨ha, hb, hlt⟩ := adjacent_mem ta tb hadj
  obtain ⟨ca, hca, -, -⟩ := interp_row_range ta d ha
  obtain ⟨cb, hcb, -, -⟩ := interp_row_range tb d hb
  refine ⟨ca, cb, by rw [getConc_key ta d ha, hca], by rw [getConc_key tb d hb, hcb], ?_⟩
  rcases eq_or_lt_of_le h1 with e1 | l1
  · subst e1
    rw [getConc_key ta d ha, hca]
    simp
  rcases eq_or_lt_of_le h2 with e2 | l2
  · subst e2
    rw [getConc_key T d hb, hcb]
    have hne : T - ta ≠ 0 := by linarith
    congr 1
    field_simp
  · rw [getConc_between ta tb T d hadj l1 l2, hca, hcb]

/-- C7 between the rows of 80 ℃ and 100 ℃, at 92 ℃ and density 1.19. -/
theorem getConc_affine_in_temperature_witness :
    ∃ ca cb, getConc 80 1.19 = some ca ∧ getConc 100 1.19 = some cb ∧
      getConc 92 1.19 = some (ca + (cb - ca) / (100 - 80) * (92 - 80)) :=
  getConc_affine_in_temperature 80 100 92 1.19 (by rw [sortedKeys_eq]; simp) (by norm_num)
    (by norm_num)

theorem getConc_default_stage1 : getConc 92 1.190 = some (42003 / 1615) := by
  have hadj : ((80 : ℚ), (100 : ℚ)) ∈ sortedKeys.zip sortedKeys.tail := by
    rw [sortedKeys_eq]; simp
  rw [getConc_between 80 100 92 1.190 hadj (by norm_num) (by norm_num)]
  norm_num [tableRow, densityTable, List.find?, interp, interpLoop]

/-- C8 as stated fails: in the default scenario the stage-1 outlet concentration
`getConc 92 1.190` is not a value between 45 and 48. -/
theorem default_concOut1_not_45_48 :
    ¬ ∃ c, getConc defaultData.Effect.TempOut1 defaultData.Effect.DensOut1 = some c ∧
      45 ≤ c ∧ c ≤ 48 := by
  rintro ⟨c, hc, h45, -⟩
  have e : getConc defaultData.Effect.TempOut1 defaultData.Effect.DensOut1
      = some (42003 / 1615) := getConc_default_stage1
  rw [e] at hc
  have hc2 : (42003 / 1615 : ℚ) = c := Option.some.inj hc
  rw [← hc2] at h45
  norm_num at h45

/-- C8 amended: in the default scenario (stage 1 outlet temperature 92, outlet
density 1.190) the stage-1 outlet concentration is `getConc 92 1.190 = 42003/1615`,
a value between 26 and 27. -/
theorem default_concOut1_value :
    defaultData.Effect.TempOut1 = 92 ∧ defaultData.Effect.DensOut1 = 1.190 ∧
      getConc defaultData.Effect.TempOut1 defaultData.Effect.DensOut1 = some (42003 / 1615) ∧
      (26 : ℚ) ≤ 42003 / 1615 ∧ (42003 / 1615 : ℚ) ≤ 27 :=
  ⟨rfl, rfl, getConc_default_stage1, by norm_num, by norm_num⟩

/-! ## The throughput chain -/

/-- C9: the throughput chain of the evaluation: `Qrun1`, `Qrun2`, `Qrun3` are
computed from the actual flow, the feed concentration and the outlet
concentrations by the three guarded formulas, each later stage using the
throughputs computed before it. -/
theorem throughput_chain (data : PageData) :
    (stepThroughput data).Effect.Qrun1 =
        (if data.Effect.ConcOut1 > data.FeedConc ∧ data.Effect.ConcOut1 > 0 then
          data.ActualFlow * (data.Effect.ConcOut1 - data.FeedConc) / data.Effect.ConcOut1
        else 0) ∧
      (stepThroughput data).Effect.Qrun2 =
        (if data.Effect.ConcOut2 > data.Effect.ConcOut1 ∧ data.Effect.ConcOut2 > 0 then
          (data.ActualFlow - (stepThroughput data).Effect.Qrun1) *
            (data.Effect.ConcOut2 - data.Effect.ConcOut1) / data.Effect.ConcOut2
        else 0) ∧
      (stepThroughput data).Effect.Qrun3 =
        (if data.Effect.ConcOut3 > data.Effect.ConcOut2 ∧ data.Effect.ConcOut3 > 0 then
          (data.ActualFlow - (stepThroughput data).Effect.Qrun1 -
              (stepThroughput data).Effect.Qrun2) *
            (data.Effect.ConcOut3 - data.Effect.ConcOut2) / data.Effect.ConcOut3
        else 0) := by
  refine ⟨?_, ?_, ?_⟩ <;>
    · simp only [stepThroughput, stepQrun1, stepQrun2, stepQrun3]
      split_ifs <;> rfl

theorem chain_sum (F f c1 c2 c3 : ℚ) (hf : 0 < f) (h1 : f < c1) (h2 : c1 < c2) (h3 : c2 < c3) :
    F * (c1 - f) / c1 + (F - F * (c1 - f) / c1) * (c2 - c1) / c2 +
      (F - F * (c1 - f) / c1 - (F - F * (c1 - f) / c1) * (c2 - c1) / c2) * (c3 - c2) / c3
      = F * (c3 - f) / c3 := by
  have p1 : c1 ≠ 0 := by linarith
  have p2 : c2 ≠ 0 := by linarith
  have p3 : c3 ≠ 0 := by linarith
  field_simp
  ring

theorem stepThroughput_concentrating (data : PageData) (hf : 0 < data.FeedConc)
    (h1 : data.Effect.ConcOut1 > data.FeedConc) (h2 : data.Effect.ConcOut2 > data.Effect.ConcOut1)
    (h3 : data.Effect.ConcOut3 > data.Effect.ConcOut2) :
    (stepThroughput data).Effect.Qrun1 + (stepThroughput data).Effect.Qrun2 +
      (stepThroughput data).Effect.Qrun3
      = data.ActualFlow * (data.Effect.ConcOut3 - data.FeedConc) / data.Effect.ConcOut3 := by
  have p1 : data.Effect.ConcOut1 > 0 := by linarith
  have p2 : data.Effect.ConcOut2 > 0 := by linarith
  have p3 : data.Effect.ConcOut3 > 0 := by linarith
  simp only [stepThroughput, stepQrun1, stepQrun2, stepQrun3, h1, h2, h3, p1, p2, p3, and_self,
    if_true]
  exact chain_sum _ _ _ _ _ hf h1 h2 h3

/-- Throughput chain conservation in exact arithmetic: with positive actual flow
and feed concentration, when all three stages concentrate, the exact values of
the three throughput expressions add up to at most the actual flow. -/
theorem throughput_conservation (data : PageData) (hF : 0 < data.ActualFlow)
    (hf : 0 < data.FeedConc) (h1 : data.Effect.ConcOut1 > data.FeedConc)
    (h2 : data.Effect.ConcOut2 > data.Effect.ConcOut1)
    (h3 : data.Effect.ConcOut3 > data.Effect.ConcOut2) :
    (stepThroughput data).Effect.Qrun1 + (stepThroughput data).Effect.Qrun2 +
      (stepThroughput data).Effect.Qrun3 ≤ data.ActualFlow := by
  rw [stepThroughput_concentrating data hf h1 h2 h3]
  have p3 : 0 < data.Effect.ConcOut3 := by linarith
  rw [div_le_iff₀ p3]
  nlinarith [mul_pos hF hf]

/-- The exact conservation on the default record with outlet concentrations 26,
40 and 50. -/
theorem throughput_conservation_witness :
    (stepThroughput (withConc defaultData 26 40 50)).Effect.Qrun1 +
      (stepThroughput (withConc defaultData 26 40 50)).Effect.Qrun2 +
      (stepThroughput (withConc defaultData 26 40 50)).Effect.Qrun3
      ≤ (withConc defaultData 26 40 50).ActualFlow :=
  throughput_conservation (withConc defaultData 26 40 50)
    (by norm_num [withConc, defaultData]) (by norm_num [withConc, defaultData])
    (by norm_num [withConc, defaultData]) (by norm_num [withConc, defaultData])
    (by norm_num [withConc, defaultData])

/-! ## Status, health ratio and feed recommendation -/

/-- C11: the status is a function of the health ratio alone, by the strict
first-match ladder: above 1.1 overloaded, in (0.9, 1.1] good, in (0.7, 0.9] light
fouling, in (0.5, 0.7] moderate fouling, at most 0.5 severe fouling; the three
stages use the same ladder; 0.9 gives light fouling and 1.1 gives good. -/
theorem status_ladder (h : ℚ) :
    (h > 1.1 → statusOf h = "超负荷运行") ∧
      (0.9 < h ∧ h ≤ 1.1 → statusOf h = "运行良好") ∧
      (0.7 < h ∧ h ≤ 0.9 → statusOf h = "轻微结垢") ∧
      (0.5 < h ∧ h ≤ 0.7 → statusOf h = "中度结垢") ∧
      (h ≤ 0.5 → statusOf h = "严重结垢") ∧
      (∀ data : PageData,
        (stepStatus data).Effect.Status1 = statusOf data.Effect.Health1 ∧
        (stepStatus data).Effect.Status2 = statusOf data.Effect.Health2 ∧
        (stepStatus data).Effect.Status3 = statusOf data.Effect.Health3) ∧
      statusOf 0.9 = "轻微结垢" ∧ statusOf 1.1 = "运行良好" := by
  refine ⟨?_, ?_, ?_, ?_, ?_, ?_, ?_, ?_⟩
  · intro h1
    simp [statusOf, h1]
  · rintro ⟨h1, h2⟩
    have n1 : ¬ h > 1.1 := not_lt.mpr h2
    simp [statusOf, n1, h1]
  · rintro ⟨h1, h2⟩
    have n1 : ¬ h > 1.1 := not_lt.mpr (by norm_num at h2 ⊢; linarith)
    have n2 : ¬ h > 0.9 := not_lt.mpr h2
    simp [statusOf, n1, n2, h1]
  · rintro ⟨h1, h2⟩
    have n1 : ¬ h > 1.1 := not_lt.mpr (by norm_num at h2 ⊢; linarith)
    have n2 : ¬ h > 0.9 := not_lt.mpr (by norm_num at h2 ⊢; linarith)
    have n3 : ¬ h > 0.7 := not_lt.mpr h2
    simp [statusOf, n1, n2, n3, h1]
  · intro h2
    have n1 : ¬ h > 1.1 := not_lt.mpr (by norm_num at h2 ⊢; linarith)
    have n2 : ¬ h > 0.9 := not_lt.mpr (by norm_num at h2 ⊢; linarith)
    have n3 : ¬ h > 0.7 := not_lt.mpr (by norm_num at h2 ⊢; linarith)
    have n4 : ¬ h > 0.5 := not_lt.mpr h2
    simp [statusOf, n1, n2, n3, n4]
  · intro data
    exact ⟨rfl, rfl, rfl⟩
  · norm_num [statusOf]
  · norm_num [statusOf]

/-- C11 at health ratio 1: the status is good. -/
theorem status_ladder_witness : statusOf 1 = "运行良好" :=
  (status_ladder 1).2.1 ⟨by norm_num, by norm_num⟩

/-- C12: for each stage the health ratio is `Qrun / Qset` when `Qset > 0` and 0
otherwise; in particular it is 0 when `Qset = 0`. -/
theorem health_ratio (data : PageData) :
    (stepHealth data).Effect.Health1 =
        (if data.Effect.Qset1 > 0 then data.Effect.Qrun1 / data.Effect.Qset1 else 0) ∧
      (stepHealth data).Effect.Health2 =
        (if data.Effect.Qset2 > 0 then data.Effect.Qrun2 / data.Effect.Qset2 else 0) ∧
      (stepHealth data).Effect.Health3 =
        (if data.Effect.Qset3 > 0 then data.Effect.Qrun3 / data.Effect.Qset3 else 0) ∧
      (data.Effect.Qset1 = 0 → (stepHealth data).Effect.Health1 = 0) ∧
      (data.Effect.Qset2 = 0 → (stepHealth data).Effect.Health2 = 0) ∧
      (data.Effect.Qset3 = 0 → (stepHealth data).Effect.Health3 = 0) := by
  have e1 : (stepHealth data).Effect.Health1 =
      (if data.Effect.Qset1 > 0 then data.Effect.Qrun1 / data.Effect.Qset1 else 0) := by
    simp only [stepHealth, stepHealth1, stepHealth2, stepHealth3]
    split_ifs <;> rfl
  have e2 : (stepHealth data).Effect.Health2 =
      (if data.Effect.Qset2 > 0 then data.Effect.Qrun2 / data.Effect.Qset2 else 0) := by
    simp only [stepHealth, stepHealth1, stepHealth2, stepHealth3]
    split_ifs <;> rfl
  have e3 : (stepHealth data).Effect.Health3 =
      (if data.Effect.Qset3 > 0 then data.Effect.Qrun3 / data.Effect.Qset3 else 0) := by
    simp only [stepHealth, stepHealth1, stepHealth2, stepHealth3]
    split_ifs <;> rfl
  refine ⟨e1, e2, e3, ?_, ?_, ?_⟩
  · intro h0
    rw [e1, if_neg (by rw [h0]; exact lt_irrefl _)]
  · intro h0
    rw [e2, if_neg (by rw [h0]; exact lt_irrefl _)]
  · intro h0
    rw [e3, if_neg (by rw [h0]; exact lt_irrefl _)]

/-- C12 on the default record, where `Qset1` is still the zero value. -/
theorem health_ratio_witness : (stepHealth defaultData).Effect.Health1 = 0 :=
  (health_ratio defaultData).2.2.2.1 rfl

/-- C13: the plant recommendation: with `totalQset = Qset1 + Qset2 + Qset3`, when
the target concentration exceeds the feed concentration the theoretical maximum
is `totalQset * target / (target - feed)` and the low, high and suggested flows
are 0.75, 0.95 and 0.90 times it; otherwise all four are 0. -/
theorem feed_recommendation (data : PageData) :
    (stepCapacity data).TotalQset =
        (stepCapacity data).Effect.Qset1 + (stepCapacity data).Effect.Qset2 +
          (stepCapacity data).Effect.Qset3 ∧
      (data.TargetConc > data.FeedConc →
        (stepCapacity data).TheoreticalMax =
            (stepCapacity data).TotalQset * data.TargetConc / (data.TargetConc - data.FeedConc) ∧
          (stepCapacity data).RecommendLow = 0.75 * (stepCapacity data).TheoreticalMax ∧
          (stepCapacity data).RecommendHigh = 0.95 * (stepCapacity data).TheoreticalMax ∧
          (stepCapacity data).SuggestFlow = 0.90 * (stepCapacity data).TheoreticalMax) ∧
      (data.TargetConc ≤ data.FeedConc →
        (stepCapacity data).TheoreticalMax = 0 ∧ (stepCapacity data).RecommendLow = 0 ∧
          (stepCapacity data).RecommendHigh = 0 ∧ (stepCapacity data).SuggestFlow = 0) := by
  refine ⟨?_, ?_, ?_⟩
  · simp only [stepCapacity]
    split_ifs <;> rfl
  · intro hgt
    simp only [stepCapacity, hgt, if_true]
    refine ⟨?_, ?_, ?_, ?_⟩ <;> ring
  · intro hle
    have hn : ¬ data.TargetConc > data.FeedConc := not_lt.mpr hle
    simp [stepCapacity, hn]

/-- C13 on the default record (target 52.5, feed 18). -/
theorem feed_recommendation_witness :
    (stepCapacity defaultData).TheoreticalMax =
        (stepCapacity defaultData).TotalQset * defaultData.TargetConc /
          (defaultData.TargetConc - defaultData.FeedConc) ∧
      (stepCapacity defaultData).RecommendLow = 0.75 * (stepCapacity defaultData).TheoreticalMax ∧
      (stepCapacity defaultData).RecommendHigh = 0.95 * (stepCapacity defaultData).TheoreticalMax ∧
      (stepCapacity defaultData).SuggestFlow = 0.90 * (stepCapacity defaultData).TheoreticalMax :=
  (feed_recommendation defaultData).2.1 (by norm_num [defaultData])

/-! ## The evaluation as a whole and the theoretical capacity -/

theorem getConc_some_of_ge (temp d : ℚ) (h : 20 ≤ temp) :
    ∃ c, getConc temp d = some c ∧ 0 ≤ c ∧ c ≤ 53 := by
  rcases temp_cases temp h with hk | hab | ⟨ta, tb, hadj, h1, h2⟩
  · rw [getConc_key temp d hk]
    exact interp_row_range temp d hk
  · rw [getConc_above temp d hab]
    exact interp_row_range 100 d (by rw [sortedKeys_eq]; simp)
  · obtain ⟨ha, hb, hlt⟩ := adjacent_mem ta tb hadj
    obtain ⟨ca, hca, la, ua⟩ := interp_row_range ta d ha
    obtain ⟨cb, hcb, lb, ub⟩ := interp_row_range tb d hb
    rw [getConc_between ta tb temp d hadj h1 h2, hca, hcb]
    refine ⟨_, rfl, ?_⟩
    have e : ca + (cb - ca) / (tb - ta) * (temp - ta)
        = ca + (temp - ta) / (tb - ta) * (cb - ca) := by ring
    rw [e]
    exact lerp_bounds 0 53 ca cb ta tb temp hlt h1.le h2.le la ua lb ub

theorem stepCapacity_readings (data : PageData) :
    (stepCapacity data).Effect.TempOut1 = data.Effect.TempOut1 ∧
      (stepCapacity data).Effect.DensOut1 = data.Effect.DensOut1 ∧
      (stepCapacity data).Effect.TempOut2 = data.Effect.TempOut2 ∧
      (stepCapacity data).Effect.DensOut2 = data.Effect.DensOut2 ∧
      (stepCapacity data).Effect.TempOut3 = data.Effect.TempOut3 ∧
      (stepCapacity data).Effect.DensOut3 = data.Effect.DensOut3 := by
  simp only [stepCapacity]
  split_ifs <;> exact ⟨rfl, rfl, rfl, rfl, rfl, rfl⟩

theorem stepCapacity_qset (data : PageData) :
    (stepCapacity data).Effect.Qset1 =
        heatLoadToEvaporation data.Effect.Qnom1 * (data.Effect.DtSet1 / data.Effect.DtDesign1) ∧
      (stepCapacity data).Effect.Qset2 =
        heatLoadToEvaporation data.Effect.Qnom2 * (data.Effect.DtSet2 / data.Effect.DtDesign2) ∧
      (stepCapacity data).Effect.Qset3 =
        heatLoadToEvaporation data.Effect.Qnom3 * (data.Effect.DtSet3 / data.Effect.DtDesign3) := by
  simp only [stepCapacity]
  split_ifs <;> exact ⟨rfl, rfl, rfl⟩

theorem stepConc_of_getConc (data : PageData) (c1 c2 c3 : ℚ)
    (h1 : getConc data.Effect.TempOut1 data.Effect.DensOut1 = some c1)
    (h2 : getConc data.Effect.TempOut2 data.Effect.DensOut2 = some c2)
    (h3 : getConc data.Effect.TempOut3 data.Effect.DensOut3 = some c3) :
    stepConc data = some (withConc data c1 c2 c3) := by
  unfold stepConc
  rw [h1, h2, h3]
  rfl

theorem evaluate_of_getConc (data : PageData) (c1 c2 c3 : ℚ)
    (h1 : getConc data.Effect.TempOut1 data.Effect.DensOut1 = some c1)
    (h2 : getConc data.Effect.TempOut2 data.Effect.DensOut2 = some c2)
    (h3 : getConc data.Effect.TempOut3 data.Effect.DensOut3 = some c3) :
    evaluate data =
      some (stepStatus (stepHealth (stepThroughput (withConc (stepCapacity data) c1 c2 c3)))) := by
  obtain ⟨e1, e2, e3, e4, e5, e6⟩ := stepCapacity_readings data
  unfold evaluate
  rw [stepConc_of_getConc (stepCapacity data) c1 c2 c3 (by rw [e1, e2]; exact h1)
    (by rw [e3, e4]; exact h2) (by rw [e5, e6]; exact h3)]

theorem evaluate_isSome (data : PageData) (h1 : 20 ≤ data.Effect.TempOut1)
    (h2 : 20 ≤ data.Effect.TempOut2) (h3 : 20 ≤ data.Effect.TempOut3) :
    ∃ c1 c2 c3, evaluate data =
      some (stepStatus (stepHealth (stepThroughput (withConc (stepCapacity data) c1 c2 c3)))) := by
  obtain ⟨c1, hc1, -, -⟩ := getConc_some_of_ge _ data.Effect.DensOut1 h1
  obtain ⟨c2, hc2, -, -⟩ := getConc_some_of_ge _ data.Effect.DensOut2 h2
  obtain ⟨c3, hc3, -, -⟩ := getConc_some_of_ge _ data.Effect.DensOut3 h3
  exact ⟨c1, c2, c3, evaluate_of_getConc data c1 c2 c3 hc1 hc2 hc3⟩

theorem stepQrun1_eq (data : PageData) :
    stepQrun1 data = { data with Effect := { data.Effect with
      Qrun1 := if data.Effect.ConcOut1 > data.FeedConc ∧ data.Effect.ConcOut1 > 0 then
          data.ActualFlow * (data.Effect.ConcOut1 - data.FeedConc) / data.Effect.ConcOut1
        else 0 } } := by
  unfold stepQrun1
  split_ifs <;> rfl

theorem stepQrun2_eq (data : PageData) :
    stepQrun2 data = { data with Effect := { data.Effect with
      Qrun2 := if data.Effect.ConcOut2 > data.Effect.ConcOut1 ∧ data.Effect.ConcOut2 > 0 then
          (data.ActualFlow - data.Effect.Qrun1) * (data.Effect.ConcOut2 - data.Effect.ConcOut1) /
            data.Effect.ConcOut2
        else 0 } } := by
  simp only [stepQrun2]
  split_ifs <;> rfl

theorem stepQrun3_eq (data : PageData) :
    stepQrun3 data = { data with Effect := { data.Effect with
      Qrun3 := if data.Effect.ConcOut3 > data.Effect.ConcOut2 ∧ data.Effect.ConcOut3 > 0 then
          (data.ActualFlow - data.Effect.Qrun1 - data.Effect.Qrun2) *
            (data.Effect.ConcOut3 - data.Effect.ConcOut2) / data.Effect.ConcOut3
        else 0 } } := by
  simp only [stepQrun3]
  split_ifs <;> rfl

theorem stepHealth1_eq (data : PageData) :
    stepHealth1 data = { data with Effect := { data.Effect with
      Health1 := if data.Effect.Qset1 > 0 then data.Effect.Qrun1 / data.Effect.Qset1 else 0 } } := by
  unfold stepHealth1
  split_ifs <;> rfl

theorem stepHealth2_eq (data : PageData) :
    stepHealth2 data = { data with Effect := { data.Effect with
      Health2 := if data.Effect.Qset2 > 0 then data.Effect.Qrun2 / data.Effect.Qset2 else 0 } } := by
  unfold stepHealth2
  split_ifs <;> rfl

theorem stepHealth3_eq (data : PageData) :
    stepHealth3 data = { data with Effect := { data.Effect with
      Health3 := if data.Effect.Qset3 > 0 then data.Effect.Qrun3 / data.Effect.Qset3 else 0 } } := by
  unfold stepHealth3
  split_ifs <;> rfl

theorem results_keep_capacity (data : PageData) :
    (stepStatus (stepHealth (stepThroughput data))).Effect.DtDesign1 = data.Effect.DtDesign1 ∧
      (stepStatus (stepHealth (stepThroughput data))).Effect.Qset1 = data.Effect.Qset1 := by
  simp only [stepStatus, stepHealth, stepHealth1_eq, stepHealth2_eq, stepHealth3_eq,
    stepThroughput, stepQrun1_eq, stepQrun2_eq, stepQrun3_eq, and_self]

theorem acceptPositive_pos (cur : ℚ) (parsed : Option ℚ) (h : 0 < cur) :
    0 < acceptPositive cur parsed := by
  unfold acceptPositive
  cases parsed with
  | none => exact h
  | some v =>
    by_cases hv : v > 0
    · show 0 < if v > 0 then v else cur
      rw [if_pos hv]
      exact hv
    · show 0 < if v > 0 then v else cur
      rw [if_neg hv]
      exact h

theorem acceptPositive_of_nonpos (cur v : ℚ) (h : v ≤ 0) : acceptPositive cur (some v) = cur := by
  have hn : ¬ v > 0 := not_lt.mpr h
  simp [acceptPositive, hn]

/-- C14 as stated fails: the default stage-1 capacity `1200*3600/2257000*(24/25)`
lies below 1.8375, so it does not round to 1.838 at three decimal places. -/
theorem default_qset1_not_1838 :
    (stepCapacity defaultData).Effect.Qset1 = 1200 * 3600 / 2257000 * (24 / 25) ∧
      ¬ (1.8375 ≤ (stepCapacity defaultData).Effect.Qset1 ∧
        (stepCapacity defaultData).Effect.Qset1 ≤ 1.8385) := by
  have e : (stepCapacity defaultData).Effect.Qset1 = 1200 * 3600 / 2257000 * (24 / 25) := by
    rw [(stepCapacity_qset defaultData).1]
    norm_num [heatLoadToEvaporation, LatentHeatOfVaporization, defaultData]
  refine ⟨e, ?_⟩
  rw [e]
  norm_num

/-- C14 amended: for each stage with a non-zero design differential the
theoretical capacity is `rating * 3600 / (2257 * 1000) * (dtOperating / dtDesign)`;
with the default stage-1 inputs it is `1200*3600/2257000*(24/25)`, which lies
between 1.8365 and 1.8375 and so is 1.837 at three decimal places. -/
theorem theoretical_capacity (data : PageData) :
    (data.Effect.DtDesign1 ≠ 0 → (stepCapacity data).Effect.Qset1 =
        data.Effect.Qnom1 * 3600 / (2257 * 1000) * (data.Effect.DtSet1 / data.Effect.DtDesign1)) ∧
      (data.Effect.DtDesign2 ≠ 0 → (stepCapacity data).Effect.Qset2 =
        data.Effect.Qnom2 * 3600 / (2257 * 1000) * (data.Effect.DtSet2 / data.Effect.DtDesign2)) ∧
      (data.Effect.DtDesign3 ≠ 0 → (stepCapacity data).Effect.Qset3 =
        data.Effect.Qnom3 * 3600 / (2257 * 1000) * (data.Effect.DtSet3 / data.Effect.DtDesign3)) ∧
      (stepCapacity defaultData).Effect.Qset1 = 1200 * 3600 / 2257000 * (24 / 25) ∧
      1.8365 ≤ (stepCapacity defaultData).Effect.Qset1 ∧
      (stepCapacity defaultData).Effect.Qset1 < 1.8375 := by
  obtain ⟨q1, q2, q3⟩ := stepCapacity_qset data
  have e : (stepCapacity defaultData).Effect.Qset1 = 1200 * 3600 / 2257000 * (24 / 25) := by
    rw [(stepCapacity_qset defaultData).1]
    norm_num [heatLoadToEvaporation, LatentHeatOfVaporization, defaultData]
  refine ⟨?_, ?_, ?_, e, ?_, ?_⟩
  · intro _
    rw [q1]
    norm_num [heatLoadToEvaporation, LatentHeatOfVaporization]
  · intro _
    rw [q2]
    norm_num [heatLoadToEvaporation, LatentHeatOfVaporization]
  · intro _
    rw [q3]
    norm_num [heatLoadToEvaporation, LatentHeatOfVaporization]
  · rw [e]
    norm_num
  · rw [e]
    norm_num

/-- C14 on the default record: stage 2 has rating 1000, operating differential 20
and design differential 22. -/
theorem theoretical_capacity_witness :
    (stepCapacity defaultData).Effect.Qset2 =
      defaultData.Effect.Qnom2 * 3600 / (2257 * 1000) *
        (defaultData.Effect.DtSet2 / defaultData.Effect.DtDesign2) :=
  (theoretical_capacity defaultData).2.1 (by norm_num [defaultData])

/-! ## Design differential -/

theorem withConc_capacity (data : PageData) (c1 c2 c3 : ℚ) :
    (withConc data c1 c2 c3).Effect.DtDesign1 = data.Effect.DtDesign1 ∧
      (withConc data c1 c2 c3).Effect.Qset1 = data.Effect.Qset1 :=
  ⟨rfl, rfl⟩

theorem stepCapacity_design (data : PageData) :
    (stepCapacity data).Effect.DtDesign1 = data.Effect.DtDesign1 := by
  simp only [stepCapacity]
  split_ifs <;> rfl

/-- Every design differential that reaches the evaluation is positive: the form
handling keeps the default (25, 22, 18) whenever the submitted value is zero,
negative or does not parse; and the exact evaluation returns a result whenever
the three outlet temperatures are at least 20. -/
theorem design_differential_positive (f : FormInput) :
    0 < (applyForm f defaultData).Effect.DtDesign1 ∧
      0 < (applyForm f defaultData).Effect.DtDesign2 ∧
      0 < (applyForm f defaultData).Effect.DtDesign3 ∧
      (∀ v : ℚ, f.dt_design_1 = some v → v ≤ 0 → (applyForm f defaultData).Effect.DtDesign1 = 25) ∧
      (∀ v : ℚ, f.dt_design_2 = some v → v ≤ 0 → (applyForm f defaultData).Effect.DtDesign2 = 22) ∧
      (∀ v : ℚ, f.dt_design_3 = some v → v ≤ 0 → (applyForm f defaultData).Effect.DtDesign3 = 18) ∧
      (f.dt_design_1 = none → (applyForm f defaultData).Effect.DtDesign1 = 25) ∧
      (f.dt_design_2 = none → (applyForm f defaultData).Effect.DtDesign2 = 22) ∧
      (f.dt_design_3 = none → (applyForm f defaultData).Effect.DtDesign3 = 18) ∧
      (∀ data : PageData, 20 ≤ data.Effect.TempOut1 → 20 ≤ data.Effect.TempOut2 →
        20 ≤ data.Effect.TempOut3 → ∃ out, evaluate data = some out) := by
  have e1 : (applyForm f defaultData).Effect.DtDesign1 = acceptPositive 25 f.dt_design_1 := rfl
  have e2 : (applyForm f defaultData).Effect.DtDesign2 = acceptPositive 22 f.dt_design_2 := rfl
  have e3 : (applyForm f defaultData).Effect.DtDesign3 = acceptPositive 18 f.dt_design_3 := rfl
  rw [e1, e2, e3]
  refine ⟨acceptPositive_pos _ _ (by norm_num), acceptPositive_pos _ _ (by norm_num),
    acceptPositive_pos _ _ (by norm_num), ?_, ?_, ?_, ?_, ?_, ?_, ?_⟩
  · intro v hv hle
    rw [hv, acceptPositive_of_nonpos _ _ hle]
  · intro v hv hle
    rw [hv, acceptPositive_of_nonpos _ _ hle]
  · intro v hv hle
    rw [hv, acceptPositive_of_nonpos _ _ hle]
  · intro hn
    rw [hn]
    rfl
  · intro hn
    rw [hn]
    rfl
  · intro hn
    rw [hn]
    rfl
  · intro data h1 h2 h3
    obtain ⟨c1, c2, c3, h⟩ := evaluate_isSome data h1 h2 h3
    exact ⟨_, h⟩

/-! ## Non-concentrating stages and the table invariant -/

theorem statusOf_zero : statusOf 0 = "严重结垢" := by
  norm_num [statusOf]

theorem results_of_zero_qrun (data : PageData) :
    (data.Effect.Qrun1 = 0 → (stepStatus (stepHealth data)).Effect.Health1 = 0 ∧
        (stepStatus (stepHealth data)).Effect.Status1 = "严重结垢") ∧
      (data.Effect.Qrun2 = 0 → (stepStatus (stepHealth data)).Effect.Health2 = 0 ∧
        (stepStatus (stepHealth data)).Effect.Status2 = "严重结垢") ∧
      (data.Effect.Qrun3 = 0 → (stepStatus (stepHealth data)).Effect.Health3 = 0 ∧
        (stepStatus (stepHealth data)).Effect.Status3 = "严重结垢") := by
  have hz : ∀ q s : ℚ, q = 0 → (if s > 0 then q / s else 0) = 0 := by
    intro q s hq
    split_ifs
    · rw [hq, zero_div]
    · rfl
  have s1 : (stepStatus (stepHealth data)).Effect.Status1
      = statusOf (stepStatus (stepHealth data)).Effect.Health1 := rfl
  have s2 : (stepStatus (stepHealth data)).Effect.Status2
      = statusOf (stepStatus (stepHealth data)).Effect.Health2 := rfl
  have s3 : (stepStatus (stepHealth data)).Effect.Status3
      = statusOf (stepStatus (stepHealth data)).Effect.Health3 := rfl
  have e1 : (stepStatus (stepHealth data)).Effect.Health1
      = (if data.Effect.Qset1 > 0 then data.Effect.Qrun1 / data.Effect.Qset1 else 0) := by
    simp only [stepStatus, stepHealth, stepHealth1_eq, stepHealth2_eq, stepHealth3_eq]
  have e2 : (stepStatus (stepHealth data)).Effect.Health2
      = (if data.Effect.Qset2 > 0 then data.Effect.Qrun2 / data.Effect.Qset2 else 0) := by
    simp only [stepStatus, stepHealth, stepHealth1_eq, stepHealth2_eq, stepHealth3_eq]
  have e3 : (stepStatus (stepHealth data)).Effect.Health3
      = (if data.Effect.Qset3 > 0 then data.Effect.Qrun3 / data.Effect.Qset3 else 0) := by
    simp only [stepStatus, stepHealth, stepHealth1_eq, stepHealth2_eq, stepHealth3_eq]
  refine ⟨fun h => ?_, fun h => ?_, fun h => ?_⟩
  · have z := (e1.trans (hz _ _ h))
    exact ⟨z, by rw [s1, z, statusOf_zero]⟩
  · have z := (e2.trans (hz _ _ h))
    exact ⟨z, by rw [s2, z, statusOf_zero]⟩
  · have z := (e3.trans (hz _ _ h))
    exact ⟨z, by rw [s3, z, statusOf_zero]⟩

theorem stepThroughput_qrun (data : PageData) :
    (stepThroughput data).Effect.Qrun1 =
        (if data.Effect.ConcOut1 > data.FeedConc ∧ data.Effect.ConcOut1 > 0 then
          data.ActualFlow * (data.Effect.ConcOut1 - data.FeedConc) / data.Effect.ConcOut1
        else 0) ∧
      (stepThroughput data).Effect.Qrun2 =
        (if data.Effect.ConcOut2 > data.Effect.ConcOut1 ∧ data.Effect.ConcOut2 > 0 then
          (data.ActualFlow - (stepThroughput data).Effect.Qrun1) *
            (data.Effect.ConcOut2 - data.Effect.ConcOut1) / data.Effect.ConcOut2
        else 0) ∧
      (stepThroughput data).Effect.Qrun3 =
        (if data.Effect.ConcOut3 > data.Effect.ConcOut2 ∧ data.Effect.ConcOut3 > 0 then
          (data.ActualFlow - (stepThroughput data).Effect.Qrun1 -
              (stepThroughput data).Effect.Qrun2) *
            (data.Effect.ConcOut3 - data.Effect.ConcOut2) / data.Effect.ConcOut3
        else 0) := by
  simp only [stepThroughput, stepQrun1_eq, stepQrun2_eq, stepQrun3_eq, and_self]

/-- C16: a stage that does not concentrate (its outlet concentration is at most
its upstream concentration: the feed for stage 1, the previous outlet for stages
2 and 3) gets throughput 0, health ratio 0 and the status severe fouling; the
steps are total, no error is raised. -/
theorem non_concentrating_stage (data : PageData) :
    (data.Effect.ConcOut1 ≤ data.FeedConc →
        (stepStatus (stepHealth (stepThroughput data))).Effect.Qrun1 = 0 ∧
        (stepStatus (stepHealth (stepThroughput data))).Effect.Health1 = 0 ∧
        (stepStatus (stepHealth (stepThroughput data))).Effect.Status1 = "严重结垢") ∧
      (data.Effect.ConcOut2 ≤ data.Effect.ConcOut1 →
        (stepStatus (stepHealth (stepThroughput data))).Effect.Qrun2 = 0 ∧
        (stepStatus (stepHealth (stepThroughput data))).Effect.Health2 = 0 ∧
        (stepStatus (stepHealth (stepThroughput data))).Effect.Status2 = "严重结垢") ∧
      (data.Effect.ConcOut3 ≤ data.Effect.ConcOut2 →
        (stepStatus (stepHealth (stepThroughput data))).Effect.Qrun3 = 0 ∧
        (stepStatus (stepHealth (stepThroughput data))).Effect.Health3 = 0 ∧
        (stepStatus (stepHealth (stepThroughput data))).Effect.Status3 = "严重结垢") := by
  obtain ⟨q1, q2, q3⟩ := stepThroughput_qrun data
  obtain ⟨r1, r2, r3⟩ := results_of_zero_qrun (stepThroughput data)
  have k1 : (stepStatus (stepHealth (stepThroughput data))).Effect.Qrun1
      = (stepThroughput data).Effect.Qrun1 := by
    simp only [stepStatus, stepHealth, stepHealth1_eq, stepHealth2_eq, stepHealth3_eq]
  have k2 : (stepStatus (stepHealth (stepThroughput data))).Effect.Qrun2
      = (stepThroughput data).Effect.Qrun2 := by
    simp only [stepStatus, stepHealth, stepHealth1_eq, stepHealth2_eq, stepHealth3_eq]
  have k3 : (stepStatus (stepHealth (stepThroughput data))).Effect.Qrun3
      = (stepThroughput data).Effect.Qrun3 := by
    simp only [stepStatus, stepHealth, stepHealth1_eq, stepHealth2_eq, stepHealth3_eq]
  refine ⟨fun h => ?_, fun h => ?_, fun h => ?_⟩
  · have z : (stepThroughput data).Effect.Qrun1 = 0 := by
      rw [q1, if_neg (fun hc => absurd hc.1 (not_lt.mpr h))]
    exact ⟨k1.trans z, r1 z⟩
  · have z : (stepThroughput data).Effect.Qrun2 = 0 := by
      rw [q2, if_neg (fun hc => absurd hc.1 (not_lt.mpr h))]
    exact ⟨k2.trans z, r2 z⟩
  · have z : (stepThroughput data).Effect.Qrun3 = 0 := by
      rw [q3, if_neg (fun hc => absurd hc.1 (not_lt.mpr h))]
    exact ⟨k3.trans z, r3 z⟩

/-- C16 on the default record with outlet concentrations 26, 20 and 50: stage 2
does not concentrate (20 ≤ 26). -/
theorem non_concentrating_stage_witness :
    (stepStatus (stepHealth (stepThroughput (withConc defaultData 26 20 50)))).Effect.Qrun2 = 0 ∧
      (stepStatus (stepHealth (stepThroughput (withConc defaultData 26 20 50)))).Effect.Health2
        = 0 ∧
      (stepStatus (stepHealth (stepThroughput (withConc defaultData 26 20 50)))).Effect.Status2
        = "严重结垢" :=
  (non_concentrating_stage (withConc defaultData 26 20 50)).2.1
    (by norm_num [withConc, defaultData])

theorem densityTable_conc_increasing (T : ℚ) (row : List (ℚ × ℚ))
    (h : (T, row) ∈ densityTable) : ConcIncreasing row := by
  haveI : IsTrans (ℚ × ℚ) (fun p q => p.1 < q.1) := ⟨fun _ _ _ hab hbc => lt_trans hab hbc⟩
  apply List.chain'_iff_pairwise.mp
  simp only [densityTable, List.mem_cons, List.mem_singleton, List.not_mem_nil, or_false,
    Prod.mk.injEq] at h
  rcases h with ⟨_, rfl⟩ | ⟨_, rfl⟩ | ⟨_, rfl⟩ | ⟨_, rfl⟩ | ⟨_, rfl⟩ | ⟨_, rfl⟩ | ⟨_, rfl⟩ <;>
    norm_num [List.chain'_cons]

/-- C17: in every row of `densityTable` the concentrations strictly increase and
the densities strictly increase; so any two consecutive pairs have different
densities and the divisor of the row interpolation is not zero. -/
theorem table_rows_increasing (T : ℚ) (row : List (ℚ × ℚ)) (h : (T, row) ∈ densityTable) :
    ConcIncreasing row ∧ DensityIncreasing row ∧
      row.Chain' (fun p q => p.1 < q.1 ∧ p.2 < q.2) ∧
      (∀ (i : Nat) (p q : ℚ × ℚ), row[i]? = some p → row[i + 1]? = some q →
        p.2 ≤ q.2 ∧ q.2 - p.2 ≠ 0) := by
  have hc := densityTable_conc_increasing T row h
  have hd := densityTable_increasing T row h
  have hboth : row.Pairwise (fun p q => p.1 < q.1 ∧ p.2 < q.2) := List.Pairwise.and hc hd
  refine ⟨hc, hd, List.Pairwise.chain' hboth, ?_⟩
  intro i p q hp hq
  have hi : i < row.length := by
    by_contra hcon
    rw [List.getElem?_eq_none (not_lt.mp hcon)] at hp
    exact absurd hp (by simp)
  have hj : i + 1 < row.length := by
    by_contra hcon
    rw [List.getElem?_eq_none (not_lt.mp hcon)] at hq
    exact absurd hq (by simp)
  have hlt := List.pairwise_iff_getElem.mp hd i (i + 1) hi hj (Nat.lt_succ_self i)
  rw [List.getElem?_eq_getElem hi] at hp
  rw [List.getElem?_eq_getElem hj] at hq
  rw [Option.some.inj hp, Option.some.inj hq] at hlt
  exact ⟨hlt.le, by linarith⟩

/-- C17 on the row of 100 ℃. -/
theorem table_rows_increasing_witness :
    ConcIncreasing (tableRow 100) ∧ DensityIncreasing (tableRow 100) :=
  ⟨(table_rows_increasing 100 (tableRow 100) (tableRow_mem 100 (by rw [sortedKeys_eq]; simp))).1,
    (table_rows_increasing 100 (tableRow 100)
      (tableRow_mem 100 (by rw [sortedKeys_eq]; simp))).2.1⟩

/-! ## Remaining flow and telescoping (exact arithmetic) -/

theorem stage_fraction (R c u : ℚ) (hR : 0 ≤ R) (hu : 0 ≤ u) :
    0 ≤ (if c > u ∧ c > 0 then R * (c - u) / c else 0) ∧
      (if c > u ∧ c > 0 then R * (c - u) / c else 0) ≤ R := by
  split_ifs with hc
  · obtain ⟨h1, h2⟩ := hc
    have h3 : 0 ≤ c - u := by linarith
    refine ⟨div_nonneg (mul_nonneg hR h3) h2.le, ?_⟩
    rw [div_le_iff₀ h2]
    nlinarith [mul_nonneg hR hu]
  · exact ⟨le_refl _, hR⟩

/-- In exact arithmetic, with positive actual flow and feed concentration and
non-negative outlet concentrations of stages 1 and 2 (no condition on stage 3,
and whether or not a stage concentrates), the exact value of every throughput
expression is non-negative and at most the flow that remains before its stage,
so no remaining flow is negative. -/
theorem throughput_within_remaining (data : PageData) (hF : 0 < data.ActualFlow)
    (hf : 0 < data.FeedConc) (h1 : 0 ≤ data.Effect.ConcOut1) (h2 : 0 ≤ data.Effect.ConcOut2) :
    0 ≤ (stepThroughput data).Effect.Qrun1 ∧
      (stepThroughput data).Effect.Qrun1 ≤ data.ActualFlow ∧
      0 ≤ (stepThroughput data).Effect.Qrun2 ∧
      (stepThroughput data).Effect.Qrun2 ≤
        data.ActualFlow - (stepThroughput data).Effect.Qrun1 ∧
      0 ≤ (stepThroughput data).Effect.Qrun3 ∧
      (stepThroughput data).Effect.Qrun3 ≤
        data.ActualFlow - (stepThroughput data).Effect.Qrun1 -
          (stepThroughput data).Effect.Qrun2 ∧
      0 ≤ data.ActualFlow - (stepThroughput data).Effect.Qrun1 ∧
      0 ≤ data.ActualFlow - (stepThroughput data).Effect.Qrun1 -
        (stepThroughput data).Effect.Qrun2 ∧
      0 ≤ data.ActualFlow - (stepThroughput data).Effect.Qrun1 -
        (stepThroughput data).Effect.Qrun2 - (stepThroughput data).Effect.Qrun3 := by
  obtain ⟨q1, q2, q3⟩ := stepThroughput_qrun data
  have s1 := stage_fraction data.ActualFlow data.Effect.ConcOut1 data.FeedConc hF.le hf.le
  rw [← q1] at s1
  have r1 : 0 ≤ data.ActualFlow - (stepThroughput data).Effect.Qrun1 := by linarith [s1.2]
  have s2 := stage_fraction (data.ActualFlow - (stepThroughput data).Effect.Qrun1)
    data.Effect.ConcOut2 data.Effect.ConcOut1 r1 h1
  rw [← q2] at s2
  have r2 : 0 ≤ data.ActualFlow - (stepThroughput data).Effect.Qrun1 -
      (stepThroughput data).Effect.Qrun2 := by linarith [s2.2]
  have s3 := stage_fraction (data.ActualFlow - (stepThroughput data).Effect.Qrun1 -
    (stepThroughput data).Effect.Qrun2) data.Effect.ConcOut3 data.Effect.ConcOut2 r2 h2
  rw [← q3] at s3
  exact ⟨s1.1, s1.2, s2.1, s2.2, s3.1, s3.2, r1, r2, by linarith [s3.2]⟩

/-- The exact remaining flow on the default record with outlet concentrations
26, 20 and 50 (stage 2 does not concentrate): the flow left after the three
stages is not negative. -/
theorem throughput_within_remaining_witness :
    0 ≤ (withConc defaultData 26 20 50).ActualFlow -
      (stepThroughput (withConc defaultData 26 20 50)).Effect.Qrun1 -
      (stepThroughput (withConc defaultData 26 20 50)).Effect.Qrun2 -
      (stepThroughput (withConc defaultData 26 20 50)).Effect.Qrun3 :=
  (throughput_within_remaining (withConc defaultData 26 20 50)
    (by norm_num [withConc, defaultData]) (by norm_num [withConc, defaultData])
    (by norm_num [withConc, defaultData]) (by norm_num [withConc, defaultData])).2.2.2.2.2.2.2.2

theorem chain_sum_of_pos (F f c1 c2 c3 : ℚ) (p1 : 0 < c1) (h2 : c1 < c2) (h3 : c2 < c3) :
    F * (c1 - f) / c1 + (F - F * (c1 - f) / c1) * (c2 - c1) / c2 +
      (F - F * (c1 - f) / c1 - (F - F * (c1 - f) / c1) * (c2 - c1) / c2) * (c3 - c2) / c3
      = F * (c3 - f) / c3 := by
  have n1 : c1 ≠ 0 := by linarith
  have n2 : c2 ≠ 0 := by linarith
  have n3 : c3 ≠ 0 := by linarith
  field_simp
  ring

/-- Telescoping of the throughput chain in exact arithmetic: for every actual
flow and feed concentration, when `0 < ConcOut1` and all three stages
concentrate, the exact values of the three throughput expressions add up to
`actualFlow * (ConcOut3 - feed) / ConcOut3`, an expression without `ConcOut1` and
`ConcOut2`. -/
theorem throughput_telescopes (data : PageData) (p1 : 0 < data.Effect.ConcOut1)
    (h1 : data.Effect.ConcOut1 > data.FeedConc)
    (h2 : data.Effect.ConcOut2 > data.Effect.ConcOut1)
    (h3 : data.Effect.ConcOut3 > data.Effect.ConcOut2) :
    (stepThroughput data).Effect.Qrun1 + (stepThroughput data).Effect.Qrun2 +
      (stepThroughput data).Effect.Qrun3
      = data.ActualFlow * (data.Effect.ConcOut3 - data.FeedConc) / data.Effect.ConcOut3 := by
  have p2 : data.Effect.ConcOut2 > 0 := by linarith
  have p3 : data.Effect.ConcOut3 > 0 := by linarith
  obtain ⟨q1, q2, q3⟩ := stepThroughput_qrun data
  rw [q3, q2, q1, if_pos ⟨h1, p1⟩, if_pos ⟨h2, p2⟩, if_pos ⟨h3, p3⟩]
  exact chain_sum_of_pos _ _ _ _ _ p1 h2 h3

/-- The exact telescoping on the default record (flow 55, feed 18) with outlet
concentrations 26, 40 and 50. -/
theorem throughput_telescopes_witness :
    (stepThroughput (withConc defaultData 26 40 50)).Effect.Qrun1 +
      (stepThroughput (withConc defaultData 26 40 50)).Effect.Qrun2 +
      (stepThroughput (withConc defaultData 26 40 50)).Effect.Qrun3
      = (withConc defaultData 26 40 50).ActualFlow *
        ((withConc defaultData 26 40 50).Effect.ConcOut3 - (withConc defaultData 26 40 50).FeedConc) /
        (withConc defaultData 26 40 50).Effect.ConcOut3 :=
  throughput_telescopes (withConc defaultData 26 40 50)
    (by norm_num [withConc, defaultData]) (by norm_num [withConc, defaultData])
    (by norm_num [withConc, defaultData]) (by norm_num [withConc, defaultData])

/-! ## Monotonicity in the density (exact arithmetic) -/

theorem interp_singleton (p : ℚ × ℚ) (d : ℚ) : interp [p] d = some p.1 := by
  by_cases h : d < p.2 <;> simp [interp, interpLoop, h]

theorem interp_cons_cons (p q : ℚ × ℚ) (rest : List (ℚ × ℚ)) (d : ℚ)
    (hinc : DensityIncreasing (p :: q :: rest)) :
    interp (p :: q :: rest) d =
      if d < p.2 then some p.1
      else if d ≤ q.2 then some (p.1 + (d - p.2) / (q.2 - p.2) * (q.1 - p.1))
      else interp (q :: rest) d := by
  have hpq : p.2 < q.2 := (List.pairwise_cons.mp hinc).1 q (List.mem_cons_self _ _)
  by_cases h0 : d < p.2
  · rw [if_pos h0]
    exact interp_below d _ hinc p rfl h0
  · rw [if_neg h0]
    by_cases h1 : d ≤ q.2
    · rw [if_pos h1]
      have hcond : d ≥ p.2 ∧ d ≤ q.2 := ⟨not_lt.mp h0, h1⟩
      simp [interp, interpLoop, hcond]
    · rw [if_neg h1]
      have hcond : ¬ (d ≥ p.2 ∧ d ≤ q.2) := fun hc => h1 hc.2
      have hq : ¬ d < q.2 := fun hlt => h1 hlt.le
      have hl : interpLoop d (p :: q :: rest) = interpLoop d (q :: rest) := by
        simp only [interpLoop, hcond, if_false]
      unfold interp
      rw [hl]
      cases interpLoop d (q :: rest) with
      | some c => rfl
      | none => simp [h0, hq, List.getLast?_cons_cons]

theorem lerp_ge_left (c0 c1 d0 d1 d : ℚ) (hd : d0 < d1) (h0 : d0 ≤ d) (hc : c0 ≤ c1) :
    c0 ≤ c0 + (d - d0) / (d1 - d0) * (c1 - c0) := by
  have a0 : 0 ≤ (d - d0) / (d1 - d0) := div_nonneg (by linarith) (by linarith)
  nlinarith [mul_nonneg a0 (sub_nonneg.mpr hc)]

theorem lerp_mono (c0 c1 d0 d1 d e : ℚ) (hd : d0 < d1) (hde : d ≤ e) (hc : c0 ≤ c1) :
    c0 + (d - d0) / (d1 - d0) * (c1 - c0) ≤ c0 + (e - d0) / (d1 - d0) * (c1 - c0) := by
  have hpos : 0 < d1 - d0 := by linarith
  have hw : (d - d0) / (d1 - d0) ≤ (e - d0) / (d1 - d0) :=
    div_le_div_of_nonneg_right (by linarith) hpos.le
  nlinarith [mul_le_mul_of_nonneg_right hw (sub_nonneg.mpr hc)]

theorem interp_ge_head (d : ℚ) : ∀ (tbl : List (ℚ × ℚ)), ConcIncreasing tbl →
    DensityIncreasing tbl → ∀ (p : ℚ × ℚ) (c : ℚ), tbl.head? = some p → interp tbl d = some c →
      p.1 ≤ c
  | [], _, _, p, c, hp, _ => by simp at hp
  | [a], _, _, p, c, hp, hc => by
    simp only [List.head?_cons, Option.some.injEq] at hp
    rw [interp_singleton, Option.some.injEq] at hc
    rw [← hp, ← hc]
  | a :: b :: rest, hci, hdi, p, c, hp, hc => by
    simp only [List.head?_cons, Option.some.injEq] at hp
    subst hp
    have hab1 : a.1 < b.1 := (List.pairwise_cons.mp hci).1 b (List.mem_cons_self _ _)
    have hab2 : a.2 < b.2 := (List.pairwise_cons.mp hdi).1 b (List.mem_cons_self _ _)
    rw [interp_cons_cons a b rest d hdi] at hc
    by_cases h0 : d < a.2
    · rw [if_pos h0, Option.some.injEq] at hc
      exact hc ▸ le_refl _
    · rw [if_neg h0] at hc
      by_cases h1 : d ≤ b.2
      · rw [if_pos h1, Option.some.injEq] at hc
        rw [← hc]
        exact lerp_ge_left a.1 b.1 a.2 b.2 d hab2 (not_lt.mp h0) hab1.le
      · rw [if_neg h1] at hc
        have ih := interp_ge_head d (b :: rest) (List.pairwise_cons.mp hci).2
          (List.pairwise_cons.mp hdi).2 b c rfl hc
        linarith

theorem interp_mono : ∀ (tbl : List (ℚ × ℚ)), ConcIncreasing tbl → DensityIncreasing tbl →
    ∀ (d e c c2 : ℚ), d ≤ e → interp tbl d = some c → interp tbl e = some c2 → c ≤ c2
  | [], _, _, d, e, c, c2, _, hc, _ => by simp [interp_nil] at hc
  | [a], _, _, d, e, c, c2, _, hc, hc2 => by
    rw [interp_singleton, Option.some.injEq] at hc hc2
    rw [← hc, ← hc2]
  | a :: b :: rest, hci, hdi, d, e, c, c2, hde, hc, hc2 => by
    have hab1 : a.1 < b.1 := (List.pairwise_cons.mp hci).1 b (List.mem_cons_self _ _)
    have hab2 : a.2 < b.2 := (List.pairwise_cons.mp hdi).1 b (List.mem_cons_self _ _)
    have hci2 := (List.pairwise_cons.mp hci).2
    have hdi2 := (List.pairwise_cons.mp hdi).2
    have hhead := interp_ge_head e (a :: b :: rest) hci hdi a c2 rfl hc2
    rw [interp_cons_cons a b rest d hdi] at hc
    rw [interp_cons_cons a b rest e hdi] at hc2
    by_cases h0 : d < a.2
    · rw [if_pos h0, Option.some.injEq] at hc
      rw [← hc]
      exact hhead
    · rw [if_neg h0] at hc
      have h0e : ¬ e < a.2 := fun hlt => h0 (lt_of_le_of_lt hde hlt)
      rw [if_neg h0e] at hc2
      by_cases h1 : d ≤ b.2
      · rw [if_pos h1, Option.some.injEq] at hc
        by_cases h1e : e ≤ b.2
        · rw [if_pos h1e, Option.some.injEq] at hc2
          rw [← hc, ← hc2]
          exact lerp_mono a.1 b.1 a.2 b.2 d e hab2 hde hab1.le
        · rw [if_neg h1e] at hc2
          have hb := interp_ge_head e (b :: rest) hci2 hdi2 b c2 rfl hc2
          have hu := (lerp_bounds a.1 b.1 a.1 b.1 a.2 b.2 d hab2 (not_lt.mp h0) h1 (le_refl _)
            hab1.le hab1.le (le_refl _)).2
          rw [← hc]
          linarith
      · rw [if_neg h1] at hc
        have h1e : ¬ e ≤ b.2 := fun hle => h1 (le_trans hde hle)
        rw [if_neg h1e] at hc2
        exact interp_mono (b :: rest) hci2 hdi2 d e c c2 hde hc hc2

theorem interp_row_mono (T d e : ℚ) (h : T ∈ sortedKeys) (hde : d ≤ e) :
    ∃ c c2, interp (tableRow T) d = some c ∧ interp (tableRow T) e = some c2 ∧ c ≤ c2 := by
  obtain ⟨c, hc, -, -⟩ := interp_row_range T d h
  obtain ⟨c2, hc2, -, -⟩ := interp_row_range T e h
  have hrow := tableRow_mem T h
  exact ⟨c, c2, hc, hc2, interp_mono (tableRow T) (densityTable_conc_increasing T _ hrow)
    (densityTable_increasing T _ hrow) d e c c2 hde hc hc2⟩

/-- In exact arithmetic the interpolation formula of `getConc` is monotone in the
density: for every temperature at or above 20 and densities `d ≤ e`, both calls
return and the exact values satisfy `getConc temp d ≤ getConc temp e`. -/
theorem getConc_monotone_in_density (temp d e : ℚ) (h : 20 ≤ temp) (hde : d ≤ e) :
    ∃ c c2, getConc temp d = some c ∧ getConc temp e = some c2 ∧ c ≤ c2 := by
  rcases temp_cases temp h with hk | hab | ⟨ta, tb, hadj, h1, h2⟩
  · rw [getConc_key temp d hk, getConc_key temp e hk]
    exact interp_row_mono temp d e hk hde
  · rw [getConc_above temp d hab, getConc_above temp e hab]
    exact interp_row_mono 100 d e (by rw [sortedKeys_eq]; simp) hde
  · obtain ⟨ha, hb, hlt⟩ := adjacent_mem ta tb hadj
    obtain ⟨ca, ca2, hca, hca2, la⟩ := interp_row_mono ta d e ha hde
    obtain ⟨cb, cb2, hcb, hcb2, lb⟩ := interp_row_mono tb d e hb hde
    rw [getConc_between ta tb temp d hadj h1 h2, getConc_between ta tb temp e hadj h1 h2,
      hca, hcb, hca2, hcb2]
    refine ⟨_, _, rfl, rfl, ?_⟩
    have hpos : 0 < tb - ta := by linarith
    have w0 : 0 ≤ (temp - ta) / (tb - ta) := div_nonneg (by linarith) hpos.le
    have w1 : (temp - ta) / (tb - ta) ≤ 1 := (div_le_one hpos).mpr (by linarith)
    have e1 : ca + (cb - ca) / (tb - ta) * (temp - ta)
        = ca + (temp - ta) / (tb - ta) * (cb - ca) := by ring
    have e2 : ca2 + (cb2 - ca2) / (tb - ta) * (temp - ta)
        = ca2 + (temp - ta) / (tb - ta) * (cb2 - ca2) := by ring
    rw [e1, e2]
    nlinarith [mul_nonneg w0 (sub_nonneg.mpr lb), mul_nonneg (sub_nonneg.mpr w1) (sub_nonneg.mpr la)]

/-- The exact monotonicity at the default stage-1 temperature 92, for the
densities 1.19 and 1.29. -/
theorem getConc_monotone_in_density_witness :
    ∃ c c2, getConc 92 1.19 = some c ∧ getConc 92 1.29 = some c2 ∧ c ≤ c2 :=
  getConc_monotone_in_density 92 1.19 1.29 (by norm_num) (by norm_num)

/-! ## Order of the feed recommendation (exact arithmetic) -/

theorem heatLoadToEvaporation_pos (q : ℚ) (h : 0 < q) : 0 < heatLoadToEvaporation q := by
  unfold heatLoadToEvaporation LatentHeatOfVaporization
  have hd : (0 : ℚ) < 2257.0 * 1000.0 := by norm_num
  exact div_pos (mul_pos h (by norm_num)) hd

theorem stepCapacity_totals (data : PageData) :
    (stepCapacity data).TotalQset =
        heatLoadToEvaporation data.Effect.Qnom1 * (data.Effect.DtSet1 / data.Effect.DtDesign1) +
          heatLoadToEvaporation data.Effect.Qnom2 * (data.Effect.DtSet2 / data.Effect.DtDesign2) +
          heatLoadToEvaporation data.Effect.Qnom3 * (data.Effect.DtSet3 / data.Effect.DtDesign3) ∧
      (stepCapacity data).TheoreticalMax =
        (if data.TargetConc > data.FeedConc then
          (stepCapacity data).TotalQset * (data.TargetConc / (data.TargetConc - data.FeedConc))
        else 0) ∧
      (stepCapacity data).RecommendLow = (stepCapacity data).TheoreticalMax * 0.75 ∧
      (stepCapacity data).RecommendHigh = (stepCapacity data).TheoreticalMax * 0.95 ∧
      (stepCapacity data).SuggestFlow = (stepCapacity data).TheoreticalMax * 0.90 := by
  by_cases h : data.TargetConc > data.FeedConc
  · simp [stepCapacity, h]
  · simp [stepCapacity, h]

/-- In exact arithmetic, with positive stage ratings and positive design and
operating differentials the total capacity is positive, and for every feed
concentration and positive target concentration
`0 ≤ recommendedLow ≤ suggested ≤ recommendedHigh ≤ theoreticalMax`; when also
`target > feed > 0` the exact theoretical maximum exceeds the exact total
capacity. -/
theorem recommendation_order (data : PageData)
    (hq1 : 0 < data.Effect.Qnom1) (hq2 : 0 < data.Effect.Qnom2) (hq3 : 0 < data.Effect.Qnom3)
    (hd1 : 0 < data.Effect.DtDesign1) (hd2 : 0 < data.Effect.DtDesign2)
    (hd3 : 0 < data.Effect.DtDesign3)
    (hs1 : 0 < data.Effect.DtSet1) (hs2 : 0 < data.Effect.DtSet2) (hs3 : 0 < data.Effect.DtSet3)
    (ht : 0 < data.TargetConc) :
    0 < (stepCapacity data).TotalQset ∧
      0 ≤ (stepCapacity data).RecommendLow ∧
      (stepCapacity data).RecommendLow ≤ (stepCapacity data).SuggestFlow ∧
      (stepCapacity data).SuggestFlow ≤ (stepCapacity data).RecommendHigh ∧
      (stepCapacity data).RecommendHigh ≤ (stepCapacity data).TheoreticalMax ∧
      (data.TargetConc > data.FeedConc → 0 < data.FeedConc →
        (stepCapacity data).TheoreticalMax > (stepCapacity data).TotalQset) := by
  obtain ⟨eT, eM, eL, eH, eS⟩ := stepCapacity_totals data
  have hT : 0 < (stepCapacity data).TotalQset := by
    rw [eT]
    have p1 := mul_pos (heatLoadToEvaporation_pos _ hq1) (div_pos hs1 hd1)
    have p2 := mul_pos (heatLoadToEvaporation_pos _ hq2) (div_pos hs2 hd2)
    have p3 := mul_pos (heatLoadToEvaporation_pos _ hq3) (div_pos hs3 hd3)
    linarith
  have hM : 0 ≤ (stepCapacity data).TheoreticalMax := by
    rw [eM]
    split_ifs with h
    · exact mul_nonneg hT.le (div_nonneg ht.le (by linarith))
    · exact le_refl _
  refine ⟨hT, ?_, ?_, ?_, ?_, ?_⟩
  · rw [eL]
    exact mul_nonneg hM (by norm_num)
  · rw [eL, eS]
    norm_num
    linarith
  · rw [eS, eH]
    norm_num
    linarith
  · rw [eH]
    norm_num
    linarith
  · intro hgt hf
    rw [eM, if_pos hgt]
    have hpos : 0 < data.TargetConc - data.FeedConc := by linarith
    have hr : 1 < data.TargetConc / (data.TargetConc - data.FeedConc) := by
      rw [lt_div_iff₀ hpos]
      linarith
    have := mul_lt_mul_of_pos_left hr hT
    linarith

/-- The exact order on the default record (target 52.5, feed 18): the theoretical
maximum exceeds the total capacity. -/
theorem recommendation_order_witness :
    (stepCapacity defaultData).TheoreticalMax > (stepCapacity defaultData).TotalQset :=
  (recommendation_order defaultData (by norm_num [defaultData]) (by norm_num [defaultData])
    (by norm_num [defaultData]) (by norm_num [defaultData]) (by norm_num [defaultData])
    (by norm_num [defaultData]) (by norm_num [defaultData]) (by norm_num [defaultData])
    (by norm_num [defaultData]) (by norm_num [defaultData])).2.2.2.2.2
    (by norm_num [defaultData]) (by norm_num [defaultData])

/-! ## Binary64: evaluation of one rounding -/

theorem roundHalfEven_near (s : ℚ) (m : ℤ) (h1 : (m : ℚ) - 1 / 2 < s) (h2 : s < m + 1 / 2) :
    roundHalfEven s = m := by
  unfold roundHalfEven
  rcases le_or_lt (m : ℚ) s with hms | hms
  · have hf : Int.floor s = m := Int.floor_eq_iff.mpr ⟨hms, by linarith⟩
    rw [hf, if_pos (by linarith)]
  · have hf : Int.floor s = m - 1 :=
      Int.floor_eq_iff.mpr ⟨by push_cast; linarith, by push_cast; linarith⟩
    rw [hf, if_neg (by push_cast; linarith), if_pos (by push_cast; linarith)]
    ring

theorem roundHalfEven_tie_below (s : ℚ) (m : ℤ) (h : s = (m : ℚ) - 1 / 2) (hm : m % 2 = 0) :
    roundHalfEven s = m := by
  unfold roundHalfEven
  have hf : Int.floor s = m - 1 :=
    Int.floor_eq_iff.mpr ⟨by push_cast; linarith, by push_cast; linarith⟩
  have hodd : ¬ (m - 1) % 2 = 0 := by omega
  rw [hf, if_neg (by push_cast; linarith), if_neg (by push_cast; linarith), if_neg hodd]
  ring

theorem roundHalfEven_tie_above (s : ℚ) (m : ℤ) (h : s = (m : ℚ) + 1 / 2) (hm : m % 2 = 0) :
    roundHalfEven s = m := by
  unfold roundHalfEven
  have hf : Int.floor s = m := Int.floor_eq_iff.mpr ⟨by linarith, by linarith⟩
  rw [hf, if_neg (by linarith), if_neg (by linarith), if_pos hm]

theorem roundF64_of_eq_zero (x : ℚ) (hx : x = 0) : roundF64 x = some 0 := by
  have h0 : roundHalfEven 0 = 0 := roundHalfEven_near 0 0 (by norm_num) (by norm_num)
  subst hx
  simp [roundF64, h0]

/-- The value of `roundF64` in the normal range: when `2 ^ e` is the last place
of `x` and the integer `m` is what `x / 2 ^ e` rounds to, the result is
`m * 2 ^ e`. -/
theorem roundF64_eq (x r : ℚ) (m e : ℤ) (he1 : -1074 ≤ e) (he2 : e ≤ 970)
    (hlo : 2 ^ 52 * 2 ^ e ≤ abs x) (hhi : abs x < 2 ^ 53 * 2 ^ e)
    (hm : roundHalfEven (x / 2 ^ e) = m) (hmx : abs ((m : ℚ) - x / 2 ^ e) ≤ 1 / 2)
    (hr : r = m * 2 ^ e) : roundF64 x = some r := by
  have hupos : (0 : ℚ) < 2 ^ e := by positivity
  have hxpos : 0 < abs x := lt_of_lt_of_le (by positivity) hlo
  have hlog : Int.log 2 (abs x) = e + 52 := by
    apply le_antisymm
    · have : Int.log 2 (abs x) < e + 53 := by
        apply (Int.lt_zpow_iff_log_lt (by norm_num) hxpos).mp
        have : ((2 : ℕ) : ℚ) ^ (e + 53) = 2 ^ 53 * 2 ^ e := by
          rw [zpow_add₀ (by norm_num)]
          push_cast
          ring
        rw [this]
        exact hhi
      omega
    · apply (Int.zpow_le_iff_le_log (by norm_num) hxpos).mp
      have : ((2 : ℕ) : ℚ) ^ (e + 52) = 2 ^ 52 * 2 ^ e := by
        rw [zpow_add₀ (by norm_num)]
        push_cast
        ring
      rw [this]
      exact hlo
  have hmax : max (Int.log 2 (abs x) - 52) (-1074) = e := by
    rw [hlog]
    have : e + 52 - 52 = e := by ring
    rw [this]
    exact max_eq_left he1
  have hbound : abs ((m : ℚ) * 2 ^ e) < 2 ^ 1024 := by
    have hd : abs ((m : ℚ) * 2 ^ e - x) ≤ 2 ^ e / 2 := by
      have e1 : (m : ℚ) * 2 ^ e - x = ((m : ℚ) - x / 2 ^ e) * 2 ^ e := by
        field_simp
      rw [e1, abs_mul, abs_of_pos hupos]
      nlinarith
    have h1 : abs ((m : ℚ) * 2 ^ e) ≤ abs x + 2 ^ e / 2 := by
      have := abs_add ((m : ℚ) * 2 ^ e - x) x
      have e1 : (m : ℚ) * 2 ^ e - x + x = m * 2 ^ e := by ring
      rw [e1] at this
      linarith
    have hu970 : (2 : ℚ) ^ e ≤ 2 ^ (970 : ℤ) := zpow_le_zpow_right₀ (by norm_num) he2
    have h2 : (2 : ℚ) ^ (970 : ℤ) = 2 ^ (970 : ℕ) := zpow_natCast 2 970
    rw [h2] at hu970
    have h3 : abs x + 2 ^ e / 2 < 2 ^ 54 * 2 ^ e := by linarith
    have h4 : (2 : ℚ) ^ 54 * 2 ^ e ≤ 2 ^ 54 * 2 ^ 970 :=
      mul_le_mul_of_nonneg_left hu970 (by positivity)
    have h5 : (2 : ℚ) ^ 54 * 2 ^ 970 = 2 ^ 1024 := (pow_add 2 54 970).symm
    rw [h5] at h4
    exact lt_of_le_of_lt h1 (lt_of_lt_of_le h3 h4)
  unfold roundF64
  simp only [hmax]
  rw [hm, if_neg (not_le.mpr hbound), hr]

/-- The rounding of a positive `x`, with the conditions spelt out for numerals. -/
theorem roundF64_pos (x r : ℚ) (m e : ℤ) (he1 : -1074 ≤ e) (he2 : e ≤ 970)
    (hlo : 2 ^ 52 * 2 ^ e ≤ x) (hhi : x < 2 ^ 53 * 2 ^ e)
    (h1 : (m : ℚ) - 1 / 2 < x / 2 ^ e) (h2 : x / 2 ^ e < m + 1 / 2)
    (hr : r = m * 2 ^ e) : roundF64 x = some r := by
  have hupos : (0 : ℚ) < 2 ^ e := by positivity
  have hx : 0 < x := lt_of_lt_of_le (by positivity) hlo
  refine roundF64_eq x r m e he1 he2 ?_ ?_ (roundHalfEven_near _ _ h1 h2) ?_ hr
  · rw [abs_of_pos hx]; exact hlo
  · rw [abs_of_pos hx]; exact hhi
  · rw [abs_le]; constructor <;> linarith

/-- The rounding of a negative `x`, with the conditions spelt out for numerals. -/
theorem roundF64_neg (x r : ℚ) (m e : ℤ) (he1 : -1074 ≤ e) (he2 : e ≤ 970)
    (hlo : 2 ^ 52 * 2 ^ e ≤ -x) (hhi : -x < 2 ^ 53 * 2 ^ e)
    (h1 : (m : ℚ) - 1 / 2 < x / 2 ^ e) (h2 : x / 2 ^ e < m + 1 / 2)
    (hr : r = m * 2 ^ e) : roundF64 x = some r := by
  have hupos : (0 : ℚ) < 2 ^ e := by positivity
  have hx : x < 0 := by
    have : 0 < -x := lt_of_lt_of_le (by positivity) hlo
    linarith
  refine roundF64_eq x r m e he1 he2 ?_ ?_ (roundHalfEven_near _ _ h1 h2) ?_ hr
  · rw [abs_of_neg hx]; exact hlo
  · rw [abs_of_neg hx]; exact hhi
  · rw [abs_le]; constructor <;> linarith

/-- The rounding of a positive `x` that lies half-way between two multiples of
`2 ^ e`: the even multiple is taken. -/
theorem roundF64_pos_tie (x r : ℚ) (m e : ℤ) (he1 : -1074 ≤ e) (he2 : e ≤ 970)
    (hlo : 2 ^ 52 * 2 ^ e ≤ x) (hhi : x < 2 ^ 53 * 2 ^ e)
    (ht : x / 2 ^ e = (m : ℚ) - 1 / 2 ∨ x / 2 ^ e = (m : ℚ) + 1 / 2) (hev : m % 2 = 0)
    (hr : r = m * 2 ^ e) : roundF64 x = some r := by
  have hx : 0 < x := lt_of_lt_of_le (by positivity) hlo
  have hm : roundHalfEven (x / 2 ^ e) = m := by
    rcases ht with ht | ht
    · exact roundHalfEven_tie_below _ _ ht hev
    · exact roundHalfEven_tie_above _ _ ht hev
  refine roundF64_eq x r m e he1 he2 ?_ ?_ hm ?_ hr
  · rw [abs_of_pos hx]; exact hlo
  · rw [abs_of_pos hx]; exact hhi
  · rw [abs_le]
    rcases ht with ht | ht <;> rw [ht] <;> constructor <;> linarith

/-- The rounding of a negative `x` that lies half-way between two multiples of
`2 ^ e`: the even multiple is taken. -/
theorem roundF64_neg_tie (x r : ℚ) (m e : ℤ) (he1 : -1074 ≤ e) (he2 : e ≤ 970)
    (hlo : 2 ^ 52 * 2 ^ e ≤ -x) (hhi : -x < 2 ^ 53 * 2 ^ e)
    (ht : x / 2 ^ e = (m : ℚ) - 1 / 2 ∨ x / 2 ^ e = (m : ℚ) + 1 / 2) (hev : m % 2 = 0)
    (hr : r = m * 2 ^ e) : roundF64 x = some r := by
  have hx : x < 0 := by
    have : 0 < -x := lt_of_lt_of_le (by positivity) hlo
    linarith
  have hm : roundHalfEven (x / 2 ^ e) = m := by
    rcases ht with ht | ht
    · exact roundHalfEven_tie_below _ _ ht hev
    · exact roundHalfEven_tie_above _ _ ht hev
  refine roundF64_eq x r m e he1 he2 ?_ ?_ hm ?_ hr
  · rw [abs_of_neg hx]; exact hlo
  · rw [abs_of_neg hx]; exact hhi
  · rw [abs_le]
    rcases ht with ht | ht <;> rw [ht] <;> constructor <;> linarith

/-- The lemma `roundF64_pos` with the range of `x` read off the integer `m`. -/
theorem roundF64_pos_mid (x r : ℚ) (m e : ℤ) (he1 : -1074 ≤ e) (he2 : e ≤ 970)
    (hm1 : 2 ^ 52 < m) (hm2 : m < 2 ^ 53)
    (h1 : (m : ℚ) - 1 / 2 < x / 2 ^ e) (h2 : x / 2 ^ e < m + 1 / 2)
    (hr : r = m * 2 ^ e) : roundF64 x = some r := by
  have hupos : (0 : ℚ) < 2 ^ e := by positivity
  have k1 : ((2 : ℤ) ^ 52 : ℤ) + 1 ≤ m := hm1
  have k2 : m + 1 ≤ ((2 : ℤ) ^ 53 : ℤ) := hm2
  have q1 : ((2 : ℚ) ^ 52) + 1 ≤ (m : ℚ) := by exact_mod_cast k1
  have q2 : (m : ℚ) + 1 ≤ (2 : ℚ) ^ 53 := by exact_mod_cast k2
  refine roundF64_pos x r m e he1 he2 ?_ ?_ h1 h2 hr
  · have : (2 : ℚ) ^ 52 < x / 2 ^ e := by linarith
    rw [lt_div_iff₀ hupos] at this
    exact this.le
  · have : x / 2 ^ e < (2 : ℚ) ^ 53 := by linarith
    rw [div_lt_iff₀ hupos] at this
    exact this

/-- The lemma `roundF64_neg` with the range of `x` read off the integer `m`. -/
theorem roundF64_neg_mid (x r : ℚ) (m e : ℤ) (he1 : -1074 ≤ e) (he2 : e ≤ 970)
    (hm1 : -(2 ^ 53) < m) (hm2 : m < -(2 ^ 52))
    (h1 : (m : ℚ) - 1 / 2 < x / 2 ^ e) (h2 : x / 2 ^ e < m + 1 / 2)
    (hr : r = m * 2 ^ e) : roundF64 x = some r := by
  have hupos : (0 : ℚ) < 2 ^ e := by positivity
  have k1 : -((2 : ℤ) ^ 53 : ℤ) + 1 ≤ m := hm1
  have k2 : m + 1 ≤ -((2 : ℤ) ^ 52 : ℤ) := hm2
  have q1 : -((2 : ℚ) ^ 53) + 1 ≤ (m : ℚ) := by exact_mod_cast k1
  have q2 : (m : ℚ) + 1 ≤ -((2 : ℚ) ^ 52) := by exact_mod_cast k2
  refine roundF64_neg x r m e he1 he2 ?_ ?_ h1 h2 hr
  · have : x / 2 ^ e < -((2 : ℚ) ^ 52) := by linarith
    rw [div_lt_iff₀ hupos] at this
    linarith
  · have : -((2 : ℚ) ^ 53) < x / 2 ^ e := by linarith
    rw [lt_div_iff₀ hupos] at this
    linarith

theorem lit64_of_round (x r : ℚ) (h : roundF64 x = some r) : lit64 x = r := by
  simp [lit64, h]

theorem fdiv_of_round (a b r : ℚ) (hb : b ≠ 0) (h : roundF64 (a / b) = some r) :
    fdiv a b = some r := by
  simp [fdiv, hb, h]

theorem acceptPositive64_some (cur v w : ℚ) (h : roundF64 v = some w) (hw : 0 < w) :
    acceptPositive64 cur (some v) = w := by
  simp [acceptPositive64, h, hw]

theorem interpPair64_eq (pc pd qc qd d x y a z w c : ℚ) (h1 : fsub d pd = some x)
    (h2 : fsub qd pd = some y) (h3 : fdiv x y = some a) (h4 : fsub qc pc = some z)
    (h5 : fmul a z = some w) (h6 : fadd pc w = some c) :
    interpPair64 (pc, pd) (qc, qd) d = some c := by
  simp only [interpPair64, h1, h2, h3, h4, h5, h6, Option.some_bind]

theorem tempStep64_eq (c1 c2 t1 t2 temp x y s z w c : ℚ) (h1 : fsub c2 c1 = some x)
    (h2 : fsub t2 t1 = some y) (h3 : fdiv x y = some s) (h4 : fsub temp t1 = some z)
    (h5 : fmul s z = some w) (h6 : fadd c1 w = some c) :
    tempStep64 c1 c2 t1 t2 temp = some c := by
  simp only [tempStep64, h1, h2, h3, h4, h5, h6, Option.some_bind]

theorem interpLoop64_skip (d : ℚ) (p q : ℚ × ℚ) (rest : List (ℚ × ℚ))
    (h : ¬ (d ≥ p.2 ∧ d ≤ q.2)) :
    interpLoop64 d (p :: q :: rest) = interpLoop64 d (q :: rest) := by
  simp only [interpLoop64, h, if_false]

theorem interpLoop64_hit (d c : ℚ) (p q : ℚ × ℚ) (rest : List (ℚ × ℚ))
    (h : d ≥ p.2 ∧ d ≤ q.2) (hp : interpPair64 p q d = some c) :
    interpLoop64 d (p :: q :: rest) = LoopOutcome.returned c := by
  simp only [interpLoop64, h, and_self, if_true, hp]

theorem interpLoop64_single (d : ℚ) (p : ℚ × ℚ) :
    interpLoop64 d [p] = LoopOutcome.finished := by
  simp only [interpLoop64]

theorem interp64_of_returned (tbl : List (ℚ × ℚ)) (d c : ℚ)
    (h : interpLoop64 d tbl = LoopOutcome.returned c) : interp64 tbl d = some c := by
  simp only [interp64, h]

theorem interp64_of_finished (tbl : List (ℚ × ℚ)) (d : ℚ) (first last : ℚ × ℚ)
    (h : interpLoop64 d tbl = LoopOutcome.finished) (hf : tbl.head? = some first)
    (hl : tbl.getLast? = some last) :
    interp64 tbl d = if d < first.2 then some first.1 else some last.1 := by
  simp only [interp64, h, hf, hl]

theorem getConc64_key (T d : ℚ) (h : T ∈ sortedKeys) :
    getConc64 T d = interp64 (tableRow64 T) d := by
  simp only [getConc64, bounds_key T h, if_true]
  cases interp64 (tableRow64 T) d <;> rfl

theorem getConc64_between (ta tb temp d c1 c2 : ℚ)
    (h : (ta, tb) ∈ sortedKeys.zip sortedKeys.tail) (h1 : ta < temp) (h2 : temp < tb)
    (hc1 : interp64 (tableRow64 ta) d = some c1) (hc2 : interp64 (tableRow64 tb) d = some c2) :
    getConc64 temp d = tempStep64 c1 c2 ta tb temp := by
  have hne : ta ≠ tb := ne_of_lt (lt_trans h1 h2)
  simp only [getConc64, bounds_between ta tb temp h h1 h2, hc1, hc2, hne, if_false]

theorem qSet64_eq (qnom dtSet dtDesign x h r q : ℚ) (h1 : fmul qnom 3600.0 = some x)
    (h2 : fdiv x (LatentHeatOfVaporization * 1000.0) = some h)
    (h3 : fdiv dtSet dtDesign = some r) (h4 : fmul h r = some q) :
    qSet64 qnom dtSet dtDesign = some q := by
  simp only [qSet64, h1, h2, h3, h4, Option.some_bind]

theorem recommend64_eq (total target feed diff ratio tmax lo hi sg : ℚ) (hgt : target > feed)
    (h1 : fsub target feed = some diff) (h2 : fdiv target diff = some ratio)
    (h3 : fmul total ratio = some tmax) (h4 : fmul tmax 0.75 = some lo)
    (h5 : fmul tmax (lit64 0.95) = some hi) (h6 : fmul tmax (lit64 0.90) = some sg) :
    recommend64 total target feed = some (tmax, lo, hi, sg) := by
  simp only [recommend64, hgt, if_true, h1, h2, h3, h4, h5, h6, Option.some_bind]

theorem removed64_eq (flow cout cin x y q : ℚ) (h1 : fsub cout cin = some x)
    (h2 : fmul flow x = some y) (h3 : fdiv y cout = some q) :
    removed64 flow cout cin = some q := by
  simp only [removed64, h1, h2, h3, Option.some_bind]

theorem qrun1F_eq (flow feed c1 q : ℚ) (hg : c1 > feed ∧ c1 > 0)
    (h : removed64 flow c1 feed = some q) : qrun1F flow feed c1 = some q := by
  simp only [qrun1F, hg, and_self, if_true, h]

theorem qrun1F_zero (flow feed c1 : ℚ) (hg : ¬ (c1 > feed ∧ c1 > 0)) :
    qrun1F flow feed c1 = some 0 := by
  simp only [qrun1F, hg, if_false]

theorem qrun2F_eq (flow q1 c1 c2 rest q : ℚ) (hg : c2 > c1 ∧ c2 > 0)
    (h1 : fsub flow q1 = some rest) (h : removed64 rest c2 c1 = some q) :
    qrun2F flow q1 c1 c2 = some q := by
  simp only [qrun2F, hg, and_self, if_true, h1, h, Option.some_bind]

theorem qrun3F_eq (flow q1 q2 c2 c3 r1 rest q : ℚ) (hg : c3 > c2 ∧ c3 > 0)
    (h1 : fsub flow q1 = some r1) (h2 : fsub r1 q2 = some rest)
    (h : removed64 rest c3 c2 = some q) : qrun3F flow q1 q2 c2 c3 = some q := by
  simp only [qrun3F, hg, and_self, if_true, h1, h2, h, Option.some_bind]

/-! ## Binary64: evaluation of requests and of the table rows -/

/-- The result of `evaluate64` from the values of the input fields and the
results of its parts. -/
theorem evaluate64_of_parts (data : PageData)
    (feed target flow qnom1 qnom2 qnom3 dtDesign1 dtDesign2 dtDesign3 dtSet1 dtSet2 dtSet3
      temp1 temp2 temp3 dens1 dens2 dens3 : ℚ)
    (qSet1 qSet2 qSet3 s12 total : ℚ) (rec : ℚ × ℚ × ℚ × ℚ) (c1 c2 c3 q1 q2 q3 : ℚ)
    (f1 : data.FeedConc = feed) (f2 : data.TargetConc = target) (f3 : data.ActualFlow = flow)
    (f4 : data.Effect.Qnom1 = qnom1) (f5 : data.Effect.Qnom2 = qnom2)
    (f6 : data.Effect.Qnom3 = qnom3) (f7 : data.Effect.DtDesign1 = dtDesign1)
    (f8 : data.Effect.DtDesign2 = dtDesign2) (f9 : data.Effect.DtDesign3 = dtDesign3)
    (f10 : data.Effect.DtSet1 = dtSet1) (f11 : data.Effect.DtSet2 = dtSet2)
    (f12 : data.Effect.DtSet3 = dtSet3) (f13 : data.Effect.TempOut1 = temp1)
    (f14 : data.Effect.TempOut2 = temp2) (f15 : data.Effect.TempOut3 = temp3)
    (f16 : data.Effect.DensOut1 = dens1) (f17 : data.Effect.DensOut2 = dens2)
    (f18 : data.Effect.DensOut3 = dens3)
    (h1 : qSet64 qnom1 dtSet1 dtDesign1 = some qSet1)
    (h2 : qSet64 qnom2 dtSet2 dtDesign2 = some qSet2)
    (h3 : qSet64 qnom3 dtSet3 dtDesign3 = some qSet3)
    (h4 : fadd qSet1 qSet2 = some s12) (h5 : fadd s12 qSet3 = some total)
    (h6 : recommend64 total target feed = some rec)
    (h7 : getConc64 temp1 dens1 = some c1) (h8 : getConc64 temp2 dens2 = some c2)
    (h9 : getConc64 temp3 dens3 = some c3)
    (h10 : qrun1F flow feed c1 = some q1) (h11 : qrun2F flow q1 c1 c2 = some q2)
    (h12 : qrun3F flow q1 q2 c2 c3 = some q3) :
    ∃ out, evaluate64 data = some out ∧
      out.FeedConc = feed ∧ out.TargetConc = target ∧ out.ActualFlow = flow ∧
      out.Effect.Qnom1 = qnom1 ∧ out.Effect.Qnom2 = qnom2 ∧ out.Effect.Qnom3 = qnom3 ∧
      out.Effect.DtDesign1 = dtDesign1 ∧ out.Effect.DtDesign2 = dtDesign2 ∧
      out.Effect.DtDesign3 = dtDesign3 ∧
      out.Effect.DtSet1 = dtSet1 ∧ out.Effect.DtSet2 = dtSet2 ∧ out.Effect.DtSet3 = dtSet3 ∧
      out.TotalQset = total ∧ out.TheoreticalMax = rec.1 ∧ out.RecommendLow = rec.2.1 ∧
      out.RecommendHigh = rec.2.2.1 ∧ out.SuggestFlow = rec.2.2.2 ∧
      out.Effect.ConcOut1 = c1 ∧ out.Effect.ConcOut2 = c2 ∧ out.Effect.ConcOut3 = c3 ∧
      out.Effect.Qrun1 = q1 ∧ out.Effect.Qrun2 = q2 ∧ out.Effect.Qrun3 = q3 := by
  simp only [evaluate64, capacity64, concentrations64, throughput64, f1, f2, f3, f4, f5, f6, f7,
    f8, f9, f10, f11, f12, f13, f14, f15, f16, f17, f18, h1, h2, h3, h4, h5, h6, h7, h8, h9, h10,
    h11, h12, Option.some_bind]
  exact ⟨_, rfl, rfl, rfl, rfl, rfl, rfl, rfl, rfl, rfl, rfl, rfl, rfl, rfl, rfl, rfl, rfl, rfl,
    rfl, rfl, rfl, rfl, rfl, rfl, rfl⟩

/-- The row of 20 ℃ in binary64, and all of its segments close. -/
theorem row64_20 :
    tableRow64 20 = [(0, 1), (10, (2458965396544291 / 2251799813685248)), (15, (2571555387228553 / 2251799813685248)), (20, (5381801554707743 / 4503599627370496)), (25, (5 / 4)), (30, (5890708312600609 / 4503599627370496)), (35, (6160924290242839 / 4503599627370496)), (40, (1611162766691795 / 1125899906842624)), (45, (6741888642173633 / 4503599627370496)), (48, (1733885856537641 / 1125899906842624)), (50, (1766536953836077 / 1125899906842624)), (51, (3566850904877433 / 2251799813685248)), (52, (7201255804165423 / 4503599627370496))] ∧
      List.Chain' Seg64 (tableRow64 20) := by
  have h1 : lit64 0 = 0 :=
    lit64_of_round _ _ (roundF64_of_eq_zero (0) (by norm_num))
  have h2 : lit64 1.000 = 1 :=
    lit64_of_round _ _ (roundF64_pos (1.000) 1 4503599627370496 (-52) (by norm_num) (by norm_num) (by norm_num) (by norm_num) (by norm_num) (by norm_num) (by norm_num))
  have h3 : lit64 10 = 10 :=
    lit64_of_round _ _ (roundF64_pos_mid (10) 10 5629499534213120 (-49) (by norm_num) (by norm_num) (by norm_num) (by norm_num) (by norm_num) (by norm_num) (by norm_num))
  have h4 : lit64 1.092 = (2458965396544291 / 2251799813685248) :=
    lit64_of_round _ _ (roundF64_pos_mid (1.092) (2458965396544291 / 2251799813685248) 4917930793088582 (-52) (by norm_num) (by norm_num) (by norm_num) (by norm_num) (by norm_num) (by norm_num) (by norm_num))
  have h5 : lit64 15 = 15 :=
    lit64_of_round _ _ (roundF64_pos_mid (15) 15 8444249301319680 (-49) (by norm_num) (by norm_num) (by norm_num) (by norm_num) (by norm_num) (by norm_num) (by norm_num))
  have h6 : lit64 1.142 = (2571555387228553 / 2251799813685248) :=
    lit64_of_round _ _ (roundF64_pos_mid (1.142) (2571555387228553 / 2251799813685248) 5143110774457106 (-52) (by norm_num) (by norm_num) (by norm_num) (by norm_num) (by norm_num) (by norm_num) (by norm_num))
  have h7 : lit64 20 = 20 :=
    lit64_of_round _ _ (roundF64_pos_mid (20) 20 5629499534213120 (-48) (by norm_num) (by norm_num) (by norm_num) (by norm_num) (by norm_num) (by norm_num) (by norm_num))
  have h8 : lit64 1.195 = (5381801554707743 / 4503599627370496) :=
    lit64_of_round _ _ (roundF64_pos_mid (1.195) (5381801554707743 / 4503599627370496) 5381801554707743 (-52) (by norm_num) (by norm_num) (by norm_num) (by norm_num) (by norm_num) (by norm_num) (by norm_num))
  have h9 : lit64 25 = 25 :=
    lit64_of_round _ _ (roundF64_pos_mid (25) 25 7036874417766400 (-48) (by norm_num) (by norm_num) (by norm_num) (by norm_num) (by norm_num) (by norm_num) (by norm_num))
  have h10 : lit64 1.250 = (5 / 4) :=
    lit64_of_round _ _ (roundF64_pos_mid (1.250) (5 / 4) 5629499534213120 (-52) (by norm_num) (by norm_num) (by norm_num) (by norm_num) (by norm_num) (by norm_num) (by norm_num))
  have h11 : lit64 30 = 30 :=
    lit64_of_round _ _ (roundF64_pos_mid (30) 30 8444249301319680 (-48) (by norm_num) (by norm_num) (by norm_num) (by norm_num) (by norm_num) (by norm_num) (by norm_num))
  have h12 : lit64 1.308 = (5890708312600609 / 4503599627370496) :=
    lit64_of_round _ _ (roundF64_pos_mid (1.308) (5890708312600609 / 4503599627370496) 5890708312600609 (-52) (by norm_num) (by norm_num) (by norm_num) (by norm_num) (by norm_num) (by norm_num) (by norm_num))
  have h13 : lit64 35 = 35 :=
    lit64_of_round _ _ (roundF64_pos_mid (35) 35 4925812092436480 (-47) (by norm_num) (by norm_num) (by norm_num) (by norm_num) (by norm_num) (by norm_num) (by norm_num))
  have h14 : lit64 1.368 = (6160924290242839 / 4503599627370496) :=
    lit64_of_round _ _ (roundF64_pos_mid (1.368) (6160924290242839 / 4503599627370496) 6160924290242839 (-52) (by norm_num) (by norm_num) (by norm_num) (by norm_num) (by norm_num) (by norm_num) (by norm_num))
  have h15 : lit64 40 = 40 :=
    lit64_of_round _ _ (roundF64_pos_mid (40) 40 5629499534213120 (-47) (by norm_num) (by norm_num) (by norm_num) (by norm_num) (by norm_num) (by norm_num) (by norm_num))
  have h16 : lit64 1.431 = (1611162766691795 / 1125899906842624) :=
    lit64_of_round _ _ (roundF64_pos_mid (1.431) (1611162766691795 / 1125899906842624) 6444651066767180 (-52) (by norm_num) (by norm_num) (by norm_num) (by norm_num) (by norm_num) (by norm_num) (by norm_num))
  have h17 : lit64 45 = 45 :=
    lit64_of_round _ _ (roundF64_pos_mid (45) 45 6333186975989760 (-47) (by norm_num) (by norm_num) (by norm_num) (by norm_num) (by norm_num) (by norm_num) (by norm_num))
  have h18 : lit64 1.497 = (6741888642173633 / 4503599627370496) :=
    lit64_of_round _ _ (roundF64_pos_mid (1.497) (6741888642173633 / 4503599627370496) 6741888642173633 (-52) (by norm_num) (by norm_num) (by norm_num) (by norm_num) (by norm_num) (by norm_num) (by norm_num))
  have h19 : lit64 48 = 48 :=
    lit64_of_round _ _ (roundF64_pos_mid (48) 48 6755399441055744 (-47) (by norm_num) (by norm_num) (by norm_num) (by norm_num) (by norm_num) (by norm_num) (by norm_num))
  have h20 : lit64 1.540 = (1733885856537641 / 1125899906842624) :=
    lit64_of_round _ _ (roundF64_pos_mid (1.540) (1733885856537641 / 1125899906842624) 6935543426150564 (-52) (by norm_num) (by norm_num) (by norm_num) (by norm_num) (by norm_num) (by norm_num) (by norm_num))
  have h21 : lit64 50 = 50 :=
    lit64_of_round _ _ (roundF64_pos_mid (50) 50 7036874417766400 (-47) (by norm_num) (by norm_num) (by norm_num) (by norm_num) (by norm_num) (by norm_num) (by norm_num))
  have h22 : lit64 1.569 = (1766536953836077 / 1125899906842624) :=
    lit64_of_round _ _ (roundF64_pos_mid (1.569) (1766536953836077 / 1125899906842624) 7066147815344308 (-52) (by norm_num) (by norm_num) (by norm_num) (by norm_num) (by norm_num) (by norm_num) (by norm_num))
  have h23 : lit64 51 = 51 :=
    lit64_of_round _ _ (roundF64_pos_mid (51) 51 7177611906121728 (-47) (by norm_num) (by norm_num) (by norm_num) (by norm_num) (by norm_num) (by norm_num) (by norm_num))
  have h24 : lit64 1.584 = (3566850904877433 / 2251799813685248) :=
    lit64_of_round _ _ (roundF64_pos_mid (1.584) (3566850904877433 / 2251799813685248) 7133701809754866 (-52) (by norm_num) (by norm_num) (by norm_num) (by norm_num) (by norm_num) (by norm_num) (by norm_num))
  have h25 : lit64 52 = 52 :=
    lit64_of_round _ _ (roundF64_pos_mid (52) 52 7318349394477056 (-47) (by norm_num) (by norm_num) (by norm_num) (by norm_num) (by norm_num) (by norm_num) (by norm_num))
  have h26 : lit64 1.599 = (7201255804165423 / 4503599627370496) :=
    lit64_of_round _ _ (roundF64_pos_mid (1.599) (7201255804165423 / 4503599627370496) 7201255804165423 (-52) (by norm_num) (by norm_num) (by norm_num) (by norm_num) (by norm_num) (by norm_num) (by norm_num))
  have h27 : tableRow 20 = [(0, 1.000), (10, 1.092), (15, 1.142), (20, 1.195), (25, 1.250), (30, 1.308), (35, 1.368), (40, 1.431), (45, 1.497), (48, 1.540), (50, 1.569), (51, 1.584), (52, 1.599)] :=
    by
      norm_num [tableRow, densityTable, List.find?]
  have h28 : tableRow64 20 = [(0, 1), (10, (2458965396544291 / 2251799813685248)), (15, (2571555387228553 / 2251799813685248)), (20, (5381801554707743 / 4503599627370496)), (25, (5 / 4)), (30, (5890708312600609 / 4503599627370496)), (35, (6160924290242839 / 4503599627370496)), (40, (1611162766691795 / 1125899906842624)), (45, (6741888642173633 / 4503599627370496)), (48, (1733885856537641 / 1125899906842624)), (50, (1766536953836077 / 1125899906842624)), (51, (3566850904877433 / 2251799813685248)), (52, (7201255804165423 / 4503599627370496))] :=
    by
      simp only [tableRow64, row64, h27, List.map_cons, List.map_nil,
        h1, h2, h3, h4, h5, h6, h7, h8, h9, h10, h11, h12, h13, h14, h15, h16, h17, h18, h19, h20, h21, h22, h23, h24, h25, h26]
  have h29 : roundF64 0 = some 0 :=
    roundF64_of_eq_zero (0) (by norm_num)
  have h30 : fsub (2458965396544291 / 2251799813685248) 1 = some (207165582859043 / 2251799813685248) :=
    roundF64_pos_mid ((2458965396544291 / 2251799813685248) - 1) (207165582859043 / 2251799813685248) 6629298651489376 (-56) (by norm_num) (by norm_num) (by norm_num) (by norm_num) (by norm_num) (by norm_num) (by norm_num)
  have h31 : fsub 10 0 = some 10 :=
    roundF64_pos_mid (10 - 0) 10 5629499534213120 (-49) (by norm_num) (by norm_num) (by norm_num) (by norm_num) (by norm_num) (by norm_num) (by norm_num)
  have h32 : fadd 0 10 = some 10 :=
    roundF64_pos_mid (0 + 10) 10 5629499534213120 (-49) (by norm_num) (by norm_num) (by norm_num) (by norm_num) (by norm_num) (by norm_num) (by norm_num)
  have h33 : Seg64 (0, 1) (10, (2458965396544291 / 2251799813685248)) :=
    ⟨by norm_num, h29, (207165582859043 / 2251799813685248), 10, h30, by norm_num, h31, by norm_num, h32⟩
  have h34 : roundF64 10 = some 10 :=
    roundF64_pos_mid (10) 10 5629499534213120 (-49) (by norm_num) (by norm_num) (by norm_num) (by norm_num) (by norm_num) (by norm_num) (by norm_num)
  have h35 : fsub (2571555387228553 / 2251799813685248) (2458965396544291 / 2251799813685248) = some (56294995342131 / 1125899906842624) :=
    roundF64_pos_mid ((2571555387228553 / 2251799813685248) - (2458965396544291 / 2251799813685248)) (56294995342131 / 1125899906842624) 7205759403792768 (-57) (by norm_num) (by norm_num) (by norm_num) (by norm_num) (by norm_num) (by norm_num) (by norm_num)
  have h36 : fsub 15 10 = some 5 :=
    roundF64_pos_mid (15 - 10) 5 5629499534213120 (-50) (by norm_num) (by norm_num) (by norm_num) (by norm_num) (by norm_num) (by norm_num) (by norm_num)
  have h37 : fadd 10 5 = some 15 :=
    roundF64_pos_mid (10 + 5) 15 8444249301319680 (-49) (by norm_num) (by norm_num) (by norm_num) (by norm_num) (by norm_num) (by norm_num) (by norm_num)
  have h38 : Seg64 (10, (2458965396544291 / 2251799813685248)) (15, (2571555387228553 / 2251799813685248)) :=
    ⟨by norm_num, h34, (56294995342131 / 1125899906842624), 5, h35, by norm_num, h36, by norm_num, h37⟩
  have h39 : roundF64 15 = some 15 :=
    roundF64_pos_mid (15) 15 8444249301319680 (-49) (by norm_num) (by norm_num) (by norm_num) (by norm_num) (by norm_num) (by norm_num) (by norm_num)
  have h40 : fsub (5381801554707743 / 4503599627370496) (2571555387228553 / 2251799813685248) = some (238690780250637 / 4503599627370496) :=
    roundF64_pos_mid ((5381801554707743 / 4503599627370496) - (2571555387228553 / 2251799813685248)) (238690780250637 / 4503599627370496) 7638104968020384 (-57) (by norm_num) (by norm_num) (by norm_num) (by norm_num) (by norm_num) (by norm_num) (by norm_num)
  have h41 : fsub 20 15 = some 5 :=
    roundF64_pos_mid (20 - 15) 5 5629499534213120 (-50) (by norm_num) (by norm_num) (by norm_num) (by norm_num) (by norm_num) (by norm_num) (by norm_num)
  have h42 : fadd 15 5 = some 20 :=
    roundF64_pos_mid (15 + 5) 20 5629499534213120 (-48) (by norm_num) (by norm_num) (by norm_num) (by norm_num) (by norm_num) (by norm_num) (by norm_num)
  have h43 : Seg64 (15, (2571555387228553 / 2251799813685248)) (20, (5381801554707743 / 4503599627370496)) :=
    ⟨by norm_num, h39, (238690780250637 / 4503599627370496), 5, h40, by norm_num, h41, by norm_num, h42⟩
  have h44 : roundF64 20 = some 20 :=
    roundF64_pos_mid (20) 20 5629499534213120 (-48) (by norm_num) (by norm_num) (by norm_num) (by norm_num) (by norm_num) (by norm_num) (by norm_num)
  have h45 : fsub (5 / 4) (5381801554707743 / 4503599627370496) = some (247697979505377 / 4503599627370496) :=
    roundF64_pos_mid ((5 / 4) - (5381801554707743 / 4503599627370496)) (247697979505377 / 4503599627370496) 7926335344172064 (-57) (by norm_num) (by norm_num) (by norm_num) (by norm_num) (by norm_num) (by norm_num) (by norm_num)
  have h46 : fsub 25 20 = some 5 :=
    roundF64_pos_mid (25 - 20) 5 5629499534213120 (-50) (by norm_num) (by norm_num) (by norm_num) (by norm_num) (by norm_num) (by norm_num) (by norm_num)
  have h47 : fadd 20 5 = some 25 :=
    roundF64_pos_mid (20 + 5) 25 7036874417766400 (-48) (by norm_num) (by norm_num) (by norm_num) (by norm_num) (by norm_num) (by norm_num) (by norm_num)
  have h48 : Seg64 (20, (5381801554707743 / 4503599627370496)) (25, (5 / 4)) :=
    ⟨by norm_num, h44, (247697979505377 / 4503599627370496), 5, h45, by norm_num, h46, by norm_num, h47⟩
  have h49 : roundF64 25 = some 25 :=
    roundF64_pos_mid (25) 25 7036874417766400 (-48) (by norm_num) (by norm_num) (by norm_num) (by norm_num) (by norm_num) (by norm_num) (by norm_num)
  have h50 : fsub (5890708312600609 / 4503599627370496) (5 / 4) = some (261208778387489 / 4503599627370496) :=
    roundF64_pos_mid ((5890708312600609 / 4503599627370496) - (5 / 4)) (261208778387489 / 4503599627370496) 8358680908399648 (-57) (by norm_num) (by norm_num) (by norm_num) (by norm_num) (by norm_num) (by norm_num) (by norm_num)
  have h51 : fsub 30 25 = some 5 :=
    roundF64_pos_mid (30 - 25) 5 5629499534213120 (-50) (by norm_num) (by norm_num) (by norm_num) (by norm_num) (by norm_num) (by norm_num) (by norm_num)
  have h52 : fadd 25 5 = some 30 :=
    roundF64_pos_mid (25 + 5) 30 8444249301319680 (-48) (by norm_num) (by norm_num) (by norm_num) (by norm_num) (by norm_num) (by norm_num) (by norm_num)
  have h53 : Seg64 (25, (5 / 4)) (30, (5890708312600609 / 4503599627370496)) :=
    ⟨by norm_num, h49, (261208778387489 / 4503599627370496), 5, h50, by norm_num, h51, by norm_num, h52⟩
  have h54 : roundF64 30 = some 30 :=
    roundF64_pos_mid (30) 30 8444249301319680 (-48) (by norm_num) (by norm_num) (by norm_num) (by norm_num) (by norm_num) (by norm_num) (by norm_num)
  have h55 : fsub (6160924290242839 / 4503599627370496) (5890708312600609 / 4503599627370496) = some (135107988821115 / 2251799813685248) :=
    roundF64_pos_mid ((6160924290242839 / 4503599627370496) - (5890708312600609 / 4503599627370496)) (135107988821115 / 2251799813685248) 8646911284551360 (-57) (by norm_num) (by norm_num) (by norm_num) (by norm_num) (by norm_num) (by norm_num) (by norm_num)
  have h56 : fsub 35 30 = some 5 :=
    roundF64_pos_mid (35 - 30) 5 5629499534213120 (-50) (by norm_num) (by norm_num) (by norm_num) (by norm_num) (by norm_num) (by norm_num) (by norm_num)
  have h57 : fadd 30 5 = some 35 :=
    roundF64_pos_mid (30 + 5) 35 4925812092436480 (-47) (by norm_num) (by norm_num) (by norm_num) (by norm_num) (by norm_num) (by norm_num) (by norm_num)
  have h58 : Seg64 (30, (5890708312600609 / 4503599627370496)) (35, (6160924290242839 / 4503599627370496)) :=
    ⟨by norm_num, h54, (135107988821115 / 2251799813685248), 5, h55, by norm_num, h56, by norm_num, h57⟩
  have h59 : roundF64 35 = some 35 :=
    roundF64_pos_mid (35) 35 4925812092436480 (-47) (by norm_num) (by norm_num) (by norm_num) (by norm_num) (by norm_num) (by norm_num) (by norm_num)
  have h60 : fsub (1611162766691795 / 1125899906842624) (6160924290242839 / 4503599627370496) = some (283726776524341 / 4503599627370496) :=
    roundF64_pos_mid ((1611162766691795 / 1125899906842624) - (6160924290242839 / 4503599627370496)) (283726776524341 / 4503599627370496) 4539628424389456 (-56) (by norm_num) (by norm_num) (by norm_num) (by norm_num) (by norm_num) (by norm_num) (by norm_num)
  have h61 : fsub 40 35 = some 5 :=
    roundF64_pos_mid (40 - 35) 5 5629499534213120 (-50) (by norm_num) (by norm_num) (by norm_num) (by norm_num) (by norm_num) (by norm_num) (by norm_num)
  have h62 : fadd 35 5 = some 40 :=
    roundF64_pos_mid (35 + 5) 40 5629499534213120 (-47) (by norm_num) (by norm_num) (by norm_num) (by norm_num) (by norm_num) (by norm_num) (by norm_num)
  have h63 : Seg64 (35, (6160924290242839 / 4503599627370496)) (40, (1611162766691795 / 1125899906842624)) :=
    ⟨by norm_num, h59, (283726776524341 / 4503599627370496), 5, h60, by norm_num, h61, by norm_num, h62⟩
  have h64 : roundF64 40 = some 40 :=
    roundF64_pos_mid (40) 40 5629499534213120 (-47) (by norm_num) (by norm_num) (by norm_num) (by norm_num) (by norm_num) (by norm_num) (by norm_num)
  have h65 : fsub (6741888642173633 / 4503599627370496) (1611162766691795 / 1125899906842624) = some (297237575406453 / 4503599627370496) :=
    roundF64_pos_mid ((6741888642173633 / 4503599627370496) - (1611162766691795 / 1125899906842624)) (297237575406453 / 4503599627370496) 4755801206503248 (-56) (by norm_num) (by norm_num) (by norm_num) (by norm_num) (by norm_num) (by norm_num) (by norm_num)
  have h66 : fsub 45 40 = some 5 :=
    roundF64_pos_mid (45 - 40) 5 5629499534213120 (-50) (by norm_num) (by norm_num) (by norm_num) (by norm_num) (by norm_num) (by norm_num) (by norm_num)
  have h67 : fadd 40 5 = some 45 :=
    roundF64_pos_mid (40 + 5) 45 6333186975989760 (-47) (by norm_num) (by norm_num) (by norm_num) (by norm_num) (by norm_num) (by norm_num) (by norm_num)
  have h68 : Seg64 (40, (1611162766691795 / 1125899906842624)) (45, (6741888642173633 / 4503599627370496)) :=
    ⟨by norm_num, h64, (297237575406453 / 4503599627370496), 5, h65, by norm_num, h66, by norm_num, h67⟩
  have h69 : roundF64 45 = some 45 :=
    roundF64_pos_mid (45) 45 6333186975989760 (-47) (by norm_num) (by norm_num) (by norm_num) (by norm_num) (by norm_num) (by norm_num) (by norm_num)
  have h70 : fsub (1733885856537641 / 1125899906842624) (6741888642173633 / 4503599627370496) = some (193654783976931 / 4503599627370496) :=
    roundF64_pos_mid ((1733885856537641 / 1125899906842624) - (6741888642173633 / 4503599627370496)) (193654783976931 / 4503599627370496) 6196953087261792 (-57) (by norm_num) (by norm_num) (by norm_num) (by norm_num) (by norm_num) (by norm_num) (by norm_num)
  have h71 : fsub 48 45 = some 3 :=
    roundF64_pos_mid (48 - 45) 3 6755399441055744 (-51) (by norm_num) (by norm_num) (by norm_num) (by norm_num) (by norm_num) (by norm_num) (by norm_num)
  have h72 : fadd 45 3 = some 48 :=
    roundF64_pos_mid (45 + 3) 48 6755399441055744 (-47) (by norm_num) (by norm_num) (by norm_num) (by norm_num) (by norm_num) (by norm_num) (by norm_num)
  have h73 : Seg64 (45, (6741888642173633 / 4503599627370496)) (48, (1733885856537641 / 1125899906842624)) :=
    ⟨by norm_num, h69, (193654783976931 / 4503599627370496), 3, h70, by norm_num, h71, by norm_num, h72⟩
  have h74 : roundF64 48 = some 48 :=
    roundF64_pos_mid (48) 48 6755399441055744 (-47) (by norm_num) (by norm_num) (by norm_num) (by norm_num) (by norm_num) (by norm_num) (by norm_num)
  have h75 : fsub (1766536953836077 / 1125899906842624) (1733885856537641 / 1125899906842624) = some (8162774324609 / 281474976710656) :=
    roundF64_pos_mid ((1766536953836077 / 1125899906842624) - (1733885856537641 / 1125899906842624)) (8162774324609 / 281474976710656) 8358680908399616 (-58) (by norm_num) (by norm_num) (by norm_num) (by norm_num) (by norm_num) (by norm_num) (by norm_num)
  have h76 : fsub 50 48 = some 2 :=
    roundF64_pos (50 - 48) 2 4503599627370496 (-51) (by norm_num) (by norm_num) (by norm_num) (by norm_num) (by norm_num) (by norm_num) (by norm_num)
  have h77 : fadd 48 2 = some 50 :=
    roundF64_pos_mid (48 + 2) 50 7036874417766400 (-47) (by norm_num) (by norm_num) (by norm_num) (by norm_num) (by norm_num) (by norm_num) (by norm_num)
  have h78 : Seg64 (48, (1733885856537641 / 1125899906842624)) (50, (1766536953836077 / 1125899906842624)) :=
    ⟨by norm_num, h74, (8162774324609 / 281474976710656), 2, h75, by norm_num, h76, by norm_num, h77⟩
  have h79 : roundF64 50 = some 50 :=
    roundF64_pos_mid (50) 50 7036874417766400 (-47) (by norm_num) (by norm_num) (by norm_num) (by norm_num) (by norm_num) (by norm_num) (by norm_num)
  have h80 : fsub (3566850904877433 / 2251799813685248) (1766536953836077 / 1125899906842624) = some (33776997205279 / 2251799813685248) :=
    roundF64_pos_mid ((3566850904877433 / 2251799813685248) - (1766536953836077 / 1125899906842624)) (33776997205279 / 2251799813685248) 8646911284551424 (-59) (by norm_num) (by norm_num) (by norm_num) (by norm_num) (by norm_num) (by norm_num) (by norm_num)
  have h81 : fsub 51 50 = some 1 :=
    roundF64_pos (51 - 50) 1 4503599627370496 (-52) (by norm_num) (by norm_num) (by norm_num) (by norm_num) (by norm_num) (by norm_num) (by norm_num)
  have h82 : fadd 50 1 = some 51 :=
    roundF64_pos_mid (50 + 1) 51 7177611906121728 (-47) (by norm_num) (by norm_num) (by norm_num) (by norm_num) (by norm_num) (by norm_num) (by norm_num)
  have h83 : Seg64 (50, (1766536953836077 / 1125899906842624)) (51, (3566850904877433 / 2251799813685248)) :=
    ⟨by norm_num, h79, (33776997205279 / 2251799813685248), 1, h80, by norm_num, h81, by norm_num, h82⟩
  have h84 : roundF64 51 = some 51 :=
    roundF64_pos_mid (51) 51 7177611906121728 (-47) (by norm_num) (by norm_num) (by norm_num) (by norm_num) (by norm_num) (by norm_num) (by norm_num)
  have h85 : fsub (7201255804165423 / 4503599627370496) (3566850904877433 / 2251799813685248) = some (67553994410557 / 4503599627370496) :=
    roundF64_pos_mid ((7201255804165423 / 4503599627370496) - (3566850904877433 / 2251799813685248)) (67553994410557 / 4503599627370496) 8646911284551296 (-59) (by norm_num) (by norm_num) (by norm_num) (by norm_num) (by norm_num) (by norm_num) (by norm_num)
  have h86 : fsub 52 51 = some 1 :=
    roundF64_pos (52 - 51) 1 4503599627370496 (-52) (by norm_num) (by norm_num) (by norm_num) (by norm_num) (by norm_num) (by norm_num) (by norm_num)
  have h87 : fadd 51 1 = some 52 :=
    roundF64_pos_mid (51 + 1) 52 7318349394477056 (-47) (by norm_num) (by norm_num) (by norm_num) (by norm_num) (by norm_num) (by norm_num) (by norm_num)
  have h88 : Seg64 (51, (3566850904877433 / 2251799813685248)) (52, (7201255804165423 / 4503599627370496)) :=
    ⟨by norm_num, h84, (67553994410557 / 4503599627370496), 1, h85, by norm_num, h86, by norm_num, h87⟩
  refine ⟨h28, ?_⟩
  rw [h28]
  exact List.Chain'.cons h33 (List.Chain'.cons h38 (List.Chain'.cons h43 (List.Chain'.cons h48 (List.Chain'.cons h53 (List.Chain'.cons h58 (List.Chain'.cons h63 (List.Chain'.cons h68 (List.Chain'.cons h73 (List.Chain'.cons h78 (List.Chain'.cons h83 (List.Chain'.cons h88 (List.chain'_singleton _))))))))))))

/-- The row of 40 ℃ in binary64, and all of its segments close. -/
theorem row64_40 :
    tableRow64 40 = [(0, 1), (15, (2535526590209589 / 2251799813685248)), (20, (5291729562160333 / 4503599627370496)), (25, (5525916742783599 / 4503599627370496)), (30, (360850920143061 / 281474976710656)), (35, (6034823500676465 / 4503599627370496)), (40, (6309543077946065 / 4503599627370496)), (45, (6597773454097777 / 4503599627370496)), (48, (1694479359798149 / 1125899906842624)), (50, (3452009114379485 / 2251799813685248)), (51, (6967068623542157 / 4503599627370496)), (52, (219691219322667 / 140737488355328))] ∧
      List.Chain' Seg64 (tableRow64 40) := by
  have h1 : lit64 0 = 0 :=
    lit64_of_round _ _ (roundF64_of_eq_zero (0) (by norm_num))
  have h2 : lit64 1.000 = 1 :=
    lit64_of_round _ _ (roundF64_pos (1.000) 1 4503599627370496 (-52) (by norm_num) (by norm_num) (by norm_num) (by norm_num) (by norm_num) (by norm_num) (by norm_num))
  have h3 : lit64 15 = 15 :=
    lit64_of_round _ _ (roundF64_pos_mid (15) 15 8444249301319680 (-49) (by norm_num) (by norm_num) (by norm_num) (by norm_num) (by norm_num) (by norm_num) (by norm_num))
  have h4 : lit64 1.126 = (2535526590209589 / 2251799813685248) :=
    lit64_of_round _ _ (roundF64_pos_mid (1.126) (2535526590209589 / 2251799813685248) 5071053180419178 (-52) (by norm_num) (by norm_num) (by norm_num) (by norm_num) (by norm_num) (by norm_num) (by norm_num))
  have h5 : lit64 20 = 20 :=
    lit64_of_round _ _ (roundF64_pos_mid (20) 20 5629499534213120 (-48) (by norm_num) (by norm_num) (by norm_num) (by norm_num) (by norm_num) (by norm_num) (by norm_num))
  have h6 : lit64 1.175 = (5291729562160333 / 4503599627370496) :=
    lit64_of_round _ _ (roundF64_pos_mid (1.175) (5291729562160333 / 4503599627370496) 5291729562160333 (-52) (by norm_num) (by norm_num) (by norm_num) (by norm_num) (by norm_num) (by norm_num) (by norm_num))
  have h7 : lit64 25 = 25 :=
    lit64_of_round _ _ (roundF64_pos_mid (25) 25 7036874417766400 (-48) (by norm_num) (by norm_num) (by norm_num) (by norm_num) (by norm_num) (by norm_num) (by norm_num))
  have h8 : lit64 1.227 = (5525916742783599 / 4503599627370496) :=
    lit64_of_round _ _ (roundF64_pos_mid (1.227) (5525916742783599 / 4503599627370496) 5525916742783599 (-52) (by norm_num) (by norm_num) (by norm_num) (by norm_num) (by norm_num) (by norm_num) (by norm_num))
  have h9 : lit64 30 = 30 :=
    lit64_of_round _ _ (roundF64_pos_mid (30) 30 8444249301319680 (-48) (by norm_num) (by norm_num) (by norm_num) (by norm_num) (by norm_num) (by norm_num) (by norm_num))
  have h10 : lit64 1.282 = (360850920143061 / 281474976710656) :=
    lit64_of_round _ _ (roundF64_pos_mid (1.282) (360850920143061 / 281474976710656) 5773614722288976 (-52) (by norm_num) (by norm_num) (by norm_num) (by norm_num) (by norm_num) (by norm_num) (by norm_num))
  have h11 : lit64 35 = 35 :=
    lit64_of_round _ _ (roundF64_pos_mid (35) 35 4925812092436480 (-47) (by norm_num) (by norm_num) (by norm_num) (by norm_num) (by norm_num) (by norm_num) (by norm_num))
  have h12 : lit64 1.340 = (6034823500676465 / 4503599627370496) :=
    lit64_of_round _ _ (roundF64_pos_mid (1.340) (6034823500676465 / 4503599627370496) 6034823500676465 (-52) (by norm_num) (by norm_num) (by norm_num) (by norm_num) (by norm_num) (by norm_num) (by norm_num))
  have h13 : lit64 40 = 40 :=
    lit64_of_round _ _ (roundF64_pos_mid (40) 40 5629499534213120 (-47) (by norm_num) (by norm_num) (by norm_num) (by norm_num) (by norm_num) (by norm_num) (by norm_num))
  have h14 : lit64 1.401 = (6309543077946065 / 4503599627370496) :=
    lit64_of_round _ _ (roundF64_pos_mid (1.401) (6309543077946065 / 4503599627370496) 6309543077946065 (-52) (by norm_num) (by norm_num) (by norm_num) (by norm_num) (by norm_num) (by norm_num) (by norm_num))
  have h15 : lit64 45 = 45 :=
    lit64_of_round _ _ (roundF64_pos_mid (45) 45 6333186975989760 (-47) (by norm_num) (by norm_num) (by norm_num) (by norm_num) (by norm_num) (by norm_num) (by norm_num))
  have h16 : lit64 1.465 = (6597773454097777 / 4503599627370496) :=
    lit64_of_round _ _ (roundF64_pos_mid (1.465) (6597773454097777 / 4503599627370496) 6597773454097777 (-52) (by norm_num) (by norm_num) (by norm_num) (by norm_num) (by norm_num) (by norm_num) (by norm_num))
  have h17 : lit64 48 = 48 :=
    lit64_of_round _ _ (roundF64_pos_mid (48) 48 6755399441055744 (-47) (by norm_num) (by norm_num) (by norm_num) (by norm_num) (by norm_num) (by norm_num) (by norm_num))
  have h18 : lit64 1.505 = (1694479359798149 / 1125899906842624) :=
    lit64_of_round _ _ (roundF64_pos_mid (1.505) (1694479359798149 / 1125899906842624) 6777917439192596 (-52) (by norm_num) (by norm_num) (by norm_num) (by norm_num) (by norm_num) (by norm_num) (by norm_num))
  have h19 : lit64 50 = 50 :=
    lit64_of_round _ _ (roundF64_pos_mid (50) 50 7036874417766400 (-47) (by norm_num) (by norm_num) (by norm_num) (by norm_num) (by norm_num) (by norm_num) (by norm_num))
  have h20 : lit64 1.533 = (3452009114379485 / 2251799813685248) :=
    lit64_of_round _ _ (roundF64_pos_mid (1.533) (3452009114379485 / 2251799813685248) 6904018228758970 (-52) (by norm_num) (by norm_num) (by norm_num) (by norm_num) (by norm_num) (by norm_num) (by norm_num))
  have h21 : lit64 51 = 51 :=
    lit64_of_round _ _ (roundF64_pos_mid (51) 51 7177611906121728 (-47) (by norm_num) (by norm_num) (by norm_num) (by norm_num) (by norm_num) (by norm_num) (by norm_num))
  have h22 : lit64 1.547 = (6967068623542157 / 4503599627370496) :=
    lit64_of_round _ _ (roundF64_pos_mid (1.547) (6967068623542157 / 4503599627370496) 6967068623542157 (-52) (by norm_num) (by norm_num) (by norm_num) (by norm_num) (by norm_num) (by norm_num) (by norm_num))
  have h23 : lit64 52 = 52 :=
    lit64_of_round _ _ (roundF64_pos_mid (52) 52 7318349394477056 (-47) (by norm_num) (by norm_num) (by norm_num) (by norm_num) (by norm_num) (by norm_num) (by norm_num))
  have h24 : lit64 1.561 = (219691219322667 / 140737488355328) :=
    lit64_of_round _ _ (roundF64_pos_mid (1.561) (219691219322667 / 140737488355328) 7030119018325344 (-52) (by norm_num) (by norm_num) (by norm_num) (by norm_num) (by norm_num) (by norm_num) (by norm_num))
  have h25 : tableRow 40 = [(0, 1.000), (15, 1.126), (20, 1.175), (25, 1.227), (30, 1.282), (35, 1.340), (40, 1.401), (45, 1.465), (48, 1.505), (50, 1.533), (51, 1.547), (52, 1.561)] :=
    by
      norm_num [tableRow, densityTable, List.find?]
  have h26 : tableRow64 40 = [(0, 1), (15, (2535526590209589 / 2251799813685248)), (20, (5291729562160333 / 4503599627370496)), (25, (5525916742783599 / 4503599627370496)), (30, (360850920143061 / 281474976710656)), (35, (6034823500676465 / 4503599627370496)), (40, (6309543077946065 / 4503599627370496)), (45, (6597773454097777 / 4503599627370496)), (48, (1694479359798149 / 1125899906842624)), (50, (3452009114379485 / 2251799813685248)), (51, (6967068623542157 / 4503599627370496)), (52, (219691219322667 / 140737488355328))] :=
    by
      simp only [tableRow64, row64, h25, List.map_cons, List.map_nil,
        h1, h2, h3, h4, h5, h6, h7, h8, h9, h10, h11, h12, h13, h14, h15, h16, h17, h18, h19, h20, h21, h22, h23, h24]
  have h27 : roundF64 0 = some 0 :=
    roundF64_of_eq_zero (0) (by norm_num)
  have h28 : fsub (2535526590209589 / 2251799813685248) 1 = some (283726776524341 / 2251799813685248) :=
    roundF64_pos_mid ((2535526590209589 / 2251799813685248) - 1) (283726776524341 / 2251799813685248) 4539628424389456 (-55) (by norm_num) (by norm_num) (by norm_num) (by norm_num) (by norm_num) (by norm_num) (by norm_num)
  have h29 : fsub 15 0 = some 15 :=
    roundF64_pos_mid (15 - 0) 15 8444249301319680 (-49) (by norm_num) (by norm_num) (by norm_num) (by norm_num) (by norm_num) (by norm_num) (by norm_num)
  have h30 : fadd 0 15 = some 15 :=
    roundF64_pos_mid (0 + 15) 15 8444249301319680 (-49) (by norm_num) (by norm_num) (by norm_num) (by norm_num) (by norm_num) (by norm_num) (by norm_num)
  have h31 : Seg64 (0, 1) (15, (2535526590209589 / 2251799813685248)) :=
    ⟨by norm_num, h27, (283726776524341 / 2251799813685248), 15, h28, by norm_num, h29, by norm_num, h30⟩
  have h32 : roundF64 15 = some 15 :=
    roundF64_pos_mid (15) 15 8444249301319680 (-49) (by norm_num) (by norm_num) (by norm_num) (by norm_num) (by norm_num) (by norm_num) (by norm_num)
  have h33 : fsub (5291729562160333 / 4503599627370496) (2535526590209589 / 2251799813685248) = some (220676381741155 / 4503599627370496) :=
    roundF64_pos_mid ((5291729562160333 / 4503599627370496) - (2535526590209589 / 2251799813685248)) (220676381741155 / 4503599627370496) 7061644215716960 (-57) (by norm_num) (by norm_num) (by norm_num) (by norm_num) (by norm_num) (by norm_num) (by norm_num)
  have h34 : fsub 20 15 = some 5 :=
    roundF64_pos_mid (20 - 15) 5 5629499534213120 (-50) (by norm_num) (by norm_num) (by norm_num) (by norm_num) (by norm_num) (by norm_num) (by norm_num)
  have h35 : fadd 15 5 = some 20 :=
    roundF64_pos_mid (15 + 5) 20 5629499534213120 (-48) (by norm_num) (by norm_num) (by norm_num) (by norm_num) (by norm_num) (by norm_num) (by norm_num)
  have h36 : Seg64 (15, (2535526590209589 / 2251799813685248)) (20, (5291729562160333 / 4503599627370496)) :=
    ⟨by norm_num, h32, (220676381741155 / 4503599627370496), 5, h33, by norm_num, h34, by norm_num, h35⟩
  have h37 : roundF64 20 = some 20 :=
    roundF64_pos_mid (20) 20 5629499534213120 (-48) (by norm_num) (by norm_num) (by norm_num) (by norm_num) (by norm_num) (by norm_num) (by norm_num)
  have h38 : fsub (5525916742783599 / 4503599627370496) (5291729562160333 / 4503599627370496) = some (117093590311633 / 2251799813685248) :=
    roundF64_pos_mid ((5525916742783599 / 4503599627370496) - (5291729562160333 / 4503599627370496)) (117093590311633 / 2251799813685248) 7493989779944512 (-57) (by norm_num) (by norm_num) (by norm_num) (by norm_num) (by norm_num) (by norm_num) (by norm_num)
  have h39 : fsub 25 20 = some 5 :=
    roundF64_pos_mid (25 - 20) 5 5629499534213120 (-50) (by norm_num) (by norm_num) (by norm_num) (by norm_num) (by norm_num) (by norm_num) (by norm_num)
  have h40 : fadd 20 5 = some 25 :=
    roundF64_pos_mid (20 + 5) 25 7036874417766400 (-48) (by norm_num) (by norm_num) (by norm_num) (by norm_num) (by norm_num) (by norm_num) (by norm_num)
  have h41 : Seg64 (20, (5291729562160333 / 4503599627370496)) (25, (5525916742783599 / 4503599627370496)) :=
    ⟨by norm_num, h37, (117093590311633 / 2251799813685248), 5, h38, by norm_num, h39, by norm_num, h40⟩
  have h42 : roundF64 25 = some 25 :=
    roundF64_pos_mid (25) 25 7036874417766400 (-48) (by norm_num) (by norm_num) (by norm_num) (by norm_num) (by norm_num) (by norm_num) (by norm_num)
  have h43 : fsub (360850920143061 / 281474976710656) (5525916742783599 / 4503599627370496) = some (247697979505377 / 4503599627370496) :=
    roundF64_pos_mid ((360850920143061 / 281474976710656) - (5525916742783599 / 4503599627370496)) (247697979505377 / 4503599627370496) 7926335344172064 (-57) (by norm_num) (by norm_num) (by norm_num) (by norm_num) (by norm_num) (by norm_num) (by norm_num)
  have h44 : fsub 30 25 = some 5 :=
    roundF64_pos_mid (30 - 25) 5 5629499534213120 (-50) (by norm_num) (by norm_num) (by norm_num) (by norm_num) (by norm_num) (by norm_num) (by norm_num)
  have h45 : fadd 25 5 = some 30 :=
    roundF64_pos_mid (25 + 5) 30 8444249301319680 (-48) (by norm_num) (by norm_num) (by norm_num) (by norm_num) (by norm_num) (by norm_num) (by norm_num)
  have h46 : Seg64 (25, (5525916742783599 / 4503599627370496)) (30, (360850920143061 / 281474976710656)) :=
    ⟨by norm_num, h42, (247697979505377 / 4503599627370496), 5, h43, by norm_num, h44, by norm_num, h45⟩
  have h47 : roundF64 30 = some 30 :=
    roundF64_pos_mid (30) 30 8444249301319680 (-48) (by norm_num) (by norm_num) (by norm_num) (by norm_num) (by norm_num) (by norm_num) (by norm_num)
  have h48 : fsub (6034823500676465 / 4503599627370496) (360850920143061 / 281474976710656) = some (261208778387489 / 4503599627370496) :=
    roundF64_pos_mid ((6034823500676465 / 4503599627370496) - (360850920143061 / 281474976710656)) (261208778387489 / 4503599627370496) 8358680908399648 (-57) (by norm_num) (by norm_num) (by norm_num) (by norm_num) (by norm_num) (by norm_num) (by norm_num)
  have h49 : fsub 35 30 = some 5 :=
    roundF64_pos_mid (35 - 30) 5 5629499534213120 (-50) (by norm_num) (by norm_num) (by norm_num) (by norm_num) (by norm_num) (by norm_num) (by norm_num)
  have h50 : fadd 30 5 = some 35 :=
    roundF64_pos_mid (30 + 5) 35 4925812092436480 (-47) (by norm_num) (by norm_num) (by norm_num) (by norm_num) (by norm_num) (by norm_num) (by norm_num)
  have h51 : Seg64 (30, (360850920143061 / 281474976710656)) (35, (6034823500676465 / 4503599627370496)) :=
    ⟨by norm_num, h47, (261208778387489 / 4503599627370496), 5, h48, by norm_num, h49, by norm_num, h50⟩
  have h52 : roundF64 35 = some 35 :=
    roundF64_pos_mid (35) 35 4925812092436480 (-47) (by norm_num) (by norm_num) (by norm_num) (by norm_num) (by norm_num) (by norm_num) (by norm_num)
  have h53 : fsub (6309543077946065 / 4503599627370496) (6034823500676465 / 4503599627370496) = some (8584986789675 / 140737488355328) :=
    roundF64_pos_mid ((6309543077946065 / 4503599627370496) - (6034823500676465 / 4503599627370496)) (8584986789675 / 140737488355328) 8791026472627200 (-57) (by norm_num) (by norm_num) (by norm_num) (by norm_num) (by norm_num) (by norm_num) (by norm_num)
  have h54 : fsub 40 35 = some 5 :=
    roundF64_pos_mid (40 - 35) 5 5629499534213120 (-50) (by norm_num) (by norm_num) (by norm_num) (by norm_num) (by norm_num) (by norm_num) (by norm_num)
  have h55 : fadd 35 5 = some 40 :=
    roundF64_pos_mid (35 + 5) 40 5629499534213120 (-47) (by norm_num) (by norm_num) (by norm_num) (by norm_num) (by norm_num) (by norm_num) (by norm_num)
  have h56 : Seg64 (35, (6034823500676465 / 4503599627370496)) (40, (6309543077946065 / 4503599627370496)) :=
    ⟨by norm_num, h52, (8584986789675 / 140737488355328), 5, h53, by norm_num, h54, by norm_num, h55⟩
  have h57 : roundF64 40 = some 40 :=
    roundF64_pos_mid (40) 40 5629499534213120 (-47) (by norm_num) (by norm_num) (by norm_num) (by norm_num) (by norm_num) (by norm_num) (by norm_num)
  have h58 : fsub (6597773454097777 / 4503599627370496) (6309543077946065 / 4503599627370496) = some (9007199254741 / 140737488355328) :=
    roundF64_pos_mid ((6597773454097777 / 4503599627370496) - (6309543077946065 / 4503599627370496)) (9007199254741 / 140737488355328) 4611686018427392 (-56) (by norm_num) (by norm_num) (by norm_num) (by norm_num) (by norm_num) (by norm_num) (by norm_num)
  have h59 : fsub 45 40 = some 5 :=
    roundF64_pos_mid (45 - 40) 5 5629499534213120 (-50) (by norm_num) (by norm_num) (by norm_num) (by norm_num) (by norm_num) (by norm_num) (by norm_num)
  have h60 : fadd 40 5 = some 45 :=
    roundF64_pos_mid (40 + 5) 45 6333186975989760 (-47) (by norm_num) (by norm_num) (by norm_num) (by norm_num) (by norm_num) (by norm_num) (by norm_num)
  have h61 : Seg64 (40, (6309543077946065 / 4503599627370496)) (45, (6597773454097777 / 4503599627370496)) :=
    ⟨by norm_num, h57, (9007199254741 / 140737488355328), 5, h58, by norm_num, h59, by norm_num, h60⟩
  have h62 : roundF64 45 = some 45 :=
    roundF64_pos_mid (45) 45 6333186975989760 (-47) (by norm_num) (by norm_num) (by norm_num) (by norm_num) (by norm_num) (by norm_num) (by norm_num)
  have h63 : fsub (1694479359798149 / 1125899906842624) (6597773454097777 / 4503599627370496) = some (180143985094819 / 4503599627370496) :=
    roundF64_pos_mid ((1694479359798149 / 1125899906842624) - (6597773454097777 / 4503599627370496)) (180143985094819 / 4503599627370496) 5764607523034208 (-57) (by norm_num) (by norm_num) (by norm_num) (by norm_num) (by norm_num) (by norm_num) (by norm_num)
  have h64 : fsub 48 45 = some 3 :=
    roundF64_pos_mid (48 - 45) 3 6755399441055744 (-51) (by norm_num) (by norm_num) (by norm_num) (by norm_num) (by norm_num) (by norm_num) (by norm_num)
  have h65 : fadd 45 3 = some 48 :=
    roundF64_pos_mid (45 + 3) 48 6755399441055744 (-47) (by norm_num) (by norm_num) (by norm_num) (by norm_num) (by norm_num) (by norm_num) (by norm_num)
  have h66 : Seg64 (45, (6597773454097777 / 4503599627370496)) (48, (1694479359798149 / 1125899906842624)) :=
    ⟨by norm_num, h62, (180143985094819 / 4503599627370496), 3, h63, by norm_num, h64, by norm_num, h65⟩
  have h67 : roundF64 48 = some 48 :=
    roundF64_pos_mid (48) 48 6755399441055744 (-47) (by norm_num) (by norm_num) (by norm_num) (by norm_num) (by norm_num) (by norm_num) (by norm_num)
  have h68 : fsub (3452009114379485 / 2251799813685248) (1694479359798149 / 1125899906842624) = some (63050394783187 / 2251799813685248) :=
    roundF64_pos_mid ((3452009114379485 / 2251799813685248) - (1694479359798149 / 1125899906842624)) (63050394783187 / 2251799813685248) 8070450532247936 (-58) (by norm_num) (by norm_num) (by norm_num) (by norm_num) (by norm_num) (by norm_num) (by norm_num)
  have h69 : fsub 50 48 = some 2 :=
    roundF64_pos (50 - 48) 2 4503599627370496 (-51) (by norm_num) (by norm_num) (by norm_num) (by norm_num) (by norm_num) (by norm_num) (by norm_num)
  have h70 : fadd 48 2 = some 50 :=
    roundF64_pos_mid (48 + 2) 50 7036874417766400 (-47) (by norm_num) (by norm_num) (by norm_num) (by norm_num) (by norm_num) (by norm_num) (by norm_num)
  have h71 : Seg64 (48, (1694479359798149 / 1125899906842624)) (50, (3452009114379485 / 2251799813685248)) :=
    ⟨by norm_num, h67, (63050394783187 / 2251799813685248), 2, h68, by norm_num, h69, by norm_num, h70⟩
  have h72 : roundF64 50 = some 50 :=
    roundF64_pos_mid (50) 50 7036874417766400 (-47) (by norm_num) (by norm_num) (by norm_num) (by norm_num) (by norm_num) (by norm_num) (by norm_num)
  have h73 : fsub (6967068623542157 / 4503599627370496) (3452009114379485 / 2251799813685248) = some (63050394783187 / 4503599627370496) :=
    roundF64_pos_mid ((6967068623542157 / 4503599627370496) - (3452009114379485 / 2251799813685248)) (63050394783187 / 4503599627370496) 8070450532247936 (-59) (by norm_num) (by norm_num) (by norm_num) (by norm_num) (by norm_num) (by norm_num) (by norm_num)
  have h74 : fsub 51 50 = some 1 :=
    roundF64_pos (51 - 50) 1 4503599627370496 (-52) (by norm_num) (by norm_num) (by norm_num) (by norm_num) (by norm_num) (by norm_num) (by norm_num)
  have h75 : fadd 50 1 = some 51 :=
    roundF64_pos_mid (50 + 1) 51 7177611906121728 (-47) (by norm_num) (by norm_num) (by norm_num) (by norm_num) (by norm_num) (by norm_num) (by norm_num)
  have h76 : Seg64 (50, (3452009114379485 / 2251799813685248)) (51, (6967068623542157 / 4503599627370496)) :=
    ⟨by norm_num, h72, (63050394783187 / 4503599627370496), 1, h73, by norm_num, h74, by norm_num, h75⟩
  have h77 : roundF64 51 = some 51 :=
    roundF64_pos_mid (51) 51 7177611906121728 (-47) (by norm_num) (by norm_num) (by norm_num) (by norm_num) (by norm_num) (by norm_num) (by norm_num)
  have h78 : fsub (219691219322667 / 140737488355328) (6967068623542157 / 4503599627370496) = some (63050394783187 / 4503599627370496) :=
    roundF64_pos_mid ((219691219322667 / 140737488355328) - (6967068623542157 / 4503599627370496)) (63050394783187 / 4503599627370496) 8070450532247936 (-59) (by norm_num) (by norm_num) (by norm_num) (by norm_num) (by norm_num) (by norm_num) (by norm_num)
  have h79 : fsub 52 51 = some 1 :=
    roundF64_pos (52 - 51) 1 4503599627370496 (-52) (by norm_num) (by norm_num) (by norm_num) (by norm_num) (by norm_num) (by norm_num) (by norm_num)
  have h80 : fadd 51 1 = some 52 :=
    roundF64_pos_mid (51 + 1) 52 7318349394477056 (-47) (by norm_num) (by norm_num) (by norm_num) (by norm_num) (by norm_num) (by norm_num) (by norm_num)
  have h81 : Seg64 (51, (6967068623542157 / 4503599627370496)) (52, (219691219322667 / 140737488355328)) :=
    ⟨by norm_num, h77, (63050394783187 / 4503599627370496), 1, h78, by norm_num, h79, by norm_num, h80⟩
  refine ⟨h26, ?_⟩
  rw [h26]
  exact List.Chain'.cons h31 (List.Chain'.cons h36 (List.Chain'.cons h41 (List.Chain'.cons h46 (List.Chain'.cons h51 (List.Chain'.cons h56 (List.Chain'.cons h61 (List.Chain'.cons h66 (List.Chain'.cons h71 (List.Chain'.cons h76 (List.Chain'.cons h81 (List.chain'_singleton _)))))))))))

/-- The row of 50 ℃ in binary64, and all of its segments close. -/
theorem row64_50 :
    tableRow64 50 = [(0, 1), (20, (5224175567749775 / 4503599627370496)), (25, (1362338887279575 / 1125899906842624)), (30, (711005791171117 / 562949953421312)), (35, (1485061977125421 / 1125899906842624)), (40, (6205960286516543 / 4503599627370496)), (45, (3242591731706757 / 2251799813685248)), (48, (6656320249253593 / 4503599627370496)), (50, (1694479359798149 / 1125899906842624)), (51, (6840967833975783 / 4503599627370496)), (52, (3452009114379485 / 2251799813685248))] ∧
      List.Chain' Seg64 (tableRow64 50) := by
  have h1 : lit64 0 = 0 :=
    lit64_of_round _ _ (roundF64_of_eq_zero (0) (by norm_num))
  have h2 : lit64 1.000 = 1 :=
    lit64_of_round _ _ (roundF64_pos (1.000) 1 4503599627370496 (-52) (by norm_num) (by norm_num) (by norm_num) (by norm_num) (by norm_num) (by norm_num) (by norm_num))
  have h3 : lit64 20 = 20 :=
    lit64_of_round _ _ (roundF64_pos_mid (20) 20 5629499534213120 (-48) (by norm_num) (by norm_num) (by norm_num) (by norm_num) (by norm_num) (by norm_num) (by norm_num))
  have h4 : lit64 1.160 = (5224175567749775 / 4503599627370496) :=
    lit64_of_round _ _ (roundF64_pos_mid (1.160) (5224175567749775 / 4503599627370496) 5224175567749775 (-52) (by norm_num) (by norm_num) (by norm_num) (by norm_num) (by norm_num) (by norm_num) (by norm_num))
  have h5 : lit64 25 = 25 :=
    lit64_of_round _ _ (roundF64_pos_mid (25) 25 7036874417766400 (-48) (by norm_num) (by norm_num) (by norm_num) (by norm_num) (by norm_num) (by norm_num) (by norm_num))
  have h6 : lit64 1.210 = (1362338887279575 / 1125899906842624) :=
    lit64_of_round _ _ (roundF64_pos_mid (1.210) (1362338887279575 / 1125899906842624) 5449355549118300 (-52) (by norm_num) (by norm_num) (by norm_num) (by norm_num) (by norm_num) (by norm_num) (by norm_num))
  have h7 : lit64 30 = 30 :=
    lit64_of_round _ _ (roundF64_pos_mid (30) 30 8444249301319680 (-48) (by norm_num) (by norm_num) (by norm_num) (by norm_num) (by norm_num) (by norm_num) (by norm_num))
  have h8 : lit64 1.263 = (711005791171117 / 562949953421312) :=
    lit64_of_round _ _ (roundF64_pos_mid (1.263) (711005791171117 / 562949953421312) 5688046329368936 (-52) (by norm_num) (by norm_num) (by norm_num) (by norm_num) (by norm_num) (by norm_num) (by norm_num))
  have h9 : lit64 35 = 35 :=
    lit64_of_round _ _ (roundF64_pos_mid (35) 35 4925812092436480 (-47) (by norm_num) (by norm_num) (by norm_num) (by norm_num) (by norm_num) (by norm_num) (by norm_num))
  have h10 : lit64 1.319 = (1485061977125421 / 1125899906842624) :=
    lit64_of_round _ _ (roundF64_pos_mid (1.319) (1485061977125421 / 1125899906842624) 5940247908501684 (-52) (by norm_num) (by norm_num) (by norm_num) (by norm_num) (by norm_num) (by norm_num) (by norm_num))
  have h11 : lit64 40 = 40 :=
    lit64_of_round _ _ (roundF64_pos_mid (40) 40 5629499534213120 (-47) (by norm_num) (by norm_num) (by norm_num) (by norm_num) (by norm_num) (by norm_num) (by norm_num))
  have h12 : lit64 1.378 = (6205960286516543 / 4503599627370496) :=
    lit64_of_round _ _ (roundF64_pos_mid (1.378) (6205960286516543 / 4503599627370496) 6205960286516543 (-52) (by norm_num) (by norm_num) (by norm_num) (by norm_num) (by norm_num) (by norm_num) (by norm_num))
  have h13 : lit64 45 = 45 :=
    lit64_of_round _ _ (roundF64_pos_mid (45) 45 6333186975989760 (-47) (by norm_num) (by norm_num) (by norm_num) (by norm_num) (by norm_num) (by norm_num) (by norm_num))
  have h14 : lit64 1.440 = (3242591731706757 / 2251799813685248) :=
    lit64_of_round _ _ (roundF64_pos_mid (1.440) (3242591731706757 / 2251799813685248) 6485183463413514 (-52) (by norm_num) (by norm_num) (by norm_num) (by norm_num) (by norm_num) (by norm_num) (by norm_num))
  have h15 : lit64 48 = 48 :=
    lit64_of_round _ _ (roundF64_pos_mid (48) 48 6755399441055744 (-47) (by norm_num) (by norm_num) (by norm_num) (by norm_num) (by norm_num) (by norm_num) (by norm_num))
  have h16 : lit64 1.478 = (6656320249253593 / 4503599627370496) :=
    lit64_of_round _ _ (roundF64_pos_mid (1.478) (6656320249253593 / 4503599627370496) 6656320249253593 (-52) (by norm_num) (by norm_num) (by norm_num) (by norm_num) (by norm_num) (by norm_num) (by norm_num))
  have h17 : lit64 50 = 50 :=
    lit64_of_round _ _ (roundF64_pos_mid (50) 50 7036874417766400 (-47) (by norm_num) (by norm_num) (by norm_num) (by norm_num) (by norm_num) (by norm_num) (by norm_num))
  have h18 : lit64 1.505 = (1694479359798149 / 1125899906842624) :=
    lit64_of_round _ _ (roundF64_pos_mid (1.505) (1694479359798149 / 1125899906842624) 6777917439192596 (-52) (by norm_num) (by norm_num) (by norm_num) (by norm_num) (by norm_num) (by norm_num) (by norm_num))
  have h19 : lit64 51 = 51 :=
    lit64_of_round _ _ (roundF64_pos_mid (51) 51 7177611906121728 (-47) (by norm_num) (by norm_num) (by norm_num) (by norm_num) (by norm_num) (by norm_num) (by norm_num))
  have h20 : lit64 1.519 = (6840967833975783 / 4503599627370496) :=
    lit64_of_round _ _ (roundF64_pos_mid (1.519) (6840967833975783 / 4503599627370496) 6840967833975783 (-52) (by norm_num) (by norm_num) (by norm_num) (by norm_num) (by norm_num) (by norm_num) (by norm_num))
  have h21 : lit64 52 = 52 :=
    lit64_of_round _ _ (roundF64_pos_mid (52) 52 7318349394477056 (-47) (by norm_num) (by norm_num) (by norm_num) (by norm_num) (by norm_num) (by norm_num) (by norm_num))
  have h22 : lit64 1.533 = (3452009114379485 / 2251799813685248) :=
    lit64_of_round _ _ (roundF64_pos_mid (1.533) (3452009114379485 / 2251799813685248) 6904018228758970 (-52) (by norm_num) (by norm_num) (by norm_num) (by norm_num) (by norm_num) (by norm_num) (by norm_num))
  have h23 : tableRow 50 = [(0, 1.000), (20, 1.160), (25, 1.210), (30, 1.263), (35, 1.319), (40, 1.378), (45, 1.440), (48, 1.478), (50, 1.505), (51, 1.519), (52, 1.533)] :=
    by
      norm_num [tableRow, densityTable, List.find?]
  have h24 : tableRow64 50 = [(0, 1), (20, (5224175567749775 / 4503599627370496)), (25, (1362338887279575 / 1125899906842624)), (30, (711005791171117 / 562949953421312)), (35, (1485061977125421 / 1125899906842624)), (40, (6205960286516543 / 4503599627370496)), (45, (3242591731706757 / 2251799813685248)), (48, (6656320249253593 / 4503599627370496)), (50, (1694479359798149 / 1125899906842624)), (51, (6840967833975783 / 4503599627370496)), (52, (3452009114379485 / 2251799813685248))] :=
    by
      simp only [tableRow64, row64, h23, List.map_cons, List.map_nil,
        h1, h2, h3, h4, h5, h6, h7, h8, h9, h10, h11, h12, h13, h14, h15, h16, h17, h18, h19, h20, h21, h22]
  have h25 : roundF64 0 = some 0 :=
    roundF64_of_eq_zero (0) (by norm_num)
  have h26 : fsub (5224175567749775 / 4503599627370496) 1 = some (720575940379279 / 4503599627370496) :=
    roundF64_pos_mid ((5224175567749775 / 4503599627370496) - 1) (720575940379279 / 4503599627370496) 5764607523034232 (-55) (by norm_num) (by norm_num) (by norm_num) (by norm_num) (by norm_num) (by norm_num) (by norm_num)
  have h27 : fsub 20 0 = some 20 :=
    roundF64_pos_mid (20 - 0) 20 5629499534213120 (-48) (by norm_num) (by norm_num) (by norm_num) (by norm_num) (by norm_num) (by norm_num) (by norm_num)
  have h28 : fadd 0 20 = some 20 :=
    roundF64_pos_mid (0 + 20) 20 5629499534213120 (-48) (by norm_num) (by norm_num) (by norm_num) (by norm_num) (by norm_num) (by norm_num) (by norm_num)
  have h29 : Seg64 (0, 1) (20, (5224175567749775 / 4503599627370496)) :=
    ⟨by norm_num, h25, (720575940379279 / 4503599627370496), 20, h26, by norm_num, h27, by norm_num, h28⟩
  have h30 : roundF64 20 = some 20 :=
    roundF64_pos_mid (20) 20 5629499534213120 (-48) (by norm_num) (by norm_num) (by norm_num) (by norm_num) (by norm_num) (by norm_num) (by norm_num)
  have h31 : fsub (1362338887279575 / 1125899906842624) (5224175567749775 / 4503599627370496) = some (225179981368525 / 4503599627370496) :=
    roundF64_pos_mid ((1362338887279575 / 1125899906842624) - (5224175567749775 / 4503599627370496)) (225179981368525 / 4503599627370496) 7205759403792800 (-57) (by norm_num) (by norm_num) (by norm_num) (by norm_num) (by norm_num) (by norm_num) (by norm_num)
  have h32 : fsub 25 20 = some 5 :=
    roundF64_pos_mid (25 - 20) 5 5629499534213120 (-50) (by norm_num) (by norm_num) (by norm_num) (by norm_num) (by norm_num) (by norm_num) (by norm_num)
  have h33 : fadd 20 5 = some 25 :=
    roundF64_pos_mid (20 + 5) 25 7036874417766400 (-48) (by norm_num) (by norm_num) (by norm_num) (by norm_num) (by norm_num) (by norm_num) (by norm_num)
  have h34 : Seg64 (20, (5224175567749775 / 4503599627370496)) (25, (1362338887279575 / 1125899906842624)) :=
    ⟨by norm_num, h30, (225179981368525 / 4503599627370496), 5, h31, by norm_num, h32, by norm_num, h33⟩
  have h35 : roundF64 25 = some 25 :=
    roundF64_pos_mid (25) 25 7036874417766400 (-48) (by norm_num) (by norm_num) (by norm_num) (by norm_num) (by norm_num) (by norm_num) (by norm_num)
  have h36 : fsub (711005791171117 / 562949953421312) (1362338887279575 / 1125899906842624) = some (59672695062659 / 1125899906842624) :=
    roundF64_pos_mid ((711005791171117 / 562949953421312) - (1362338887279575 / 1125899906842624)) (59672695062659 / 1125899906842624) 7638104968020352 (-57) (by norm_num) (by norm_num) (by norm_num) (by norm_num) (by norm_num) (by norm_num) (by norm_num)
  have h37 : fsub 30 25 = some 5 :=
    roundF64_pos_mid (30 - 25) 5 5629499534213120 (-50) (by norm_num) (by norm_num) (by norm_num) (by norm_num) (by norm_num) (by norm_num) (by norm_num)
  have h38 : fadd 25 5 = some 30 :=
    roundF64_pos_mid (25 + 5) 30 8444249301319680 (-48) (by norm_num) (by norm_num) (by norm_num) (by norm_num) (by norm_num) (by norm_num) (by norm_num)
  have h39 : Seg64 (25, (1362338887279575 / 1125899906842624)) (30, (711005791171117 / 562949953421312)) :=
    ⟨by norm_num, h35, (59672695062659 / 1125899906842624), 5, h36, by norm_num, h37, by norm_num, h38⟩
  have h40 : roundF64 30 = some 30 :=
    roundF64_pos_mid (30) 30 8444249301319680 (-48) (by norm_num) (by norm_num) (by norm_num) (by norm_num) (by norm_num) (by norm_num) (by norm_num)
  have h41 : fsub (1485061977125421 / 1125899906842624) (711005791171117 / 562949953421312) = some (63050394783187 / 1125899906842624) :=
    roundF64_pos_mid ((1485061977125421 / 1125899906842624) - (711005791171117 / 562949953421312)) (63050394783187 / 1125899906842624) 8070450532247936 (-57) (by norm_num) (by norm_num) (by norm_num) (by norm_num) (by norm_num) (by norm_num) (by norm_num)
  have h42 : fsub 35 30 = some 5 :=
    roundF64_pos_mid (35 - 30) 5 5629499534213120 (-50) (by norm_num) (by norm_num) (by norm_num) (by norm_num) (by norm_num) (by norm_num) (by norm_num)
  have h43 : fadd 30 5 = some 35 :=
    roundF64_pos_mid (30 + 5) 35 4925812092436480 (-47) (by norm_num) (by norm_num) (by norm_num) (by norm_num) (by norm_num) (by norm_num) (by norm_num)
  have h44 : Seg64 (30, (711005791171117 / 562949953421312)) (35, (1485061977125421 / 1125899906842624)) :=
    ⟨by norm_num, h40, (63050394783187 / 1125899906842624), 5, h41, by norm_num, h42, by norm_num, h43⟩
  have h45 : roundF64 35 = some 35 :=
    roundF64_pos_mid (35) 35 4925812092436480 (-47) (by norm_num) (by norm_num) (by norm_num) (by norm_num) (by norm_num) (by norm_num) (by norm_num)
  have h46 : fsub (6205960286516543 / 4503599627370496) (1485061977125421 / 1125899906842624) = some (265712378014859 / 4503599627370496) :=
    roundF64_pos_mid ((6205960286516543 / 4503599627370496) - (1485061977125421 / 1125899906842624)) (265712378014859 / 4503599627370496) 8502796096475488 (-57) (by norm_num) (by norm_num) (by norm_num) (by norm_num) (by norm_num) (by norm_num) (by norm_num)
  have h47 : fsub 40 35 = some 5 :=
    roundF64_pos_mid (40 - 35) 5 5629499534213120 (-50) (by norm_num) (by norm_num) (by norm_num) (by norm_num) (by norm_num) (by norm_num) (by norm_num)
  have h48 : fadd 35 5 = some 40 :=
    roundF64_pos_mid (35 + 5) 40 5629499534213120 (-47) (by norm_num) (by norm_num) (by norm_num) (by norm_num) (by norm_num) (by norm_num) (by norm_num)
  have h49 : Seg64 (35, (1485061977125421 / 1125899906842624)) (40, (6205960286516543 / 4503599627370496)) :=
    ⟨by norm_num, h45, (265712378014859 / 4503599627370496), 5, h46, by norm_num, h47, by norm_num, h48⟩
  have h50 : roundF64 40 = some 40 :=
    roundF64_pos_mid (40) 40 5629499534213120 (-47) (by norm_num) (by norm_num) (by norm_num) (by norm_num) (by norm_num) (by norm_num) (by norm_num)
  have h51 : fsub (3242591731706757 / 2251799813685248) (6205960286516543 / 4503599627370496) = some (279223176896971 / 4503599627370496) :=
    roundF64_pos_mid ((3242591731706757 / 2251799813685248) - (6205960286516543 / 4503599627370496)) (279223176896971 / 4503599627370496) 8935141660703072 (-57) (by norm_num) (by norm_num) (by norm_num) (by norm_num) (by norm_num) (by norm_num) (by norm_num)
  have h52 : fsub 45 40 = some 5 :=
    roundF64_pos_mid (45 - 40) 5 5629499534213120 (-50) (by norm_num) (by norm_num) (by norm_num) (by norm_num) (by norm_num) (by norm_num) (by norm_num)
  have h53 : fadd 40 5 = some 45 :=
    roundF64_pos_mid (40 + 5) 45 6333186975989760 (-47) (by norm_num) (by norm_num) (by norm_num) (by norm_num) (by norm_num) (by norm_num) (by norm_num)
  have h54 : Seg64 (40, (6205960286516543 / 4503599627370496)) (45, (3242591731706757 / 2251799813685248)) :=
    ⟨by norm_num, h50, (279223176896971 / 4503599627370496), 5, h51, by norm_num, h52, by norm_num, h53⟩
  have h55 : roundF64 45 = some 45 :=
    roundF64_pos_mid (45) 45 6333186975989760 (-47) (by norm_num) (by norm_num) (by norm_num) (by norm_num) (by norm_num) (by norm_num) (by norm_num)
  have h56 : fsub (6656320249253593 / 4503599627370496) (3242591731706757 / 2251799813685248) = some (171136785840079 / 4503599627370496) :=
    roundF64_pos_mid ((6656320249253593 / 4503599627370496) - (3242591731706757 / 2251799813685248)) (171136785840079 / 4503599627370496) 5476377146882528 (-57) (by norm_num) (by norm_num) (by norm_num) (by norm_num) (by norm_num) (by norm_num) (by norm_num)
  have h57 : fsub 48 45 = some 3 :=
    roundF64_pos_mid (48 - 45) 3 6755399441055744 (-51) (by norm_num) (by norm_num) (by norm_num) (by norm_num) (by norm_num) (by norm_num) (by norm_num)
  have h58 : fadd 45 3 = some 48 :=
    roundF64_pos_mid (45 + 3) 48 6755399441055744 (-47) (by norm_num) (by norm_num) (by norm_num) (by norm_num) (by norm_num) (by norm_num) (by norm_num)
  have h59 : Seg64 (45, (3242591731706757 / 2251799813685248)) (48, (6656320249253593 / 4503599627370496)) :=
    ⟨by norm_num, h55, (171136785840079 / 4503599627370496), 3, h56, by norm_num, h57, by norm_num, h58⟩
  have h60 : roundF64 48 = some 48 :=
    roundF64_pos_mid (48) 48 6755399441055744 (-47) (by norm_num) (by norm_num) (by norm_num) (by norm_num) (by norm_num) (by norm_num) (by norm_num)
  have h61 : fsub (1694479359798149 / 1125899906842624) (6656320249253593 / 4503599627370496) = some (121597189939003 / 4503599627370496) :=
    roundF64_pos_mid ((1694479359798149 / 1125899906842624) - (6656320249253593 / 4503599627370496)) (121597189939003 / 4503599627370496) 7782220156096192 (-58) (by norm_num) (by norm_num) (by norm_num) (by norm_num) (by norm_num) (by norm_num) (by norm_num)
  have h62 : fsub 50 48 = some 2 :=
    roundF64_pos (50 - 48) 2 4503599627370496 (-51) (by norm_num) (by norm_num) (by norm_num) (by norm_num) (by norm_num) (by norm_num) (by norm_num)
  have h63 : fadd 48 2 = some 50 :=
    roundF64_pos_mid (48 + 2) 50 7036874417766400 (-47) (by norm_num) (by norm_num) (by norm_num) (by norm_num) (by norm_num) (by norm_num) (by norm_num)
  have h64 : Seg64 (48, (6656320249253593 / 4503599627370496)) (50, (1694479359798149 / 1125899906842624)) :=
    ⟨by norm_num, h60, (121597189939003 / 4503599627370496), 2, h61, by norm_num, h62, by norm_num, h63⟩
  have h65 : roundF64 50 = some 50 :=
    roundF64_pos_mid (50) 50 7036874417766400 (-47) (by norm_num) (by norm_num) (by norm_num) (by norm_num) (by norm_num) (by norm_num) (by norm_num)
  have h66 : fsub (6840967833975783 / 4503599627370496) (1694479359798149 / 1125899906842624) = some (63050394783187 / 4503599627370496) :=
    roundF64_pos_mid ((6840967833975783 / 4503599627370496) - (1694479359798149 / 1125899906842624)) (63050394783187 / 4503599627370496) 8070450532247936 (-59) (by norm_num) (by norm_num) (by norm_num) (by norm_num) (by norm_num) (by norm_num) (by norm_num)
  have h67 : fsub 51 50 = some 1 :=
    roundF64_pos (51 - 50) 1 4503599627370496 (-52) (by norm_num) (by norm_num) (by norm_num) (by norm_num) (by norm_num) (by norm_num) (by norm_num)
  have h68 : fadd 50 1 = some 51 :=
    roundF64_pos_mid (50 + 1) 51 7177611906121728 (-47) (by norm_num) (by norm_num) (by norm_num) (by norm_num) (by norm_num) (by norm_num) (by norm_num)
  have h69 : Seg64 (50, (1694479359798149 / 1125899906842624)) (51, (6840967833975783 / 4503599627370496)) :=
    ⟨by norm_num, h65, (63050394783187 / 4503599627370496), 1, h66, by norm_num, h67, by norm_num, h68⟩
  have h70 : roundF64 51 = some 51 :=
    roundF64_pos_mid (51) 51 7177611906121728 (-47) (by norm_num) (by norm_num) (by norm_num) (by norm_num) (by norm_num) (by norm_num) (by norm_num)
  have h71 : fsub (3452009114379485 / 2251799813685248) (6840967833975783 / 4503599627370496) = some (63050394783187 / 4503599627370496) :=
    roundF64_pos_mid ((3452009114379485 / 2251799813685248) - (6840967833975783 / 4503599627370496)) (63050394783187 / 4503599627370496) 8070450532247936 (-59) (by norm_num) (by norm_num) (by norm_num) (by norm_num) (by norm_num) (by norm_num) (by norm_num)
  have h72 : fsub 52 51 = some 1 :=
    roundF64_pos (52 - 51) 1 4503599627370496 (-52) (by norm_num) (by norm_num) (by norm_num) (by norm_num) (by norm_num) (by norm_num) (by norm_num)
  have h73 : fadd 51 1 = some 52 :=
    roundF64_pos_mid (51 + 1) 52 7318349394477056 (-47) (by norm_num) (by norm_num) (by norm_num) (by norm_num) (by norm_num) (by norm_num) (by norm_num)
  have h74 : Seg64 (51, (6840967833975783 / 4503599627370496)) (52, (3452009114379485 / 2251799813685248)) :=
    ⟨by norm_num, h70, (63050394783187 / 4503599627370496), 1, h71, by norm_num, h72, by norm_num, h73⟩
  refine ⟨h24, ?_⟩
  rw [h24]
  exact List.Chain'.cons h29 (List.Chain'.cons h34 (List.Chain'.cons h39 (List.Chain'.cons h44 (List.Chain'.cons h49 (List.Chain'.cons h54 (List.Chain'.cons h59 (List.Chain'.cons h64 (List.Chain'.cons h69 (List.Chain'.cons h74 (List.chain'_singleton _))))))))))

/-- The row of 55 ℃ in binary64, and all of its segments close. -/
theorem row64_55 :
    tableRow64 55 = [(0, 1), (30, (5615988735331009 / 4503599627370496)), (34, (5823154318190051 / 4503599627370496)), (38, (6057341498813317 / 4503599627370496)), (42, (3152519739159347 / 2251799813685248)), (46, (6566248256706183 / 4503599627370496)), (49, (3 / 2)), (50, (6822953435466301 / 4503599627370496)), (51, (6890507429876859 / 4503599627370496)), ((3645100948402995 / 70368744177664), (1733885856537641 / 1125899906842624))] ∧
      List.Chain' Seg64 (tableRow64 55) := by
  have h1 : lit64 0 = 0 :=
    lit64_of_round _ _ (roundF64_of_eq_zero (0) (by norm_num))
  have h2 : lit64 1.000 = 1 :=
    lit64_of_round _ _ (roundF64_pos (1.000) 1 4503599627370496 (-52) (by norm_num) (by norm_num) (by norm_num) (by norm_num) (by norm_num) (by norm_num) (by norm_num))
  have h3 : lit64 30 = 30 :=
    lit64_of_round _ _ (roundF64_pos_mid (30) 30 8444249301319680 (-48) (by norm_num) (by norm_num) (by norm_num) (by norm_num) (by norm_num) (by norm_num) (by norm_num))
  have h4 : lit64 1.247 = (5615988735331009 / 4503599627370496) :=
    lit64_of_round _ _ (roundF64_pos_mid (1.247) (5615988735331009 / 4503599627370496) 5615988735331009 (-52) (by norm_num) (by norm_num) (by norm_num) (by norm_num) (by norm_num) (by norm_num) (by norm_num))
  have h5 : lit64 34 = 34 :=
    lit64_of_round _ _ (roundF64_pos_mid (34) 34 4785074604081152 (-47) (by norm_num) (by norm_num) (by norm_num) (by norm_num) (by norm_num) (by norm_num) (by norm_num))
  have h6 : lit64 1.293 = (5823154318190051 / 4503599627370496) :=
    lit64_of_round _ _ (roundF64_pos_mid (1.293) (5823154318190051 / 4503599627370496) 5823154318190051 (-52) (by norm_num) (by norm_num) (by norm_num) (by norm_num) (by norm_num) (by norm_num) (by norm_num))
  have h7 : lit64 38 = 38 :=
    lit64_of_round _ _ (roundF64_pos_mid (38) 38 5348024557502464 (-47) (by norm_num) (by norm_num) (by norm_num) (by norm_num) (by norm_num) (by norm_num) (by norm_num))
  have h8 : lit64 1.345 = (6057341498813317 / 4503599627370496) :=
    lit64_of_round _ _ (roundF64_pos_mid (1.345) (6057341498813317 / 4503599627370496) 6057341498813317 (-52) (by norm_num) (by norm_num) (by norm_num) (by norm_num) (by norm_num) (by norm_num) (by norm_num))
  have h9 : lit64 42 = 42 :=
    lit64_of_round _ _ (roundF64_pos_mid (42) 42 5910974510923776 (-47) (by norm_num) (by norm_num) (by norm_num) (by norm_num) (by norm_num) (by norm_num) (by norm_num))
  have h10 : lit64 1.400 = (3152519739159347 / 2251799813685248) :=
    lit64_of_round _ _ (roundF64_pos_mid (1.400) (3152519739159347 / 2251799813685248) 6305039478318694 (-52) (by norm_num) (by norm_num) (by norm_num) (by norm_num) (by norm_num) (by norm_num) (by norm_num))
  have h11 : lit64 46 = 46 :=
    lit64_of_round _ _ (roundF64_pos_mid (46) 46 6473924464345088 (-47) (by norm_num) (by norm_num) (by norm_num) (by norm_num) (by norm_num) (by norm_num) (by norm_num))
  have h12 : lit64 1.458 = (6566248256706183 / 4503599627370496) :=
    lit64_of_round _ _ (roundF64_pos_mid (1.458) (6566248256706183 / 4503599627370496) 6566248256706183 (-52) (by norm_num) (by norm_num) (by norm_num) (by norm_num) (by norm_num) (by norm_num) (by norm_num))
  have h13 : lit64 49 = 49 :=
    lit64_of_round _ _ (roundF64_pos_mid (49) 49 6896136929411072 (-47) (by norm_num) (by norm_num) (by norm_num) (by norm_num) (by norm_num) (by norm_num) (by norm_num))
  have h14 : lit64 1.500 = (3 / 2) :=
    lit64_of_round _ _ (roundF64_pos_mid (1.500) (3 / 2) 6755399441055744 (-52) (by norm_num) (by norm_num) (by norm_num) (by norm_num) (by norm_num) (by norm_num) (by norm_num))
  have h15 : lit64 50 = 50 :=
    lit64_of_round _ _ (roundF64_pos_mid (50) 50 7036874417766400 (-47) (by norm_num) (by norm_num) (by norm_num) (by norm_num) (by norm_num) (by norm_num) (by norm_num))
  have h16 : lit64 1.515 = (6822953435466301 / 4503599627370496) :=
    lit64_of_round _ _ (roundF64_pos_mid (1.515) (6822953435466301 / 4503599627370496) 6822953435466301 (-52) (by norm_num) (by norm_num) (by norm_num) (by norm_num) (by norm_num) (by norm_num) (by norm_num))
  have h17 : lit64 51 = 51 :=
    lit64_of_round _ _ (roundF64_pos_mid (51) 51 7177611906121728 (-47) (by norm_num) (by norm_num) (by norm_num) (by norm_num) (by norm_num) (by norm_num) (by norm_num))
  have h18 : lit64 1.530 = (6890507429876859 / 4503599627370496) :=
    lit64_of_round _ _ (roundF64_pos_mid (1.530) (6890507429876859 / 4503599627370496) 6890507429876859 (-52) (by norm_num) (by norm_num) (by norm_num) (by norm_num) (by norm_num) (by norm_num) (by norm_num))
  have h19 : lit64 51.8 = (3645100948402995 / 70368744177664) :=
    lit64_of_round _ _ (roundF64_pos_mid (51.8) (3645100948402995 / 70368744177664) 7290201896805990 (-47) (by norm_num) (by norm_num) (by norm_num) (by norm_num) (by norm_num) (by norm_num) (by norm_num))
  have h20 : lit64 1.540 = (1733885856537641 / 1125899906842624) :=
    lit64_of_round _ _ (roundF64_pos_mid (1.540) (1733885856537641 / 1125899906842624) 6935543426150564 (-52) (by norm_num) (by norm_num) (by norm_num) (by norm_num) (by norm_num) (by norm_num) (by norm_num))
  have h21 : tableRow 55 = [(0, 1.000), (30, 1.247), (34, 1.293), (38, 1.345), (42, 1.400), (46, 1.458), (49, 1.500), (50, 1.515), (51, 1.530), (51.8, 1.540)] :=
    by
      norm_num [tableRow, densityTable, List.find?]
  have h22 : tableRow64 55 = [(0, 1), (30, (5615988735331009 / 4503599627370496)), (34, (5823154318190051 / 4503599627370496)), (38, (6057341498813317 / 4503599627370496)), (42, (3152519739159347 / 2251799813685248)), (46, (6566248256706183 / 4503599627370496)), (49, (3 / 2)), (50, (6822953435466301 / 4503599627370496)), (51, (6890507429876859 / 4503599627370496)), ((3645100948402995 / 70368744177664), (1733885856537641 / 1125899906842624))] :=
    by
      simp only [tableRow64, row64, h21, List.map_cons, List.map_nil,
        h1, h2, h3, h4, h5, h6, h7, h8, h9, h10, h11, h12, h13, h14, h15, h16, h17, h18, h19, h20]
  have h23 : roundF64 0 = some 0 :=
    roundF64_of_eq_zero (0) (by norm_num)
  have h24 : fsub (5615988735331009 / 4503599627370496) 1 = some (1112389107960513 / 4503599627370496) :=
    roundF64_pos_mid ((5615988735331009 / 4503599627370496) - 1) (1112389107960513 / 4503599627370496) 8899112863684104 (-55) (by norm_num) (by norm_num) (by norm_num) (by norm_num) (by norm_num) (by norm_num) (by norm_num)
  have h25 : fsub 30 0 = some 30 :=
    roundF64_pos_mid (30 - 0) 30 8444249301319680 (-48) (by norm_num) (by norm_num) (by norm_num) (by norm_num) (by norm_num) (by norm_num) (by norm_num)
  have h26 : fadd 0 30 = some 30 :=
    roundF64_pos_mid (0 + 30) 30 8444249301319680 (-48) (by norm_num) (by norm_num) (by norm_num) (by norm_num) (by norm_num) (by norm_num) (by norm_num)
  have h27 : Seg64 (0, 1) (30, (5615988735331009 / 4503599627370496)) :=
    ⟨by norm_num, h23, (1112389107960513 / 4503599627370496), 30, h24, by norm_num, h25, by norm_num, h26⟩
  have h28 : roundF64 30 = some 30 :=
    roundF64_pos_mid (30) 30 8444249301319680 (-48) (by norm_num) (by norm_num) (by norm_num) (by norm_num) (by norm_num) (by norm_num) (by norm_num)
  have h29 : fsub (5823154318190051 / 4503599627370496) (5615988735331009 / 4503599627370496) = some (103582791429521 / 2251799813685248) :=
    roundF64_pos_mid ((5823154318190051 / 4503599627370496) - (5615988735331009 / 4503599627370496)) (103582791429521 / 2251799813685248) 6629298651489344 (-57) (by norm_num) (by norm_num) (by norm_num) (by norm_num) (by norm_num) (by norm_num) (by norm_num)
  have h30 : fsub 34 30 = some 4 :=
    roundF64_pos (34 - 30) 4 4503599627370496 (-50) (by norm_num) (by norm_num) (by norm_num) (by norm_num) (by norm_num) (by norm_num) (by norm_num)
  have h31 : fadd 30 4 = some 34 :=
    roundF64_pos_mid (30 + 4) 34 4785074604081152 (-47) (by norm_num) (by norm_num) (by norm_num) (by norm_num) (by norm_num) (by norm_num) (by norm_num)
  have h32 : Seg64 (30, (5615988735331009 / 4503599627370496)) (34, (5823154318190051 / 4503599627370496)) :=
    ⟨by norm_num, h28, (103582791429521 / 2251799813685248), 4, h29, by norm_num, h30, by norm_num, h31⟩
  have h33 : roundF64 34 = some 34 :=
    roundF64_pos_mid (34) 34 4785074604081152 (-47) (by norm_num) (by norm_num) (by norm_num) (by norm_num) (by norm_num) (by norm_num) (by norm_num)
  have h34 : fsub (6057341498813317 / 4503599627370496) (5823154318190051 / 4503599627370496) = some (117093590311633 / 2251799813685248) :=
    roundF64_pos_mid ((6057341498813317 / 4503599627370496) - (5823154318190051 / 4503599627370496)) (117093590311633 / 2251799813685248) 7493989779944512 (-57) (by norm_num) (by norm_num) (by norm_num) (by norm_num) (by norm_num) (by norm_num) (by norm_num)
  have h35 : fsub 38 34 = some 4 :=
    roundF64_pos (38 - 34) 4 4503599627370496 (-50) (by norm_num) (by norm_num) (by norm_num) (by norm_num) (by norm_num) (by norm_num) (by norm_num)
  have h36 : fadd 34 4 = some 38 :=
    roundF64_pos_mid (34 + 4) 38 5348024557502464 (-47) (by norm_num) (by norm_num) (by norm_num) (by norm_num) (by norm_num) (by norm_num) (by norm_num)
  have h37 : Seg64 (34, (5823154318190051 / 4503599627370496)) (38, (6057341498813317 / 4503599627370496)) :=
    ⟨by norm_num, h33, (117093590311633 / 2251799813685248), 4, h34, by norm_num, h35, by norm_num, h36⟩
  have h38 : roundF64 38 = some 38 :=
    roundF64_pos_mid (38) 38 5348024557502464 (-47) (by norm_num) (by norm_num) (by norm_num) (by norm_num) (by norm_num) (by norm_num) (by norm_num)
  have h39 : fsub (3152519739159347 / 2251799813685248) (6057341498813317 / 4503599627370496) = some (247697979505377 / 4503599627370496) :=
    roundF64_pos_mid ((3152519739159347 / 2251799813685248) - (6057341498813317 / 4503599627370496)) (247697979505377 / 4503599627370496) 7926335344172064 (-57) (by norm_num) (by norm_num) (by norm_num) (by norm_num) (by norm_num) (by norm_num) (by norm_num)
  have h40 : fsub 42 38 = some 4 :=
    roundF64_pos (42 - 38) 4 4503599627370496 (-50) (by norm_num) (by norm_num) (by norm_num) (by norm_num) (by norm_num) (by norm_num) (by norm_num)
  have h41 : fadd 38 4 = some 42 :=
    roundF64_pos_mid (38 + 4) 42 5910974510923776 (-47) (by norm_num) (by norm_num) (by norm_num) (by norm_num) (by norm_num) (by norm_num) (by norm_num)
  have h42 : Seg64 (38, (6057341498813317 / 4503599627370496)) (42, (3152519739159347 / 2251799813685248)) :=
    ⟨by norm_num, h38, (247697979505377 / 4503599627370496), 4, h39, by norm_num, h40, by norm_num, h41⟩
  have h43 : roundF64 42 = some 42 :=
    roundF64_pos_mid (42) 42 5910974510923776 (-47) (by norm_num) (by norm_num) (by norm_num) (by norm_num) (by norm_num) (by norm_num) (by norm_num)
  have h44 : fsub (6566248256706183 / 4503599627370496) (3152519739159347 / 2251799813685248) = some (261208778387489 / 4503599627370496) :=
    roundF64_pos_mid ((6566248256706183 / 4503599627370496) - (3152519739159347 / 2251799813685248)) (261208778387489 / 4503599627370496) 8358680908399648 (-57) (by norm_num) (by norm_num) (by norm_num) (by norm_num) (by norm_num) (by norm_num) (by norm_num)
  have h45 : fsub 46 42 = some 4 :=
    roundF64_pos (46 - 42) 4 4503599627370496 (-50) (by norm_num) (by norm_num) (by norm_num) (by norm_num) (by norm_num) (by norm_num) (by norm_num)
  have h46 : fadd 42 4 = some 46 :=
    roundF64_pos_mid (42 + 4) 46 6473924464345088 (-47) (by norm_num) (by norm_num) (by norm_num) (by norm_num) (by norm_num) (by norm_num) (by norm_num)
  have h47 : Seg64 (42, (3152519739159347 / 2251799813685248)) (46, (6566248256706183 / 4503599627370496)) :=
    ⟨by norm_num, h43, (261208778387489 / 4503599627370496), 4, h44, by norm_num, h45, by norm_num, h46⟩
  have h48 : roundF64 46 = some 46 :=
    roundF64_pos_mid (46) 46 6473924464345088 (-47) (by norm_num) (by norm_num) (by norm_num) (by norm_num) (by norm_num) (by norm_num) (by norm_num)
  have h49 : fsub (3 / 2) (6566248256706183 / 4503599627370496) = some (189151184349561 / 4503599627370496) :=
    roundF64_pos_mid ((3 / 2) - (6566248256706183 / 4503599627370496)) (189151184349561 / 4503599627370496) 6052837899185952 (-57) (by norm_num) (by norm_num) (by norm_num) (by norm_num) (by norm_num) (by norm_num) (by norm_num)
  have h50 : fsub 49 46 = some 3 :=
    roundF64_pos_mid (49 - 46) 3 6755399441055744 (-51) (by norm_num) (by norm_num) (by norm_num) (by norm_num) (by norm_num) (by norm_num) (by norm_num)
  have h51 : fadd 46 3 = some 49 :=
    roundF64_pos_mid (46 + 3) 49 6896136929411072 (-47) (by norm_num) (by norm_num) (by norm_num) (by norm_num) (by norm_num) (by norm_num) (by norm_num)
  have h52 : Seg64 (46, (6566248256706183 / 4503599627370496)) (49, (3 / 2)) :=
    ⟨by norm_num, h48, (189151184349561 / 4503599627370496), 3, h49, by norm_num, h50, by norm_num, h51⟩
  have h53 : roundF64 49 = some 49 :=
    roundF64_pos_mid (49) 49 6896136929411072 (-47) (by norm_num) (by norm_num) (by norm_num) (by norm_num) (by norm_num) (by norm_num) (by norm_num)
  have h54 : fsub (6822953435466301 / 4503599627370496) (3 / 2) = some (67553994410557 / 4503599627370496) :=
    roundF64_pos_mid ((6822953435466301 / 4503599627370496) - (3 / 2)) (67553994410557 / 4503599627370496) 8646911284551296 (-59) (by norm_num) (by norm_num) (by norm_num) (by norm_num) (by norm_num) (by norm_num) (by norm_num)
  have h55 : fsub 50 49 = some 1 :=
    roundF64_pos (50 - 49) 1 4503599627370496 (-52) (by norm_num) (by norm_num) (by norm_num) (by norm_num) (by norm_num) (by norm_num) (by norm_num)
  have h56 : fadd 49 1 = some 50 :=
    roundF64_pos_mid (49 + 1) 50 7036874417766400 (-47) (by norm_num) (by norm_num) (by norm_num) (by norm_num) (by norm_num) (by norm_num) (by norm_num)
  have h57 : Seg64 (49, (3 / 2)) (50, (6822953435466301 / 4503599627370496)) :=
    ⟨by norm_num, h53, (67553994410557 / 4503599627370496), 1, h54, by norm_num, h55, by norm_num, h56⟩
  have h58 : roundF64 50 = some 50 :=
    roundF64_pos_mid (50) 50 7036874417766400 (-47) (by norm_num) (by norm_num) (by norm_num) (by norm_num) (by norm_num) (by norm_num) (by norm_num)
  have h59 : fsub (6890507429876859 / 4503599627370496) (6822953435466301 / 4503599627370496) = some (33776997205279 / 2251799813685248) :=
    roundF64_pos_mid ((6890507429876859 / 4503599627370496) - (6822953435466301 / 4503599627370496)) (33776997205279 / 2251799813685248) 8646911284551424 (-59) (by norm_num) (by norm_num) (by norm_num) (by norm_num) (by norm_num) (by norm_num) (by norm_num)
  have h60 : fsub 51 50 = some 1 :=
    roundF64_pos (51 - 50) 1 4503599627370496 (-52) (by norm_num) (by norm_num) (by norm_num) (by norm_num) (by norm_num) (by norm_num) (by norm_num)
  have h61 : fadd 50 1 = some 51 :=
    roundF64_pos_mid (50 + 1) 51 7177611906121728 (-47) (by norm_num) (by norm_num) (by norm_num) (by norm_num) (by norm_num) (by norm_num) (by norm_num)
  have h62 : Seg64 (50, (6822953435466301 / 4503599627370496)) (51, (6890507429876859 / 4503599627370496)) :=
    ⟨by norm_num, h58, (33776997205279 / 2251799813685248), 1, h59, by norm_num, h60, by norm_num, h61⟩
  have h63 : roundF64 51 = some 51 :=
    roundF64_pos_mid (51) 51 7177611906121728 (-47) (by norm_num) (by norm_num) (by norm_num) (by norm_num) (by norm_num) (by norm_num) (by norm_num)
  have h64 : fsub (1733885856537641 / 1125899906842624) (6890507429876859 / 4503599627370496) = some (45035996273705 / 4503599627370496) :=
    roundF64_pos_mid ((1733885856537641 / 1125899906842624) - (6890507429876859 / 4503599627370496)) (45035996273705 / 4503599627370496) 5764607523034240 (-59) (by norm_num) (by norm_num) (by norm_num) (by norm_num) (by norm_num) (by norm_num) (by norm_num)
  have h65 : fsub (3645100948402995 / 70368744177664) 51 = some (56294995342131 / 70368744177664) :=
    roundF64_pos_mid ((3645100948402995 / 70368744177664) - 51) (56294995342131 / 70368744177664) 7205759403792768 (-53) (by norm_num) (by norm_num) (by norm_num) (by norm_num) (by norm_num) (by norm_num) (by norm_num)
  have h66 : fadd 51 (56294995342131 / 70368744177664) = some (3645100948402995 / 70368744177664) :=
    roundF64_pos_mid (51 + (56294995342131 / 70368744177664)) (3645100948402995 / 70368744177664) 7290201896805990 (-47) (by norm_num) (by norm_num) (by norm_num) (by norm_num) (by norm_num) (by norm_num) (by norm_num)
  have h67 : Seg64 (51, (6890507429876859 / 4503599627370496)) ((3645100948402995 / 70368744177664), (1733885856537641 / 1125899906842624)) :=
    ⟨by norm_num, h63, (45035996273705 / 4503599627370496), (56294995342131 / 70368744177664), h64, by norm_num, h65, by norm_num, h66⟩
  refine ⟨h22, ?_⟩
  rw [h22]
  exact List.Chain'.cons h27 (List.Chain'.cons h32 (List.Chain'.cons h37 (List.Chain'.cons h42 (List.Chain'.cons h47 (List.Chain'.cons h52 (List.Chain'.cons h57 (List.Chain'.cons h62 (List.Chain'.cons h67 (List.chain'_singleton _)))))))))

/-- The row of 60 ℃ in binary64, and all of its segments close. -/
theorem row64_60 :
    tableRow64 60 = [(0, 1), (32, (5710564327505789 / 4503599627370496)), (36, (5926737109619573 / 4503599627370496)), (40, (6160924290242839 / 4503599627370496)), (44, (801077783718527 / 562949953421312)), (48, (6674334647763075 / 4503599627370496)), (50, (3404721318292095 / 2251799813685248)), (51, (6876996630994747 / 4503599627370496)), (52, (6944550625405305 / 4503599627370496)), (53, (3506052309907931 / 2251799813685248))] ∧
      List.Chain' Seg64 (tableRow64 60) := by
  have h1 : lit64 0 = 0 :=
    lit64_of_round _ _ (roundF64_of_eq_zero (0) (by norm_num))
  have h2 : lit64 1.000 = 1 :=
    lit64_of_round _ _ (roundF64_pos (1.000) 1 4503599627370496 (-52) (by norm_num) (by norm_num) (by norm_num) (by norm_num) (by norm_num) (by norm_num) (by norm_num))
  have h3 : lit64 32 = 32 :=
    lit64_of_round _ _ (roundF64_pos (32) 32 4503599627370496 (-47) (by norm_num) (by norm_num) (by norm_num) (by norm_num) (by norm_num) (by norm_num) (by norm_num))
  have h4 : lit64 1.268 = (5710564327505789 / 4503599627370496) :=
    lit64_of_round _ _ (roundF64_pos_mid (1.268) (5710564327505789 / 4503599627370496) 5710564327505789 (-52) (by norm_num) (by norm_num) (by norm_num) (by norm_num) (by norm_num) (by norm_num) (by norm_num))
  have h5 : lit64 36 = 36 :=
    lit64_of_round _ _ (roundF64_pos_mid (36) 36 5066549580791808 (-47) (by norm_num) (by norm_num) (by norm_num) (by norm_num) (by norm_num) (by norm_num) (by norm_num))
  have h6 : lit64 1.316 = (5926737109619573 / 4503599627370496) :=
    lit64_of_round _ _ (roundF64_pos_mid (1.316) (5926737109619573 / 4503599627370496) 5926737109619573 (-52) (by norm_num) (by norm_num) (by norm_num) (by norm_num) (by norm_num) (by norm_num) (by norm_num))
  have h7 : lit64 40 = 40 :=
    lit64_of_round _ _ (roundF64_pos_mid (40) 40 5629499534213120 (-47) (by norm_num) (by norm_num) (by norm_num) (by norm_num) (by norm_num) (by norm_num) (by norm_num))
  have h8 : lit64 1.368 = (6160924290242839 / 4503599627370496) :=
    lit64_of_round _ _ (roundF64_pos_mid (1.368) (6160924290242839 / 4503599627370496) 6160924290242839 (-52) (by norm_num) (by norm_num) (by norm_num) (by norm_num) (by norm_num) (by norm_num) (by norm_num))
  have h9 : lit64 44 = 44 :=
    lit64_of_round _ _ (roundF64_pos_mid (44) 44 6192449487634432 (-47) (by norm_num) (by norm_num) (by norm_num) (by norm_num) (by norm_num) (by norm_num) (by norm_num))
  have h10 : lit64 1.423 = (801077783718527 / 562949953421312) :=
    lit64_of_round _ _ (roundF64_pos_mid (1.423) (801077783718527 / 562949953421312) 6408622269748216 (-52) (by norm_num) (by norm_num) (by norm_num) (by norm_num) (by norm_num) (by norm_num) (by norm_num))
  have h11 : lit64 48 = 48 :=
    lit64_of_round _ _ (roundF64_pos_mid (48) 48 6755399441055744 (-47) (by norm_num) (by norm_num) (by norm_num) (by norm_num) (by norm_num) (by norm_num) (by norm_num))
  have h12 : lit64 1.482 = (6674334647763075 / 4503599627370496) :=
    lit64_of_round _ _ (roundF64_pos_mid (1.482) (6674334647763075 / 4503599627370496) 6674334647763075 (-52) (by norm_num) (by norm_num) (by norm_num) (by norm_num) (by norm_num) (by norm_num) (by norm_num))
  have h13 : lit64 50 = 50 :=
    lit64_of_round _ _ (roundF64_pos_mid (50) 50 7036874417766400 (-47) (by norm_num) (by norm_num) (by norm_num) (by norm_num) (by norm_num) (by norm_num) (by norm_num))
  have h14 : lit64 1.512 = (3404721318292095 / 2251799813685248) :=
    lit64_of_round _ _ (roundF64_pos_mid (1.512) (3404721318292095 / 2251799813685248) 6809442636584190 (-52) (by norm_num) (by norm_num) (by norm_num) (by norm_num) (by norm_num) (by norm_num) (by norm_num))
  have h15 : lit64 51 = 51 :=
    lit64_of_round _ _ (roundF64_pos_mid (51) 51 7177611906121728 (-47) (by norm_num) (by norm_num) (by norm_num) (by norm_num) (by norm_num) (by norm_num) (by norm_num))
  have h16 : lit64 1.527 = (6876996630994747 / 4503599627370496) :=
    lit64_of_round _ _ (roundF64_pos_mid (1.527) (6876996630994747 / 4503599627370496) 6876996630994747 (-52) (by norm_num) (by norm_num) (by norm_num) (by norm_num) (by norm_num) (by norm_num) (by norm_num))
  have h17 : lit64 52 = 52 :=
    lit64_of_round _ _ (roundF64_pos_mid (52) 52 7318349394477056 (-47) (by norm_num) (by norm_num) (by norm_num) (by norm_num) (by norm_num) (by norm_num) (by norm_num))
  have h18 : lit64 1.542 = (6944550625405305 / 4503599627370496) :=
    lit64_of_round _ _ (roundF64_pos_mid (1.542) (6944550625405305 / 4503599627370496) 6944550625405305 (-52) (by norm_num) (by norm_num) (by norm_num) (by norm_num) (by norm_num) (by norm_num) (by norm_num))
  have h19 : lit64 53 = 53 :=
    lit64_of_round _ _ (roundF64_pos_mid (53) 53 7459086882832384 (-47) (by norm_num) (by norm_num) (by norm_num) (by norm_num) (by norm_num) (by norm_num) (by norm_num))
  have h20 : lit64 1.557 = (3506052309907931 / 2251799813685248) :=
    lit64_of_round _ _ (roundF64_pos_mid (1.557) (3506052309907931 / 2251799813685248) 7012104619815862 (-52) (by norm_num) (by norm_num) (by norm_num) (by norm_num) (by norm_num) (by norm_num) (by norm_num))
  have h21 : tableRow 60 = [(0, 1.000), (32, 1.268), (36, 1.316), (40, 1.368), (44, 1.423), (48, 1.482), (50, 1.512), (51, 1.527), (52, 1.542), (53, 1.557)] :=
    by
      norm_num [tableRow, densityTable, List.find?]
  have h22 : tableRow64 60 = [(0, 1), (32, (5710564327505789 / 4503599627370496)), (36, (5926737109619573 / 4503599627370496)), (40, (6160924290242839 / 4503599627370496)), (44, (801077783718527 / 562949953421312)), (48, (6674334647763075 / 4503599627370496)), (50, (3404721318292095 / 2251799813685248)), (51, (6876996630994747 / 4503599627370496)), (52, (6944550625405305 / 4503599627370496)), (53, (3506052309907931 / 2251799813685248))] :=
    by
      simp only [tableRow64, row64, h21, List.map_cons, List.map_nil,
        h1, h2, h3, h4, h5, h6, h7, h8, h9, h10, h11, h12, h13, h14, h15, h16, h17, h18, h19, h20]
  have h23 : roundF64 0 = some 0 :=
    roundF64_of_eq_zero (0) (by norm_num)
  have h24 : fsub (5710564327505789 / 4503599627370496) 1 = some (1206964700135293 / 4503599627370496) :=
    roundF64_pos_mid ((5710564327505789 / 4503599627370496) - 1) (1206964700135293 / 4503599627370496) 4827858800541172 (-54) (by norm_num) (by norm_num) (by norm_num) (by norm_num) (by norm_num) (by norm_num) (by norm_num)
  have h25 : fsub 32 0 = some 32 :=
    roundF64_pos (32 - 0) 32 4503599627370496 (-47) (by norm_num) (by norm_num) (by norm_num) (by norm_num) (by norm_num) (by norm_num) (by norm_num)
  have h26 : fadd 0 32 = some 32 :=
    roundF64_pos (0 + 32) 32 4503599627370496 (-47) (by norm_num) (by norm_num) (by norm_num) (by norm_num) (by norm_num) (by norm_num) (by norm_num)
  have h27 : Seg64 (0, 1) (32, (5710564327505789 / 4503599627370496)) :=
    ⟨by norm_num, h23, (1206964700135293 / 4503599627370496), 32, h24, by norm_num, h25, by norm_num, h26⟩
  have h28 : roundF64 32 = some 32 :=
    roundF64_pos (32) 32 4503599627370496 (-47) (by norm_num) (by norm_num) (by norm_num) (by norm_num) (by norm_num) (by norm_num) (by norm_num)
  have h29 : fsub (5926737109619573 / 4503599627370496) (5710564327505789 / 4503599627370496) = some (27021597764223 / 562949953421312) :=
    roundF64_pos_mid ((5926737109619573 / 4503599627370496) - (5710564327505789 / 4503599627370496)) (27021597764223 / 562949953421312) 6917529027641088 (-57) (by norm_num) (by norm_num) (by norm_num) (by norm_num) (by norm_num) (by norm_num) (by norm_num)
  have h30 : fsub 36 32 = some 4 :=
    roundF64_pos (36 - 32) 4 4503599627370496 (-50) (by norm_num) (by norm_num) (by norm_num) (by norm_num) (by norm_num) (by norm_num) (by norm_num)
  have h31 : fadd 32 4 = some 36 :=
    roundF64_pos_mid (32 + 4) 36 5066549580791808 (-47) (by norm_num) (by norm_num) (by norm_num) (by norm_num) (by norm_num) (by norm_num) (by norm_num)
  have h32 : Seg64 (32, (5710564327505789 / 4503599627370496)) (36, (5926737109619573 / 4503599627370496)) :=
    ⟨by norm_num, h28, (27021597764223 / 562949953421312), 4, h29, by norm_num, h30, by norm_num, h31⟩
  have h33 : roundF64 36 = some 36 :=
    roundF64_pos_mid (36) 36 5066549580791808 (-47) (by norm_num) (by norm_num) (by norm_num) (by norm_num) (by norm_num) (by norm_num) (by norm_num)
  have h34 : fsub (6160924290242839 / 4503599627370496) (5926737109619573 / 4503599627370496) = some (117093590311633 / 2251799813685248) :=
    roundF64_pos_mid ((6160924290242839 / 4503599627370496) - (5926737109619573 / 4503599627370496)) (117093590311633 / 2251799813685248) 7493989779944512 (-57) (by norm_num) (by norm_num) (by norm_num) (by norm_num) (by norm_num) (by norm_num) (by norm_num)
  have h35 : fsub 40 36 = some 4 :=
    roundF64_pos (40 - 36) 4 4503599627370496 (-50) (by norm_num) (by norm_num) (by norm_num) (by norm_num) (by norm_num) (by norm_num) (by norm_num)
  have h36 : fadd 36 4 = some 40 :=
    roundF64_pos_mid (36 + 4) 40 5629499534213120 (-47) (by norm_num) (by norm_num) (by norm_num) (by norm_num) (by norm_num) (by norm_num) (by norm_num)
  have h37 : Seg64 (36, (5926737109619573 / 4503599627370496)) (40, (6160924290242839 / 4503599627370496)) :=
    ⟨by norm_num, h33, (117093590311633 / 2251799813685248), 4, h34, by norm_num, h35, by norm_num, h36⟩
  have h38 : roundF64 40 = some 40 :=
    roundF64_pos_mid (40) 40 5629499534213120 (-47) (by norm_num) (by norm_num) (by norm_num) (by norm_num) (by norm_num) (by norm_num) (by norm_num)
  have h39 : fsub (801077783718527 / 562949953421312) (6160924290242839 / 4503599627370496) = some (247697979505377 / 4503599627370496) :=
    roundF64_pos_mid ((801077783718527 / 562949953421312) - (6160924290242839 / 4503599627370496)) (247697979505377 / 4503599627370496) 7926335344172064 (-57) (by norm_num) (by norm_num) (by norm_num) (by norm_num) (by norm_num) (by norm_num) (by norm_num)
  have h40 : fsub 44 40 = some 4 :=
    roundF64_pos (44 - 40) 4 4503599627370496 (-50) (by norm_num) (by norm_num) (by norm_num) (by norm_num) (by norm_num) (by norm_num) (by norm_num)
  have h41 : fadd 40 4 = some 44 :=
    roundF64_pos_mid (40 + 4) 44 6192449487634432 (-47) (by norm_num) (by norm_num) (by norm_num) (by norm_num) (by norm_num) (by norm_num) (by norm_num)
  have h42 : Seg64 (40, (6160924290242839 / 4503599627370496)) (44, (801077783718527 / 562949953421312)) :=
    ⟨by norm_num, h38, (247697979505377 / 4503599627370496), 4, h39, by norm_num, h40, by norm_num, h41⟩
  have h43 : roundF64 44 = some 44 :=
    roundF64_pos_mid (44) 44 6192449487634432 (-47) (by norm_num) (by norm_num) (by norm_num) (by norm_num) (by norm_num) (by norm_num) (by norm_num)
  have h44 : fsub (6674334647763075 / 4503599627370496) (801077783718527 / 562949953421312) = some (265712378014859 / 4503599627370496) :=
    roundF64_pos_mid ((6674334647763075 / 4503599627370496) - (801077783718527 / 562949953421312)) (265712378014859 / 4503599627370496) 8502796096475488 (-57) (by norm_num) (by norm_num) (by norm_num) (by norm_num) (by norm_num) (by norm_num) (by norm_num)
  have h45 : fsub 48 44 = some 4 :=
    roundF64_pos (48 - 44) 4 4503599627370496 (-50) (by norm_num) (by norm_num) (by norm_num) (by norm_num) (by norm_num) (by norm_num) (by norm_num)
  have h46 : fadd 44 4 = some 48 :=
    roundF64_pos_mid (44 + 4) 48 6755399441055744 (-47) (by norm_num) (by norm_num) (by norm_num) (by norm_num) (by norm_num) (by norm_num) (by norm_num)
  have h47 : Seg64 (44, (801077783718527 / 562949953421312)) (48, (6674334647763075 / 4503599627370496)) :=
    ⟨by norm_num, h43, (265712378014859 / 4503599627370496), 4, h44, by norm_num, h45, by norm_num, h46⟩
  have h48 : roundF64 48 = some 48 :=
    roundF64_pos_mid (48) 48 6755399441055744 (-47) (by norm_num) (by norm_num) (by norm_num) (by norm_num) (by norm_num) (by norm_num) (by norm_num)
  have h49 : fsub (3404721318292095 / 2251799813685248) (6674334647763075 / 4503599627370496) = some (135107988821115 / 4503599627370496) :=
    roundF64_pos_mid ((3404721318292095 / 2251799813685248) - (6674334647763075 / 4503599627370496)) (135107988821115 / 4503599627370496) 8646911284551360 (-58) (by norm_num) (by norm_num) (by norm_num) (by norm_num) (by norm_num) (by norm_num) (by norm_num)
  have h50 : fsub 50 48 = some 2 :=
    roundF64_pos (50 - 48) 2 4503599627370496 (-51) (by norm_num) (by norm_num) (by norm_num) (by norm_num) (by norm_num) (by norm_num) (by norm_num)
  have h51 : fadd 48 2 = some 50 :=
    roundF64_pos_mid (48 + 2) 50 7036874417766400 (-47) (by norm_num) (by norm_num) (by norm_num) (by norm_num) (by norm_num) (by norm_num) (by norm_num)
  have h52 : Seg64 (48, (6674334647763075 / 4503599627370496)) (50, (3404721318292095 / 2251799813685248)) :=
    ⟨by norm_num, h48, (135107988821115 / 4503599627370496), 2, h49, by norm_num, h50, by norm_num, h51⟩
  have h53 : roundF64 50 = some 50 :=
    roundF64_pos_mid (50) 50 7036874417766400 (-47) (by norm_num) (by norm_num) (by norm_num) (by norm_num) (by norm_num) (by norm_num) (by norm_num)
  have h54 : fsub (6876996630994747 / 4503599627370496) (3404721318292095 / 2251799813685248) = some (67553994410557 / 4503599627370496) :=
    roundF64_pos_mid ((6876996630994747 / 4503599627370496) - (3404721318292095 / 2251799813685248)) (67553994410557 / 4503599627370496) 8646911284551296 (-59) (by norm_num) (by norm_num) (by norm_num) (by norm_num) (by norm_num) (by norm_num) (by norm_num)
  have h55 : fsub 51 50 = some 1 :=
    roundF64_pos (51 - 50) 1 4503599627370496 (-52) (by norm_num) (by norm_num) (by norm_num) (by norm_num) (by norm_num) (by norm_num) (by norm_num)
  have h56 : fadd 50 1 = some 51 :=
    roundF64_pos_mid (50 + 1) 51 7177611906121728 (-47) (by norm_num) (by norm_num) (by norm_num) (by norm_num) (by norm_num) (by norm_num) (by norm_num)
  have h57 : Seg64 (50, (3404721318292095 / 2251799813685248)) (51, (6876996630994747 / 4503599627370496)) :=
    ⟨by norm_num, h53, (67553994410557 / 4503599627370496), 1, h54, by norm_num, h55, by norm_num, h56⟩
  have h58 : roundF64 51 = some 51 :=
    roundF64_pos_mid (51) 51 7177611906121728 (-47) (by norm_num) (by norm_num) (by norm_num) (by norm_num) (by norm_num) (by norm_num) (by norm_num)
  have h59 : fsub (6944550625405305 / 4503599627370496) (6876996630994747 / 4503599627370496) = some (33776997205279 / 2251799813685248) :=
    roundF64_pos_mid ((6944550625405305 / 4503599627370496) - (6876996630994747 / 4503599627370496)) (33776997205279 / 2251799813685248) 8646911284551424 (-59) (by norm_num) (by norm_num) (by norm_num) (by norm_num) (by norm_num) (by norm_num) (by norm_num)
  have h60 : fsub 52 51 = some 1 :=
    roundF64_pos (52 - 51) 1 4503599627370496 (-52) (by norm_num) (by norm_num) (by norm_num) (by norm_num) (by norm_num) (by norm_num) (by norm_num)
  have h61 : fadd 51 1 = some 52 :=
    roundF64_pos_mid (51 + 1) 52 7318349394477056 (-47) (by norm_num) (by norm_num) (by norm_num) (by norm_num) (by norm_num) (by norm_num) (by norm_num)
  have h62 : Seg64 (51, (6876996630994747 / 4503599627370496)) (52, (6944550625405305 / 4503599627370496)) :=
    ⟨by norm_num, h58, (33776997205279 / 2251799813685248), 1, h59, by norm_num, h60, by norm_num, h61⟩
  have h63 : roundF64 52 = some 52 :=
    roundF64_pos_mid (52) 52 7318349394477056 (-47) (by norm_num) (by norm_num) (by norm_num) (by norm_num) (by norm_num) (by norm_num) (by norm_num)
  have h64 : fsub (3506052309907931 / 2251799813685248) (6944550625405305 / 4503599627370496) = some (67553994410557 / 4503599627370496) :=
    roundF64_pos_mid ((3506052309907931 / 2251799813685248) - (6944550625405305 / 4503599627370496)) (67553994410557 / 4503599627370496) 8646911284551296 (-59) (by norm_num) (by norm_num) (by norm_num) (by norm_num) (by norm_num) (by norm_num) (by norm_num)
  have h65 : fsub 53 52 = some 1 :=
    roundF64_pos (53 - 52) 1 4503599627370496 (-52) (by norm_num) (by norm_num) (by norm_num) (by norm_num) (by norm_num) (by norm_num) (by norm_num)
  have h66 : fadd 52 1 = some 53 :=
    roundF64_pos_mid (52 + 1) 53 7459086882832384 (-47) (by norm_num) (by norm_num) (by norm_num) (by norm_num) (by norm_num) (by norm_num) (by norm_num)
  have h67 : Seg64 (52, (6944550625405305 / 4503599627370496)) (53, (3506052309907931 / 2251799813685248)) :=
    ⟨by norm_num, h63, (67553994410557 / 4503599627370496), 1, h64, by norm_num, h65, by norm_num, h66⟩
  refine ⟨h22, ?_⟩
  rw [h22]
  exact List.Chain'.cons h27 (List.Chain'.cons h32 (List.Chain'.cons h37 (List.Chain'.cons h42 (List.Chain'.cons h47 (List.Chain'.cons h52 (List.Chain'.cons h57 (List.Chain'.cons h62 (List.Chain'.cons h67 (List.chain'_singleton _)))))))))

/-- The row of 80 ℃ in binary64, and all of its segments close. -/
theorem row64_80 :
    tableRow64 80 = [(0, (1116892707587883 / 1125899906842624)), (40, (2961116754996101 / 2251799813685248)), (45, (1539105172653867 / 1125899906842624)), (48, (6327557476455547 / 4503599627370496)), (50, (6453658266021921 / 4503599627370496)), (51, (1629177165201277 / 1125899906842624)), (52, (6579759055588295 / 4503599627370496))] ∧
      List.Chain' Seg64 (tableRow64 80) := by
  have h1 : lit64 0 = 0 :=
    lit64_of_round _ _ (roundF64_of_eq_zero (0) (by norm_num))
  have h2 : lit64 0.992 = (1116892707587883 / 1125899906842624) :=
    lit64_of_round _ _ (roundF64_pos_mid (0.992) (1116892707587883 / 1125899906842624) 8935141660703064 (-53) (by norm_num) (by norm_num) (by norm_num) (by norm_num) (by norm_num) (by norm_num) (by norm_num))
  have h3 : lit64 40 = 40 :=
    lit64_of_round _ _ (roundF64_pos_mid (40) 40 5629499534213120 (-47) (by norm_num) (by norm_num) (by norm_num) (by norm_num) (by norm_num) (by norm_num) (by norm_num))
  have h4 : lit64 1.315 = (2961116754996101 / 2251799813685248) :=
    lit64_of_round _ _ (roundF64_pos_mid (1.315) (2961116754996101 / 2251799813685248) 5922233509992202 (-52) (by norm_num) (by norm_num) (by norm_num) (by norm_num) (by norm_num) (by norm_num) (by norm_num))
  have h5 : lit64 45 = 45 :=
    lit64_of_round _ _ (roundF64_pos_mid (45) 45 6333186975989760 (-47) (by norm_num) (by norm_num) (by norm_num) (by norm_num) (by norm_num) (by norm_num) (by norm_num))
  have h6 : lit64 1.367 = (1539105172653867 / 1125899906842624) :=
    lit64_of_round _ _ (roundF64_pos_mid (1.367) (1539105172653867 / 1125899906842624) 6156420690615468 (-52) (by norm_num) (by norm_num) (by norm_num) (by norm_num) (by norm_num) (by norm_num) (by norm_num))
  have h7 : lit64 48 = 48 :=
    lit64_of_round _ _ (roundF64_pos_mid (48) 48 6755399441055744 (-47) (by norm_num) (by norm_num) (by norm_num) (by norm_num) (by norm_num) (by norm_num) (by norm_num))
  have h8 : lit64 1.405 = (6327557476455547 / 4503599627370496) :=
    lit64_of_round _ _ (roundF64_pos_mid (1.405) (6327557476455547 / 4503599627370496) 6327557476455547 (-52) (by norm_num) (by norm_num) (by norm_num) (by norm_num) (by norm_num) (by norm_num) (by norm_num))
  have h9 : lit64 50 = 50 :=
    lit64_of_round _ _ (roundF64_pos_mid (50) 50 7036874417766400 (-47) (by norm_num) (by norm_num) (by norm_num) (by norm_num) (by norm_num) (by norm_num) (by norm_num))
  have h10 : lit64 1.433 = (6453658266021921 / 4503599627370496) :=
    lit64_of_round _ _ (roundF64_pos_mid (1.433) (6453658266021921 / 4503599627370496) 6453658266021921 (-52) (by norm_num) (by norm_num) (by norm_num) (by norm_num) (by norm_num) (by norm_num) (by norm_num))
  have h11 : lit64 51 = 51 :=
    lit64_of_round _ _ (roundF64_pos_mid (51) 51 7177611906121728 (-47) (by norm_num) (by norm_num) (by norm_num) (by norm_num) (by norm_num) (by norm_num) (by norm_num))
  have h12 : lit64 1.447 = (1629177165201277 / 1125899906842624) :=
    lit64_of_round _ _ (roundF64_pos_mid (1.447) (1629177165201277 / 1125899906842624) 6516708660805108 (-52) (by norm_num) (by norm_num) (by norm_num) (by norm_num) (by norm_num) (by norm_num) (by norm_num))
  have h13 : lit64 52 = 52 :=
    lit64_of_round _ _ (roundF64_pos_mid (52) 52 7318349394477056 (-47) (by norm_num) (by norm_num) (by norm_num) (by norm_num) (by norm_num) (by norm_num) (by norm_num))
  have h14 : lit64 1.461 = (6579759055588295 / 4503599627370496) :=
    lit64_of_round _ _ (roundF64_pos_mid (1.461) (6579759055588295 / 4503599627370496) 6579759055588295 (-52) (by norm_num) (by norm_num) (by norm_num) (by norm_num) (by norm_num) (by norm_num) (by norm_num))
  have h15 : tableRow 80 = [(0, 0.992), (40, 1.315), (45, 1.367), (48, 1.405), (50, 1.433), (51, 1.447), (52, 1.461)] :=
    by
      norm_num [tableRow, densityTable, List.find?]
  have h16 : tableRow64 80 = [(0, (1116892707587883 / 1125899906842624)), (40, (2961116754996101 / 2251799813685248)), (45, (1539105172653867 / 1125899906842624)), (48, (6327557476455547 / 4503599627370496)), (50, (6453658266021921 / 4503599627370496)), (51, (1629177165201277 / 1125899906842624)), (52, (6579759055588295 / 4503599627370496))] :=
    by
      simp only [tableRow64, row64, h15, List.map_cons, List.map_nil,
        h1, h2, h3, h4, h5, h6, h7, h8, h9, h10, h11, h12, h13, h14]
  have h17 : roundF64 0 = some 0 :=
    roundF64_of_eq_zero (0) (by norm_num)
  have h18 : fsub (2961116754996101 / 2251799813685248) (1116892707587883 / 1125899906842624) = some (727331339820335 / 2251799813685248) :=
    roundF64_pos_mid ((2961116754996101 / 2251799813685248) - (1116892707587883 / 1125899906842624)) (727331339820335 / 2251799813685248) 5818650718562680 (-54) (by norm_num) (by norm_num) (by norm_num) (by norm_num) (by norm_num) (by norm_num) (by norm_num)
  have h19 : fsub 40 0 = some 40 :=
    roundF64_pos_mid (40 - 0) 40 5629499534213120 (-47) (by norm_num) (by norm_num) (by norm_num) (by norm_num) (by norm_num) (by norm_num) (by norm_num)
  have h20 : fadd 0 40 = some 40 :=
    roundF64_pos_mid (0 + 40) 40 5629499534213120 (-47) (by norm_num) (by norm_num) (by norm_num) (by norm_num) (by norm_num) (by norm_num) (by norm_num)
  have h21 : Seg64 (0, (1116892707587883 / 1125899906842624)) (40, (2961116754996101 / 2251799813685248)) :=
    ⟨by norm_num, h17, (727331339820335 / 2251799813685248), 40, h18, by norm_num, h19, by norm_num, h20⟩
  have h22 : roundF64 40 = some 40 :=
    roundF64_pos_mid (40) 40 5629499534213120 (-47) (by norm_num) (by norm_num) (by norm_num) (by norm_num) (by norm_num) (by norm_num) (by norm_num)
  have h23 : fsub (1539105172653867 / 1125899906842624) (2961116754996101 / 2251799813685248) = some (117093590311633 / 2251799813685248) :=
    roundF64_pos_mid ((1539105172653867 / 1125899906842624) - (2961116754996101 / 2251799813685248)) (117093590311633 / 2251799813685248) 7493989779944512 (-57) (by norm_num) (by norm_num) (by norm_num) (by norm_num) (by norm_num) (by norm_num) (by norm_num)
  have h24 : fsub 45 40 = some 5 :=
    roundF64_pos_mid (45 - 40) 5 5629499534213120 (-50) (by norm_num) (by norm_num) (by norm_num) (by norm_num) (by norm_num) (by norm_num) (by norm_num)
  have h25 : fadd 40 5 = some 45 :=
    roundF64_pos_mid (40 + 5) 45 6333186975989760 (-47) (by norm_num) (by norm_num) (by norm_num) (by norm_num) (by norm_num) (by norm_num) (by norm_num)
  have h26 : Seg64 (40, (2961116754996101 / 2251799813685248)) (45, (1539105172653867 / 1125899906842624)) :=
    ⟨by norm_num, h22, (117093590311633 / 2251799813685248), 5, h23, by norm_num, h24, by norm_num, h25⟩
  have h27 : roundF64 45 = some 45 :=
    roundF64_pos_mid (45) 45 6333186975989760 (-47) (by norm_num) (by norm_num) (by norm_num) (by norm_num) (by norm_num) (by norm_num) (by norm_num)
  have h28 : fsub (6327557476455547 / 4503599627370496) (1539105172653867 / 1125899906842624) = some (171136785840079 / 4503599627370496) :=
    roundF64_pos_mid ((6327557476455547 / 4503599627370496) - (1539105172653867 / 1125899906842624)) (171136785840079 / 4503599627370496) 5476377146882528 (-57) (by norm_num) (by norm_num) (by norm_num) (by norm_num) (by norm_num) (by norm_num) (by norm_num)
  have h29 : fsub 48 45 = some 3 :=
    roundF64_pos_mid (48 - 45) 3 6755399441055744 (-51) (by norm_num) (by norm_num) (by norm_num) (by norm_num) (by norm_num) (by norm_num) (by norm_num)
  have h30 : fadd 45 3 = some 48 :=
    roundF64_pos_mid (45 + 3) 48 6755399441055744 (-47) (by norm_num) (by norm_num) (by norm_num) (by norm_num) (by norm_num) (by norm_num) (by norm_num)
  have h31 : Seg64 (45, (1539105172653867 / 1125899906842624)) (48, (6327557476455547 / 4503599627370496)) :=
    ⟨by norm_num, h27, (171136785840079 / 4503599627370496), 3, h28, by norm_num, h29, by norm_num, h30⟩
  have h32 : roundF64 48 = some 48 :=
    roundF64_pos_mid (48) 48 6755399441055744 (-47) (by norm_num) (by norm_num) (by norm_num) (by norm_num) (by norm_num) (by norm_num) (by norm_num)
  have h33 : fsub (6453658266021921 / 4503599627370496) (6327557476455547 / 4503599627370496) = some (63050394783187 / 2251799813685248) :=
    roundF64_pos_mid ((6453658266021921 / 4503599627370496) - (6327557476455547 / 4503599627370496)) (63050394783187 / 2251799813685248) 8070450532247936 (-58) (by norm_num) (by norm_num) (by norm_num) (by norm_num) (by norm_num) (by norm_num) (by norm_num)
  have h34 : fsub 50 48 = some 2 :=
    roundF64_pos (50 - 48) 2 4503599627370496 (-51) (by norm_num) (by norm_num) (by norm_num) (by norm_num) (by norm_num) (by norm_num) (by norm_num)
  have h35 : fadd 48 2 = some 50 :=
    roundF64_pos_mid (48 + 2) 50 7036874417766400 (-47) (by norm_num) (by norm_num) (by norm_num) (by norm_num) (by norm_num) (by norm_num) (by norm_num)
  have h36 : Seg64 (48, (6327557476455547 / 4503599627370496)) (50, (6453658266021921 / 4503599627370496)) :=
    ⟨by norm_num, h32, (63050394783187 / 2251799813685248), 2, h33, by norm_num, h34, by norm_num, h35⟩
  have h37 : roundF64 50 = some 50 :=
    roundF64_pos_mid (50) 50 7036874417766400 (-47) (by norm_num) (by norm_num) (by norm_num) (by norm_num) (by norm_num) (by norm_num) (by norm_num)
  have h38 : fsub (1629177165201277 / 1125899906842624) (6453658266021921 / 4503599627370496) = some (63050394783187 / 4503599627370496) :=
    roundF64_pos_mid ((1629177165201277 / 1125899906842624) - (6453658266021921 / 4503599627370496)) (63050394783187 / 4503599627370496) 8070450532247936 (-59) (by norm_num) (by norm_num) (by norm_num) (by norm_num) (by norm_num) (by norm_num) (by norm_num)
  have h39 : fsub 51 50 = some 1 :=
    roundF64_pos (51 - 50) 1 4503599627370496 (-52) (by norm_num) (by norm_num) (by norm_num) (by norm_num) (by norm_num) (by norm_num) (by norm_num)
  have h40 : fadd 50 1 = some 51 :=
    roundF64_pos_mid (50 + 1) 51 7177611906121728 (-47) (by norm_num) (by norm_num) (by norm_num) (by norm_num) (by norm_num) (by norm_num) (by norm_num)
  have h41 : Seg64 (50, (6453658266021921 / 4503599627370496)) (51, (1629177165201277 / 1125899906842624)) :=
    ⟨by norm_num, h37, (63050394783187 / 4503599627370496), 1, h38, by norm_num, h39, by norm_num, h40⟩
  have h42 : roundF64 51 = some 51 :=
    roundF64_pos_mid (51) 51 7177611906121728 (-47) (by norm_num) (by norm_num) (by norm_num) (by norm_num) (by norm_num) (by norm_num) (by norm_num)
  have h43 : fsub (6579759055588295 / 4503599627370496) (1629177165201277 / 1125899906842624) = some (63050394783187 / 4503599627370496) :=
    roundF64_pos_mid ((6579759055588295 / 4503599627370496) - (1629177165201277 / 1125899906842624)) (63050394783187 / 4503599627370496) 8070450532247936 (-59) (by norm_num) (by norm_num) (by norm_num) (by norm_num) (by norm_num) (by norm_num) (by norm_num)
  have h44 : fsub 52 51 = some 1 :=
    roundF64_pos (52 - 51) 1 4503599627370496 (-52) (by norm_num) (by norm_num) (by norm_num) (by norm_num) (by norm_num) (by norm_num) (by norm_num)
  have h45 : fadd 51 1 = some 52 :=
    roundF64_pos_mid (51 + 1) 52 7318349394477056 (-47) (by norm_num) (by norm_num) (by norm_num) (by norm_num) (by norm_num) (by norm_num) (by norm_num)
  have h46 : Seg64 (51, (1629177165201277 / 1125899906842624)) (52, (6579759055588295 / 4503599627370496)) :=
    ⟨by norm_num, h42, (63050394783187 / 4503599627370496), 1, h43, by norm_num, h44, by norm_num, h45⟩
  refine ⟨h16, ?_⟩
  rw [h16]
  exact List.Chain'.cons h21 (List.Chain'.cons h26 (List.Chain'.cons h31 (List.Chain'.cons h36 (List.Chain'.cons h41 (List.Chain'.cons h46 (List.chain'_singleton _))))))

/-- The row of 100 ℃ in binary64, and all of its segments close. -/
theorem row64_100 :
    tableRow64 100 = [(0, (2206763817411543 / 2251799813685248)), (45, (748723438050345 / 562949953421312)), (48, (6147413491360727 / 4503599627370496)), (50, (3134505340649865 / 2251799813685248)), (51, (6327557476455547 / 4503599627370496)), (52, (6386104271611363 / 4503599627370496))] ∧
      List.Chain' Seg64 (tableRow64 100) := by
  have h1 : lit64 0 = 0 :=
    lit64_of_round _ _ (roundF64_of_eq_zero (0) (by norm_num))
  have h2 : lit64 0.980 = (2206763817411543 / 2251799813685248) :=
    lit64_of_round _ _ (roundF64_pos_mid (0.980) (2206763817411543 / 2251799813685248) 8827055269646172 (-53) (by norm_num) (by norm_num) (by norm_num) (by norm_num) (by norm_num) (by norm_num) (by norm_num))
  have h3 : lit64 45 = 45 :=
    lit64_of_round _ _ (roundF64_pos_mid (45) 45 6333186975989760 (-47) (by norm_num) (by norm_num) (by norm_num) (by norm_num) (by norm_num) (by norm_num) (by norm_num))
  have h4 : lit64 1.330 = (748723438050345 / 562949953421312) :=
    lit64_of_round _ _ (roundF64_pos_mid (1.330) (748723438050345 / 562949953421312) 5989787504402760 (-52) (by norm_num) (by norm_num) (by norm_num) (by norm_num) (by norm_num) (by norm_num) (by norm_num))
  have h5 : lit64 48 = 48 :=
    lit64_of_round _ _ (roundF64_pos_mid (48) 48 6755399441055744 (-47) (by norm_num) (by norm_num) (by norm_num) (by norm_num) (by norm_num) (by norm_num) (by norm_num))
  have h6 : lit64 1.365 = (6147413491360727 / 4503599627370496) :=
    lit64_of_round _ _ (roundF64_pos_mid (1.365) (6147413491360727 / 4503599627370496) 6147413491360727 (-52) (by norm_num) (by norm_num) (by norm_num) (by norm_num) (by norm_num) (by norm_num) (by norm_num))
  have h7 : lit64 50 = 50 :=
    lit64_of_round _ _ (roundF64_pos_mid (50) 50 7036874417766400 (-47) (by norm_num) (by norm_num) (by norm_num) (by norm_num) (by norm_num) (by norm_num) (by norm_num))
  have h8 : lit64 1.392 = (3134505340649865 / 2251799813685248) :=
    lit64_of_round _ _ (roundF64_pos_mid (1.392) (3134505340649865 / 2251799813685248) 6269010681299730 (-52) (by norm_num) (by norm_num) (by norm_num) (by norm_num) (by norm_num) (by norm_num) (by norm_num))
  have h9 : lit64 51 = 51 :=
    lit64_of_round _ _ (roundF64_pos_mid (51) 51 7177611906121728 (-47) (by norm_num) (by norm_num) (by norm_num) (by norm_num) (by norm_num) (by norm_num) (by norm_num))
  have h10 : lit64 1.405 = (6327557476455547 / 4503599627370496) :=
    lit64_of_round _ _ (roundF64_pos_mid (1.405) (6327557476455547 / 4503599627370496) 6327557476455547 (-52) (by norm_num) (by norm_num) (by norm_num) (by norm_num) (by norm_num) (by norm_num) (by norm_num))
  have h11 : lit64 52 = 52 :=
    lit64_of_round _ _ (roundF64_pos_mid (52) 52 7318349394477056 (-47) (by norm_num) (by norm_num) (by norm_num) (by norm_num) (by norm_num) (by norm_num) (by norm_num))
  have h12 : lit64 1.418 = (6386104271611363 / 4503599627370496) :=
    lit64_of_round _ _ (roundF64_pos_mid (1.418) (6386104271611363 / 4503599627370496) 6386104271611363 (-52) (by norm_num) (by norm_num) (by norm_num) (by norm_num) (by norm_num) (by norm_num) (by norm_num))
  have h13 : tableRow 100 = [(0, 0.980), (45, 1.330), (48, 1.365), (50, 1.392), (51, 1.405), (52, 1.418)] :=
    by
      norm_num [tableRow, densityTable, List.find?]
  have h14 : tableRow64 100 = [(0, (2206763817411543 / 2251799813685248)), (45, (748723438050345 / 562949953421312)), (48, (6147413491360727 / 4503599627370496)), (50, (3134505340649865 / 2251799813685248)), (51, (6327557476455547 / 4503599627370496)), (52, (6386104271611363 / 4503599627370496))] :=
    by
      simp only [tableRow64, row64, h13, List.map_cons, List.map_nil,
        h1, h2, h3, h4, h5, h6, h7, h8, h9, h10, h11, h12]
  have h15 : roundF64 0 = some 0 :=
    roundF64_of_eq_zero (0) (by norm_num)
  have h16 : fsub (748723438050345 / 562949953421312) (2206763817411543 / 2251799813685248) = some (788129934789837 / 2251799813685248) :=
    roundF64_pos_mid ((748723438050345 / 562949953421312) - (2206763817411543 / 2251799813685248)) (788129934789837 / 2251799813685248) 6305039478318696 (-54) (by norm_num) (by norm_num) (by norm_num) (by norm_num) (by norm_num) (by norm_num) (by norm_num)
  have h17 : fsub 45 0 = some 45 :=
    roundF64_pos_mid (45 - 0) 45 6333186975989760 (-47) (by norm_num) (by norm_num) (by norm_num) (by norm_num) (by norm_num) (by norm_num) (by norm_num)
  have h18 : fadd 0 45 = some 45 :=
    roundF64_pos_mid (0 + 45) 45 6333186975989760 (-47) (by norm_num) (by norm_num) (by norm_num) (by norm_num) (by norm_num) (by norm_num) (by norm_num)
  have h19 : Seg64 (0, (2206763817411543 / 2251799813685248)) (45, (748723438050345 / 562949953421312)) :=
    ⟨by norm_num, h15, (788129934789837 / 2251799813685248), 45, h16, by norm_num, h17, by norm_num, h18⟩
  have h20 : roundF64 45 = some 45 :=
    roundF64_pos_mid (45) 45 6333186975989760 (-47) (by norm_num) (by norm_num) (by norm_num) (by norm_num) (by norm_num) (by norm_num) (by norm_num)
  have h21 : fsub (6147413491360727 / 4503599627370496) (748723438050345 / 562949953421312) = some (157625986957967 / 4503599627370496) :=
    roundF64_pos_mid ((6147413491360727 / 4503599627370496) - (748723438050345 / 562949953421312)) (157625986957967 / 4503599627370496) 5044031582654944 (-57) (by norm_num) (by norm_num) (by norm_num) (by norm_num) (by norm_num) (by norm_num) (by norm_num)
  have h22 : fsub 48 45 = some 3 :=
    roundF64_pos_mid (48 - 45) 3 6755399441055744 (-51) (by norm_num) (by norm_num) (by norm_num) (by norm_num) (by norm_num) (by norm_num) (by norm_num)
  have h23 : fadd 45 3 = some 48 :=
    roundF64_pos_mid (45 + 3) 48 6755399441055744 (-47) (by norm_num) (by norm_num) (by norm_num) (by norm_num) (by norm_num) (by norm_num) (by norm_num)
  have h24 : Seg64 (45, (748723438050345 / 562949953421312)) (48, (6147413491360727 / 4503599627370496)) :=
    ⟨by norm_num, h20, (157625986957967 / 4503599627370496), 3, h21, by norm_num, h22, by norm_num, h23⟩
  have h25 : roundF64 48 = some 48 :=
    roundF64_pos_mid (48) 48 6755399441055744 (-47) (by norm_num) (by norm_num) (by norm_num) (by norm_num) (by norm_num) (by norm_num) (by norm_num)
  have h26 : fsub (3134505340649865 / 2251799813685248) (6147413491360727 / 4503599627370496) = some (121597189939003 / 4503599627370496) :=
    roundF64_pos_mid ((3134505340649865 / 2251799813685248) - (6147413491360727 / 4503599627370496)) (121597189939003 / 4503599627370496) 7782220156096192 (-58) (by norm_num) (by norm_num) (by norm_num) (by norm_num) (by norm_num) (by norm_num) (by norm_num)
  have h27 : fsub 50 48 = some 2 :=
    roundF64_pos (50 - 48) 2 4503599627370496 (-51) (by norm_num) (by norm_num) (by norm_num) (by norm_num) (by norm_num) (by norm_num) (by norm_num)
  have h28 : fadd 48 2 = some 50 :=
    roundF64_pos_mid (48 + 2) 50 7036874417766400 (-47) (by norm_num) (by norm_num) (by norm_num) (by norm_num) (by norm_num) (by norm_num) (by norm_num)
  have h29 : Seg64 (48, (6147413491360727 / 4503599627370496)) (50, (3134505340649865 / 2251799813685248)) :=
    ⟨by norm_num, h25, (121597189939003 / 4503599627370496), 2, h26, by norm_num, h27, by norm_num, h28⟩
  have h30 : roundF64 50 = some 50 :=
    roundF64_pos_mid (50) 50 7036874417766400 (-47) (by norm_num) (by norm_num) (by norm_num) (by norm_num) (by norm_num) (by norm_num) (by norm_num)
  have h31 : fsub (6327557476455547 / 4503599627370496) (3134505340649865 / 2251799813685248) = some (58546795155817 / 4503599627370496) :=
    roundF64_pos_mid ((6327557476455547 / 4503599627370496) - (3134505340649865 / 2251799813685248)) (58546795155817 / 4503599627370496) 7493989779944576 (-59) (by norm_num) (by norm_num) (by norm_num) (by norm_num) (by norm_num) (by norm_num) (by norm_num)
  have h32 : fsub 51 50 = some 1 :=
    roundF64_pos (51 - 50) 1 4503599627370496 (-52) (by norm_num) (by norm_num) (by norm_num) (by norm_num) (by norm_num) (by norm_num) (by norm_num)
  have h33 : fadd 50 1 = some 51 :=
    roundF64_pos_mid (50 + 1) 51 7177611906121728 (-47) (by norm_num) (by norm_num) (by norm_num) (by norm_num) (by norm_num) (by norm_num) (by norm_num)
  have h34 : Seg64 (50, (3134505340649865 / 2251799813685248)) (51, (6327557476455547 / 4503599627370496)) :=
    ⟨by norm_num, h30, (58546795155817 / 4503599627370496), 1, h31, by norm_num, h32, by norm_num, h33⟩
  have h35 : roundF64 51 = some 51 :=
    roundF64_pos_mid (51) 51 7177611906121728 (-47) (by norm_num) (by norm_num) (by norm_num) (by norm_num) (by norm_num) (by norm_num) (by norm_num)
  have h36 : fsub (6386104271611363 / 4503599627370496) (6327557476455547 / 4503599627370496) = some (7318349394477 / 562949953421312) :=
    roundF64_pos_mid ((6386104271611363 / 4503599627370496) - (6327557476455547 / 4503599627370496)) (7318349394477 / 562949953421312) 7493989779944448 (-59) (by norm_num) (by norm_num) (by norm_num) (by norm_num) (by norm_num) (by norm_num) (by norm_num)
  have h37 : fsub 52 51 = some 1 :=
    roundF64_pos (52 - 51) 1 4503599627370496 (-52) (by norm_num) (by norm_num) (by norm_num) (by norm_num) (by norm_num) (by norm_num) (by norm_num)
  have h38 : fadd 51 1 = some 52 :=
    roundF64_pos_mid (51 + 1) 52 7318349394477056 (-47) (by norm_num) (by norm_num) (by norm_num) (by norm_num) (by norm_num) (by norm_num) (by norm_num)
  have h39 : Seg64 (51, (6327557476455547 / 4503599627370496)) (52, (6386104271611363 / 4503599627370496)) :=
    ⟨by norm_num, h35, (7318349394477 / 562949953421312), 1, h36, by norm_num, h37, by norm_num, h38⟩
  refine ⟨h14, ?_⟩
  rw [h14]
  exact List.Chain'.cons h19 (List.Chain'.cons h24 (List.Chain'.cons h29 (List.Chain'.cons h34 (List.Chain'.cons h39 (List.chain'_singleton _)))))

/-- The constants 0.95 and 0.90 of the recommendation as `float64`. -/
theorem lit64_values : lit64 0.95 = (4278419646001971 / 4503599627370496) ∧ lit64 0.90 = (8106479329266893 / 9007199254740992) :=
  ⟨lit64_of_round _ _ (roundF64_pos_mid (0.95) (4278419646001971 / 4503599627370496) 8556839292003942 (-53) (by norm_num) (by norm_num) (by norm_num) (by norm_num) (by norm_num) (by norm_num) (by norm_num)), lit64_of_round _ _ (roundF64_pos_mid (0.90) (8106479329266893 / 9007199254740992) 8106479329266893 (-53) (by norm_num) (by norm_num) (by norm_num) (by norm_num) (by norm_num) (by norm_num) (by norm_num))⟩

/-- Small integers are `float64` numbers. -/
theorem roundF64_small_integers :
    roundF64 5 = some 5 ∧
      roundF64 10 = some 10 ∧
      roundF64 20 = some 20 ∧
      roundF64 53 = some 53 ∧
      roundF64 (-53) = some (-53) ∧
      roundF64 11 = some 11 ∧
      roundF64 (-11) = some (-11) ∧
      roundF64 220 = some 220 ∧
      roundF64 (-220) = some (-220) ∧
      roundF64 273 = some 273 :=
  ⟨roundF64_pos_mid (5) 5 5629499534213120 (-50) (by norm_num) (by norm_num) (by norm_num) (by norm_num) (by norm_num) (by norm_num) (by norm_num),
    roundF64_pos_mid (10) 10 5629499534213120 (-49) (by norm_num) (by norm_num) (by norm_num) (by norm_num) (by norm_num) (by norm_num) (by norm_num),
    roundF64_pos_mid (20) 20 5629499534213120 (-48) (by norm_num) (by norm_num) (by norm_num) (by norm_num) (by norm_num) (by norm_num) (by norm_num),
    roundF64_pos_mid (53) 53 7459086882832384 (-47) (by norm_num) (by norm_num) (by norm_num) (by norm_num) (by norm_num) (by norm_num) (by norm_num),
    roundF64_neg_mid ((-53)) (-53) (-7459086882832384) (-47) (by norm_num) (by norm_num) (by norm_num) (by norm_num) (by norm_num) (by norm_num) (by norm_num),
    roundF64_pos_mid (11) 11 6192449487634432 (-49) (by norm_num) (by norm_num) (by norm_num) (by norm_num) (by norm_num) (by norm_num) (by norm_num),
    roundF64_neg_mid ((-11)) (-11) (-6192449487634432) (-49) (by norm_num) (by norm_num) (by norm_num) (by norm_num) (by norm_num) (by norm_num) (by norm_num),
    roundF64_pos_mid (220) 220 7740561859543040 (-45) (by norm_num) (by norm_num) (by norm_num) (by norm_num) (by norm_num) (by norm_num) (by norm_num),
    roundF64_neg_mid ((-220)) (-220) (-7740561859543040) (-45) (by norm_num) (by norm_num) (by norm_num) (by norm_num) (by norm_num) (by norm_num) (by norm_num),
    roundF64_pos_mid (273) 273 4802666790125568 (-44) (by norm_num) (by norm_num) (by norm_num) (by norm_num) (by norm_num) (by norm_num) (by norm_num)⟩

/-- The capacities of the default ratings and differentials in binary64. -/
theorem capacity64_default :
    qSet64 1200 24 25 = some (1034411186011903 / 562949953421312) ∧
      qSet64 1000 20 22 = some (1632593412266261 / 1125899906842624) ∧
      qSet64 800 16 18 = some (5108203387713101 / 4503599627370496) ∧
      fadd (1034411186011903 / 562949953421312) (1632593412266261 / 1125899906842624) = some (3701415784290067 / 1125899906842624) ∧
      fadd (3701415784290067 / 1125899906842624) (5108203387713101 / 4503599627370496) = some (2489233315609171 / 562949953421312) := by
  have h1 : fmul 1200 3600.0 = some 4320000 :=
    roundF64_pos_mid (1200 * 3600.0) 4320000 4638564679680000 (-30) (by norm_num) (by norm_num) (by norm_num) (by norm_num) (by norm_num) (by norm_num) (by norm_num)
  have h2 : fdiv 4320000 (LatentHeatOfVaporization * 1000.0) = some (8620093216765859 / 4503599627370496) :=
    fdiv_of_round (4320000) ((LatentHeatOfVaporization * 1000.0)) (8620093216765859 / 4503599627370496) (by norm_num [LatentHeatOfVaporization]) (roundF64_pos_mid (4320000 / (LatentHeatOfVaporization * 1000.0)) (8620093216765859 / 4503599627370496) 8620093216765859 (-52) (by norm_num) (by norm_num) (by norm_num) (by norm_num) (by norm_num [LatentHeatOfVaporization]) (by norm_num [LatentHeatOfVaporization]) (by norm_num))
  have h3 : fdiv 24 25 = some (1080863910568919 / 1125899906842624) :=
    fdiv_of_round (24) (25) (1080863910568919 / 1125899906842624) (by norm_num) (roundF64_pos_mid (24 / 25) (1080863910568919 / 1125899906842624) 8646911284551352 (-53) (by norm_num) (by norm_num) (by norm_num) (by norm_num) (by norm_num) (by norm_num) (by norm_num))
  have h4 : fmul (8620093216765859 / 4503599627370496) (1080863910568919 / 1125899906842624) = some (1034411186011903 / 562949953421312) :=
    roundF64_pos_mid ((8620093216765859 / 4503599627370496) * (1080863910568919 / 1125899906842624)) (1034411186011903 / 562949953421312) 8275289488095224 (-52) (by norm_num) (by norm_num) (by norm_num) (by norm_num) (by norm_num) (by norm_num) (by norm_num)
  have h5 : fmul 1000 3600.0 = some 3600000 :=
    roundF64_pos_mid (1000 * 3600.0) 3600000 7730941132800000 (-31) (by norm_num) (by norm_num) (by norm_num) (by norm_num) (by norm_num) (by norm_num) (by norm_num)
  have h6 : fdiv 3600000 (LatentHeatOfVaporization * 1000.0) = some (7183411013971549 / 4503599627370496) :=
    fdiv_of_round (3600000) ((LatentHeatOfVaporization * 1000.0)) (7183411013971549 / 4503599627370496) (by norm_num [LatentHeatOfVaporization]) (roundF64_pos_mid (3600000 / (LatentHeatOfVaporization * 1000.0)) (7183411013971549 / 4503599627370496) 7183411013971549 (-52) (by norm_num) (by norm_num) (by norm_num) (by norm_num) (by norm_num [LatentHeatOfVaporization]) (by norm_num [LatentHeatOfVaporization]) (by norm_num))
  have h7 : fdiv 20 22 = some (8188362958855447 / 9007199254740992) :=
    fdiv_of_round (20) (22) (8188362958855447 / 9007199254740992) (by norm_num) (roundF64_pos_mid (20 / 22) (8188362958855447 / 9007199254740992) 8188362958855447 (-53) (by norm_num) (by norm_num) (by norm_num) (by norm_num) (by norm_num) (by norm_num) (by norm_num))
  have h8 : fmul (7183411013971549 / 4503599627370496) (8188362958855447 / 9007199254740992) = some (1632593412266261 / 1125899906842624) :=
    roundF64_pos_mid ((7183411013971549 / 4503599627370496) * (8188362958855447 / 9007199254740992)) (1632593412266261 / 1125899906842624) 6530373649065044 (-52) (by norm_num) (by norm_num) (by norm_num) (by norm_num) (by norm_num) (by norm_num) (by norm_num)
  have h9 : fmul 800 3600.0 = some 2880000 :=
    roundF64_pos_mid (800 * 3600.0) 2880000 6184752906240000 (-31) (by norm_num) (by norm_num) (by norm_num) (by norm_num) (by norm_num) (by norm_num) (by norm_num)
  have h10 : fdiv 2880000 (LatentHeatOfVaporization * 1000.0) = some (5746728811177239 / 4503599627370496) :=
    fdiv_of_round (2880000) ((LatentHeatOfVaporization * 1000.0)) (5746728811177239 / 4503599627370496) (by norm_num [LatentHeatOfVaporization]) (roundF64_pos_mid (2880000 / (LatentHeatOfVaporization * 1000.0)) (5746728811177239 / 4503599627370496) 5746728811177239 (-52) (by norm_num) (by norm_num) (by norm_num) (by norm_num) (by norm_num [LatentHeatOfVaporization]) (by norm_num [LatentHeatOfVaporization]) (by norm_num))
  have h11 : fdiv 16 18 = some (2001599834386887 / 2251799813685248) :=
    fdiv_of_round (16) (18) (2001599834386887 / 2251799813685248) (by norm_num) (roundF64_pos_mid (16 / 18) (2001599834386887 / 2251799813685248) 8006399337547548 (-53) (by norm_num) (by norm_num) (by norm_num) (by norm_num) (by norm_num) (by norm_num) (by norm_num))
  have h12 : fmul (5746728811177239 / 4503599627370496) (2001599834386887 / 2251799813685248) = some (5108203387713101 / 4503599627370496) :=
    roundF64_pos_mid ((5746728811177239 / 4503599627370496) * (2001599834386887 / 2251799813685248)) (5108203387713101 / 4503599627370496) 5108203387713101 (-52) (by norm_num) (by norm_num) (by norm_num) (by norm_num) (by norm_num) (by norm_num) (by norm_num)
  have h13 : fadd (1034411186011903 / 562949953421312) (1632593412266261 / 1125899906842624) = some (3701415784290067 / 1125899906842624) :=
    roundF64_pos_mid ((1034411186011903 / 562949953421312) + (1632593412266261 / 1125899906842624)) (3701415784290067 / 1125899906842624) 7402831568580134 (-51) (by norm_num) (by norm_num) (by norm_num) (by norm_num) (by norm_num) (by norm_num) (by norm_num)
  have h14 : fadd (3701415784290067 / 1125899906842624) (5108203387713101 / 4503599627370496) = some (2489233315609171 / 562949953421312) :=
    roundF64_pos_mid ((3701415784290067 / 1125899906842624) + (5108203387713101 / 4503599627370496)) (2489233315609171 / 562949953421312) 4978466631218342 (-50) (by norm_num) (by norm_num) (by norm_num) (by norm_num) (by norm_num) (by norm_num) (by norm_num)
  exact ⟨qSet64_eq _ _ _ _ _ _ _ h1 h2 h3 h4, qSet64_eq _ _ _ _ _ _ _ h5 h6 h7 h8, qSet64_eq _ _ _ _ _ _ _ h9 h10 h11 h12, h13, h14⟩

/-- The evaluation of the request `feed_conc=1e-20`, `actual_flow=0.7`,
`temp_1=temp_2=temp_3=100`, `dens_1=1.1`, `dens_2=1.2`, `dens_3=1.3` in binary64. -/
theorem handlePost64_A :
    ∃ out, handlePost64 { emptyForm with feed_conc := some (1 / 10 ^ 20), actual_flow := some 0.7, temp_1 := some 100, temp_2 := some 100, temp_3 := some 100, dens_1 := some 1.1, dens_2 := some 1.2, dens_3 := some 1.3 } = some out ∧
      out.FeedConc = (6646139978924579 / 664613997892457936451903530140172288) ∧ out.TargetConc = 52.5 ∧ out.ActualFlow = (3152519739159347 / 4503599627370496) ∧
      out.Effect.Qnom1 = 1200 ∧ out.Effect.Qnom2 = 1000 ∧ out.Effect.Qnom3 = 800 ∧
      out.Effect.DtDesign1 = 25 ∧ out.Effect.DtDesign2 = 22 ∧ out.Effect.DtDesign3 = 18 ∧
      out.Effect.DtSet1 = 24 ∧ out.Effect.DtSet2 = 20 ∧ out.Effect.DtSet3 = 16 ∧
      out.TotalQset = (2489233315609171 / 562949953421312) ∧
      out.TheoreticalMax = (2489233315609171 / 562949953421312) ∧
      out.RecommendLow = (7467699946827513 / 2251799813685248) ∧
      out.RecommendHigh = (4729543299657425 / 1125899906842624) ∧
      out.SuggestFlow = (1120154992024127 / 281474976710656) ∧
      out.Effect.ConcOut1 = (8685513567071677 / 562949953421312) ∧
      out.Effect.ConcOut2 = (7961720769815695 / 281474976710656) ∧
      out.Effect.ConcOut3 = (1447585594511945 / 35184372088832) ∧
      out.Effect.Qrun1 = (6305039478318695 / 9007199254740992) ∧
      out.Effect.Qrun2 = (-2047090739713859 / 40564819207303340847894502572032) ∧
      out.Effect.Qrun3 = (-6141272219141597 / 324518553658426726783156020576256) := by
  have h1 : roundF64 (1 / 10 ^ 20) = some (6646139978924579 / 664613997892457936451903530140172288) :=
    roundF64_pos_mid ((1 / 10 ^ 20)) (6646139978924579 / 664613997892457936451903530140172288) 6646139978924579 (-119) (by norm_num) (by norm_num) (by norm_num) (by norm_num) (by norm_num) (by norm_num) (by norm_num)
  have h2 : roundF64 0.7 = some (3152519739159347 / 4503599627370496) :=
    roundF64_pos_mid (0.7) (3152519739159347 / 4503599627370496) 6305039478318694 (-53) (by norm_num) (by norm_num) (by norm_num) (by norm_num) (by norm_num) (by norm_num) (by norm_num)
  have h3 : roundF64 100 = some 100 :=
    roundF64_pos_mid (100) 100 7036874417766400 (-46) (by norm_num) (by norm_num) (by norm_num) (by norm_num) (by norm_num) (by norm_num) (by norm_num)
  have h4 : roundF64 1.1 = some (2476979795053773 / 2251799813685248) :=
    roundF64_pos_mid (1.1) (2476979795053773 / 2251799813685248) 4953959590107546 (-52) (by norm_num) (by norm_num) (by norm_num) (by norm_num) (by norm_num) (by norm_num) (by norm_num)
  have h5 : roundF64 1.2 = some (5404319552844595 / 4503599627370496) :=
    roundF64_pos_mid (1.2) (5404319552844595 / 4503599627370496) 5404319552844595 (-52) (by norm_num) (by norm_num) (by norm_num) (by norm_num) (by norm_num) (by norm_num) (by norm_num)
  have h6 : roundF64 1.3 = some (5854679515581645 / 4503599627370496) :=
    roundF64_pos_mid (1.3) (5854679515581645 / 4503599627370496) 5854679515581645 (-52) (by norm_num) (by norm_num) (by norm_num) (by norm_num) (by norm_num) (by norm_num) (by norm_num)
  have h7 : fsub (2476979795053773 / 2251799813685248) (2206763817411543 / 2251799813685248) = some (135107988821115 / 1125899906842624) :=
    roundF64_pos_mid ((2476979795053773 / 2251799813685248) - (2206763817411543 / 2251799813685248)) (135107988821115 / 1125899906842624) 8646911284551360 (-56) (by norm_num) (by norm_num) (by norm_num) (by norm_num) (by norm_num) (by norm_num) (by norm_num)
  have h8 : fsub (748723438050345 / 562949953421312) (2206763817411543 / 2251799813685248) = some (788129934789837 / 2251799813685248) :=
    roundF64_pos_mid ((748723438050345 / 562949953421312) - (2206763817411543 / 2251799813685248)) (788129934789837 / 2251799813685248) 6305039478318696 (-54) (by norm_num) (by norm_num) (by norm_num) (by norm_num) (by norm_num) (by norm_num) (by norm_num)
  have h9 : fdiv (135107988821115 / 1125899906842624) (788129934789837 / 2251799813685248) = some (3088182601625485 / 9007199254740992) :=
    fdiv_of_round ((135107988821115 / 1125899906842624)) ((788129934789837 / 2251799813685248)) (3088182601625485 / 9007199254740992) (by norm_num) (roundF64_pos_mid ((135107988821115 / 1125899906842624) / (788129934789837 / 2251799813685248)) (3088182601625485 / 9007199254740992) 6176365203250970 (-54) (by norm_num) (by norm_num) (by norm_num) (by norm_num) (by norm_num) (by norm_num) (by norm_num))
  have h10 : fsub 45 0 = some 45 :=
    roundF64_pos_mid (45 - 0) 45 6333186975989760 (-47) (by norm_num) (by norm_num) (by norm_num) (by norm_num) (by norm_num) (by norm_num) (by norm_num)
  have h11 : fmul (3088182601625485 / 9007199254740992) 45 = some (8685513567071677 / 562949953421312) :=
    roundF64_pos_mid ((3088182601625485 / 9007199254740992) * 45) (8685513567071677 / 562949953421312) 8685513567071677 (-49) (by norm_num) (by norm_num) (by norm_num) (by norm_num) (by norm_num) (by norm_num) (by norm_num)
  have h12 : fadd 0 (8685513567071677 / 562949953421312) = some (8685513567071677 / 562949953421312) :=
    roundF64_pos_mid (0 + (8685513567071677 / 562949953421312)) (8685513567071677 / 562949953421312) 8685513567071677 (-49) (by norm_num) (by norm_num) (by norm_num) (by norm_num) (by norm_num) (by norm_num) (by norm_num)
  have h13 : interpPair64 (0, (2206763817411543 / 2251799813685248)) (45, (748723438050345 / 562949953421312)) (2476979795053773 / 2251799813685248) = some (8685513567071677 / 562949953421312) :=
    interpPair64_eq _ _ _ _ _ _ _ _ _ _ _ h7 h8 h9 h10 h11 h12
  have h14 : interpLoop64 (2476979795053773 / 2251799813685248) [(0, (2206763817411543 / 2251799813685248)), (45, (748723438050345 / 562949953421312)), (48, (6147413491360727 / 4503599627370496)), (50, (3134505340649865 / 2251799813685248)), (51, (6327557476455547 / 4503599627370496)), (52, (6386104271611363 / 4503599627370496))] = LoopOutcome.returned (8685513567071677 / 562949953421312) :=
    by
      exact interpLoop64_hit _ _ _ _ _ (by norm_num) h13
  have h15 : interp64 (tableRow64 100) (2476979795053773 / 2251799813685248) = some (8685513567071677 / 562949953421312) :=
    by
      rw [row64_100.1]
      exact interp64_of_returned _ _ _ h14
  have h16 : getConc64 100 (2476979795053773 / 2251799813685248) = some (8685513567071677 / 562949953421312) :=
    by
      rw [getConc64_key 100 _ (by rw [sortedKeys_eq]; simp)]
      exact h15
  have h17 : fsub (5404319552844595 / 4503599627370496) (2206763817411543 / 2251799813685248) = some (990791918021509 / 4503599627370496) :=
    roundF64_pos_mid ((5404319552844595 / 4503599627370496) - (2206763817411543 / 2251799813685248)) (990791918021509 / 4503599627370496) 7926335344172072 (-55) (by norm_num) (by norm_num) (by norm_num) (by norm_num) (by norm_num) (by norm_num) (by norm_num)
  have h18 : fsub (748723438050345 / 562949953421312) (2206763817411543 / 2251799813685248) = some (788129934789837 / 2251799813685248) :=
    roundF64_pos_mid ((748723438050345 / 562949953421312) - (2206763817411543 / 2251799813685248)) (788129934789837 / 2251799813685248) 6305039478318696 (-54) (by norm_num) (by norm_num) (by norm_num) (by norm_num) (by norm_num) (by norm_num) (by norm_num)
  have h19 : fdiv (990791918021509 / 4503599627370496) (788129934789837 / 2251799813685248) = some (2830834051490025 / 4503599627370496) :=
    fdiv_of_round ((990791918021509 / 4503599627370496)) ((788129934789837 / 2251799813685248)) (2830834051490025 / 4503599627370496) (by norm_num) (roundF64_pos_mid ((990791918021509 / 4503599627370496) / (788129934789837 / 2251799813685248)) (2830834051490025 / 4503599627370496) 5661668102980050 (-53) (by norm_num) (by norm_num) (by norm_num) (by norm_num) (by norm_num) (by norm_num) (by norm_num))
  have h20 : fsub 45 0 = some 45 :=
    roundF64_pos_mid (45 - 0) 45 6333186975989760 (-47) (by norm_num) (by norm_num) (by norm_num) (by norm_num) (by norm_num) (by norm_num) (by norm_num)
  have h21 : fmul (2830834051490025 / 4503599627370496) 45 = some (7961720769815695 / 281474976710656) :=
    roundF64_pos_mid ((2830834051490025 / 4503599627370496) * 45) (7961720769815695 / 281474976710656) 7961720769815695 (-48) (by norm_num) (by norm_num) (by norm_num) (by norm_num) (by norm_num) (by norm_num) (by norm_num)
  have h22 : fadd 0 (7961720769815695 / 281474976710656) = some (7961720769815695 / 281474976710656) :=
    roundF64_pos_mid (0 + (7961720769815695 / 281474976710656)) (7961720769815695 / 281474976710656) 7961720769815695 (-48) (by norm_num) (by norm_num) (by norm_num) (by norm_num) (by norm_num) (by norm_num) (by norm_num)
  have h23 : interpPair64 (0, (2206763817411543 / 2251799813685248)) (45, (748723438050345 / 562949953421312)) (5404319552844595 / 4503599627370496) = some (7961720769815695 / 281474976710656) :=
    interpPair64_eq _ _ _ _ _ _ _ _ _ _ _ h17 h18 h19 h20 h21 h22
  have h24 : interpLoop64 (5404319552844595 / 4503599627370496) [(0, (2206763817411543 / 2251799813685248)), (45, (748723438050345 / 562949953421312)), (48, (6147413491360727 / 4503599627370496)), (50, (3134505340649865 / 2251799813685248)), (51, (6327557476455547 / 4503599627370496)), (52, (6386104271611363 / 4503599627370496))] = LoopOutcome.returned (7961720769815695 / 281474976710656) :=
    by
      exact interpLoop64_hit _ _ _ _ _ (by norm_num) h23
  have h25 : interp64 (tableRow64 100) (5404319552844595 / 4503599627370496) = some (7961720769815695 / 281474976710656) :=
    by
      rw [row64_100.1]
      exact interp64_of_returned _ _ _ h24
  have h26 : getConc64 100 (5404319552844595 / 4503599627370496) = some (7961720769815695 / 281474976710656) :=
    by
      rw [getConc64_key 100 _ (by rw [sortedKeys_eq]; simp)]
      exact h25
  have h27 : fsub (5854679515581645 / 4503599627370496) (2206763817411543 / 2251799813685248) = some (1441151880758559 / 4503599627370496) :=
    roundF64_pos_mid ((5854679515581645 / 4503599627370496) - (2206763817411543 / 2251799813685248)) (1441151880758559 / 4503599627370496) 5764607523034236 (-54) (by norm_num) (by norm_num) (by norm_num) (by norm_num) (by norm_num) (by norm_num) (by norm_num)
  have h28 : fsub (748723438050345 / 562949953421312) (2206763817411543 / 2251799813685248) = some (788129934789837 / 2251799813685248) :=
    roundF64_pos_mid ((748723438050345 / 562949953421312) - (2206763817411543 / 2251799813685248)) (788129934789837 / 2251799813685248) 6305039478318696 (-54) (by norm_num) (by norm_num) (by norm_num) (by norm_num) (by norm_num) (by norm_num) (by norm_num)
  have h29 : fdiv (1441151880758559 / 4503599627370496) (788129934789837 / 2251799813685248) = some (8235153604334621 / 9007199254740992) :=
    fdiv_of_round ((1441151880758559 / 4503599627370496)) ((788129934789837 / 2251799813685248)) (8235153604334621 / 9007199254740992) (by norm_num) (roundF64_pos_mid ((1441151880758559 / 4503599627370496) / (788129934789837 / 2251799813685248)) (8235153604334621 / 9007199254740992) 8235153604334621 (-53) (by norm_num) (by norm_num) (by norm_num) (by norm_num) (by norm_num) (by norm_num) (by norm_num))
  have h30 : fsub 45 0 = some 45 :=
    roundF64_pos_mid (45 - 0) 45 6333186975989760 (-47) (by norm_num) (by norm_num) (by norm_num) (by norm_num) (by norm_num) (by norm_num) (by norm_num)
  have h31 : fmul (8235153604334621 / 9007199254740992) 45 = some (1447585594511945 / 35184372088832) :=
    roundF64_pos_mid ((8235153604334621 / 9007199254740992) * 45) (1447585594511945 / 35184372088832) 5790342378047780 (-47) (by norm_num) (by norm_num) (by norm_num) (by norm_num) (by norm_num) (by norm_num) (by norm_num)
  have h32 : fadd 0 (1447585594511945 / 35184372088832) = some (1447585594511945 / 35184372088832) :=
    roundF64_pos_mid (0 + (1447585594511945 / 35184372088832)) (1447585594511945 / 35184372088832) 5790342378047780 (-47) (by norm_num) (by norm_num) (by norm_num) (by norm_num) (by norm_num) (by norm_num) (by norm_num)
  have h33 : interpPair64 (0, (2206763817411543 / 2251799813685248)) (45, (748723438050345 / 562949953421312)) (5854679515581645 / 4503599627370496) = some (1447585594511945 / 35184372088832) :=
    interpPair64_eq _ _ _ _ _ _ _ _ _ _ _ h27 h28 h29 h30 h31 h32
  have h34 : interpLoop64 (5854679515581645 / 4503599627370496) [(0, (2206763817411543 / 2251799813685248)), (45, (748723438050345 / 562949953421312)), (48, (6147413491360727 / 4503599627370496)), (50, (3134505340649865 / 2251799813685248)), (51, (6327557476455547 / 4503599627370496)), (52, (6386104271611363 / 4503599627370496))] = LoopOutcome.returned (1447585594511945 / 35184372088832) :=
    by
      exact interpLoop64_hit _ _ _ _ _ (by norm_num) h33
  have h35 : interp64 (tableRow64 100) (5854679515581645 / 4503599627370496) = some (1447585594511945 / 35184372088832) :=
    by
      rw [row64_100.1]
      exact interp64_of_returned _ _ _ h34
  have h36 : getConc64 100 (5854679515581645 / 4503599627370496) = some (1447585594511945 / 35184372088832) :=
    by
      rw [getConc64_key 100 _ (by rw [sortedKeys_eq]; simp)]
      exact h35
  have h37 : fsub 52.5 (6646139978924579 / 664613997892457936451903530140172288) = some (105 / 2) :=
    roundF64_pos_mid (52.5 - (6646139978924579 / 664613997892457936451903530140172288)) (105 / 2) 7388718138654720 (-47) (by norm_num) (by norm_num) (by norm_num) (by norm_num) (by norm_num) (by norm_num) (by norm_num)
  have h38 : fdiv 52.5 (105 / 2) = some 1 :=
    fdiv_of_round (52.5) ((105 / 2)) 1 (by norm_num) (roundF64_pos (52.5 / (105 / 2)) 1 4503599627370496 (-52) (by norm_num) (by norm_num) (by norm_num) (by norm_num) (by norm_num) (by norm_num) (by norm_num))
  have h39 : fmul (2489233315609171 / 562949953421312) 1 = some (2489233315609171 / 562949953421312) :=
    roundF64_pos_mid ((2489233315609171 / 562949953421312) * 1) (2489233315609171 / 562949953421312) 4978466631218342 (-50) (by norm_num) (by norm_num) (by norm_num) (by norm_num) (by norm_num) (by norm_num) (by norm_num)
  have h40 : fmul (2489233315609171 / 562949953421312) 0.75 = some (7467699946827513 / 2251799813685248) :=
    roundF64_pos_mid ((2489233315609171 / 562949953421312) * 0.75) (7467699946827513 / 2251799813685248) 7467699946827513 (-51) (by norm_num) (by norm_num) (by norm_num) (by norm_num) (by norm_num) (by norm_num) (by norm_num)
  have h41 : fmul (2489233315609171 / 562949953421312) (4278419646001971 / 4503599627370496) = some (4729543299657425 / 1125899906842624) :=
    roundF64_pos_mid ((2489233315609171 / 562949953421312) * (4278419646001971 / 4503599627370496)) (4729543299657425 / 1125899906842624) 4729543299657425 (-50) (by norm_num) (by norm_num) (by norm_num) (by norm_num) (by norm_num) (by norm_num) (by norm_num)
  have h42 : fmul (2489233315609171 / 562949953421312) (8106479329266893 / 9007199254740992) = some (1120154992024127 / 281474976710656) :=
    roundF64_pos_mid ((2489233315609171 / 562949953421312) * (8106479329266893 / 9007199254740992)) (1120154992024127 / 281474976710656) 8961239936193016 (-51) (by norm_num) (by norm_num) (by norm_num) (by norm_num) (by norm_num) (by norm_num) (by norm_num)
  have h43 : recommend64 (2489233315609171 / 562949953421312) 52.5 (6646139978924579 / 664613997892457936451903530140172288) =
      some ((2489233315609171 / 562949953421312), (7467699946827513 / 2251799813685248), (4729543299657425 / 1125899906842624), (1120154992024127 / 281474976710656)) :=
    recommend64_eq _ _ _ _ _ _ _ _ _ (by norm_num) h37 h38 h39 h40
      (by rw [lit64_values.1]; exact h41) (by rw [lit64_values.2]; exact h42)
  have h44 : fsub (8685513567071677 / 562949953421312) (6646139978924579 / 664613997892457936451903530140172288) = some (8685513567071677 / 562949953421312) :=
    roundF64_pos_mid ((8685513567071677 / 562949953421312) - (6646139978924579 / 664613997892457936451903530140172288)) (8685513567071677 / 562949953421312) 8685513567071677 (-49) (by norm_num) (by norm_num) (by norm_num) (by norm_num) (by norm_num) (by norm_num) (by norm_num)
  have h45 : fmul (3152519739159347 / 4503599627370496) (8685513567071677 / 562949953421312) = some (3039929748475087 / 281474976710656) :=
    roundF64_pos_mid ((3152519739159347 / 4503599627370496) * (8685513567071677 / 562949953421312)) (3039929748475087 / 281474976710656) 6079859496950174 (-49) (by norm_num) (by norm_num) (by norm_num) (by norm_num) (by norm_num) (by norm_num) (by norm_num)
  have h46 : fdiv (3039929748475087 / 281474976710656) (8685513567071677 / 562949953421312) = some (6305039478318695 / 9007199254740992) :=
    fdiv_of_round ((3039929748475087 / 281474976710656)) ((8685513567071677 / 562949953421312)) (6305039478318695 / 9007199254740992) (by norm_num) (roundF64_pos_mid ((3039929748475087 / 281474976710656) / (8685513567071677 / 562949953421312)) (6305039478318695 / 9007199254740992) 6305039478318695 (-53) (by norm_num) (by norm_num) (by norm_num) (by norm_num) (by norm_num) (by norm_num) (by norm_num))
  have h47 : removed64 (3152519739159347 / 4503599627370496) (8685513567071677 / 562949953421312) (6646139978924579 / 664613997892457936451903530140172288) = some (6305039478318695 / 9007199254740992) :=
    removed64_eq _ _ _ _ _ _ h44 h45 h46
  have h48 : fsub (3152519739159347 / 4503599627370496) (6305039478318695 / 9007199254740992) = some (-1 / 9007199254740992) :=
    roundF64_neg ((3152519739159347 / 4503599627370496) - (6305039478318695 / 9007199254740992)) (-1 / 9007199254740992) (-4503599627370496) (-105) (by norm_num) (by norm_num) (by norm_num) (by norm_num) (by norm_num) (by norm_num) (by norm_num)
  have h49 : fsub (7961720769815695 / 281474976710656) (8685513567071677 / 562949953421312) = some (7237927972559713 / 562949953421312) :=
    roundF64_pos_mid ((7961720769815695 / 281474976710656) - (8685513567071677 / 562949953421312)) (7237927972559713 / 562949953421312) 7237927972559713 (-49) (by norm_num) (by norm_num) (by norm_num) (by norm_num) (by norm_num) (by norm_num) (by norm_num)
  have h50 : fmul (-1 / 9007199254740992) (7237927972559713 / 562949953421312) = some (-7237927972559713 / 5070602400912917605986812821504) :=
    roundF64_neg_mid ((-1 / 9007199254740992) * (7237927972559713 / 562949953421312)) (-7237927972559713 / 5070602400912917605986812821504) (-7237927972559713) (-102) (by norm_num) (by norm_num) (by norm_num) (by norm_num) (by norm_num) (by norm_num) (by norm_num)
  have h51 : fdiv (-7237927972559713 / 5070602400912917605986812821504) (7961720769815695 / 281474976710656) = some (-2047090739713859 / 40564819207303340847894502572032) :=
    fdiv_of_round ((-7237927972559713 / 5070602400912917605986812821504)) ((7961720769815695 / 281474976710656)) (-2047090739713859 / 40564819207303340847894502572032) (by norm_num) (roundF64_neg_mid ((-7237927972559713 / 5070602400912917605986812821504) / (7961720769815695 / 281474976710656)) (-2047090739713859 / 40564819207303340847894502572032) (-8188362958855436) (-107) (by norm_num) (by norm_num) (by norm_num) (by norm_num) (by norm_num) (by norm_num) (by norm_num))
  have h52 : removed64 (-1 / 9007199254740992) (7961720769815695 / 281474976710656) (8685513567071677 / 562949953421312) = some (-2047090739713859 / 40564819207303340847894502572032) :=
    removed64_eq _ _ _ _ _ _ h49 h50 h51
  have h53 : fsub (-1 / 9007199254740992) (-2047090739713859 / 40564819207303340847894502572032) = some (-2456508887656637 / 40564819207303340847894502572032) :=
    roundF64_neg_mid ((-1 / 9007199254740992) - (-2047090739713859 / 40564819207303340847894502572032)) (-2456508887656637 / 40564819207303340847894502572032) (-4913017775313274) (-106) (by norm_num) (by norm_num) (by norm_num) (by norm_num) (by norm_num) (by norm_num) (by norm_num)
  have h54 : fsub (1447585594511945 / 35184372088832) (7961720769815695 / 281474976710656) = some (3618963986279865 / 281474976710656) :=
    roundF64_pos_mid ((1447585594511945 / 35184372088832) - (7961720769815695 / 281474976710656)) (3618963986279865 / 281474976710656) 7237927972559730 (-49) (by norm_num) (by norm_num) (by norm_num) (by norm_num) (by norm_num) (by norm_num) (by norm_num)
  have h55 : fmul (-2456508887656637 / 40564819207303340847894502572032) (3618963986279865 / 281474976710656) = some (-123373772259541 / 158456325028528675187087900672) :=
    roundF64_neg_mid ((-2456508887656637 / 40564819207303340847894502572032) * (3618963986279865 / 281474976710656)) (-123373772259541 / 158456325028528675187087900672) (-7895921424610624) (-103) (by norm_num) (by norm_num) (by norm_num) (by norm_num) (by norm_num) (by norm_num) (by norm_num)
  have h56 : fdiv (-123373772259541 / 158456325028528675187087900672) (1447585594511945 / 35184372088832) = some (-6141272219141597 / 324518553658426726783156020576256) :=
    fdiv_of_round ((-123373772259541 / 158456325028528675187087900672)) ((1447585594511945 / 35184372088832)) (-6141272219141597 / 324518553658426726783156020576256) (by norm_num) (roundF64_neg_mid ((-123373772259541 / 158456325028528675187087900672) / (1447585594511945 / 35184372088832)) (-6141272219141597 / 324518553658426726783156020576256) (-6141272219141597) (-108) (by norm_num) (by norm_num) (by norm_num) (by norm_num) (by norm_num) (by norm_num) (by norm_num))
  have h57 : removed64 (-2456508887656637 / 40564819207303340847894502572032) (1447585594511945 / 35184372088832) (7961720769815695 / 281474976710656) = some (-6141272219141597 / 324518553658426726783156020576256) :=
    removed64_eq _ _ _ _ _ _ h54 h55 h56
  exact evaluate64_of_parts (applyForm64 { emptyForm with feed_conc := some (1 / 10 ^ 20), actual_flow := some 0.7, temp_1 := some 100, temp_2 := some 100, temp_3 := some 100, dens_1 := some 1.1, dens_2 := some 1.2, dens_3 := some 1.3 } defaultData64)
    (6646139978924579 / 664613997892457936451903530140172288) 52.5 (3152519739159347 / 4503599627370496) 1200 1000 800 25 22 18 24 20 16 100 100 100 (2476979795053773 / 2251799813685248) (5404319552844595 / 4503599627370496) (5854679515581645 / 4503599627370496)
    (1034411186011903 / 562949953421312) (1632593412266261 / 1125899906842624) (5108203387713101 / 4503599627370496) (3701415784290067 / 1125899906842624) (2489233315609171 / 562949953421312)
    ((2489233315609171 / 562949953421312), (7467699946827513 / 2251799813685248), (4729543299657425 / 1125899906842624), (1120154992024127 / 281474976710656))
    (8685513567071677 / 562949953421312) (7961720769815695 / 281474976710656) (1447585594511945 / 35184372088832) (6305039478318695 / 9007199254740992) (-2047090739713859 / 40564819207303340847894502572032) (-6141272219141597 / 324518553658426726783156020576256)
    (acceptPositive64_some _ _ _ h1 (by norm_num))
    rfl
    (acceptPositive64_some _ _ _ h2 (by norm_num))
    rfl
    rfl
    rfl
    rfl
    rfl
    rfl
    rfl
    rfl
    rfl
    (acceptPositive64_some _ _ _ h3 (by norm_num))
    (acceptPositive64_some _ _ _ h3 (by norm_num))
    (acceptPositive64_some _ _ _ h3 (by norm_num))
    (acceptPositive64_some _ _ _ h4 (by norm_num))
    (acceptPositive64_some _ _ _ h5 (by norm_num))
    (acceptPositive64_some _ _ _ h6 (by norm_num))
    capacity64_default.1 capacity64_default.2.1 capacity64_default.2.2.1
    capacity64_default.2.2.2.1 capacity64_default.2.2.2.2
    h43 h16 h26 h36
    (qrun1F_eq _ _ _ _ (by norm_num) h47) (qrun2F_eq _ _ _ _ _ _ (by norm_num) h48 h52) (qrun3F_eq _ _ _ _ _ _ _ _ (by norm_num) h48 h53 h57)

/-- The evaluation of the request `actual_flow=0.7`, `temp_1=temp_2=temp_3=100`,
`dens_1=0.9`, `dens_2=1.1`, `dens_3=1.3` in binary64. -/
theorem handlePost64_B :
    ∃ out, handlePost64 { emptyForm with actual_flow := some 0.7, temp_1 := some 100, temp_2 := some 100, temp_3 := some 100, dens_1 := some 0.9, dens_2 := some 1.1, dens_3 := some 1.3 } = some out ∧
      out.FeedConc = 18.0 ∧ out.TargetConc = 52.5 ∧ out.ActualFlow = (3152519739159347 / 4503599627370496) ∧
      out.Effect.Qnom1 = 1200 ∧ out.Effect.Qnom2 = 1000 ∧ out.Effect.Qnom3 = 800 ∧
      out.Effect.DtDesign1 = 25 ∧ out.Effect.DtDesign2 = 22 ∧ out.Effect.DtDesign3 = 18 ∧
      out.Effect.DtSet1 = 24 ∧ out.Effect.DtSet2 = 20 ∧ out.Effect.DtSet3 = 16 ∧
      out.TotalQset = (2489233315609171 / 562949953421312) ∧
      out.TheoreticalMax = (3787963741144391 / 562949953421312) ∧
      out.RecommendLow = (2840972805858293 / 562949953421312) ∧
      out.RecommendHigh = (7197131108174343 / 1125899906842624) ∧
      out.SuggestFlow = (53268240109843 / 8796093022208) ∧
      out.Effect.ConcOut1 = 0 ∧
      out.Effect.ConcOut2 = (8685513567071677 / 562949953421312) ∧
      out.Effect.ConcOut3 = (1447585594511945 / 35184372088832) ∧
      out.Effect.Qrun1 = 0 ∧
      out.Effect.Qrun2 = (6305039478318695 / 9007199254740992) ∧
      out.Effect.Qrun3 = (-2814749767106559 / 40564819207303340847894502572032) := by
  have h1 : roundF64 0.7 = some (3152519739159347 / 4503599627370496) :=
    roundF64_pos_mid (0.7) (3152519739159347 / 4503599627370496) 6305039478318694 (-53) (by norm_num) (by norm_num) (by norm_num) (by norm_num) (by norm_num) (by norm_num) (by norm_num)
  have h2 : roundF64 100 = some 100 :=
    roundF64_pos_mid (100) 100 7036874417766400 (-46) (by norm_num) (by norm_num) (by norm_num) (by norm_num) (by norm_num) (by norm_num) (by norm_num)
  have h3 : roundF64 0.9 = some (8106479329266893 / 9007199254740992) :=
    roundF64_pos_mid (0.9) (8106479329266893 / 9007199254740992) 8106479329266893 (-53) (by norm_num) (by norm_num) (by norm_num) (by norm_num) (by norm_num) (by norm_num) (by norm_num)
  have h4 : roundF64 1.1 = some (2476979795053773 / 2251799813685248) :=
    roundF64_pos_mid (1.1) (2476979795053773 / 2251799813685248) 4953959590107546 (-52) (by norm_num) (by norm_num) (by norm_num) (by norm_num) (by norm_num) (by norm_num) (by norm_num)
  have h5 : roundF64 1.3 = some (5854679515581645 / 4503599627370496) :=
    roundF64_pos_mid (1.3) (5854679515581645 / 4503599627370496) 5854679515581645 (-52) (by norm_num) (by norm_num) (by norm_num) (by norm_num) (by norm_num) (by norm_num) (by norm_num)
  have h6 : interpLoop64 (8106479329266893 / 9007199254740992) [(0, (2206763817411543 / 2251799813685248)), (45, (748723438050345 / 562949953421312)), (48, (6147413491360727 / 4503599627370496)), (50, (3134505340649865 / 2251799813685248)), (51, (6327557476455547 / 4503599627370496)), (52, (6386104271611363 / 4503599627370496))] = LoopOutcome.finished :=
    by
      rw [interpLoop64_skip _ _ _ _ (by norm_num)]
      rw [interpLoop64_skip _ _ _ _ (by norm_num)]
      rw [interpLoop64_skip _ _ _ _ (by norm_num)]
      rw [interpLoop64_skip _ _ _ _ (by norm_num)]
      rw [interpLoop64_skip _ _ _ _ (by norm_num)]
      exact interpLoop64_single _ _
  have h7 : interp64 (tableRow64 100) (8106479329266893 / 9007199254740992) = some 0 :=
    by
      rw [row64_100.1, interp64_of_finished _ _ (0, (2206763817411543 / 2251799813685248)) (52, (6386104271611363 / 4503599627370496)) h6 rfl rfl]
      norm_num
  have h8 : getConc64 100 (8106479329266893 / 9007199254740992) = some 0 :=
    by
      rw [getConc64_key 100 _ (by rw [sortedKeys_eq]; simp)]
      exact h7
  have h9 : fsub (2476979795053773 / 2251799813685248) (2206763817411543 / 2251799813685248) = some (135107988821115 / 1125899906842624) :=
    roundF64_pos_mid ((2476979795053773 / 2251799813685248) - (2206763817411543 / 2251799813685248)) (135107988821115 / 1125899906842624) 8646911284551360 (-56) (by norm_num) (by norm_num) (by norm_num) (by norm_num) (by norm_num) (by norm_num) (by norm_num)
  have h10 : fsub (748723438050345 / 562949953421312) (2206763817411543 / 2251799813685248) = some (788129934789837 / 2251799813685248) :=
    roundF64_pos_mid ((748723438050345 / 562949953421312) - (2206763817411543 / 2251799813685248)) (788129934789837 / 2251799813685248) 6305039478318696 (-54) (by norm_num) (by norm_num) (by norm_num) (by norm_num) (by norm_num) (by norm_num) (by norm_num)
  have h11 : fdiv (135107988821115 / 1125899906842624) (788129934789837 / 2251799813685248) = some (3088182601625485 / 9007199254740992) :=
    fdiv_of_round ((135107988821115 / 1125899906842624)) ((788129934789837 / 2251799813685248)) (3088182601625485 / 9007199254740992) (by norm_num) (roundF64_pos_mid ((135107988821115 / 1125899906842624) / (788129934789837 / 2251799813685248)) (3088182601625485 / 9007199254740992) 6176365203250970 (-54) (by norm_num) (by norm_num) (by norm_num) (by norm_num) (by norm_num) (by norm_num) (by norm_num))
  have h12 : fsub 45 0 = some 45 :=
    roundF64_pos_mid (45 - 0) 45 6333186975989760 (-47) (by norm_num) (by norm_num) (by norm_num) (by norm_num) (by norm_num) (by norm_num) (by norm_num)
  have h13 : fmul (3088182601625485 / 9007199254740992) 45 = some (8685513567071677 / 562949953421312) :=
    roundF64_pos_mid ((3088182601625485 / 9007199254740992) * 45) (8685513567071677 / 562949953421312) 8685513567071677 (-49) (by norm_num) (by norm_num) (by norm_num) (by norm_num) (by norm_num) (by norm_num) (by norm_num)
  have h14 : fadd 0 (8685513567071677 / 562949953421312) = some (8685513567071677 / 562949953421312) :=
    roundF64_pos_mid (0 + (8685513567071677 / 562949953421312)) (8685513567071677 / 562949953421312) 8685513567071677 (-49) (by norm_num) (by norm_num) (by norm_num) (by norm_num) (by norm_num) (by norm_num) (by norm_num)
  have h15 : interpPair64 (0, (2206763817411543 / 2251799813685248)) (45, (748723438050345 / 562949953421312)) (2476979795053773 / 2251799813685248) = some (8685513567071677 / 562949953421312) :=
    interpPair64_eq _ _ _ _ _ _ _ _ _ _ _ h9 h10 h11 h12 h13 h14
  have h16 : interpLoop64 (2476979795053773 / 2251799813685248) [(0, (2206763817411543 / 2251799813685248)), (45, (748723438050345 / 562949953421312)), (48, (6147413491360727 / 4503599627370496)), (50, (3134505340649865 / 2251799813685248)), (51, (6327557476455547 / 4503599627370496)), (52, (6386104271611363 / 4503599627370496))] = LoopOutcome.returned (8685513567071677 / 562949953421312) :=
    by
      exact interpLoop64_hit _ _ _ _ _ (by norm_num) h15
  have h17 : interp64 (tableRow64 100) (2476979795053773 / 2251799813685248) = some (8685513567071677 / 562949953421312) :=
    by
      rw [row64_100.1]
      exact interp64_of_returned _ _ _ h16
  have h18 : getConc64 100 (2476979795053773 / 2251799813685248) = some (8685513567071677 / 562949953421312) :=
    by
      rw [getConc64_key 100 _ (by rw [sortedKeys_eq]; simp)]
      exact h17
  have h19 : fsub (5854679515581645 / 4503599627370496) (2206763817411543 / 2251799813685248) = some (1441151880758559 / 4503599627370496) :=
    roundF64_pos_mid ((5854679515581645 / 4503599627370496) - (2206763817411543 / 2251799813685248)) (1441151880758559 / 4503599627370496) 5764607523034236 (-54) (by norm_num) (by norm_num) (by norm_num) (by norm_num) (by norm_num) (by norm_num) (by norm_num)
  have h20 : fsub (748723438050345 / 562949953421312) (2206763817411543 / 2251799813685248) = some (788129934789837 / 2251799813685248) :=
    roundF64_pos_mid ((748723438050345 / 562949953421312) - (2206763817411543 / 2251799813685248)) (788129934789837 / 2251799813685248) 6305039478318696 (-54) (by norm_num) (by norm_num) (by norm_num) (by norm_num) (by norm_num) (by norm_num) (by norm_num)
  have h21 : fdiv (1441151880758559 / 4503599627370496) (788129934789837 / 2251799813685248) = some (8235153604334621 / 9007199254740992) :=
    fdiv_of_round ((1441151880758559 / 4503599627370496)) ((788129934789837 / 2251799813685248)) (8235153604334621 / 9007199254740992) (by norm_num) (roundF64_pos_mid ((1441151880758559 / 4503599627370496) / (788129934789837 / 2251799813685248)) (8235153604334621 / 9007199254740992) 8235153604334621 (-53) (by norm_num) (by norm_num) (by norm_num) (by norm_num) (by norm_num) (by norm_num) (by norm_num))
  have h22 : fsub 45 0 = some 45 :=
    roundF64_pos_mid (45 - 0) 45 6333186975989760 (-47) (by norm_num) (by norm_num) (by norm_num) (by norm_num) (by norm_num) (by norm_num) (by norm_num)
  have h23 : fmul (8235153604334621 / 9007199254740992) 45 = some (1447585594511945 / 35184372088832) :=
    roundF64_pos_mid ((8235153604334621 / 9007199254740992) * 45) (1447585594511945 / 35184372088832) 5790342378047780 (-47) (by norm_num) (by norm_num) (by norm_num) (by norm_num) (by norm_num) (by norm_num) (by norm_num)
  have h24 : fadd 0 (1447585594511945 / 35184372088832) = some (1447585594511945 / 35184372088832) :=
    roundF64_pos_mid (0 + (1447585594511945 / 35184372088832)) (1447585594511945 / 35184372088832) 5790342378047780 (-47) (by norm_num) (by norm_num) (by norm_num) (by norm_num) (by norm_num) (by norm_num) (by norm_num)
  have h25 : interpPair64 (0, (2206763817411543 / 2251799813685248)) (45, (748723438050345 / 562949953421312)) (5854679515581645 / 4503599627370496) = some (1447585594511945 / 35184372088832) :=
    interpPair64_eq _ _ _ _ _ _ _ _ _ _ _ h19 h20 h21 h22 h23 h24
  have h26 : interpLoop64 (5854679515581645 / 4503599627370496) [(0, (2206763817411543 / 2251799813685248)), (45, (748723438050345 / 562949953421312)), (48, (6147413491360727 / 4503599627370496)), (50, (3134505340649865 / 2251799813685248)), (51, (6327557476455547 / 4503599627370496)), (52, (6386104271611363 / 4503599627370496))] = LoopOutcome.returned (1447585594511945 / 35184372088832) :=
    by
      exact interpLoop64_hit _ _ _ _ _ (by norm_num) h25
  have h27 : interp64 (tableRow64 100) (5854679515581645 / 4503599627370496) = some (1447585594511945 / 35184372088832) :=
    by
      rw [row64_100.1]
      exact interp64_of_returned _ _ _ h26
  have h28 : getConc64 100 (5854679515581645 / 4503599627370496) = some (1447585594511945 / 35184372088832) :=
    by
      rw [getConc64_key 100 _ (by rw [sortedKeys_eq]; simp)]
      exact h27
  have h29 : fsub 52.5 18.0 = some (69 / 2) :=
    roundF64_pos_mid (52.5 - 18.0) (69 / 2) 4855443348258816 (-47) (by norm_num) (by norm_num) (by norm_num) (by norm_num) (by norm_num) (by norm_num) (by norm_num)
  have h30 : fdiv 52.5 (69 / 2) = some (3426651890390595 / 2251799813685248) :=
    fdiv_of_round (52.5) ((69 / 2)) (3426651890390595 / 2251799813685248) (by norm_num) (roundF64_pos_mid (52.5 / (69 / 2)) (3426651890390595 / 2251799813685248) 6853303780781190 (-52) (by norm_num) (by norm_num) (by norm_num) (by norm_num) (by norm_num) (by norm_num) (by norm_num))
  have h31 : fmul (2489233315609171 / 562949953421312) (3426651890390595 / 2251799813685248) = some (3787963741144391 / 562949953421312) :=
    roundF64_pos_mid ((2489233315609171 / 562949953421312) * (3426651890390595 / 2251799813685248)) (3787963741144391 / 562949953421312) 7575927482288782 (-50) (by norm_num) (by norm_num) (by norm_num) (by norm_num) (by norm_num) (by norm_num) (by norm_num)
  have h32 : fmul (3787963741144391 / 562949953421312) 0.75 = some (2840972805858293 / 562949953421312) :=
    roundF64_pos_tie ((3787963741144391 / 562949953421312) * 0.75) (2840972805858293 / 562949953421312) 5681945611716586 (-50) (by norm_num) (by norm_num) (by norm_num) (by norm_num) (Or.inr (by norm_num)) (by decide) (by norm_num)
  have h33 : fmul (3787963741144391 / 562949953421312) (4278419646001971 / 4503599627370496) = some (7197131108174343 / 1125899906842624) :=
    roundF64_pos_mid ((3787963741144391 / 562949953421312) * (4278419646001971 / 4503599627370496)) (7197131108174343 / 1125899906842624) 7197131108174343 (-50) (by norm_num) (by norm_num) (by norm_num) (by norm_num) (by norm_num) (by norm_num) (by norm_num)
  have h34 : fmul (3787963741144391 / 562949953421312) (8106479329266893 / 9007199254740992) = some (53268240109843 / 8796093022208) :=
    roundF64_pos_mid ((3787963741144391 / 562949953421312) * (8106479329266893 / 9007199254740992)) (53268240109843 / 8796093022208) 6818334734059904 (-50) (by norm_num) (by norm_num) (by norm_num) (by norm_num) (by norm_num) (by norm_num) (by norm_num)
  have h35 : recommend64 (2489233315609171 / 562949953421312) 52.5 18.0 =
      some ((3787963741144391 / 562949953421312), (2840972805858293 / 562949953421312), (7197131108174343 / 1125899906842624), (53268240109843 / 8796093022208)) :=
    recommend64_eq _ _ _ _ _ _ _ _ _ (by norm_num) h29 h30 h31 h32
      (by rw [lit64_values.1]; exact h33) (by rw [lit64_values.2]; exact h34)
  have h36 : fsub (3152519739159347 / 4503599627370496) 0 = some (3152519739159347 / 4503599627370496) :=
    roundF64_pos_mid ((3152519739159347 / 4503599627370496) - 0) (3152519739159347 / 4503599627370496) 6305039478318694 (-53) (by norm_num) (by norm_num) (by norm_num) (by norm_num) (by norm_num) (by norm_num) (by norm_num)
  have h37 : fsub (8685513567071677 / 562949953421312) 0 = some (8685513567071677 / 562949953421312) :=
    roundF64_pos_mid ((8685513567071677 / 562949953421312) - 0) (8685513567071677 / 562949953421312) 8685513567071677 (-49) (by norm_num) (by norm_num) (by norm_num) (by norm_num) (by norm_num) (by norm_num) (by norm_num)
  have h38 : fmul (3152519739159347 / 4503599627370496) (8685513567071677 / 562949953421312) = some (3039929748475087 / 281474976710656) :=
    roundF64_pos_mid ((3152519739159347 / 4503599627370496) * (8685513567071677 / 562949953421312)) (3039929748475087 / 281474976710656) 6079859496950174 (-49) (by norm_num) (by norm_num) (by norm_num) (by norm_num) (by norm_num) (by norm_num) (by norm_num)
  have h39 : fdiv (3039929748475087 / 281474976710656) (8685513567071677 / 562949953421312) = some (6305039478318695 / 9007199254740992) :=
    fdiv_of_round ((3039929748475087 / 281474976710656)) ((8685513567071677 / 562949953421312)) (6305039478318695 / 9007199254740992) (by norm_num) (roundF64_pos_mid ((3039929748475087 / 281474976710656) / (8685513567071677 / 562949953421312)) (6305039478318695 / 9007199254740992) 6305039478318695 (-53) (by norm_num) (by norm_num) (by norm_num) (by norm_num) (by norm_num) (by norm_num) (by norm_num))
  have h40 : removed64 (3152519739159347 / 4503599627370496) (8685513567071677 / 562949953421312) 0 = some (6305039478318695 / 9007199254740992) :=
    removed64_eq _ _ _ _ _ _ h37 h38 h39
  have h41 : fsub (3152519739159347 / 4503599627370496) (6305039478318695 / 9007199254740992) = some (-1 / 9007199254740992) :=
    roundF64_neg ((3152519739159347 / 4503599627370496) - (6305039478318695 / 9007199254740992)) (-1 / 9007199254740992) (-4503599627370496) (-105) (by norm_num) (by norm_num) (by norm_num) (by norm_num) (by norm_num) (by norm_num) (by norm_num)
  have h42 : fsub (1447585594511945 / 35184372088832) (8685513567071677 / 562949953421312) = some (3618963986279861 / 140737488355328) :=
    roundF64_pos_tie ((1447585594511945 / 35184372088832) - (8685513567071677 / 562949953421312)) (3618963986279861 / 140737488355328) 7237927972559722 (-48) (by norm_num) (by norm_num) (by norm_num) (by norm_num) (Or.inl (by norm_num)) (by decide) (by norm_num)
  have h43 : fmul (-1 / 9007199254740992) (3618963986279861 / 140737488355328) = some (-3618963986279861 / 1267650600228229401496703205376) :=
    roundF64_neg_mid ((-1 / 9007199254740992) * (3618963986279861 / 140737488355328)) (-3618963986279861 / 1267650600228229401496703205376) (-7237927972559722) (-101) (by norm_num) (by norm_num) (by norm_num) (by norm_num) (by norm_num) (by norm_num) (by norm_num)
  have h44 : fdiv (-3618963986279861 / 1267650600228229401496703205376) (1447585594511945 / 35184372088832) = some (-2814749767106559 / 40564819207303340847894502572032) :=
    fdiv_of_round ((-3618963986279861 / 1267650600228229401496703205376)) ((1447585594511945 / 35184372088832)) (-2814749767106559 / 40564819207303340847894502572032) (by norm_num) (roundF64_neg_mid ((-3618963986279861 / 1267650600228229401496703205376) / (1447585594511945 / 35184372088832)) (-2814749767106559 / 40564819207303340847894502572032) (-5629499534213118) (-106) (by norm_num) (by norm_num) (by norm_num) (by norm_num) (by norm_num) (by norm_num) (by norm_num))
  have h45 : removed64 (-1 / 9007199254740992) (1447585594511945 / 35184372088832) (8685513567071677 / 562949953421312) = some (-2814749767106559 / 40564819207303340847894502572032) :=
    removed64_eq _ _ _ _ _ _ h42 h43 h44
  exact evaluate64_of_parts (applyForm64 { emptyForm with actual_flow := some 0.7, temp_1 := some 100, temp_2 := some 100, temp_3 := some 100, dens_1 := some 0.9, dens_2 := some 1.1, dens_3 := some 1.3 } defaultData64)
    18.0 52.5 (3152519739159347 / 4503599627370496) 1200 1000 800 25 22 18 24 20 16 100 100 100 (8106479329266893 / 9007199254740992) (2476979795053773 / 2251799813685248) (5854679515581645 / 4503599627370496)
    (1034411186011903 / 562949953421312) (1632593412266261 / 1125899906842624) (5108203387713101 / 4503599627370496) (3701415784290067 / 1125899906842624) (2489233315609171 / 562949953421312)
    ((3787963741144391 / 562949953421312), (2840972805858293 / 562949953421312), (7197131108174343 / 1125899906842624), (53268240109843 / 8796093022208))
    0 (8685513567071677 / 562949953421312) (1447585594511945 / 35184372088832) 0 (6305039478318695 / 9007199254740992) (-2814749767106559 / 40564819207303340847894502572032)
    rfl
    rfl
    (acceptPositive64_some _ _ _ h1 (by norm_num))
    rfl
    rfl
    rfl
    rfl
    rfl
    rfl
    rfl
    rfl
    rfl
    (acceptPositive64_some _ _ _ h2 (by norm_num))
    (acceptPositive64_some _ _ _ h2 (by norm_num))
    (acceptPositive64_some _ _ _ h2 (by norm_num))
    (acceptPositive64_some _ _ _ h3 (by norm_num))
    (acceptPositive64_some _ _ _ h4 (by norm_num))
    (acceptPositive64_some _ _ _ h5 (by norm_num))
    capacity64_default.1 capacity64_default.2.1 capacity64_default.2.2.1
    capacity64_default.2.2.2.1 capacity64_default.2.2.2.2
    h35 h8 h18 h28
    (qrun1F_zero _ _ _ (by norm_num)) (qrun2F_eq _ _ _ _ _ _ (by norm_num) h36 h40) (qrun3F_eq _ _ _ _ _ _ _ _ (by norm_num) h36 h41 h45)

/-- The evaluation of the request `temp_1=temp_2=temp_3=100`, `dens_1=1.13`,
`dens_2=1.2`, `dens_3=1.3` in binary64. -/
theorem handlePost64_C :
    ∃ out, handlePost64 { emptyForm with temp_1 := some 100, temp_2 := some 100, temp_3 := some 100, dens_1 := some 1.13, dens_2 := some 1.2, dens_3 := some 1.3 } = some out ∧
      out.FeedConc = 18.0 ∧ out.TargetConc = 52.5 ∧ out.ActualFlow = 55.0 ∧
      out.Effect.Qnom1 = 1200 ∧ out.Effect.Qnom2 = 1000 ∧ out.Effect.Qnom3 = 800 ∧
      out.Effect.DtDesign1 = 25 ∧ out.Effect.DtDesign2 = 22 ∧ out.Effect.DtDesign3 = 18 ∧
      out.Effect.DtSet1 = 24 ∧ out.Effect.DtSet2 = 20 ∧ out.Effect.DtSet3 = 16 ∧
      out.TotalQset = (2489233315609171 / 562949953421312) ∧
      out.TheoreticalMax = (3787963741144391 / 562949953421312) ∧
      out.RecommendLow = (2840972805858293 / 562949953421312) ∧
      out.RecommendHigh = (7197131108174343 / 1125899906842624) ∧
      out.SuggestFlow = (53268240109843 / 8796093022208) ∧
      out.Effect.ConcOut1 = (2714222989709895 / 140737488355328) ∧
      out.Effect.ConcOut2 = (7961720769815695 / 281474976710656) ∧
      out.Effect.ConcOut3 = (1447585594511945 / 35184372088832) ∧
      out.Effect.Qrun1 = (8256599316845817 / 2251799813685248) ∧
      out.Effect.Qrun2 = (1149356154901847 / 70368744177664) ∧
      out.Effect.Qrun3 = (6157265115545607 / 562949953421312) := by
  have h1 : roundF64 100 = some 100 :=
    roundF64_pos_mid (100) 100 7036874417766400 (-46) (by norm_num) (by norm_num) (by norm_num) (by norm_num) (by norm_num) (by norm_num) (by norm_num)
  have h2 : roundF64 1.13 = some (1272266894732165 / 1125899906842624) :=
    roundF64_pos_mid (1.13) (1272266894732165 / 1125899906842624) 5089067578928660 (-52) (by norm_num) (by norm_num) (by norm_num) (by norm_num) (by norm_num) (by norm_num) (by norm_num)
  have h3 : roundF64 1.2 = some (5404319552844595 / 4503599627370496) :=
    roundF64_pos_mid (1.2) (5404319552844595 / 4503599627370496) 5404319552844595 (-52) (by norm_num) (by norm_num) (by norm_num) (by norm_num) (by norm_num) (by norm_num) (by norm_num)
  have h4 : roundF64 1.3 = some (5854679515581645 / 4503599627370496) :=
    roundF64_pos_mid (1.3) (5854679515581645 / 4503599627370496) 5854679515581645 (-52) (by norm_num) (by norm_num) (by norm_num) (by norm_num) (by norm_num) (by norm_num) (by norm_num)
  have h5 : fsub (1272266894732165 / 1125899906842624) (2206763817411543 / 2251799813685248) = some (337769972052787 / 2251799813685248) :=
    roundF64_pos_mid ((1272266894732165 / 1125899906842624) - (2206763817411543 / 2251799813685248)) (337769972052787 / 2251799813685248) 5404319552844592 (-55) (by norm_num) (by norm_num) (by norm_num) (by norm_num) (by norm_num) (by norm_num) (by norm_num)
  have h6 : fsub (748723438050345 / 562949953421312) (2206763817411543 / 2251799813685248) = some (788129934789837 / 2251799813685248) :=
    roundF64_pos_mid ((748723438050345 / 562949953421312) - (2206763817411543 / 2251799813685248)) (788129934789837 / 2251799813685248) 6305039478318696 (-54) (by norm_num) (by norm_num) (by norm_num) (by norm_num) (by norm_num) (by norm_num) (by norm_num)
  have h7 : fdiv (337769972052787 / 2251799813685248) (788129934789837 / 2251799813685248) = some (7720456504063701 / 18014398509481984) :=
    fdiv_of_round ((337769972052787 / 2251799813685248)) ((788129934789837 / 2251799813685248)) (7720456504063701 / 18014398509481984) (by norm_num) (roundF64_pos_mid ((337769972052787 / 2251799813685248) / (788129934789837 / 2251799813685248)) (7720456504063701 / 18014398509481984) 7720456504063701 (-54) (by norm_num) (by norm_num) (by norm_num) (by norm_num) (by norm_num) (by norm_num) (by norm_num))
  have h8 : fsub 45 0 = some 45 :=
    roundF64_pos_mid (45 - 0) 45 6333186975989760 (-47) (by norm_num) (by norm_num) (by norm_num) (by norm_num) (by norm_num) (by norm_num) (by norm_num)
  have h9 : fmul (7720456504063701 / 18014398509481984) 45 = some (2714222989709895 / 140737488355328) :=
    roundF64_pos_mid ((7720456504063701 / 18014398509481984) * 45) (2714222989709895 / 140737488355328) 5428445979419790 (-48) (by norm_num) (by norm_num) (by norm_num) (by norm_num) (by norm_num) (by norm_num) (by norm_num)
  have h10 : fadd 0 (2714222989709895 / 140737488355328) = some (2714222989709895 / 140737488355328) :=
    roundF64_pos_mid (0 + (2714222989709895 / 140737488355328)) (2714222989709895 / 140737488355328) 5428445979419790 (-48) (by norm_num) (by norm_num) (by norm_num) (by norm_num) (by norm_num) (by norm_num) (by norm_num)
  have h11 : interpPair64 (0, (2206763817411543 / 2251799813685248)) (45, (748723438050345 / 562949953421312)) (1272266894732165 / 1125899906842624) = some (2714222989709895 / 140737488355328) :=
    interpPair64_eq _ _ _ _ _ _ _ _ _ _ _ h5 h6 h7 h8 h9 h10
  have h12 : interpLoop64 (1272266894732165 / 1125899906842624) [(0, (2206763817411543 / 2251799813685248)), (45, (748723438050345 / 562949953421312)), (48, (6147413491360727 / 4503599627370496)), (50, (3134505340649865 / 2251799813685248)), (51, (6327557476455547 / 4503599627370496)), (52, (6386104271611363 / 4503599627370496))] = LoopOutcome.returned (2714222989709895 / 140737488355328) :=
    by
      exact interpLoop64_hit _ _ _ _ _ (by norm_num) h11
  have h13 : interp64 (tableRow64 100) (1272266894732165 / 1125899906842624) = some (2714222989709895 / 140737488355328) :=
    by
      rw [row64_100.1]
      exact interp64_of_returned _ _ _ h12
  have h14 : getConc64 100 (1272266894732165 / 1125899906842624) = some (2714222989709895 / 140737488355328) :=
    by
      rw [getConc64_key 100 _ (by rw [sortedKeys_eq]; simp)]
      exact h13
  have h15 : fsub (5404319552844595 / 4503599627370496) (2206763817411543 / 2251799813685248) = some (990791918021509 / 4503599627370496) :=
    roundF64_pos_mid ((5404319552844595 / 4503599627370496) - (2206763817411543 / 2251799813685248)) (990791918021509 / 4503599627370496) 7926335344172072 (-55) (by norm_num) (by norm_num) (by norm_num) (by norm_num) (by norm_num) (by norm_num) (by norm_num)
  have h16 : fsub (748723438050345 / 562949953421312) (2206763817411543 / 2251799813685248) = some (788129934789837 / 2251799813685248) :=
    roundF64_pos_mid ((748723438050345 / 562949953421312) - (2206763817411543 / 2251799813685248)) (788129934789837 / 2251799813685248) 6305039478318696 (-54) (by norm_num) (by norm_num) (by norm_num) (by norm_num) (by norm_num) (by norm_num) (by norm_num)
  have h17 : fdiv (990791918021509 / 4503599627370496) (788129934789837 / 2251799813685248) = some (2830834051490025 / 4503599627370496) :=
    fdiv_of_round ((990791918021509 / 4503599627370496)) ((788129934789837 / 2251799813685248)) (2830834051490025 / 4503599627370496) (by norm_num) (roundF64_pos_mid ((990791918021509 / 4503599627370496) / (788129934789837 / 2251799813685248)) (2830834051490025 / 4503599627370496) 5661668102980050 (-53) (by norm_num) (by norm_num) (by norm_num) (by norm_num) (by norm_num) (by norm_num) (by norm_num))
  have h18 : fsub 45 0 = some 45 :=
    roundF64_pos_mid (45 - 0) 45 6333186975989760 (-47) (by norm_num) (by norm_num) (by norm_num) (by norm_num) (by norm_num) (by norm_num) (by norm_num)
  have h19 : fmul (2830834051490025 / 4503599627370496) 45 = some (7961720769815695 / 281474976710656) :=
    roundF64_pos_mid ((2830834051490025 / 4503599627370496) * 45) (7961720769815695 / 281474976710656) 7961720769815695 (-48) (by norm_num) (by norm_num) (by norm_num) (by norm_num) (by norm_num) (by norm_num) (by norm_num)
  have h20 : fadd 0 (7961720769815695 / 281474976710656) = some (7961720769815695 / 281474976710656) :=
    roundF64_pos_mid (0 + (7961720769815695 / 281474976710656)) (7961720769815695 / 281474976710656) 7961720769815695 (-48) (by norm_num) (by norm_num) (by norm_num) (by norm_num) (by norm_num) (by norm_num) (by norm_num)
  have h21 : interpPair64 (0, (2206763817411543 / 2251799813685248)) (45, (748723438050345 / 562949953421312)) (5404319552844595 / 4503599627370496) = some (7961720769815695 / 281474976710656) :=
    interpPair64_eq _ _ _ _ _ _ _ _ _ _ _ h15 h16 h17 h18 h19 h20
  have h22 : interpLoop64 (5404319552844595 / 4503599627370496) [(0, (2206763817411543 / 2251799813685248)), (45, (748723438050345 / 562949953421312)), (48, (6147413491360727 / 4503599627370496)), (50, (3134505340649865 / 2251799813685248)), (51, (6327557476455547 / 4503599627370496)), (52, (6386104271611363 / 4503599627370496))] = LoopOutcome.returned (7961720769815695 / 281474976710656) :=
    by
      exact interpLoop64_hit _ _ _ _ _ (by norm_num) h21
  have h23 : interp64 (tableRow64 100) (5404319552844595 / 4503599627370496) = some (7961720769815695 / 281474976710656) :=
    by
      rw [row64_100.1]
      exact interp64_of_returned _ _ _ h22
  have h24 : getConc64 100 (5404319552844595 / 4503599627370496) = some (7961720769815695 / 281474976710656) :=
    by
      rw [getConc64_key 100 _ (by rw [sortedKeys_eq]; simp)]
      exact h23
  have h25 : fsub (5854679515581645 / 4503599627370496) (2206763817411543 / 2251799813685248) = some (1441151880758559 / 4503599627370496) :=
    roundF64_pos_mid ((5854679515581645 / 4503599627370496) - (2206763817411543 / 2251799813685248)) (1441151880758559 / 4503599627370496) 5764607523034236 (-54) (by norm_num) (by norm_num) (by norm_num) (by norm_num) (by norm_num) (by norm_num) (by norm_num)
  have h26 : fsub (748723438050345 / 562949953421312) (2206763817411543 / 2251799813685248) = some (788129934789837 / 2251799813685248) :=
    roundF64_pos_mid ((748723438050345 / 562949953421312) - (2206763817411543 / 2251799813685248)) (788129934789837 / 2251799813685248) 6305039478318696 (-54) (by norm_num) (by norm_num) (by norm_num) (by norm_num) (by norm_num) (by norm_num) (by norm_num)
  have h27 : fdiv (1441151880758559 / 4503599627370496) (788129934789837 / 2251799813685248) = some (8235153604334621 / 9007199254740992) :=
    fdiv_of_round ((1441151880758559 / 4503599627370496)) ((788129934789837 / 2251799813685248)) (8235153604334621 / 9007199254740992) (by norm_num) (roundF64_pos_mid ((1441151880758559 / 4503599627370496) / (788129934789837 / 2251799813685248)) (8235153604334621 / 9007199254740992) 8235153604334621 (-53) (by norm_num) (by norm_num) (by norm_num) (by norm_num) (by norm_num) (by norm_num) (by norm_num))
  have h28 : fsub 45 0 = some 45 :=
    roundF64_pos_mid (45 - 0) 45 6333186975989760 (-47) (by norm_num) (by norm_num) (by norm_num) (by norm_num) (by norm_num) (by norm_num) (by norm_num)
  have h29 : fmul (8235153604334621 / 9007199254740992) 45 = some (1447585594511945 / 35184372088832) :=
    roundF64_pos_mid ((8235153604334621 / 9007199254740992) * 45) (1447585594511945 / 35184372088832) 5790342378047780 (-47) (by norm_num) (by norm_num) (by norm_num) (by norm_num) (by norm_num) (by norm_num) (by norm_num)
  have h30 : fadd 0 (1447585594511945 / 35184372088832) = some (1447585594511945 / 35184372088832) :=
    roundF64_pos_mid (0 + (1447585594511945 / 35184372088832)) (1447585594511945 / 35184372088832) 5790342378047780 (-47) (by norm_num) (by norm_num) (by norm_num) (by norm_num) (by norm_num) (by norm_num) (by norm_num)
  have h31 : interpPair64 (0, (2206763817411543 / 2251799813685248)) (45, (748723438050345 / 562949953421312)) (5854679515581645 / 4503599627370496) = some (1447585594511945 / 35184372088832) :=
    interpPair64_eq _ _ _ _ _ _ _ _ _ _ _ h25 h26 h27 h28 h29 h30
  have h32 : interpLoop64 (5854679515581645 / 4503599627370496) [(0, (2206763817411543 / 2251799813685248)), (45, (748723438050345 / 562949953421312)), (48, (6147413491360727 / 4503599627370496)), (50, (3134505340649865 / 2251799813685248)), (51, (6327557476455547 / 4503599627370496)), (52, (6386104271611363 / 4503599627370496))] = LoopOutcome.returned (1447585594511945 / 35184372088832) :=
    by
      exact interpLoop64_hit _ _ _ _ _ (by norm_num) h31
  have h33 : interp64 (tableRow64 100) (5854679515581645 / 4503599627370496) = some (1447585594511945 / 35184372088832) :=
    by
      rw [row64_100.1]
      exact interp64_of_returned _ _ _ h32
  have h34 : getConc64 100 (5854679515581645 / 4503599627370496) = some (1447585594511945 / 35184372088832) :=
    by
      rw [getConc64_key 100 _ (by rw [sortedKeys_eq]; simp)]
      exact h33
  have h35 : fsub 52.5 18.0 = some (69 / 2) :=
    roundF64_pos_mid (52.5 - 18.0) (69 / 2) 4855443348258816 (-47) (by norm_num) (by norm_num) (by norm_num) (by norm_num) (by norm_num) (by norm_num) (by norm_num)
  have h36 : fdiv 52.5 (69 / 2) = some (3426651890390595 / 2251799813685248) :=
    fdiv_of_round (52.5) ((69 / 2)) (3426651890390595 / 2251799813685248) (by norm_num) (roundF64_pos_mid (52.5 / (69 / 2)) (3426651890390595 / 2251799813685248) 6853303780781190 (-52) (by norm_num) (by norm_num) (by norm_num) (by norm_num) (by norm_num) (by norm_num) (by norm_num))
  have h37 : fmul (2489233315609171 / 562949953421312) (3426651890390595 / 2251799813685248) = some (3787963741144391 / 562949953421312) :=
    roundF64_pos_mid ((2489233315609171 / 562949953421312) * (3426651890390595 / 2251799813685248)) (3787963741144391 / 562949953421312) 7575927482288782 (-50) (by norm_num) (by norm_num) (by norm_num) (by norm_num) (by norm_num) (by norm_num) (by norm_num)
  have h38 : fmul (3787963741144391 / 562949953421312) 0.75 = some (2840972805858293 / 562949953421312) :=
    roundF64_pos_tie ((3787963741144391 / 562949953421312) * 0.75) (2840972805858293 / 562949953421312) 5681945611716586 (-50) (by norm_num) (by norm_num) (by norm_num) (by norm_num) (Or.inr (by norm_num)) (by decide) (by norm_num)
  have h39 : fmul (3787963741144391 / 562949953421312) (4278419646001971 / 4503599627370496) = some (7197131108174343 / 1125899906842624) :=
    roundF64_pos_mid ((3787963741144391 / 562949953421312) * (4278419646001971 / 4503599627370496)) (7197131108174343 / 1125899906842624) 7197131108174343 (-50) (by norm_num) (by norm_num) (by norm_num) (by norm_num) (by norm_num) (by norm_num) (by norm_num)
  have h40 : fmul (3787963741144391 / 562949953421312) (8106479329266893 / 9007199254740992) = some (53268240109843 / 8796093022208) :=
    roundF64_pos_mid ((3787963741144391 / 562949953421312) * (8106479329266893 / 9007199254740992)) (53268240109843 / 8796093022208) 6818334734059904 (-50) (by norm_num) (by norm_num) (by norm_num) (by norm_num) (by norm_num) (by norm_num) (by norm_num)
  have h41 : recommend64 (2489233315609171 / 562949953421312) 52.5 18.0 =
      some ((3787963741144391 / 562949953421312), (2840972805858293 / 562949953421312), (7197131108174343 / 1125899906842624), (53268240109843 / 8796093022208)) :=
    recommend64_eq _ _ _ _ _ _ _ _ _ (by norm_num) h35 h36 h37 h38
      (by rw [lit64_values.1]; exact h39) (by rw [lit64_values.2]; exact h40)
  have h42 : fsub (2714222989709895 / 140737488355328) 18.0 = some (180948199313991 / 140737488355328) :=
    roundF64_pos_mid ((2714222989709895 / 140737488355328) - 18.0) (180948199313991 / 140737488355328) 5790342378047712 (-52) (by norm_num) (by norm_num) (by norm_num) (by norm_num) (by norm_num) (by norm_num) (by norm_num)
  have h43 : fmul 55.0 (180948199313991 / 140737488355328) = some (155502358785461 / 2199023255552) :=
    roundF64_pos_tie (55.0 * (180948199313991 / 140737488355328)) (155502358785461 / 2199023255552) 4976075481134752 (-46) (by norm_num) (by norm_num) (by norm_num) (by norm_num) (Or.inr (by norm_num)) (by decide) (by norm_num)
  have h44 : fdiv (155502358785461 / 2199023255552) (2714222989709895 / 140737488355328) = some (8256599316845817 / 2251799813685248) :=
    fdiv_of_round ((155502358785461 / 2199023255552)) ((2714222989709895 / 140737488355328)) (8256599316845817 / 2251799813685248) (by norm_num) (roundF64_pos_mid ((155502358785461 / 2199023255552) / (2714222989709895 / 140737488355328)) (8256599316845817 / 2251799813685248) 8256599316845817 (-51) (by norm_num) (by norm_num) (by norm_num) (by norm_num) (by norm_num) (by norm_num) (by norm_num))
  have h45 : removed64 55.0 (2714222989709895 / 140737488355328) 18.0 = some (8256599316845817 / 2251799813685248) :=
    removed64_eq _ _ _ _ _ _ h42 h43 h44
  have h46 : fsub 55.0 (8256599316845817 / 2251799813685248) = some (451532775140011 / 8796093022208) :=
    roundF64_pos_mid (55.0 - (8256599316845817 / 2251799813685248)) (451532775140011 / 8796093022208) 7224524402240176 (-47) (by norm_num) (by norm_num) (by norm_num) (by norm_num) (by norm_num) (by norm_num) (by norm_num)
  have h47 : fsub (7961720769815695 / 281474976710656) (2714222989709895 / 140737488355328) = some (2533274790395905 / 281474976710656) :=
    roundF64_pos_mid ((7961720769815695 / 281474976710656) - (2714222989709895 / 140737488355328)) (2533274790395905 / 281474976710656) 5066549580791810 (-49) (by norm_num) (by norm_num) (by norm_num) (by norm_num) (by norm_num) (by norm_num) (by norm_num)
  have h48 : fmul (451532775140011 / 8796093022208) (2533274790395905 / 281474976710656) = some (8127589952520201 / 17592186044416) :=
    roundF64_pos_mid ((451532775140011 / 8796093022208) * (2533274790395905 / 281474976710656)) (8127589952520201 / 17592186044416) 8127589952520201 (-44) (by norm_num) (by norm_num) (by norm_num) (by norm_num) (by norm_num) (by norm_num) (by norm_num)
  have h49 : fdiv (8127589952520201 / 17592186044416) (7961720769815695 / 281474976710656) = some (1149356154901847 / 70368744177664) :=
    fdiv_of_round ((8127589952520201 / 17592186044416)) ((7961720769815695 / 281474976710656)) (1149356154901847 / 70368744177664) (by norm_num) (roundF64_pos_mid ((8127589952520201 / 17592186044416) / (7961720769815695 / 281474976710656)) (1149356154901847 / 70368744177664) 4597424619607388 (-48) (by norm_num) (by norm_num) (by norm_num) (by norm_num) (by norm_num) (by norm_num) (by norm_num))
  have h50 : removed64 (451532775140011 / 8796093022208) (7961720769815695 / 281474976710656) (2714222989709895 / 140737488355328) = some (1149356154901847 / 70368744177664) :=
    removed64_eq _ _ _ _ _ _ h47 h48 h49
  have h51 : fsub (451532775140011 / 8796093022208) (1149356154901847 / 70368744177664) = some (2462906046218241 / 70368744177664) :=
    roundF64_pos_mid ((451532775140011 / 8796093022208) - (1149356154901847 / 70368744177664)) (2462906046218241 / 70368744177664) 4925812092436482 (-47) (by norm_num) (by norm_num) (by norm_num) (by norm_num) (by norm_num) (by norm_num) (by norm_num)
  have h52 : fsub (1447585594511945 / 35184372088832) (7961720769815695 / 281474976710656) = some (3618963986279865 / 281474976710656) :=
    roundF64_pos_mid ((1447585594511945 / 35184372088832) - (7961720769815695 / 281474976710656)) (3618963986279865 / 281474976710656) 7237927972559730 (-49) (by norm_num) (by norm_num) (by norm_num) (by norm_num) (by norm_num) (by norm_num) (by norm_num)
  have h53 : fmul (2462906046218241 / 70368744177664) (3618963986279865 / 281474976710656) = some (989560464998401 / 2199023255552) :=
    roundF64_pos_mid ((2462906046218241 / 70368744177664) * (3618963986279865 / 281474976710656)) (989560464998401 / 2199023255552) 7916483719987208 (-44) (by norm_num) (by norm_num) (by norm_num) (by norm_num) (by norm_num) (by norm_num) (by norm_num)
  have h54 : fdiv (989560464998401 / 2199023255552) (1447585594511945 / 35184372088832) = some (6157265115545607 / 562949953421312) :=
    fdiv_of_round ((989560464998401 / 2199023255552)) ((1447585594511945 / 35184372088832)) (6157265115545607 / 562949953421312) (by norm_num) (roundF64_pos_mid ((989560464998401 / 2199023255552) / (1447585594511945 / 35184372088832)) (6157265115545607 / 562949953421312) 6157265115545607 (-49) (by norm_num) (by norm_num) (by norm_num) (by norm_num) (by norm_num) (by norm_num) (by norm_num))
  have h55 : removed64 (2462906046218241 / 70368744177664) (1447585594511945 / 35184372088832) (7961720769815695 / 281474976710656) = some (6157265115545607 / 562949953421312) :=
    removed64_eq _ _ _ _ _ _ h52 h53 h54
  exact evaluate64_of_parts (applyForm64 { emptyForm with temp_1 := some 100, temp_2 := some 100, temp_3 := some 100, dens_1 := some 1.13, dens_2 := some 1.2, dens_3 := some 1.3 } defaultData64)
    18.0 52.5 55.0 1200 1000 800 25 22 18 24 20 16 100 100 100 (1272266894732165 / 1125899906842624) (5404319552844595 / 4503599627370496) (5854679515581645 / 4503599627370496)
    (1034411186011903 / 562949953421312) (1632593412266261 / 1125899906842624) (5108203387713101 / 4503599627370496) (3701415784290067 / 1125899906842624) (2489233315609171 / 562949953421312)
    ((3787963741144391 / 562949953421312), (2840972805858293 / 562949953421312), (7197131108174343 / 1125899906842624), (53268240109843 / 8796093022208))
    (2714222989709895 / 140737488355328) (7961720769815695 / 281474976710656) (1447585594511945 / 35184372088832) (8256599316845817 / 2251799813685248) (1149356154901847 / 70368744177664) (6157265115545607 / 562949953421312)
    rfl
    rfl
    rfl
    rfl
    rfl
    rfl
    rfl
    rfl
    rfl
    rfl
    rfl
    rfl
    (acceptPositive64_some _ _ _ h1 (by norm_num))
    (acceptPositive64_some _ _ _ h1 (by norm_num))
    (acceptPositive64_some _ _ _ h1 (by norm_num))
    (acceptPositive64_some _ _ _ h2 (by norm_num))
    (acceptPositive64_some _ _ _ h3 (by norm_num))
    (acceptPositive64_some _ _ _ h4 (by norm_num))
    capacity64_default.1 capacity64_default.2.1 capacity64_default.2.2.1
    capacity64_default.2.2.2.1 capacity64_default.2.2.2.2
    h41 h14 h24 h34
    (qrun1F_eq _ _ _ _ (by norm_num) h45) (qrun2F_eq _ _ _ _ _ _ (by norm_num) h46 h50) (qrun3F_eq _ _ _ _ _ _ _ _ (by norm_num) h46 h51 h55)

/-! ## Binary64: rounding is monotone and idempotent, and its error is bounded -/

theorem roundF64_eq_roundValue (x : ℚ) :
    roundF64 x = if abs (roundValue x) ≥ 2 ^ 1024 then none else some (roundValue x) :=
  rfl

theorem roundF64_some_iff (x v : ℚ) :
    roundF64 x = some v ↔ v = roundValue x ∧ abs (roundValue x) < 2 ^ 1024 := by
  rw [roundF64_eq_roundValue]
  split_ifs with h
  · simp only [false_iff, not_and, not_lt, reduceCtorEq]
    intro _
    exact h
  · simp only [Option.some.injEq]
    constructor
    · intro hv
      exact ⟨hv.symm, lt_of_not_ge h⟩
    · intro hv
      exact hv.1.symm

theorem floor_le_roundHalfEven (s : ℚ) : Int.floor s ≤ roundHalfEven s := by
  unfold roundHalfEven
  split_ifs <;> omega

theorem roundHalfEven_le_floor_succ (s : ℚ) : roundHalfEven s ≤ Int.floor s + 1 := by
  unfold roundHalfEven
  split_ifs <;> omega

theorem roundHalfEven_intCast (n : ℤ) : roundHalfEven (n : ℚ) = n :=
  roundHalfEven_near _ n (by linarith) (by linarith)

theorem roundHalfEven_mono (s t : ℚ) (h : s ≤ t) : roundHalfEven s ≤ roundHalfEven t := by
  rcases lt_or_eq_of_le (Int.floor_mono h) with hlt | heq
  · calc roundHalfEven s ≤ Int.floor s + 1 := roundHalfEven_le_floor_succ s
      _ ≤ Int.floor t := hlt
      _ ≤ roundHalfEven t := floor_le_roundHalfEven t
  · unfold roundHalfEven
    rw [heq]
    split_ifs <;> first | omega | linarith

theorem roundHalfEven_neg (s : ℚ) : roundHalfEven (-s) = -roundHalfEven s := by
  have hf := Int.floor_le s
  have hf2 := Int.lt_floor_add_one s
  rcases lt_trichotomy (s - Int.floor s) (1 / 2) with h | h | h
  · have e1 : roundHalfEven s = Int.floor s :=
      roundHalfEven_near _ _ (by linarith) (by linarith)
    rw [e1]
    exact roundHalfEven_near _ _ (by push_cast; linarith) (by push_cast; linarith)
  · rcases Int.emod_two_eq_zero_or_one (Int.floor s) with hev | hodd
    · have e1 : roundHalfEven s = Int.floor s :=
        roundHalfEven_tie_above _ _ (by linarith) hev
      rw [e1]
      exact roundHalfEven_tie_below _ _ (by push_cast; linarith) (by omega)
    · have e1 : roundHalfEven s = Int.floor s + 1 :=
        roundHalfEven_tie_below _ _ (by push_cast; linarith) (by omega)
      rw [e1]
      exact roundHalfEven_tie_above _ _ (by push_cast; linarith) (by omega)
  · have e1 : roundHalfEven s = Int.floor s + 1 :=
      roundHalfEven_near _ _ (by push_cast; linarith) (by push_cast; linarith)
    rw [e1]
    exact roundHalfEven_near _ _ (by push_cast; linarith) (by push_cast; linarith)

theorem lastPlace_neg (x : ℚ) : lastPlace (-x) = lastPlace x := by
  unfold lastPlace
  rw [abs_neg]

theorem lastPlace_ge (x : ℚ) : -1074 ≤ lastPlace x :=
  le_max_right _ _

theorem roundValue_neg (x : ℚ) : roundValue (-x) = -roundValue x := by
  unfold roundValue
  rw [lastPlace_neg, neg_div, roundHalfEven_neg]
  push_cast
  ring

theorem roundValue_zero : roundValue 0 = 0 := by
  unfold roundValue
  rw [zero_div]
  have := roundHalfEven_intCast 0
  simp only [Int.cast_zero] at this
  rw [this]
  simp

theorem roundValue_nonneg (x : ℚ) (h : 0 ≤ x) : 0 ≤ roundValue x := by
  unfold roundValue
  have hu : (0 : ℚ) < 2 ^ lastPlace x := by positivity
  have h0 : roundHalfEven ((0 : ℤ) : ℚ) ≤ roundHalfEven (x / 2 ^ lastPlace x) :=
    roundHalfEven_mono _ _ (by simpa using div_nonneg h hu.le)
  rw [roundHalfEven_intCast] at h0
  have : (0 : ℚ) ≤ (roundHalfEven (x / 2 ^ lastPlace x) : ℚ) := by exact_mod_cast h0
  positivity

/-- A positive number is below `2 ^ 53` last places. -/
theorem lt_lastPlace (x : ℚ) : abs x < 2 ^ 53 * 2 ^ lastPlace x := by
  have h1 : abs x < (2 : ℚ) ^ (Int.log 2 (abs x) + 1) := by
    have := Int.lt_zpow_succ_log_self (R := ℚ) (b := 2) (by norm_num) (abs x)
    exact_mod_cast this
  have h2 : Int.log 2 (abs x) + 1 ≤ lastPlace x + 53 := by
    have := le_max_left (Int.log 2 (abs x) - 52) (-1074)
    unfold lastPlace
    omega
  have h3 : (2 : ℚ) ^ (Int.log 2 (abs x) + 1) ≤ 2 ^ (lastPlace x + 53) :=
    zpow_le_zpow_right₀ (by norm_num) h2
  have h4 : (2 : ℚ) ^ (lastPlace x + 53) = 2 ^ 53 * 2 ^ lastPlace x := by
    rw [zpow_add₀ (by norm_num)]
    rw [mul_comm]
    norm_num
  linarith

/-- The integer that a number rounds to is at most `2 ^ 53` in absolute value. -/
theorem roundHalfEven_lastPlace_le (x : ℚ) (h : 0 ≤ x) :
    roundHalfEven (x / 2 ^ lastPlace x) ≤ 2 ^ 53 := by
  have hu : (0 : ℚ) < 2 ^ lastPlace x := by positivity
  have h1 := lt_lastPlace x
  rw [abs_of_nonneg h] at h1
  have h2 : x / 2 ^ lastPlace x ≤ ((2 ^ 53 : ℤ) : ℚ) := by
    rw [div_le_iff₀ hu]
    push_cast
    linarith
  have := roundHalfEven_mono _ _ h2
  rwa [roundHalfEven_intCast] at this

theorem roundValue_le_pow (x : ℚ) (h : 0 ≤ x) : roundValue x ≤ 2 ^ 53 * 2 ^ lastPlace x := by
  unfold roundValue
  have hu : (0 : ℚ) < 2 ^ lastPlace x := by positivity
  have h1 : (roundHalfEven (x / 2 ^ lastPlace x) : ℚ) ≤ 2 ^ 53 := by
    exact_mod_cast roundHalfEven_lastPlace_le x h
  exact mul_le_mul_of_nonneg_right h1 hu.le

theorem pow_le_roundValue (x : ℚ) (h : 0 < x) (he : -1074 < lastPlace x) :
    2 ^ 52 * 2 ^ lastPlace x ≤ roundValue x := by
  have hu : (0 : ℚ) < 2 ^ lastPlace x := by positivity
  have hl : lastPlace x = Int.log 2 (abs x) - 52 := by
    unfold lastPlace at he ⊢
    rcases max_cases (Int.log 2 (abs x) - 52) (-1074) with ⟨h1, _⟩ | ⟨h1, _⟩
    · exact h1
    · rw [h1] at he
      omega
  have h1 : (2 : ℚ) ^ Int.log 2 (abs x) ≤ abs x :=
    Int.zpow_log_le_self (by norm_num) (abs_pos.mpr h.ne')
  rw [abs_of_pos h] at h1 hl
  have h2 : (2 : ℚ) ^ Int.log 2 x = 2 ^ 52 * 2 ^ lastPlace x := by
    rw [hl, zpow_sub₀ (by norm_num)]
    field_simp
    ring
  have h3 : (((2 : ℤ) ^ 52 : ℤ) : ℚ) ≤ x / 2 ^ lastPlace x := by
    rw [le_div_iff₀ hu]
    push_cast
    linarith
  have h4 := roundHalfEven_mono _ _ h3
  rw [roundHalfEven_intCast] at h4
  unfold roundValue
  have h5 : (2 : ℚ) ^ 52 ≤ (roundHalfEven (x / 2 ^ lastPlace x) : ℚ) := by exact_mod_cast h4
  exact mul_le_mul_of_nonneg_right h5 hu.le

theorem lastPlace_mono (x y : ℚ) (hx : 0 < x) (h : x ≤ y) : lastPlace x ≤ lastPlace y := by
  unfold lastPlace
  have hy : 0 < y := lt_of_lt_of_le hx h
  rw [abs_of_pos hx, abs_of_pos hy]
  have := Int.log_mono_right (b := 2) hx h
  exact max_le_max (by omega) (le_refl _)

theorem roundValue_mono_pos (x y : ℚ) (hx : 0 < x) (h : x ≤ y) :
    roundValue x ≤ roundValue y := by
  have hy : 0 < y := lt_of_lt_of_le hx h
  rcases lt_or_eq_of_le (lastPlace_mono x y hx h) with hlt | heq
  · have h1 := roundValue_le_pow x hx.le
    have h2 := pow_le_roundValue y hy (lt_of_le_of_lt (lastPlace_ge x) hlt)
    have h3 : (2 : ℚ) ^ 53 * 2 ^ lastPlace x ≤ 2 ^ 52 * 2 ^ lastPlace y := by
      have e1 : (2 : ℚ) ^ 53 * 2 ^ lastPlace x = 2 ^ 52 * 2 ^ (lastPlace x + 1) := by
        rw [zpow_add₀ (by norm_num)]
        ring
      rw [e1]
      exact mul_le_mul_of_nonneg_left (zpow_le_zpow_right₀ (by norm_num) (by omega))
        (by positivity)
    linarith
  · unfold roundValue
    rw [heq]
    have hu : (0 : ℚ) < 2 ^ lastPlace y := by positivity
    have h1 : x / 2 ^ lastPlace y ≤ y / 2 ^ lastPlace y := div_le_div_of_nonneg_right h hu.le
    have h2 : (roundHalfEven (x / 2 ^ lastPlace y) : ℚ) ≤ roundHalfEven (y / 2 ^ lastPlace y) := by
      exact_mod_cast roundHalfEven_mono _ _ h1
    exact mul_le_mul_of_nonneg_right h2 hu.le

/-- Rounding to binary64 is monotone. -/
theorem roundValue_mono (x y : ℚ) (h : x ≤ y) : roundValue x ≤ roundValue y := by
  rcases lt_trichotomy 0 x with hx | hx | hx
  · exact roundValue_mono_pos x y hx h
  · rw [← hx, roundValue_zero]
    exact roundValue_nonneg y (by linarith)
  · rcases le_or_lt 0 y with hy | hy
    · have h1 := roundValue_nonneg (-x) (by linarith)
      rw [roundValue_neg] at h1
      have h2 := roundValue_nonneg y hy
      linarith
    · have := roundValue_mono_pos (-y) (-x) (by linarith) (by linarith)
      rw [roundValue_neg, roundValue_neg] at this
      linarith

/-- A number that is an integer multiple of its own last place is not changed by
rounding. -/
theorem roundValue_of_int (x : ℚ) (n : ℤ) (h : x = n * 2 ^ lastPlace x) : roundValue x = x := by
  have hu : (0 : ℚ) < 2 ^ lastPlace x := by positivity
  have h1 : x / 2 ^ lastPlace x = (n : ℚ) := by
    rw [div_eq_iff hu.ne']
    exact h
  unfold roundValue
  rw [h1, roundHalfEven_intCast]
  exact h.symm

theorem lastPlace_le_of_lt (x : ℚ) (e : ℤ) (he : -1074 ≤ e) (hx : 0 < x)
    (h : x < 2 ^ 53 * 2 ^ e) : lastPlace x ≤ e := by
  have h1 : x < (2 : ℚ) ^ (e + 53) := by
    rw [zpow_add₀ (by norm_num)]
    rw [mul_comm]
    exact_mod_cast h
  have h2 : Int.log 2 x < e + 53 := (Int.lt_zpow_iff_log_lt (by norm_num) hx).mp h1
  unfold lastPlace
  rw [abs_of_pos hx]
  exact max_le (by omega) he

/-- A multiple `m * 2 ^ e` with `0 < m ≤ 2 ^ 53` and `-1074 ≤ e` is a binary64
number: rounding does not change it. -/
theorem roundValue_int_mul (m e : ℤ) (he : -1074 ≤ e) (hm0 : 0 < m) (hm : m ≤ 2 ^ 53) :
    roundValue ((m : ℚ) * 2 ^ e) = (m : ℚ) * 2 ^ e := by
  have hu : (0 : ℚ) < 2 ^ e := by positivity
  have hmq : (0 : ℚ) < m := by exact_mod_cast hm0
  have hx : (0 : ℚ) < (m : ℚ) * 2 ^ e := mul_pos hmq hu
  rcases lt_or_eq_of_le hm with hlt | heq
  · have hlt2 : (m : ℚ) < 2 ^ 53 := by exact_mod_cast hlt
    have hl := lastPlace_le_of_lt _ e he hx (mul_lt_mul_of_pos_right hlt2 hu)
    obtain ⟨k, hk⟩ := Int.eq_ofNat_of_zero_le (sub_nonneg.mpr hl)
    refine roundValue_of_int _ (m * 2 ^ k) ?_
    have e1 : e = lastPlace ((m : ℚ) * 2 ^ e) + k := by omega
    have e2 : (2 : ℚ) ^ e = 2 ^ k * 2 ^ lastPlace ((m : ℚ) * 2 ^ e) := by
      conv_lhs => rw [e1]
      rw [zpow_add₀ (by norm_num), zpow_natCast]
      ring
    push_cast
    conv_lhs => rw [e2]
    ring
  · have hv : (m : ℚ) * 2 ^ e = 2 ^ (e + 53) := by
      rw [heq, zpow_add₀ (by norm_num)]
      push_cast
      rw [mul_comm]
      norm_num
    have hl : lastPlace ((m : ℚ) * 2 ^ e) = e + 1 := by
      unfold lastPlace
      have hlog := Int.log_zpow (R := ℚ) (b := 2) (by norm_num) (e + 53)
      simp only [Nat.cast_ofNat] at hlog
      rw [abs_of_pos hx, hv, hlog]
      rw [max_eq_left (by omega)]
      omega
    refine roundValue_of_int _ (2 ^ 52) ?_
    rw [hl, hv, zpow_add₀ (by norm_num), zpow_add₀ (by norm_num)]
    push_cast
    rw [mul_comm]
    norm_num
    ring

/-- Rounding is idempotent: the result of a rounding is a binary64 number. -/
theorem roundValue_idem (x : ℚ) : roundValue (roundValue x) = roundValue x := by
  have key : ∀ y : ℚ, 0 ≤ y → roundValue (roundValue y) = roundValue y := by
    intro y hy
    have h0 : roundHalfEven ((0 : ℤ) : ℚ) ≤ roundHalfEven (y / 2 ^ lastPlace y) :=
      roundHalfEven_mono _ _ (by
        have hu : (0 : ℚ) < 2 ^ lastPlace y := by positivity
        simpa using div_nonneg hy hu.le)
    rw [roundHalfEven_intCast] at h0
    rcases lt_or_eq_of_le h0 with hpos | hz
    · have := roundValue_int_mul (roundHalfEven (y / 2 ^ lastPlace y)) (lastPlace y)
        (lastPlace_ge y) hpos (roundHalfEven_lastPlace_le y hy)
      exact this
    · have e0 : roundValue y = 0 := by
        unfold roundValue
        rw [← hz]
        simp
      rw [e0, roundValue_zero]
  rcases le_or_lt 0 x with hx | hx
  · exact key x hx
  · have := key (-x) (by linarith)
    rw [roundValue_neg, roundValue_neg] at this
    linarith

theorem roundF64_nonneg (x a : ℚ) (h : roundF64 x = some a) (hx : 0 ≤ x) : 0 ≤ a := by
  rw [((roundF64_some_iff x a).mp h).1]
  exact roundValue_nonneg x hx

theorem roundF64_mono (x y a b : ℚ) (hx : roundF64 x = some a) (hy : roundF64 y = some b)
    (h : x ≤ y) : a ≤ b := by
  rw [((roundF64_some_iff x a).mp hx).1, ((roundF64_some_iff y b).mp hy).1]
  exact roundValue_mono x y h

theorem roundF64_idem (x a : ℚ) (h : roundF64 x = some a) : roundF64 a = some a := by
  obtain ⟨h1, h2⟩ := (roundF64_some_iff x a).mp h
  have h3 : roundValue a = a := by
    rw [h1]
    exact roundValue_idem x
  rw [roundF64_some_iff, h3]
  exact ⟨rfl, by rw [h1]; exact h2⟩

/-- A rounding stays below every binary64 number that bounds its argument. -/
theorem roundF64_le (x a b : ℚ) (hx : roundF64 x = some a) (hb : roundF64 b = some b)
    (h : x ≤ b) : a ≤ b :=
  roundF64_mono x b a b hx hb h

/-- A rounding stays above every binary64 number that bounds its argument. -/
theorem roundF64_ge (x a b : ℚ) (hx : roundF64 x = some a) (hb : roundF64 b = some b)
    (h : b ≤ x) : b ≤ a :=
  roundF64_mono b x b a hb hx h

/-- A rounding between two finite roundings is finite. -/
theorem roundF64_isSome (x lo hi a b : ℚ) (hlo : roundF64 lo = some a)
    (hhi : roundF64 hi = some b) (h1 : lo ≤ x) (h2 : x ≤ hi) :
    ∃ c, roundF64 x = some c ∧ a ≤ c ∧ c ≤ b := by
  obtain ⟨ha, ha2⟩ := (roundF64_some_iff lo a).mp hlo
  obtain ⟨hb, hb2⟩ := (roundF64_some_iff hi b).mp hhi
  have m1 := roundValue_mono lo x h1
  have m2 := roundValue_mono x hi h2
  have hfin : abs (roundValue x) < 2 ^ 1024 := by
    rw [abs_lt] at ha2 hb2 ⊢
    exact ⟨by linarith [ha2.1], by linarith [hb2.2]⟩
  exact ⟨roundValue x, (roundF64_some_iff x _).mpr ⟨rfl, hfin⟩, by rw [ha]; exact m1,
    by rw [hb]; exact m2⟩

theorem roundF64_one : roundF64 1 = some 1 :=
  roundF64_pos 1 1 (2 ^ 52) (-52) (by norm_num) (by norm_num) (by norm_num) (by norm_num)
    (by norm_num) (by norm_num) (by norm_num)

theorem roundF64_zero : roundF64 0 = some 0 :=
  roundF64_of_eq_zero 0 rfl

theorem abs_roundHalfEven_sub_le (s : ℚ) : abs ((roundHalfEven s : ℚ) - s) ≤ 1 / 2 := by
  have h1 := Int.floor_le s
  have h2 := Int.lt_floor_add_one s
  unfold roundHalfEven
  rw [abs_le]
  split_ifs <;> push_cast <;> constructor <;> linarith

/-- The error of one rounding: at most `2 ^ (-53)` of the number, or `2 ^ (-1075)`
in the subnormal range. -/
theorem roundValue_err (x : ℚ) : abs (roundValue x - x) ≤ abs x / 2 ^ 53 + 1 / 2 ^ 1075 := by
  rcases eq_or_ne x 0 with hx | hx
  · rw [hx, roundValue_zero]
    norm_num
  have hpos : 0 < abs x := abs_pos.mpr hx
  have hw : (0 : ℚ) < 2 ^ lastPlace x := by positivity
  have h1 : abs (roundValue x - x) ≤ 2 ^ lastPlace x / 2 := by
    have e : roundValue x - x
        = ((roundHalfEven (x / 2 ^ lastPlace x) : ℚ) - x / 2 ^ lastPlace x) * 2 ^ lastPlace x := by
      unfold roundValue
      field_simp
    rw [e, abs_mul, abs_of_pos hw]
    have := abs_roundHalfEven_sub_le (x / 2 ^ lastPlace x)
    calc abs ((roundHalfEven (x / 2 ^ lastPlace x) : ℚ) - x / 2 ^ lastPlace x) * 2 ^ lastPlace x
        ≤ 1 / 2 * 2 ^ lastPlace x := mul_le_mul_of_nonneg_right this hw.le
      _ = 2 ^ lastPlace x / 2 := by ring
  have h2 : (2 : ℚ) ^ lastPlace x / 2 ≤ abs x / 2 ^ 53 + 1 / 2 ^ 1075 := by
    rcases max_cases (Int.log 2 (abs x) - 52) (-1074) with ⟨hm, -⟩ | ⟨hm, -⟩
    · have hl : lastPlace x = Int.log 2 (abs x) - 52 := hm
      have h3 : (2 : ℚ) ^ Int.log 2 (abs x) ≤ abs x := Int.zpow_log_le_self (by norm_num) hpos
      have h4 : (2 : ℚ) ^ lastPlace x = 2 ^ Int.log 2 (abs x) / 2 ^ 52 := by
        rw [hl, zpow_sub₀ (by norm_num)]
        norm_num
      rw [h4]
      have h5 : (2 : ℚ) ^ Int.log 2 (abs x) / 2 ^ 52 / 2 ≤ abs x / 2 ^ 53 := by
        have e5 : (2 : ℚ) ^ Int.log 2 (abs x) / 2 ^ 52 / 2 = 2 ^ Int.log 2 (abs x) / 2 ^ 53 := by
          ring
        rw [e5]
        exact div_le_div_of_nonneg_right h3 (by positivity)
      have h6 : (0 : ℚ) ≤ 1 / 2 ^ 1075 := by positivity
      linarith
    · have hl : lastPlace x = -1074 := hm
      rw [hl]
      have h6 : (0 : ℚ) ≤ abs x / 2 ^ 53 := by positivity
      have h7 : (2 : ℚ) ^ (-1074 : ℤ) / 2 = 1 / 2 ^ 1075 := by
        norm_num
      linarith
  exact le_trans h1 h2

theorem roundF64_err (x a : ℚ) (h : roundF64 x = some a) :
    abs (a - x) ≤ abs x / 2 ^ 53 + 1 / 2 ^ 1075 := by
  rw [((roundF64_some_iff x a).mp h).1]
  exact roundValue_err x

/-! ## Binary64: order of the feed recommendation -/

theorem fdiv_some (a b r : ℚ) (h : fdiv a b = some r) : b ≠ 0 ∧ roundF64 (a / b) = some r := by
  unfold fdiv at h
  split_ifs at h with hb
  exact ⟨hb, h⟩

theorem qSet64_nonneg (qnom dtSet dtDesign q : ℚ) (hq : 0 < qnom) (hs : 0 < dtSet)
    (hd : 0 < dtDesign) (h : qSet64 qnom dtSet dtDesign = some q) : 0 ≤ q := by
  simp only [qSet64, Option.bind_eq_some] at h
  obtain ⟨x, h1, y, h2, r, h3, h4⟩ := h
  have hx : 0 ≤ x := roundF64_nonneg (qnom * 3600.0) x h1 (mul_nonneg hq.le (by norm_num))
  have hy : 0 ≤ y := roundF64_nonneg _ y (fdiv_some _ _ _ h2).2
    (div_nonneg hx (by norm_num [LatentHeatOfVaporization]))
  have hr : 0 ≤ r := roundF64_nonneg _ r (fdiv_some _ _ _ h3).2 (div_nonneg hs.le hd.le)
  exact roundF64_nonneg (y * r) q h4 (mul_nonneg hy hr)

/-- The parts of a finite evaluation that concern the capacities and the
recommendation. -/
theorem evaluate64_capacity (data out : PageData) (h : evaluate64 data = some out) :
    ∃ qSet1 qSet2 qSet3 s12,
      qSet64 data.Effect.Qnom1 data.Effect.DtSet1 data.Effect.DtDesign1 = some qSet1 ∧
      qSet64 data.Effect.Qnom2 data.Effect.DtSet2 data.Effect.DtDesign2 = some qSet2 ∧
      qSet64 data.Effect.Qnom3 data.Effect.DtSet3 data.Effect.DtDesign3 = some qSet3 ∧
      fadd qSet1 qSet2 = some s12 ∧ fadd s12 qSet3 = some out.TotalQset ∧
      recommend64 out.TotalQset data.TargetConc data.FeedConc =
        some (out.TheoreticalMax, out.RecommendLow, out.RecommendHigh, out.SuggestFlow) := by
  simp only [evaluate64, Option.bind_eq_some] at h
  obtain ⟨cap, hcap, rec, hrec, c, -, q, -, hout⟩ := h
  simp only [capacity64, Option.bind_eq_some, Option.some.injEq] at hcap
  obtain ⟨q1, h1, q2, h2, q3, h3, s12, h4, total, h5, hcapeq⟩ := hcap
  simp only [Option.some.injEq] at hout
  subst hout
  subst hcapeq
  exact ⟨q1, q2, q3, s12, h1, h2, h3, h4, h5, hrec⟩

/-- The order of the recommendation in binary64, from the parts of
`recommend64`. -/
theorem recommend64_order (total target feed tmax lo hi sg : ℚ) (htot : 0 ≤ total)
    (hT : roundF64 total = some total) (ht0 : 0 < target)
    (ht : roundF64 target = some target)
    (h : recommend64 total target feed = some (tmax, lo, hi, sg)) :
    0 ≤ lo ∧ lo ≤ sg ∧ sg ≤ hi ∧ hi ≤ tmax ∧ (target > feed → 0 ≤ feed → total ≤ tmax) := by
  unfold recommend64 at h
  split_ifs at h with hgt
  · simp only [Option.bind_eq_some, Option.some.injEq, Prod.mk.injEq] at h
    obtain ⟨diff, h1, ratio, h2, tm, h3, l, h4, hh, h5, s, h6, e1, e2, e3, e4⟩ := h
    subst e1 e2 e3 e4
    obtain ⟨hne, h2r⟩ := fdiv_some _ _ _ h2
    have hdiff0 : 0 ≤ diff := roundF64_nonneg (target - feed) diff h1 (by linarith)
    have hdiff : 0 < diff := lt_of_le_of_ne hdiff0 (Ne.symm hne)
    have hratio0 : 0 ≤ ratio := roundF64_nonneg _ ratio h2r (div_nonneg ht0.le hdiff.le)
    have htm0 : 0 ≤ tm := roundF64_nonneg (total * ratio) tm h3 (mul_nonneg htot hratio0)
    have htmF : roundF64 tm = some tm := roundF64_idem (total * ratio) tm h3
    have c95 : lit64 0.95 = 4278419646001971 / 4503599627370496 := lit64_values.1
    have c90 : lit64 0.90 = 8106479329266893 / 9007199254740992 := lit64_values.2
    rw [c95] at h5
    rw [c90] at h6
    refine ⟨?_, ?_, ?_, ?_, ?_⟩
    · exact roundF64_nonneg (tm * 0.75) l h4 (mul_nonneg htm0 (by norm_num))
    · refine roundF64_mono (tm * 0.75) _ l s h4 h6 ?_
      exact mul_le_mul_of_nonneg_left (by norm_num) htm0
    · refine roundF64_mono _ _ s hh h6 h5 ?_
      exact mul_le_mul_of_nonneg_left (by norm_num) htm0
    · refine roundF64_le _ hh tm h5 htmF ?_
      have : tm * (4278419646001971 / 4503599627370496) ≤ tm * 1 :=
        mul_le_mul_of_nonneg_left (by norm_num) htm0
      linarith
    · intro _ hfeed
      have hle : diff ≤ target := roundF64_le (target - feed) diff target h1 ht (by linarith)
      have h1r : 1 ≤ ratio :=
        roundF64_ge (target / diff) ratio 1 h2r roundF64_one ((one_le_div hdiff).mpr hle)
      refine roundF64_ge (total * ratio) tm total h3 hT ?_
      have : total * 1 ≤ total * ratio := mul_le_mul_of_nonneg_left h1r htot
      linarith
  · simp only [Option.some.injEq, Prod.mk.injEq] at h
    obtain ⟨e1, e2, e3, e4⟩ := h
    subst e1 e2 e3 e4
    refine ⟨le_refl _, le_refl _, le_refl _, le_refl _, ?_⟩
    intro hgt2
    exact absurd hgt2 hgt

/-- C21 amended: on the `float64` results of every evaluation that stays finite,
with positive stage ratings and positive design and operating differentials and
a positive target concentration, the total capacity is not negative,
`0 ≤ recommendedLow ≤ suggested ≤ recommendedHigh ≤ theoreticalMax`, and when
`target > feed ≥ 0` the theoretical maximum is at least the total capacity (it
can be equal, see `theoreticalMax_equals_total_binary64`). -/
theorem recommendation_order_binary64 (data out : PageData)
    (hq1 : 0 < data.Effect.Qnom1) (hq2 : 0 < data.Effect.Qnom2) (hq3 : 0 < data.Effect.Qnom3)
    (hd1 : 0 < data.Effect.DtDesign1) (hd2 : 0 < data.Effect.DtDesign2)
    (hd3 : 0 < data.Effect.DtDesign3)
    (hs1 : 0 < data.Effect.DtSet1) (hs2 : 0 < data.Effect.DtSet2) (hs3 : 0 < data.Effect.DtSet3)
    (ht0 : 0 < data.TargetConc) (ht : roundF64 data.TargetConc = some data.TargetConc)
    (h : evaluate64 data = some out) :
    0 ≤ out.TotalQset ∧ 0 ≤ out.RecommendLow ∧ out.RecommendLow ≤ out.SuggestFlow ∧
      out.SuggestFlow ≤ out.RecommendHigh ∧ out.RecommendHigh ≤ out.TheoreticalMax ∧
      (data.TargetConc > data.FeedConc → 0 ≤ data.FeedConc →
        out.TotalQset ≤ out.TheoreticalMax) := by
  obtain ⟨qSet1, qSet2, qSet3, s12, h1, h2, h3, h4, h5, h6⟩ := evaluate64_capacity data out h
  have p1 := qSet64_nonneg _ _ _ _ hq1 hs1 hd1 h1
  have p2 := qSet64_nonneg _ _ _ _ hq2 hs2 hd2 h2
  have p3 := qSet64_nonneg _ _ _ _ hq3 hs3 hd3 h3
  have p12 : 0 ≤ s12 := roundF64_nonneg (qSet1 + qSet2) s12 h4 (by linarith)
  have ptot : 0 ≤ out.TotalQset := roundF64_nonneg (s12 + qSet3) _ h5 (by linarith)
  have hT : roundF64 out.TotalQset = some out.TotalQset := roundF64_idem (s12 + qSet3) _ h5
  exact ⟨ptot, recommend64_order _ _ _ _ _ _ _ ptot hT ht0 ht h6⟩

/-- C21 amended, on the request `temp_1=temp_2=temp_3=100`, `dens_1=1.13`,
`dens_2=1.2`, `dens_3=1.3` (target 52.5, feed 18): the theoretical maximum is at
least the total capacity. -/
theorem recommendation_order_binary64_witness :
    ∃ out, handlePost64 { emptyForm with temp_1 := some 100, temp_2 := some 100, temp_3 := some 100, dens_1 := some 1.13, dens_2 := some 1.2, dens_3 := some 1.3 } = some out ∧ out.TotalQset ≤ out.TheoreticalMax := by
  obtain ⟨out, h, -⟩ := handlePost64_C
  have ht : roundF64 (52.5 : ℚ) = some 52.5 := by
    have h0 : roundF64 (52.5 : ℚ) = some (105 / 2) :=
      roundF64_pos_mid (52.5) (105 / 2) 7388718138654720 (-47) (by norm_num) (by norm_num) (by norm_num) (by norm_num) (by norm_num) (by norm_num) (by norm_num)
    have e : (105 / 2 : ℚ) = 52.5 := by norm_num
    rw [e] at h0
    exact h0
  exact ⟨out, h, (recommendation_order_binary64
    (applyForm64 { emptyForm with temp_1 := some 100, temp_2 := some 100, temp_3 := some 100, dens_1 := some 1.13, dens_2 := some 1.2, dens_3 := some 1.3 } defaultData64) out
    (by norm_num [applyForm64, acceptPositive64, emptyForm, defaultData64, defaultData])
    (by norm_num [applyForm64, acceptPositive64, emptyForm, defaultData64, defaultData])
    (by norm_num [applyForm64, acceptPositive64, emptyForm, defaultData64, defaultData])
    (by norm_num [applyForm64, acceptPositive64, emptyForm, defaultData64, defaultData])
    (by norm_num [applyForm64, acceptPositive64, emptyForm, defaultData64, defaultData])
    (by norm_num [applyForm64, acceptPositive64, emptyForm, defaultData64, defaultData])
    (by norm_num [applyForm64, acceptPositive64, emptyForm, defaultData64, defaultData])
    (by norm_num [applyForm64, acceptPositive64, emptyForm, defaultData64, defaultData])
    (by norm_num [applyForm64, acceptPositive64, emptyForm, defaultData64, defaultData])
    (by norm_num [applyForm64, acceptPositive64, emptyForm, defaultData64, defaultData])
    ht h).2.2.2.2.2
    (by norm_num [applyForm64, acceptPositive64, emptyForm, defaultData64, defaultData])
    (by norm_num [applyForm64, acceptPositive64, emptyForm, defaultData64, defaultData])⟩

/-! ## Binary64: monotonicity in the density -/

/-- Inside a segment the binary64 interpolation returns a finite value between
the two concentrations of the segment, and it does not decrease with the
density. -/
theorem interpPair64_mono (p q : ℚ × ℚ) (hs : Seg64 p q) (d e : ℚ) (h1 : p.2 ≤ d)
    (hde : d ≤ e) (h2 : e ≤ q.2) :
    ∃ c c2, interpPair64 p q d = some c ∧ interpPair64 p q e = some c2 ∧
      p.1 ≤ c ∧ c ≤ c2 ∧ c2 ≤ q.1 := by
  obtain ⟨-, hp1, y, z, hy, ypos, hz, z0, hq⟩ := hs
  have hzF : roundF64 z = some z := roundF64_idem _ z hz
  have hyne : y ≠ 0 := ypos.ne'
  obtain ⟨x, hx, x0, xy⟩ := roundF64_isSome (d - p.2) 0 (q.2 - p.2) 0 y roundF64_zero hy
    (by linarith) (by linarith)
  obtain ⟨x2, hx2, -, xy2⟩ := roundF64_isSome (e - p.2) 0 (q.2 - p.2) 0 y roundF64_zero hy
    (by linarith) (by linarith)
  have hxx : x ≤ x2 := roundF64_mono _ _ x x2 hx hx2 (by linarith)
  have x20 : 0 ≤ x2 := le_trans x0 hxx
  obtain ⟨a, ha, a0, a1⟩ := roundF64_isSome (x / y) 0 1 0 1 roundF64_zero roundF64_one
    (div_nonneg x0 ypos.le) ((div_le_one ypos).mpr xy)
  obtain ⟨a2, ha2, -, a21⟩ := roundF64_isSome (x2 / y) 0 1 0 1 roundF64_zero roundF64_one
    (div_nonneg x20 ypos.le) ((div_le_one ypos).mpr xy2)
  have haa : a ≤ a2 := roundF64_mono _ _ a a2 ha ha2 (div_le_div_of_nonneg_right hxx ypos.le)
  have a20 : 0 ≤ a2 := le_trans a0 haa
  obtain ⟨w, hw, w0, wz⟩ := roundF64_isSome (a * z) 0 z 0 z roundF64_zero hzF
    (mul_nonneg a0 z0) (by nlinarith)
  obtain ⟨w2, hw2, -, wz2⟩ := roundF64_isSome (a2 * z) 0 z 0 z roundF64_zero hzF
    (mul_nonneg a20 z0) (by nlinarith)
  have hww : w ≤ w2 := roundF64_mono _ _ w w2 hw hw2 (mul_le_mul_of_nonneg_right haa z0)
  have w20 : 0 ≤ w2 := le_trans w0 hww
  obtain ⟨c, hc, pc, cq⟩ := roundF64_isSome (p.1 + w) p.1 (p.1 + z) p.1 q.1 hp1 hq
    (by linarith) (by linarith)
  obtain ⟨c2, hc2, -, cq2⟩ := roundF64_isSome (p.1 + w2) p.1 (p.1 + z) p.1 q.1 hp1 hq
    (by linarith) (by linarith)
  have hcc : c ≤ c2 := roundF64_mono _ _ c c2 hc hc2 (by linarith)
  have e1 : interpPair64 p q d = some c :=
    interpPair64_eq p.1 p.2 q.1 q.2 d x y a z w c hx hy (fdiv_of_round x y a hyne ha) hz hw hc
  have e2 : interpPair64 p q e = some c2 :=
    interpPair64_eq p.1 p.2 q.1 q.2 e x2 y a2 z w2 c2 hx2 hy (fdiv_of_round x2 y a2 hyne ha2)
      hz hw2 hc2
  exact ⟨c, c2, e1, e2, pc, hcc, cq2⟩

theorem seg64_conc_le (p q : ℚ × ℚ) (hs : Seg64 p q) : p.1 ≤ q.1 := by
  obtain ⟨c, c2, -, -, h1, h2, h3⟩ := interpPair64_mono p q hs p.2 p.2 (le_refl _) (le_refl _)
    hs.1.le
  linarith

theorem interpLoop64_below (d : ℚ) : ∀ (rest : List (ℚ × ℚ)) (p : ℚ × ℚ),
    List.Chain' Seg64 (p :: rest) → d < p.2 →
      interpLoop64 d (p :: rest) = LoopOutcome.finished
  | [], p, _, _ => interpLoop64_single d p
  | q :: rest, p, hs, hd => by
    have hpq : Seg64 p q := (List.chain'_cons.mp hs).1
    have hc : ¬ (d ≥ p.2 ∧ d ≤ q.2) := fun h => absurd h.1 (not_le.mpr hd)
    rw [interpLoop64_skip d p q rest hc]
    exact interpLoop64_below d rest q (List.chain'_cons.mp hs).2 (lt_trans hd hpq.1)

theorem interp64_singleton (p : ℚ × ℚ) (d : ℚ) : interp64 [p] d = some p.1 := by
  by_cases h : d < p.2 <;> simp [interp64, interpLoop64, h]

theorem interp64_cons_cons (p q : ℚ × ℚ) (rest : List (ℚ × ℚ)) (d : ℚ)
    (hs : List.Chain' Seg64 (p :: q :: rest)) :
    interp64 (p :: q :: rest) d =
      if d < p.2 then some p.1
      else if d ≤ q.2 then interpPair64 p q d
      else interp64 (q :: rest) d := by
  have hpq : Seg64 p q := (List.chain'_cons.mp hs).1
  by_cases h0 : d < p.2
  · rw [if_pos h0]
    simp only [interp64, interpLoop64_below d _ p hs h0, List.head?_cons, h0, if_true]
  · rw [if_neg h0]
    by_cases h1 : d ≤ q.2
    · rw [if_pos h1]
      obtain ⟨c, -, hc, -, -, -, -⟩ := interpPair64_mono p q hpq d d (not_lt.mp h0) (le_refl _) h1
      rw [hc]
      exact interp64_of_returned _ d c (interpLoop64_hit d c p q rest ⟨not_lt.mp h0, h1⟩ hc)
    · rw [if_neg h1]
      have hcond : ¬ (d ≥ p.2 ∧ d ≤ q.2) := fun hc => h1 hc.2
      have hq : ¬ d < q.2 := fun hlt => h1 hlt.le
      unfold interp64
      rw [interpLoop64_skip d p q rest hcond]
      cases interpLoop64 d (q :: rest) with
      | returned c => rfl
      | notFinite => rfl
      | finished => simp [h0, hq, List.getLast?_cons_cons]

/-- On a row all of whose segments close, the binary64 interpolation returns a
finite value at every density, at least the first concentration, and it does not
decrease with the density. -/
theorem interp64_mono : ∀ (tbl : List (ℚ × ℚ)) (first : ℚ × ℚ), tbl.head? = some first →
    List.Chain' Seg64 tbl → ∀ (d e : ℚ), d ≤ e →
      ∃ c c2, interp64 tbl d = some c ∧ interp64 tbl e = some c2 ∧ first.1 ≤ c ∧ c ≤ c2
  | [], first, hf, _, d, e, _ => by simp at hf
  | [a], first, hf, _, d, e, _ => by
    simp only [List.head?_cons, Option.some.injEq] at hf
    subst hf
    exact ⟨_, _, interp64_singleton a d, interp64_singleton a e, le_refl _, le_refl _⟩
  | a :: b :: rest, first, hf, hs, d, e, hde => by
    simp only [List.head?_cons, Option.some.injEq] at hf
    subst hf
    have hab : Seg64 a b := (List.chain'_cons.mp hs).1
    have hs2 : List.Chain' Seg64 (b :: rest) := (List.chain'_cons.mp hs).2
    have hle : a.1 ≤ b.1 := seg64_conc_le a b hab
    rw [interp64_cons_cons a b rest d hs, interp64_cons_cons a b rest e hs]
    by_cases h0 : d < a.2
    · rw [if_pos h0]
      by_cases h0e : e < a.2
      · rw [if_pos h0e]
        exact ⟨_, _, rfl, rfl, le_refl _, le_refl _⟩
      · rw [if_neg h0e]
        by_cases h1e : e ≤ b.2
        · rw [if_pos h1e]
          obtain ⟨c2, -, hc2, -, hb, -, -⟩ :=
            interpPair64_mono a b hab e e (not_lt.mp h0e) (le_refl _) h1e
          exact ⟨_, c2, rfl, hc2, le_refl _, hb⟩
        · rw [if_neg h1e]
          obtain ⟨c2, -, hc2, -, hb, -⟩ := interp64_mono (b :: rest) b rfl hs2 e e (le_refl _)
          exact ⟨_, c2, rfl, hc2, le_refl _, le_trans hle hb⟩
    · rw [if_neg h0]
      have h0e : ¬ e < a.2 := fun hlt => h0 (lt_of_le_of_lt hde hlt)
      rw [if_neg h0e]
      by_cases h1 : d ≤ b.2
      · rw [if_pos h1]
        by_cases h1e : e ≤ b.2
        · rw [if_pos h1e]
          obtain ⟨c, c2, hc, hc2, hb, hcc, -⟩ :=
            interpPair64_mono a b hab d e (not_lt.mp h0) hde h1e
          exact ⟨c, c2, hc, hc2, hb, hcc⟩
        · rw [if_neg h1e]
          obtain ⟨c, c0, hc, -, hb, hcc, hcb⟩ :=
            interpPair64_mono a b hab d d (not_lt.mp h0) (le_refl _) h1
          obtain ⟨c2, -, hc2, -, hb2, -⟩ := interp64_mono (b :: rest) b rfl hs2 e e (le_refl _)
          exact ⟨c, c2, hc, hc2, hb, le_trans (le_trans hcc hcb) hb2⟩
      · rw [if_neg h1]
        have h1e : ¬ e ≤ b.2 := fun hle2 => h1 (le_trans hde hle2)
        rw [if_neg h1e]
        obtain ⟨c, c2, hc, hc2, hb, hcc⟩ := interp64_mono (b :: rest) b rfl hs2 d e hde
        exact ⟨c, c2, hc, hc2, le_trans hle hb, hcc⟩

theorem getConc64_above (temp d : ℚ) (h : 100 < temp) :
    getConc64 temp d = interp64 (tableRow64 100) d := by
  simp only [getConc64, bounds_above temp h, if_true]
  cases interp64 (tableRow64 100) d <;> rfl

/-- On a row all of whose segments close, the binary64 interpolation stays at or
below the last concentration of the row. -/
theorem interp64_le_last : ∀ (tbl : List (ℚ × ℚ)) (last : ℚ × ℚ), tbl.getLast? = some last →
    List.Chain' Seg64 tbl → ∀ (d c : ℚ), interp64 tbl d = some c → c ≤ last.1
  | [], last, hl, _, d, c, _ => by simp at hl
  | [a], last, hl, _, d, c, hc => by
    simp only [List.getLast?_singleton, Option.some.injEq] at hl
    rw [interp64_singleton, Option.some.injEq] at hc
    rw [← hl, ← hc]
  | a :: b :: rest, last, hl, hs, d, c, hc => by
    have hab : Seg64 a b := (List.chain'_cons.mp hs).1
    have hs2 : List.Chain' Seg64 (b :: rest) := (List.chain'_cons.mp hs).2
    have hl2 : (b :: rest).getLast? = some last := by
      rw [List.getLast?_cons_cons] at hl
      exact hl
    have hle : a.1 ≤ b.1 := seg64_conc_le a b hab
    obtain ⟨cb, -, hcb, -, hb1, -⟩ := interp64_mono (b :: rest) b rfl hs2 b.2 b.2 (le_refl _)
    have hblast : b.1 ≤ last.1 :=
      le_trans hb1 (interp64_le_last (b :: rest) last hl2 hs2 b.2 cb hcb)
    rw [interp64_cons_cons a b rest d hs] at hc
    by_cases h0 : d < a.2
    · rw [if_pos h0, Option.some.injEq] at hc
      rw [← hc]
      linarith
    · rw [if_neg h0] at hc
      by_cases h1 : d ≤ b.2
      · rw [if_pos h1] at hc
        obtain ⟨c0, c3, hc0, -, -, hcc, hcq⟩ :=
          interpPair64_mono a b hab d d (not_lt.mp h0) (le_refl _) h1
        rw [hc0, Option.some.injEq] at hc
        rw [← hc]
        linarith
      · rw [if_neg h1] at hc
        exact interp64_le_last (b :: rest) last hl2 hs2 d c hc

/-- At every table temperature the binary64 interpolation in the row returns a
finite value between 0 and 53 at every density, and it does not decrease with the
density. -/
theorem tableRow64_range (T : ℚ) (h : T ∈ sortedKeys) (d e : ℚ) (hde : d ≤ e) :
    ∃ c c2, interp64 (tableRow64 T) d = some c ∧ interp64 (tableRow64 T) e = some c2 ∧
      0 ≤ c ∧ c ≤ c2 ∧ c2 ≤ 53 := by
  have key : ∀ (tbl : List (ℚ × ℚ)) (first last : ℚ × ℚ), tbl.head? = some first →
      tbl.getLast? = some last → 0 ≤ first.1 → last.1 ≤ 53 → List.Chain' Seg64 tbl →
      ∃ c c2, interp64 tbl d = some c ∧ interp64 tbl e = some c2 ∧ 0 ≤ c ∧ c ≤ c2 ∧ c2 ≤ 53 := by
    intro tbl first last hf hl h0 h53 hs
    obtain ⟨c, c2, hc, hc2, hfc, hcc⟩ := interp64_mono tbl first hf hs d e hde
    have := interp64_le_last tbl last hl hs e c2 hc2
    exact ⟨c, c2, hc, hc2, by linarith, hcc, by linarith⟩
  rw [sortedKeys_eq] at h
  simp only [List.mem_cons, List.mem_singleton, List.not_mem_nil, or_false] at h
  rcases h with h | h | h | h | h | h | h <;> subst h
  · exact key _ _ _ (by rw [row64_20.1]; rfl) (by rw [row64_20.1]; rfl) (by norm_num)
      (by norm_num) row64_20.2
  · exact key _ _ _ (by rw [row64_40.1]; rfl) (by rw [row64_40.1]; rfl) (by norm_num)
      (by norm_num) row64_40.2
  · exact key _ _ _ (by rw [row64_50.1]; rfl) (by rw [row64_50.1]; rfl) (by norm_num)
      (by norm_num) row64_50.2
  · exact key _ _ _ (by rw [row64_55.1]; rfl) (by rw [row64_55.1]; rfl) (by norm_num)
      (by norm_num) row64_55.2
  · exact key _ _ _ (by rw [row64_60.1]; rfl) (by rw [row64_60.1]; rfl) (by norm_num)
      (by norm_num) row64_60.2
  · exact key _ _ _ (by rw [row64_80.1]; rfl) (by rw [row64_80.1]; rfl) (by norm_num)
      (by norm_num) row64_80.2
  · exact key _ _ _ (by rw [row64_100.1]; rfl) (by rw [row64_100.1]; rfl) (by norm_num)
      (by norm_num) row64_100.2

/-- The step between two adjacent table temperatures is a binary64 number
between 5 and 20. -/
theorem adjacent_step (ta tb : ℚ) (h : (ta, tb) ∈ sortedKeys.zip sortedKeys.tail) :
    roundF64 (tb - ta) = some (tb - ta) ∧ 5 ≤ tb - ta ∧ tb - ta ≤ 20 := by
  obtain ⟨r5, r10, r20, r53, rn53, r11, rn11, r220, rn220, r273⟩ := roundF64_small_integers
  rw [sortedKeys_eq] at h
  simp only [List.tail_cons, List.zip_cons_cons, List.zip_nil_right, List.mem_cons,
    Prod.mk.injEq, List.not_mem_nil, or_false] at h
  rcases h with ⟨h1, h2⟩ | ⟨h1, h2⟩ | ⟨h1, h2⟩ | ⟨h1, h2⟩ | ⟨h1, h2⟩ | ⟨h1, h2⟩ <;>
    subst h1 <;> subst h2
  · have e : (40 : ℚ) - 20 = 20 := by norm_num
    rw [e]
    exact ⟨r20, by norm_num, by norm_num⟩
  · have e : (50 : ℚ) - 40 = 10 := by norm_num
    rw [e]
    exact ⟨r10, by norm_num, by norm_num⟩
  · have e : (55 : ℚ) - 50 = 5 := by norm_num
    rw [e]
    exact ⟨r5, by norm_num, by norm_num⟩
  · have e : (60 : ℚ) - 55 = 5 := by norm_num
    rw [e]
    exact ⟨r5, by norm_num, by norm_num⟩
  · have e : (80 : ℚ) - 60 = 20 := by norm_num
    rw [e]
    exact ⟨r20, by norm_num, by norm_num⟩
  · have e : (100 : ℚ) - 80 = 20 := by norm_num
    rw [e]
    exact ⟨r20, by norm_num, by norm_num⟩

/-- The rounding error of the temperature step
`c1 + (c2-c1)/(t2-t1)*(temp-t1)`: for concentrations between 0 and 53 and a
temperature strictly between two table temperatures the `float64` result is
finite and differs from the exact value by at most `2 ^ (-42)`. -/
theorem tempStep64_err (c1 c2 t1 t2 temp : ℚ) (h1 : 0 ≤ c1) (h1b : c1 ≤ 53) (h2 : 0 ≤ c2)
    (h2b : c2 ≤ 53) (hy : roundF64 (t2 - t1) = some (t2 - t1)) (y5 : 5 ≤ t2 - t1)
    (y20 : t2 - t1 ≤ 20) (ht1 : t1 < temp) (ht2 : temp < t2) :
    ∃ c, tempStep64 c1 c2 t1 t2 temp = some c ∧
      abs (c - (c1 + (c2 - c1) / (t2 - t1) * (temp - t1))) ≤ 1 / 2 ^ 42 := by
  obtain ⟨r5, r10, r20, r53, rn53, r11, rn11, r220, rn220, r273⟩ := roundF64_small_integers
  have ypos : 0 < t2 - t1 := by linarith
  obtain ⟨x, hx, xlo, xhi⟩ := roundF64_isSome (c2 - c1) (-53) 53 (-53) 53 rn53
    r53 (by linarith) (by linarith)
  have ex := roundF64_err _ _ hx
  have aX : abs (c2 - c1) ≤ 53 := abs_le.mpr ⟨by linarith, by linarith⟩
  have ax : abs x ≤ 53 := abs_le.mpr ⟨xlo, xhi⟩
  have q1 : x / (t2 - t1) ≤ 11 := by
    rw [div_le_iff₀ ypos]
    linarith
  have q2 : -11 ≤ x / (t2 - t1) := by
    rw [le_div_iff₀ ypos]
    linarith
  obtain ⟨s, hs, slo, shi⟩ := roundF64_isSome (x / (t2 - t1)) (-11) 11 (-11) 11
    rn11 r11 q2 q1
  have es := roundF64_err _ _ hs
  have aq : abs (x / (t2 - t1)) ≤ 11 := abs_le.mpr ⟨q2, q1⟩
  have as : abs s ≤ 11 := abs_le.mpr ⟨slo, shi⟩
  obtain ⟨z, hz, zlo, zhi⟩ := roundF64_isSome (temp - t1) 0 20 0 20 roundF64_zero
    r20 (by linarith) (by linarith)
  have ez := roundF64_err _ _ hz
  have aZ : abs (temp - t1) ≤ 20 := abs_le.mpr ⟨by linarith, by linarith⟩
  have p1 : s * z ≤ 220 := by
    have := mul_le_mul_of_nonneg_right shi zlo
    linarith
  have p2 : -220 ≤ s * z := by
    have := mul_le_mul_of_nonneg_right slo zlo
    linarith
  obtain ⟨w, hw, wlo, whi⟩ := roundF64_isSome (s * z) (-220) 220 (-220) 220
    rn220 r220 p2 p1
  have ew := roundF64_err _ _ hw
  have asz : abs (s * z) ≤ 220 := abs_le.mpr ⟨p2, p1⟩
  obtain ⟨c, hc, clo, chi⟩ := roundF64_isSome (c1 + w) (-220) 273 (-220) 273
    rn220 r273 (by linarith) (by linarith)
  have ec := roundF64_err _ _ hc
  have acw : abs (c1 + w) ≤ 273 := abs_le.mpr ⟨by linarith, by linarith⟩
  refine ⟨c, tempStep64_eq c1 c2 t1 t2 temp x (t2 - t1) s z w c hx hy
    (fdiv_of_round x (t2 - t1) s ypos.ne' hs) hz hw hc, ?_⟩
  -- the four error terms
  have b1 : abs (c - (c1 + w)) ≤ 273 / 2 ^ 53 + 1 / 2 ^ 1075 := by
    have : abs (c1 + w) / 2 ^ 53 ≤ 273 / 2 ^ 53 := div_le_div_of_nonneg_right acw (by positivity)
    linarith
  have b2 : abs (w - s * z) ≤ 220 / 2 ^ 53 + 1 / 2 ^ 1075 := by
    have : abs (s * z) / 2 ^ 53 ≤ 220 / 2 ^ 53 := div_le_div_of_nonneg_right asz (by positivity)
    linarith
  have b3 : abs (s * (z - (temp - t1))) ≤ 11 * (20 / 2 ^ 53 + 1 / 2 ^ 1075) := by
    rw [abs_mul]
    have hz2 : abs (z - (temp - t1)) ≤ 20 / 2 ^ 53 + 1 / 2 ^ 1075 := by
      have : abs (temp - t1) / 2 ^ 53 ≤ 20 / 2 ^ 53 :=
        div_le_div_of_nonneg_right aZ (by positivity)
      linarith
    exact mul_le_mul as hz2 (abs_nonneg _) (by norm_num)
  have b4 : abs ((s - (c2 - c1) / (t2 - t1)) * (temp - t1))
      ≤ (64 / 2 ^ 53 + 2 / 2 ^ 1075) * 20 := by
    rw [abs_mul]
    have hs1 : abs (s - x / (t2 - t1)) ≤ 11 / 2 ^ 53 + 1 / 2 ^ 1075 := by
      have : abs (x / (t2 - t1)) / 2 ^ 53 ≤ 11 / 2 ^ 53 :=
        div_le_div_of_nonneg_right aq (by positivity)
      linarith
    have hs2 : abs (x / (t2 - t1) - (c2 - c1) / (t2 - t1)) ≤ 53 / 2 ^ 53 + 1 / 2 ^ 1075 := by
      have e : x / (t2 - t1) - (c2 - c1) / (t2 - t1) = (x - (c2 - c1)) / (t2 - t1) := by ring
      rw [e, abs_div, abs_of_pos ypos, div_le_iff₀ ypos]
      have hx2 : abs (x - (c2 - c1)) ≤ 53 / 2 ^ 53 + 1 / 2 ^ 1075 := by
        have : abs (c2 - c1) / 2 ^ 53 ≤ 53 / 2 ^ 53 :=
          div_le_div_of_nonneg_right aX (by positivity)
        linarith
      have hpos : (0 : ℚ) ≤ 53 / 2 ^ 53 + 1 / 2 ^ 1075 := by positivity
      nlinarith
    have hs3 : abs (s - (c2 - c1) / (t2 - t1)) ≤ 64 / 2 ^ 53 + 2 / 2 ^ 1075 := by
      have tri := abs_add (s - x / (t2 - t1)) (x / (t2 - t1) - (c2 - c1) / (t2 - t1))
      have e : s - x / (t2 - t1) + (x / (t2 - t1) - (c2 - c1) / (t2 - t1))
          = s - (c2 - c1) / (t2 - t1) := by ring
      rw [e] at tri
      linarith
    exact mul_le_mul hs3 aZ (abs_nonneg _) (by positivity)
  have split : c - (c1 + (c2 - c1) / (t2 - t1) * (temp - t1))
      = (c - (c1 + w)) + (w - s * z) + (s * (z - (temp - t1))
        + (s - (c2 - c1) / (t2 - t1)) * (temp - t1)) := by ring
  rw [split]
  have t3 := abs_add_three (c - (c1 + w)) (w - s * z) (s * (z - (temp - t1))
    + (s - (c2 - c1) / (t2 - t1)) * (temp - t1))
  have t4 := abs_add (s * (z - (temp - t1))) ((s - (c2 - c1) / (t2 - t1)) * (temp - t1))
  have num : (273 : ℚ) / 2 ^ 53 + 1 / 2 ^ 1075 + (220 / 2 ^ 53 + 1 / 2 ^ 1075)
      + (11 * (20 / 2 ^ 53 + 1 / 2 ^ 1075) + (64 / 2 ^ 53 + 2 / 2 ^ 1075) * 20)
      ≤ 1 / 2 ^ 42 := by norm_num
  linarith

/-- The exact temperature step does not decrease when both concentrations do
not. -/
theorem tempStep_mono (c1 c2 c3 c4 t1 t2 temp : ℚ) (h13 : c1 ≤ c3) (h24 : c2 ≤ c4)
    (ht1 : t1 < temp) (ht2 : temp < t2) :
    c1 + (c2 - c1) / (t2 - t1) * (temp - t1) ≤ c3 + (c4 - c3) / (t2 - t1) * (temp - t1) := by
  have hpos : 0 < t2 - t1 := by linarith
  have w0 : 0 ≤ (temp - t1) / (t2 - t1) := div_nonneg (by linarith) hpos.le
  have w1 : (temp - t1) / (t2 - t1) ≤ 1 := (div_le_one hpos).mpr (by linarith)
  have e1 : c1 + (c2 - c1) / (t2 - t1) * (temp - t1)
      = c1 + (temp - t1) / (t2 - t1) * (c2 - c1) := by ring
  have e2 : c3 + (c4 - c3) / (t2 - t1) * (temp - t1)
      = c3 + (temp - t1) / (t2 - t1) * (c4 - c3) := by ring
  rw [e1, e2]
  nlinarith [mul_nonneg w0 (sub_nonneg.mpr h24), mul_nonneg (sub_nonneg.mpr w1) (sub_nonneg.mpr h13)]

/-- C20 amended: on the `float64` results, `getConc` is monotone in the density
up to rounding: for every temperature at or above 20 and all densities `d ≤ e`,
both calls return a finite value and `getConc temp d ≤ getConc temp e + 2 ^ (-41)`;
at a table temperature (20, 40, 50, 55, 60, 80, 100) or above 100 the inequality
holds without the tolerance.  (Without the tolerance it fails between two table
temperatures, see `getConc_not_monotone_binary64`; the exact formula is monotone,
see `getConc_monotone_in_density`.) -/
theorem getConc64_monotone_in_density (temp d e : ℚ) (h : 20 ≤ temp) (hde : d ≤ e) :
    ∃ c c2, getConc64 temp d = some c ∧ getConc64 temp e = some c2 ∧
      c ≤ c2 + 1 / 2 ^ 41 ∧ (temp ∈ sortedKeys ∨ 100 < temp → c ≤ c2) := by
  have hpos : (0 : ℚ) ≤ 1 / 2 ^ 41 := by positivity
  rcases temp_cases temp h with hk | hab | ⟨ta, tb, hadj, h1, h2⟩
  · rw [getConc64_key temp d hk, getConc64_key temp e hk]
    obtain ⟨c, c2, hc, hc2, -, hcc, -⟩ := tableRow64_range temp hk d e hde
    exact ⟨c, c2, hc, hc2, by linarith, fun _ => hcc⟩
  · rw [getConc64_above temp d hab, getConc64_above temp e hab]
    obtain ⟨c, c2, hc, hc2, -, hcc, -⟩ :=
      tableRow64_range 100 (by rw [sortedKeys_eq]; simp) d e hde
    exact ⟨c, c2, hc, hc2, by linarith, fun _ => hcc⟩
  · obtain ⟨ha, hb, hlt⟩ := adjacent_mem ta tb hadj
    obtain ⟨hy, y5, y20⟩ := adjacent_step ta tb hadj
    obtain ⟨ca, ca2, hca, hca2, a0, la, a53⟩ := tableRow64_range ta ha d e hde
    obtain ⟨cb, cb2, hcb, hcb2, b0, lb, b53⟩ := tableRow64_range tb hb d e hde
    rw [getConc64_between ta tb temp d ca cb hadj h1 h2 hca hcb,
      getConc64_between ta tb temp e ca2 cb2 hadj h1 h2 hca2 hcb2]
    obtain ⟨g, hg, eg⟩ := tempStep64_err ca cb ta tb temp a0 (by linarith) b0 (by linarith)
      hy y5 y20 h1 h2
    obtain ⟨g2, hg2, eg2⟩ := tempStep64_err ca2 cb2 ta tb temp (by linarith) a53 (by linarith)
      b53 hy y5 y20 h1 h2
    have hm := tempStep_mono ca cb ca2 cb2 ta tb temp la lb h1 h2
    refine ⟨g, g2, hg, hg2, ?_, ?_⟩
    · have k1 := (abs_le.mp eg).2
      have k2 := (abs_le.mp eg2).1
      have num : (1 : ℚ) / 2 ^ 42 + 1 / 2 ^ 42 = 1 / 2 ^ 41 := by norm_num
      linarith
    · intro hT
      rcases hT with hk | hab
      · exfalso
        rw [sortedKeys_eq] at hk hadj
        simp only [List.tail_cons, List.zip_cons_cons, List.zip_nil_right, List.mem_cons,
          Prod.mk.injEq, List.not_mem_nil, or_false, List.mem_singleton] at hk hadj
        rcases hadj with ⟨e1, e2⟩ | ⟨e1, e2⟩ | ⟨e1, e2⟩ | ⟨e1, e2⟩ | ⟨e1, e2⟩ | ⟨e1, e2⟩ <;>
          subst e1 <;> subst e2 <;>
          rcases hk with hk | hk | hk | hk | hk | hk | hk <;> subst hk <;> linarith
      · exfalso
        have : tb ≤ 100 := by
          rw [sortedKeys_eq] at hb
          simp only [List.mem_cons, List.mem_singleton, List.not_mem_nil, or_false] at hb
          rcases hb with hb | hb | hb | hb | hb | hb | hb <;> rw [hb] <;> norm_num
        linarith

/-- C20 amended, at the temperature 92 (between the table temperatures 80 and
100) for the densities 1.19 and 1.29. -/
theorem getConc64_monotone_in_density_witness :
    ∃ c c2, getConc64 92 1.19 = some c ∧ getConc64 92 1.29 = some c2 ∧ c ≤ c2 + 1 / 2 ^ 41 := by
  obtain ⟨c, c2, h1, h2, h3, -⟩ :=
    getConc64_monotone_in_density 92 1.19 1.29 (by norm_num) (by norm_num)
  exact ⟨c, c2, h1, h2, h3⟩

/-! ## Binary64: the throughput chain up to rounding -/

/-- The rounding error of the expression `flow * (cout - cin) / cout`: with
`0 ≤ cin < cout` and `cout` at least `2 ^ (-100)`, the `float64` result differs
from the exact value by at most `7 * 2 ^ (-53)` of the flow, plus `3 * 2 ^ (-975)`
for the subnormal range. -/
theorem removed64_err (R a b Q : ℚ) (ha : 0 ≤ a) (hab : a < b) (hb : 1 / 2 ^ 100 ≤ b)
    (h : removed64 R b a = some Q) :
    abs (Q - R * (b - a) / b) ≤ 7 * abs R / 2 ^ 53 + 3 / 2 ^ 975 := by
  simp only [removed64, Option.bind_eq_some] at h
  obtain ⟨d, h1, y, h2, h3⟩ := h
  have h3r := (fdiv_some _ _ _ h3).2
  have e1 := roundF64_err (b - a) d h1
  have e2 := roundF64_err (R * d) y h2
  have e3 := roundF64_err (y / b) Q h3r
  have bpos : 0 < b := lt_of_lt_of_le (by positivity) hb
  have hr : 0 ≤ abs R := abs_nonneg R
  have hH : (1 : ℚ) / 2 ^ 1075 ≤ 1 / 2 ^ 975 * b := by
    have e : (1 : ℚ) / 2 ^ 1075 = 1 / 2 ^ 975 * (1 / 2 ^ 100) := by norm_num
    rw [e]
    exact mul_le_mul_of_nonneg_left hb (by positivity)
  have ht : abs (b - a) ≤ b := by
    rw [abs_of_pos (by linarith)]
    linarith
  -- the rounded difference
  have A : abs (d - (b - a)) ≤ b / 2 ^ 53 + 1 / 2 ^ 975 * b := by
    have : abs (b - a) / 2 ^ 53 ≤ b / 2 ^ 53 := div_le_div_of_nonneg_right ht (by positivity)
    linarith
  have B : abs d ≤ 2 * b := by
    have h4 : abs d ≤ abs (d - (b - a)) + abs (b - a) := by
      have := abs_add (d - (b - a)) (b - a)
      simpa using this
    have h5 : b / 2 ^ 53 + 1 / 2 ^ 975 * b ≤ b := by
      have : b / 2 ^ 53 + 1 / 2 ^ 975 * b = b * (1 / 2 ^ 53 + 1 / 2 ^ 975) := by ring
      rw [this]
      have : (1 : ℚ) / 2 ^ 53 + 1 / 2 ^ 975 ≤ 1 := by norm_num
      nlinarith
    linarith
  -- the rounded product
  have C0 : abs (R * d) ≤ 2 * (abs R * b) := by
    rw [abs_mul]
    have := mul_le_mul_of_nonneg_left B hr
    linarith
  have C : abs (y - R * d) ≤ 2 * (abs R * b) / 2 ^ 53 + 1 / 2 ^ 975 * b := by
    have : abs (R * d) / 2 ^ 53 ≤ 2 * (abs R * b) / 2 ^ 53 :=
      div_le_div_of_nonneg_right C0 (by positivity)
    linarith
  have D : abs y ≤ 3 * (abs R * b) + 1 / 2 ^ 975 * b := by
    have h4 : abs y ≤ abs (y - R * d) + abs (R * d) := by
      have := abs_add (y - R * d) (R * d)
      simpa using this
    have h5 : 2 * (abs R * b) / 2 ^ 53 ≤ abs R * b := by
      have hrb : 0 ≤ abs R * b := mul_nonneg hr bpos.le
      have : 2 * (abs R * b) / 2 ^ 53 = abs R * b * (2 / 2 ^ 53) := by ring
      rw [this]
      have : (2 : ℚ) / 2 ^ 53 ≤ 1 := by norm_num
      nlinarith
    linarith
  have D2 : abs (y / b) ≤ 3 * abs R + 1 / 2 ^ 975 := by
    rw [abs_div, abs_of_pos bpos, div_le_iff₀ bpos]
    have : (3 * abs R + 1 / 2 ^ 975) * b = 3 * (abs R * b) + 1 / 2 ^ 975 * b := by ring
    rw [this]
    exact D
  -- the rounded quotient
  have E : abs (Q - y / b) ≤ (3 * abs R + 1 / 2 ^ 975) / 2 ^ 53 + 1 / 2 ^ 1075 := by
    have : abs (y / b) / 2 ^ 53 ≤ (3 * abs R + 1 / 2 ^ 975) / 2 ^ 53 :=
      div_le_div_of_nonneg_right D2 (by positivity)
    linarith
  have F1 : abs ((y - R * d) / b) ≤ 2 * abs R / 2 ^ 53 + 1 / 2 ^ 975 := by
    rw [abs_div, abs_of_pos bpos, div_le_iff₀ bpos]
    have : (2 * abs R / 2 ^ 53 + 1 / 2 ^ 975) * b
        = 2 * (abs R * b) / 2 ^ 53 + 1 / 2 ^ 975 * b := by ring
    rw [this]
    exact C
  have F2 : abs (R * (d - (b - a)) / b) ≤ abs R / 2 ^ 53 + abs R * (1 / 2 ^ 975) := by
    rw [abs_div, abs_of_pos bpos, div_le_iff₀ bpos, abs_mul]
    have := mul_le_mul_of_nonneg_left A hr
    have e : (abs R / 2 ^ 53 + abs R * (1 / 2 ^ 975)) * b
        = abs R * (b / 2 ^ 53 + 1 / 2 ^ 975 * b) := by ring
    rw [e]
    exact this
  have split : Q - R * (b - a) / b
      = (Q - y / b) + (y - R * d) / b + R * (d - (b - a)) / b := by
    field_simp
    ring
  rw [split]
  have tri := abs_add_three (Q - y / b) ((y - R * d) / b) (R * (d - (b - a)) / b)
  have hK : abs R * (1 / 2 ^ 975) ≤ abs R / 2 ^ 53 := by
    have : (1 : ℚ) / 2 ^ 975 ≤ 1 / 2 ^ 53 := by norm_num
    have := mul_le_mul_of_nonneg_left this hr
    linarith
  have hn1 : (1 : ℚ) / 2 ^ 975 / 2 ^ 53 + 1 / 2 ^ 1075 + 1 / 2 ^ 975 ≤ 3 / 2 ^ 975 := by norm_num
  have e9 : (3 * abs R + 1 / 2 ^ 975) / 2 ^ 53 = 3 * abs R / 2 ^ 53 + 1 / 2 ^ 975 / 2 ^ 53 := by
    ring
  rw [e9] at E
  linarith

theorem qrun1F_some (F f c1 q1 : ℚ) (h : qrun1F F f c1 = some q1) :
    (c1 > f ∧ c1 > 0 → removed64 F c1 f = some q1) ∧ (¬ (c1 > f ∧ c1 > 0) → q1 = 0) := by
  unfold qrun1F at h
  constructor
  · intro g
    rw [if_pos g] at h
    exact h
  · intro g
    rw [if_neg g, Option.some.injEq] at h
    exact h.symm

theorem qrun2F_some (F q1 c1 c2 q2 : ℚ) (h : qrun2F F q1 c1 c2 = some q2) :
    (c2 > c1 ∧ c2 > 0 → removed64 (roundValue (F - q1)) c2 c1 = some q2) ∧
      (¬ (c2 > c1 ∧ c2 > 0) → q2 = 0) := by
  unfold qrun2F at h
  constructor
  · intro g
    rw [if_pos g] at h
    simp only [Option.bind_eq_some] at h
    obtain ⟨rest, h1, h2⟩ := h
    rw [← ((roundF64_some_iff _ _).mp h1).1]
    exact h2
  · intro g
    rw [if_neg g, Option.some.injEq] at h
    exact h.symm

theorem qrun3F_some (F q1 q2 c2 c3 q3 : ℚ) (h : qrun3F F q1 q2 c2 c3 = some q3) :
    (c3 > c2 ∧ c3 > 0 →
        removed64 (roundValue (roundValue (F - q1) - q2)) c3 c2 = some q3) ∧
      (¬ (c3 > c2 ∧ c3 > 0) → q3 = 0) := by
  unfold qrun3F at h
  constructor
  · intro g
    rw [if_pos g] at h
    simp only [Option.bind_eq_some] at h
    obtain ⟨r1, h1, rest, h2, h3⟩ := h
    rw [← ((roundF64_some_iff _ _).mp h1).1, ← ((roundF64_some_iff _ _).mp h2).1]
    exact h3
  · intro g
    rw [if_neg g, Option.some.injEq] at h
    exact h.symm

/-- The error of one stage against the exact stage on the exact flow. -/
theorem stage64_err (R Rs a b q Qs bound : ℚ) (ha : 0 ≤ a) (hl : b > a → 1 / 2 ^ 100 ≤ b)
    (hR : abs (R - Rs) ≤ bound)
    (hQs : Qs = if b > a ∧ b > 0 then Rs * (b - a) / b else 0)
    (h1 : b > a ∧ b > 0 → removed64 R b a = some q) (h0 : ¬ (b > a ∧ b > 0) → q = 0) :
    abs (q - Qs) ≤ 7 * abs R / 2 ^ 53 + 3 / 2 ^ 975 + bound := by
  have hb0 : 0 ≤ bound := le_trans (abs_nonneg _) hR
  by_cases g : b > a ∧ b > 0
  · rw [hQs, if_pos g]
    have e := removed64_err R a b q ha g.1 (hl g.1) (h1 g)
    have bpos : 0 < b := g.2
    have hphi0 : 0 ≤ (b - a) / b := div_nonneg (by linarith [g.1]) bpos.le
    have hphi1 : (b - a) / b ≤ 1 := (div_le_one bpos).mpr (by linarith)
    have e2 : abs (R * (b - a) / b - Rs * (b - a) / b) ≤ bound := by
      have : R * (b - a) / b - Rs * (b - a) / b = (R - Rs) * ((b - a) / b) := by ring
      rw [this, abs_mul, abs_of_nonneg hphi0]
      calc abs (R - Rs) * ((b - a) / b) ≤ abs (R - Rs) * 1 :=
            mul_le_mul_of_nonneg_left hphi1 (abs_nonneg _)
        _ ≤ bound := by linarith
    have tri := abs_add (q - R * (b - a) / b) (R * (b - a) / b - Rs * (b - a) / b)
    have e3 : q - R * (b - a) / b + (R * (b - a) / b - Rs * (b - a) / b)
        = q - Rs * (b - a) / b := by ring
    rw [e3] at tri
    linarith
  · rw [hQs, if_neg g, h0 g]
    simp only [sub_self, abs_zero]
    have : 0 ≤ 7 * abs R / 2 ^ 53 := by positivity
    have : (0 : ℚ) ≤ 3 / 2 ^ 975 := by positivity
    linarith

/-- The rounding error of the throughput chain: the three `float64` throughputs
together differ from the exact values of the same three expressions by at most
`2 ^ (-47)` of the actual flow, plus `2 ^ (-960)` for the subnormal range. -/
theorem chain64_err (F f c1 c2 c3 q1 q2 q3 Q1 Q2 Q3 : ℚ) (hF : 0 < F) (hf : 0 < f)
    (n1 : 0 ≤ c1) (n2 : 0 ≤ c2)
    (l1 : c1 > f → 1 / 2 ^ 100 ≤ c1) (l2 : c2 > c1 → 1 / 2 ^ 100 ≤ c2)
    (l3 : c3 > c2 → 1 / 2 ^ 100 ≤ c3)
    (e1 : Q1 = if c1 > f ∧ c1 > 0 then F * (c1 - f) / c1 else 0)
    (e2 : Q2 = if c2 > c1 ∧ c2 > 0 then (F - Q1) * (c2 - c1) / c2 else 0)
    (e3 : Q3 = if c3 > c2 ∧ c3 > 0 then (F - Q1 - Q2) * (c3 - c2) / c3 else 0)
    (hq1 : qrun1F F f c1 = some q1) (hq2 : qrun2F F q1 c1 c2 = some q2)
    (hq3 : qrun3F F q1 q2 c2 c3 = some q3) :
    abs (q1 - Q1) + abs (q2 - Q2) + abs (q3 - Q3) ≤ F / 2 ^ 47 + 1 / 2 ^ 960 := by
  obtain ⟨a1, b1⟩ := qrun1F_some F f c1 q1 hq1
  obtain ⟨a2, b2⟩ := qrun2F_some F q1 c1 c2 q2 hq2
  obtain ⟨a3, b3⟩ := qrun3F_some F q1 q2 c2 c3 q3 hq3
  -- the exact chain stays between 0 and the flow
  have x1 := stage_fraction F c1 f hF.le hf.le
  rw [← e1] at x1
  have x2 := stage_fraction (F - Q1) c2 c1 (by linarith [x1.2]) n1
  rw [← e2] at x2
  -- stage 1
  have D1 := stage64_err F F f c1 q1 Q1 0 hf.le l1 (by simp) e1 a1 b1
  rw [abs_of_pos hF] at D1
  -- the flow that remains after stage 1
  have r1e := roundValue_err (F - q1)
  have t1 : abs (F - q1) ≤ F + abs (q1 - Q1) := by
    have := abs_add (F - Q1) (Q1 - q1)
    have e : F - Q1 + (Q1 - q1) = F - q1 := by ring
    rw [e, abs_of_nonneg (by linarith [x1.2] : 0 ≤ F - Q1), abs_sub_comm Q1 q1] at this
    linarith [x1.1]
  have R1 : abs (roundValue (F - q1) - (F - Q1))
      ≤ (F + abs (q1 - Q1)) / 2 ^ 53 + 1 / 2 ^ 1075 + abs (q1 - Q1) := by
    have := abs_add (roundValue (F - q1) - (F - q1)) (Q1 - q1)
    have e : roundValue (F - q1) - (F - q1) + (Q1 - q1) = roundValue (F - q1) - (F - Q1) := by
      ring
    rw [e, abs_sub_comm Q1 q1] at this
    have : abs (F - q1) / 2 ^ 53 ≤ (F + abs (q1 - Q1)) / 2 ^ 53 :=
      div_le_div_of_nonneg_right t1 (by positivity)
    linarith
  have M1 : abs (roundValue (F - q1))
      ≤ F + ((F + abs (q1 - Q1)) / 2 ^ 53 + 1 / 2 ^ 1075 + abs (q1 - Q1)) := by
    have := abs_add (roundValue (F - q1) - (F - Q1)) (F - Q1)
    have e : roundValue (F - q1) - (F - Q1) + (F - Q1) = roundValue (F - q1) := by ring
    rw [e, abs_of_nonneg (by linarith [x1.2] : 0 ≤ F - Q1)] at this
    linarith [x1.1]
  -- stage 2
  have D2 := stage64_err (roundValue (F - q1)) (F - Q1) c1 c2 q2 Q2 _ n1 l2 R1 e2 a2 b2
  -- the flow that remains after stage 2
  have r2e := roundValue_err (roundValue (F - q1) - q2)
  have t2 : abs (roundValue (F - q1) - q2)
      ≤ abs (roundValue (F - q1)) + (F + abs (q2 - Q2)) := by
    have h1 := abs_sub (roundValue (F - q1)) q2
    have h2 := abs_add (q2 - Q2) Q2
    have e : q2 - Q2 + Q2 = q2 := by ring
    rw [e, abs_of_nonneg x2.1] at h2
    linarith [x2.2, x1.1]
  have R2 : abs (roundValue (roundValue (F - q1) - q2) - (F - Q1 - Q2))
      ≤ (abs (roundValue (F - q1)) + (F + abs (q2 - Q2))) / 2 ^ 53 + 1 / 2 ^ 1075
        + abs (roundValue (F - q1) - (F - Q1)) + abs (q2 - Q2) := by
    have := abs_add_three (roundValue (roundValue (F - q1) - q2) - (roundValue (F - q1) - q2))
      (roundValue (F - q1) - (F - Q1)) (Q2 - q2)
    have e : roundValue (roundValue (F - q1) - q2) - (roundValue (F - q1) - q2)
        + (roundValue (F - q1) - (F - Q1)) + (Q2 - q2)
        = roundValue (roundValue (F - q1) - q2) - (F - Q1 - Q2) := by ring
    rw [e, abs_sub_comm Q2 q2] at this
    have : abs (roundValue (F - q1) - q2) / 2 ^ 53
        ≤ (abs (roundValue (F - q1)) + (F + abs (q2 - Q2))) / 2 ^ 53 :=
      div_le_div_of_nonneg_right t2 (by positivity)
    linarith
  have M2 : abs (roundValue (roundValue (F - q1) - q2))
      ≤ F + abs (roundValue (roundValue (F - q1) - q2) - (F - Q1 - Q2)) := by
    have := abs_add (roundValue (roundValue (F - q1) - q2) - (F - Q1 - Q2)) (F - Q1 - Q2)
    have e : roundValue (roundValue (F - q1) - q2) - (F - Q1 - Q2) + (F - Q1 - Q2)
        = roundValue (roundValue (F - q1) - q2) := by ring
    rw [e, abs_of_nonneg (by linarith [x2.2] : 0 ≤ F - Q1 - Q2)] at this
    linarith [x2.1, x1.1]
  -- stage 3
  have D3 := stage64_err (roundValue (roundValue (F - q1) - q2)) (F - Q1 - Q2) c2 c3 q3 Q3 _ n2 l3
    (le_refl _) e3 a3 b3
  -- the sum of the bounds
  generalize abs (q1 - Q1) = d1 at *
  generalize abs (q2 - Q2) = d2 at *
  generalize abs (q3 - Q3) = d3 at *
  generalize abs (roundValue (F - q1) - (F - Q1)) = p1 at *
  generalize abs (roundValue (F - q1)) = m1 at *
  generalize abs (roundValue (roundValue (F - q1) - q2) - (F - Q1 - Q2)) = p2 at *
  generalize abs (roundValue (roundValue (F - q1) - q2)) = m2 at *
  clear r1e r2e t1 t2 a1 a2 a3 b1 b2 b3 hq1 hq2 hq3 e1 e2 e3 l1 l2 l3
  have c1n : (1 : ℚ) / 2 ^ 1075 ≤ 1 / 2 ^ 975 := by norm_num
  linarith

/-- The parts of a finite evaluation that concern the throughput chain. -/
theorem evaluate64_throughput (data out : PageData) (h : evaluate64 data = some out) :
    out.ActualFlow = data.ActualFlow ∧ out.FeedConc = data.FeedConc ∧
      qrun1F out.ActualFlow out.FeedConc out.Effect.ConcOut1 = some out.Effect.Qrun1 ∧
      qrun2F out.ActualFlow out.Effect.Qrun1 out.Effect.ConcOut1 out.Effect.ConcOut2
        = some out.Effect.Qrun2 ∧
      qrun3F out.ActualFlow out.Effect.Qrun1 out.Effect.Qrun2 out.Effect.ConcOut2
        out.Effect.ConcOut3 = some out.Effect.Qrun3 := by
  simp only [evaluate64, Option.bind_eq_some] at h
  obtain ⟨cap, -, rec, -, c, -, q, hq, hout⟩ := h
  simp only [throughput64, Option.bind_eq_some, Option.some.injEq] at hq
  obtain ⟨r1, h10, r2, h11, r3, h12, hqeq⟩ := hq
  simp only [Option.some.injEq] at hout
  subst hout
  subst hqeq
  exact ⟨rfl, rfl, h10, h11, h12⟩

/-- The `float64` throughputs against the exact values of the same expressions
on the same flow, feed and outlet concentrations: the three differences together
are at most `2 ^ (-47)` of the actual flow, plus `2 ^ (-960)`.  Each outlet
concentration is 0 or at least `2 ^ (-100)`. -/
theorem throughput_rounding_error (data out : PageData) (h : evaluate64 data = some out)
    (hF : 0 < out.ActualFlow) (hf : 0 < out.FeedConc)
    (hc1 : out.Effect.ConcOut1 = 0 ∨ 1 / 2 ^ 100 ≤ out.Effect.ConcOut1)
    (hc2 : out.Effect.ConcOut2 = 0 ∨ 1 / 2 ^ 100 ≤ out.Effect.ConcOut2)
    (hc3 : out.Effect.ConcOut3 = 0 ∨ 1 / 2 ^ 100 ≤ out.Effect.ConcOut3) :
    abs (out.Effect.Qrun1 - (stepThroughput out).Effect.Qrun1) +
      abs (out.Effect.Qrun2 - (stepThroughput out).Effect.Qrun2) +
      abs (out.Effect.Qrun3 - (stepThroughput out).Effect.Qrun3)
      ≤ out.ActualFlow / 2 ^ 47 + 1 / 2 ^ 960 := by
  obtain ⟨-, -, k1, k2, k3⟩ := evaluate64_throughput data out h
  obtain ⟨e1, e2, e3⟩ := stepThroughput_qrun out
  have hb : (0 : ℚ) < 1 / 2 ^ 100 := by positivity
  have n1 : 0 ≤ out.Effect.ConcOut1 := by
    rcases hc1 with h0 | h0
    · rw [h0]
    · linarith
  have n2 : 0 ≤ out.Effect.ConcOut2 := by
    rcases hc2 with h0 | h0
    · rw [h0]
    · linarith
  have l1 : out.Effect.ConcOut1 > out.FeedConc → 1 / 2 ^ 100 ≤ out.Effect.ConcOut1 := by
    intro g
    rcases hc1 with h0 | h0
    · rw [h0] at g
      linarith
    · exact h0
  have l2 : out.Effect.ConcOut2 > out.Effect.ConcOut1 → 1 / 2 ^ 100 ≤ out.Effect.ConcOut2 := by
    intro g
    rcases hc2 with h0 | h0
    · rw [h0] at g
      linarith
    · exact h0
  have l3 : out.Effect.ConcOut3 > out.Effect.ConcOut2 → 1 / 2 ^ 100 ≤ out.Effect.ConcOut3 := by
    intro g
    rcases hc3 with h0 | h0
    · rw [h0] at g
      linarith
    · exact h0
  exact chain64_err out.ActualFlow out.FeedConc out.Effect.ConcOut1 out.Effect.ConcOut2
    out.Effect.ConcOut3 out.Effect.Qrun1 out.Effect.Qrun2 out.Effect.Qrun3 _ _ _ hF hf n1 n2
    l1 l2 l3 e1 e2 e3 k1 k2 k3

/-- C10 amended: on the `float64` results of every evaluation that stays finite,
with positive actual flow and feed concentration, when all three stages
concentrate and the first outlet concentration is at least `2 ^ (-100)`, the
three throughputs add up to at most the actual flow plus the rounding error
`actualFlow / 2 ^ 47 + 1 / 2 ^ 960`.  (Without the tolerance the relation fails,
see `throughput_exceeds_flow_binary64`; the exact values satisfy it without
tolerance, see `throughput_conservation`.) -/
theorem throughput_conservation_binary64 (data out : PageData)
    (h : evaluate64 data = some out) (hF : 0 < out.ActualFlow) (hf : 0 < out.FeedConc)
    (h1 : out.Effect.ConcOut1 > out.FeedConc)
    (h2 : out.Effect.ConcOut2 > out.Effect.ConcOut1)
    (h3 : out.Effect.ConcOut3 > out.Effect.ConcOut2)
    (hl : 1 / 2 ^ 100 ≤ out.Effect.ConcOut1) :
    out.Effect.Qrun1 + out.Effect.Qrun2 + out.Effect.Qrun3
      ≤ out.ActualFlow + (out.ActualFlow / 2 ^ 47 + 1 / 2 ^ 960) := by
  have hex := throughput_conservation out hF hf h1 h2 h3
  have herr := throughput_rounding_error data out h hF hf (Or.inr hl)
    (Or.inr (by linarith)) (Or.inr (by linarith))
  have a1 := le_abs_self (out.Effect.Qrun1 - (stepThroughput out).Effect.Qrun1)
  have a2 := le_abs_self (out.Effect.Qrun2 - (stepThroughput out).Effect.Qrun2)
  have a3 := le_abs_self (out.Effect.Qrun3 - (stepThroughput out).Effect.Qrun3)
  linarith

/-- C10 amended, on the request `temp_1=temp_2=temp_3=100`, `dens_1=1.13`,
`dens_2=1.2`, `dens_3=1.3` (flow 55, feed 18). -/
theorem throughput_conservation_binary64_witness :
    ∃ out, handlePost64 { emptyForm with temp_1 := some 100, temp_2 := some 100, temp_3 := some 100, dens_1 := some 1.13, dens_2 := some 1.2, dens_3 := some 1.3 } = some out ∧
      out.Effect.Qrun1 + out.Effect.Qrun2 + out.Effect.Qrun3
        ≤ out.ActualFlow + (out.ActualFlow / 2 ^ 47 + 1 / 2 ^ 960) := by
  obtain ⟨out, h, hfeed, htarget, hflow, hn1, hn2, hn3, hd1, hd2, hd3, hs1, hs2, hs3, htot, hmax, hlo, hhi, hsg, hc1, hc2, hc3, hq1, hq2, hq3⟩ := handlePost64_C
  exact ⟨out, h, throughput_conservation_binary64
    (applyForm64 { emptyForm with temp_1 := some 100, temp_2 := some 100, temp_3 := some 100, dens_1 := some 1.13, dens_2 := some 1.2, dens_3 := some 1.3 } defaultData64) out h
    (by rw [hflow]; norm_num) (by rw [hfeed]; norm_num) (by rw [hc1, hfeed]; norm_num)
    (by rw [hc1, hc2]; norm_num) (by rw [hc2, hc3]; norm_num) (by rw [hc1]; norm_num)⟩

/-- C18 amended: on the `float64` results of every evaluation that stays finite,
with positive actual flow and feed concentration and outlet concentrations that
are 0 or at least `2 ^ (-100)`, whether or not a stage concentrates: up to the
rounding error `tol = actualFlow / 2 ^ 47 + 1 / 2 ^ 960`, every throughput is
non-negative and at most the flow that remains before its stage, and no
remaining flow is negative.  (Without the tolerance each of these fails, see
`throughput_above_remaining_binary64`; the exact values satisfy them without
tolerance, see `throughput_within_remaining`.) -/
theorem throughput_within_remaining_binary64 (data out : PageData)
    (h : evaluate64 data = some out) (hF : 0 < out.ActualFlow) (hf : 0 < out.FeedConc)
    (hc1 : out.Effect.ConcOut1 = 0 ∨ 1 / 2 ^ 100 ≤ out.Effect.ConcOut1)
    (hc2 : out.Effect.ConcOut2 = 0 ∨ 1 / 2 ^ 100 ≤ out.Effect.ConcOut2)
    (hc3 : out.Effect.ConcOut3 = 0 ∨ 1 / 2 ^ 100 ≤ out.Effect.ConcOut3) :
    -(out.ActualFlow / 2 ^ 47 + 1 / 2 ^ 960) ≤ out.Effect.Qrun1 ∧
      out.Effect.Qrun1 ≤ out.ActualFlow + (out.ActualFlow / 2 ^ 47 + 1 / 2 ^ 960) ∧
      -(out.ActualFlow / 2 ^ 47 + 1 / 2 ^ 960) ≤ out.Effect.Qrun2 ∧
      out.Effect.Qrun2 ≤
        out.ActualFlow - out.Effect.Qrun1 + (out.ActualFlow / 2 ^ 47 + 1 / 2 ^ 960) ∧
      -(out.ActualFlow / 2 ^ 47 + 1 / 2 ^ 960) ≤ out.Effect.Qrun3 ∧
      out.Effect.Qrun3 ≤ out.ActualFlow - out.Effect.Qrun1 - out.Effect.Qrun2
        + (out.ActualFlow / 2 ^ 47 + 1 / 2 ^ 960) ∧
      -(out.ActualFlow / 2 ^ 47 + 1 / 2 ^ 960) ≤ out.ActualFlow - out.Effect.Qrun1 ∧
      -(out.ActualFlow / 2 ^ 47 + 1 / 2 ^ 960)
        ≤ out.ActualFlow - out.Effect.Qrun1 - out.Effect.Qrun2 ∧
      -(out.ActualFlow / 2 ^ 47 + 1 / 2 ^ 960)
        ≤ out.ActualFlow - out.Effect.Qrun1 - out.Effect.Qrun2 - out.Effect.Qrun3 := by
  have hb : (0 : ℚ) < 1 / 2 ^ 100 := by positivity
  have n1 : 0 ≤ out.Effect.ConcOut1 := by
    rcases hc1 with h0 | h0
    · rw [h0]
    · linarith
  have n2 : 0 ≤ out.Effect.ConcOut2 := by
    rcases hc2 with h0 | h0
    · rw [h0]
    · linarith
  obtain ⟨x1, x2, x3, x4, x5, x6, x7, x8, x9⟩ := throughput_within_remaining out hF hf n1 n2
  have herr := throughput_rounding_error data out h hF hf hc1 hc2 hc3
  have a1 := abs_le.mp (le_refl (abs (out.Effect.Qrun1 - (stepThroughput out).Effect.Qrun1)))
  have a2 := abs_le.mp (le_refl (abs (out.Effect.Qrun2 - (stepThroughput out).Effect.Qrun2)))
  have a3 := abs_le.mp (le_refl (abs (out.Effect.Qrun3 - (stepThroughput out).Effect.Qrun3)))
  have p1 := abs_nonneg (out.Effect.Qrun1 - (stepThroughput out).Effect.Qrun1)
  have p2 := abs_nonneg (out.Effect.Qrun2 - (stepThroughput out).Effect.Qrun2)
  have p3 := abs_nonneg (out.Effect.Qrun3 - (stepThroughput out).Effect.Qrun3)
  refine ⟨?_, ?_, ?_, ?_, ?_, ?_, ?_, ?_, ?_⟩ <;> linarith [a1.1, a1.2, a2.1, a2.2, a3.1, a3.2]

/-- C18 amended, on the request `actual_flow=0.7`, `temp_1=temp_2=temp_3=100`,
`dens_1=0.9`, `dens_2=1.1`, `dens_3=1.3` (stage 1 does not concentrate): the flow
left after the three stages is not below the negated tolerance. -/
theorem throughput_within_remaining_binary64_witness :
    ∃ out, handlePost64 { emptyForm with actual_flow := some 0.7, temp_1 := some 100, temp_2 := some 100, temp_3 := some 100, dens_1 := some 0.9, dens_2 := some 1.1, dens_3 := some 1.3 } = some out ∧
      -(out.ActualFlow / 2 ^ 47 + 1 / 2 ^ 960)
        ≤ out.ActualFlow - out.Effect.Qrun1 - out.Effect.Qrun2 - out.Effect.Qrun3 := by
  obtain ⟨out, h, hfeed, htarget, hflow, hn1, hn2, hn3, hd1, hd2, hd3, hs1, hs2, hs3, htot, hmax, hlo, hhi, hsg, hc1, hc2, hc3, hq1, hq2, hq3⟩ := handlePost64_B
  exact ⟨out, h, (throughput_within_remaining_binary64
    (applyForm64 { emptyForm with actual_flow := some 0.7, temp_1 := some 100, temp_2 := some 100, temp_3 := some 100, dens_1 := some 0.9, dens_2 := some 1.1, dens_3 := some 1.3 } defaultData64) out h
    (by rw [hflow]; norm_num) (by rw [hfeed]; norm_num) (Or.inl hc1)
    (Or.inr (by rw [hc2]; norm_num)) (Or.inr (by rw [hc3]; norm_num))).2.2.2.2.2.2.2.2⟩

/-- C19 amended: on the `float64` results of every evaluation that stays finite,
for every positive actual flow and feed concentration, when the first outlet
concentration is at least `2 ^ (-100)` and all three stages concentrate, the
three throughputs add up to `actualFlow * (ConcOut3 - feed) / ConcOut3`, an
expression without `ConcOut1` and `ConcOut2`, up to the rounding error
`actualFlow / 2 ^ 47 + 1 / 2 ^ 960`.  (Without the tolerance the identity fails,
see `throughput_sum_differs_binary64`; the exact values satisfy it without
tolerance, see `throughput_telescopes`.) -/
theorem throughput_telescopes_binary64 (data out : PageData)
    (h : evaluate64 data = some out) (hF : 0 < out.ActualFlow) (hf : 0 < out.FeedConc)
    (p1 : 1 / 2 ^ 100 ≤ out.Effect.ConcOut1)
    (h1 : out.Effect.ConcOut1 > out.FeedConc)
    (h2 : out.Effect.ConcOut2 > out.Effect.ConcOut1)
    (h3 : out.Effect.ConcOut3 > out.Effect.ConcOut2) :
    abs (out.Effect.Qrun1 + out.Effect.Qrun2 + out.Effect.Qrun3
        - out.ActualFlow * (out.Effect.ConcOut3 - out.FeedConc) / out.Effect.ConcOut3)
      ≤ out.ActualFlow / 2 ^ 47 + 1 / 2 ^ 960 := by
  have hb : (0 : ℚ) < 1 / 2 ^ 100 := by positivity
  have hex := throughput_telescopes out (by linarith) h1 h2 h3
  have herr := throughput_rounding_error data out h hF hf (Or.inr p1)
    (Or.inr (by linarith)) (Or.inr (by linarith))
  rw [← hex]
  have tri := abs_add_three (out.Effect.Qrun1 - (stepThroughput out).Effect.Qrun1)
    (out.Effect.Qrun2 - (stepThroughput out).Effect.Qrun2)
    (out.Effect.Qrun3 - (stepThroughput out).Effect.Qrun3)
  have e : out.Effect.Qrun1 - (stepThroughput out).Effect.Qrun1
      + (out.Effect.Qrun2 - (stepThroughput out).Effect.Qrun2)
      + (out.Effect.Qrun3 - (stepThroughput out).Effect.Qrun3)
      = out.Effect.Qrun1 + out.Effect.Qrun2 + out.Effect.Qrun3
        - ((stepThroughput out).Effect.Qrun1 + (stepThroughput out).Effect.Qrun2
          + (stepThroughput out).Effect.Qrun3) := by ring
  rw [e] at tri
  linarith

/-- C19 amended, on the request `feed_conc=1e-20`, `actual_flow=0.7`,
`temp_1=temp_2=temp_3=100`, `dens_1=1.1`, `dens_2=1.2`, `dens_3=1.3`. -/
theorem throughput_telescopes_binary64_witness :
    ∃ out, handlePost64 { emptyForm with feed_conc := some (1 / 10 ^ 20), actual_flow := some 0.7, temp_1 := some 100, temp_2 := some 100, temp_3 := some 100, dens_1 := some 1.1, dens_2 := some 1.2, dens_3 := some 1.3 } = some out ∧
      abs (out.Effect.Qrun1 + out.Effect.Qrun2 + out.Effect.Qrun3
          - out.ActualFlow * (out.Effect.ConcOut3 - out.FeedConc) / out.Effect.ConcOut3)
        ≤ out.ActualFlow / 2 ^ 47 + 1 / 2 ^ 960 := by
  obtain ⟨out, h, hfeed, htarget, hflow, hn1, hn2, hn3, hd1, hd2, hd3, hs1, hs2, hs3, htot, hmax, hlo, hhi, hsg, hc1, hc2, hc3, hq1, hq2, hq3⟩ := handlePost64_A
  exact ⟨out, h, throughput_telescopes_binary64
    (applyForm64 { emptyForm with feed_conc := some (1 / 10 ^ 20), actual_flow := some 0.7, temp_1 := some 100, temp_2 := some 100, temp_3 := some 100, dens_1 := some 1.1, dens_2 := some 1.2, dens_3 := some 1.3 } defaultData64) out h
    (by rw [hflow]; norm_num) (by rw [hfeed]; norm_num) (by rw [hc1]; norm_num)
    (by rw [hc1, hfeed]; norm_num) (by rw [hc1, hc2]; norm_num) (by rw [hc2, hc3]; norm_num)⟩

/-! ## Binary64: where rounding breaks a relation -/

/-- C10 as stated fails on the `float64` results: the request `actual_flow=0.7`,
`feed_conc=1e-20`, `temp_1=temp_2=temp_3=100`, `dens_1=1.1`, `dens_2=1.2`,
`dens_3=1.3` has positive flow and feed concentration, all three stages
concentrate, `Qrun1` is 0.7000000000000001, above the flow 0.7, and the three
throughputs add up to more than the flow. -/
theorem throughput_exceeds_flow_binary64 :
    ∃ out, handlePost64 { emptyForm with feed_conc := some (1 / 10 ^ 20), actual_flow := some 0.7, temp_1 := some 100, temp_2 := some 100, temp_3 := some 100, dens_1 := some 1.1, dens_2 := some 1.2, dens_3 := some 1.3 } = some out ∧
      0 < out.ActualFlow ∧ 0 < out.FeedConc ∧ out.Effect.ConcOut1 > out.FeedConc ∧
      out.Effect.ConcOut2 > out.Effect.ConcOut1 ∧ out.Effect.ConcOut3 > out.Effect.ConcOut2 ∧
      out.ActualFlow = (3152519739159347 / 4503599627370496) ∧
      out.Effect.Qrun1 = (6305039478318695 / 9007199254740992) ∧
      out.Effect.Qrun1 + out.Effect.Qrun2 + out.Effect.Qrun3 > out.ActualFlow := by
  obtain ⟨out, h, hfeed, htarget, hflow, hn1, hn2, hn3, hd1, hd2, hd3, hs1, hs2, hs3, htot, hmax, hlo, hhi, hsg, hc1, hc2, hc3, hq1, hq2, hq3⟩ := handlePost64_A
  refine ⟨out, h, ?_, ?_, ?_, ?_, ?_, hflow, hq1, ?_⟩
  · rw [hflow]; norm_num
  · rw [hfeed]; norm_num
  · rw [hc1, hfeed]; norm_num
  · rw [hc1, hc2]; norm_num
  · rw [hc2, hc3]; norm_num
  · rw [hq1, hq2, hq3, hflow]; norm_num

/-- C21 as stated fails on the `float64` results: the request `feed_conc=1e-20`
(with `actual_flow=0.7`, `temp_1=temp_2=temp_3=100`, `dens_1=1.1`, `dens_2=1.2`,
`dens_3=1.3`) has positive ratings and differentials and `target > feed > 0`, but
`52.5 - 1e-20` rounds to 52.5, the ratio is 1 and the theoretical maximum equals
the total capacity 4.421766625045313, so it is not greater. -/
theorem theoreticalMax_equals_total_binary64 :
    ∃ out, handlePost64 { emptyForm with feed_conc := some (1 / 10 ^ 20), actual_flow := some 0.7, temp_1 := some 100, temp_2 := some 100, temp_3 := some 100, dens_1 := some 1.1, dens_2 := some 1.2, dens_3 := some 1.3 } = some out ∧
      0 < out.Effect.Qnom1 ∧ 0 < out.Effect.Qnom2 ∧ 0 < out.Effect.Qnom3 ∧
      0 < out.Effect.DtDesign1 ∧ 0 < out.Effect.DtDesign2 ∧ 0 < out.Effect.DtDesign3 ∧
      0 < out.Effect.DtSet1 ∧ 0 < out.Effect.DtSet2 ∧ 0 < out.Effect.DtSet3 ∧
      0 < out.FeedConc ∧ out.TargetConc > out.FeedConc ∧
      out.TotalQset = (2489233315609171 / 562949953421312) ∧
      out.TheoreticalMax = out.TotalQset ∧ ¬ out.TheoreticalMax > out.TotalQset := by
  obtain ⟨out, h, hfeed, htarget, hflow, hn1, hn2, hn3, hd1, hd2, hd3, hs1, hs2, hs3, htot, hmax, hlo, hhi, hsg, hc1, hc2, hc3, hq1, hq2, hq3⟩ := handlePost64_A
  refine ⟨out, h, ?_, ?_, ?_, ?_, ?_, ?_, ?_, ?_, ?_, ?_, ?_, htot, ?_, ?_⟩
  · rw [hn1]; norm_num
  · rw [hn2]; norm_num
  · rw [hn3]; norm_num
  · rw [hd1]; norm_num
  · rw [hd2]; norm_num
  · rw [hd3]; norm_num
  · rw [hs1]; norm_num
  · rw [hs2]; norm_num
  · rw [hs3]; norm_num
  · rw [hfeed]; norm_num
  · rw [htarget, hfeed]; norm_num
  · rw [hmax, htot]
  · rw [hmax, htot]; exact lt_irrefl _

/-- C18 as stated fails on the `float64` results: the request `actual_flow=0.7`,
`temp_1=temp_2=temp_3=100`, `dens_1=0.9`, `dens_2=1.1`, `dens_3=1.3` (feed 18) has
positive flow and feed concentration and outlet concentrations 0,
15.42857142857144 and 41.14285714285714; stage 1 does not concentrate, `Qrun2`
is 0.7000000000000001, above the remaining flow 0.7, the flow that remains
after stage 2 is negative and `Qrun3` is negative. -/
theorem throughput_above_remaining_binary64 :
    ∃ out, handlePost64 { emptyForm with actual_flow := some 0.7, temp_1 := some 100, temp_2 := some 100, temp_3 := some 100, dens_1 := some 0.9, dens_2 := some 1.1, dens_3 := some 1.3 } = some out ∧
      0 < out.ActualFlow ∧ 0 < out.FeedConc ∧ 0 ≤ out.Effect.ConcOut1 ∧
      0 ≤ out.Effect.ConcOut2 ∧ 0 ≤ out.Effect.ConcOut3 ∧
      out.Effect.Qrun1 = 0 ∧ out.Effect.Qrun2 = (6305039478318695 / 9007199254740992) ∧
      out.Effect.Qrun2 > out.ActualFlow - out.Effect.Qrun1 ∧
      out.ActualFlow - out.Effect.Qrun1 - out.Effect.Qrun2 < 0 ∧ out.Effect.Qrun3 < 0 := by
  obtain ⟨out, h, hfeed, htarget, hflow, hn1, hn2, hn3, hd1, hd2, hd3, hs1, hs2, hs3, htot, hmax, hlo, hhi, hsg, hc1, hc2, hc3, hq1, hq2, hq3⟩ := handlePost64_B
  refine ⟨out, h, ?_, ?_, ?_, ?_, ?_, hq1, hq2, ?_, ?_, ?_⟩
  · rw [hflow]; norm_num
  · rw [hfeed]; norm_num
  · rw [hc1]
  · rw [hc2]; norm_num
  · rw [hc3]; norm_num
  · rw [hq1, hq2, hflow]; norm_num
  · rw [hq1, hq2, hflow]; norm_num
  · rw [hq3]; norm_num

/-- C19 as stated fails on the `float64` results: the request
`temp_1=temp_2=temp_3=100`, `dens_1=1.13`, `dens_2=1.2`, `dens_3=1.3` (flow 55,
feed 18) has `0 < ConcOut1` and all three stages concentrate, but the sum of the
three throughputs is not `actualFlow * (ConcOut3 - feed) / ConcOut3`: neither
exactly, nor when both sides are evaluated in `float64` (30.937499999999993
against 30.9375). -/
theorem throughput_sum_differs_binary64 :
    ∃ out, handlePost64 { emptyForm with temp_1 := some 100, temp_2 := some 100, temp_3 := some 100, dens_1 := some 1.13, dens_2 := some 1.2, dens_3 := some 1.3 } = some out ∧
      0 < out.Effect.ConcOut1 ∧ out.Effect.ConcOut1 > out.FeedConc ∧
      out.Effect.ConcOut2 > out.Effect.ConcOut1 ∧ out.Effect.ConcOut3 > out.Effect.ConcOut2 ∧
      out.Effect.Qrun1 + out.Effect.Qrun2 + out.Effect.Qrun3 ≠
        out.ActualFlow * (out.Effect.ConcOut3 - out.FeedConc) / out.Effect.ConcOut3 ∧
      (∃ s12 s f, fadd out.Effect.Qrun1 out.Effect.Qrun2 = some s12 ∧
        fadd s12 out.Effect.Qrun3 = some s ∧
        removed64 out.ActualFlow out.Effect.ConcOut3 out.FeedConc = some f ∧ s < f) := by
  obtain ⟨out, h, hfeed, htarget, hflow, hn1, hn2, hn3, hd1, hd2, hd3, hs1, hs2, hs3, htot, hmax, hlo, hhi, hsg, hc1, hc2, hc3, hq1, hq2, hq3⟩ := handlePost64_C
  have h1 : fadd (8256599316845817 / 2251799813685248) (1149356154901847 / 70368744177664) = some (5629499534213115 / 281474976710656) :=
    roundF64_pos_mid ((8256599316845817 / 2251799813685248) + (1149356154901847 / 70368744177664)) (5629499534213115 / 281474976710656) 5629499534213115 (-48) (by norm_num) (by norm_num) (by norm_num) (by norm_num) (by norm_num) (by norm_num) (by norm_num)
  have h2 : fadd (5629499534213115 / 281474976710656) (6157265115545607 / 562949953421312) = some (4354066045992959 / 140737488355328) :=
    roundF64_pos_tie ((5629499534213115 / 281474976710656) + (6157265115545607 / 562949953421312)) (4354066045992959 / 140737488355328) 8708132091985918 (-48) (by norm_num) (by norm_num) (by norm_num) (by norm_num) (Or.inr (by norm_num)) (by decide) (by norm_num)
  have h3 : fsub (1447585594511945 / 35184372088832) 18.0 = some (814266896912969 / 35184372088832) :=
    roundF64_pos_mid ((1447585594511945 / 35184372088832) - 18.0) (814266896912969 / 35184372088832) 6514135175303752 (-48) (by norm_num) (by norm_num) (by norm_num) (by norm_num) (by norm_num) (by norm_num) (by norm_num)
  have h4 : fmul 55.0 (814266896912969 / 35184372088832) = some (2799042458138331 / 2199023255552) :=
    roundF64_pos_mid (55.0 * (814266896912969 / 35184372088832)) (2799042458138331 / 2199023255552) 5598084916276662 (-42) (by norm_num) (by norm_num) (by norm_num) (by norm_num) (by norm_num) (by norm_num) (by norm_num)
  have h5 : fdiv (2799042458138331 / 2199023255552) (1447585594511945 / 35184372088832) = some (495 / 16) :=
    fdiv_of_round ((2799042458138331 / 2199023255552)) ((1447585594511945 / 35184372088832)) (495 / 16) (by norm_num) (roundF64_pos_mid ((2799042458138331 / 2199023255552) / (1447585594511945 / 35184372088832)) (495 / 16) 8708132091985920 (-48) (by norm_num) (by norm_num) (by norm_num) (by norm_num) (by norm_num) (by norm_num) (by norm_num))
  have h6 : removed64 55.0 (1447585594511945 / 35184372088832) 18.0 = some (495 / 16) :=
    removed64_eq _ _ _ _ _ _ h3 h4 h5
  refine ⟨out, h, ?_, ?_, ?_, ?_, ?_, ?_⟩
  · rw [hc1]; norm_num
  · rw [hc1, hfeed]; norm_num
  · rw [hc1, hc2]; norm_num
  · rw [hc2, hc3]; norm_num
  · rw [hq1, hq2, hq3, hflow, hc3, hfeed]; norm_num
  · rw [hq1, hq2, hq3, hflow, hc3, hfeed]
    exact ⟨_, _, _, h1, h2, h6, by norm_num⟩

/-- C20 as stated fails on the `float64` results: at temperature 79.999999999999
the density 1.4663 gives 51.99999999999975 and the larger density 1.4664 gives
the smaller value 51.999999999999744. -/
theorem getConc_not_monotone_binary64 :
    (20 : ℚ) ≤ lit64 79.999999999999 ∧ lit64 1.4663 ≤ lit64 1.4664 ∧
      getConc64 (lit64 79.999999999999) (lit64 1.4663) =
        some (7318349394477021 / 140737488355328) ∧
      getConc64 (lit64 79.999999999999) (lit64 1.4664) =
        some (1829587348619255 / 35184372088832) ∧
      ((1829587348619255 / 35184372088832) : ℚ) < (7318349394477021 / 140737488355328) := by
  have h1 : lit64 79.999999999999 = (2814749767106525 / 35184372088832) :=
    lit64_of_round _ _ (roundF64_pos_mid (79.999999999999) (2814749767106525 / 35184372088832) 5629499534213050 (-46) (by norm_num) (by norm_num) (by norm_num) (by norm_num) (by norm_num) (by norm_num) (by norm_num))
  have h2 : lit64 1.4663 = (3301814066806679 / 2251799813685248) :=
    lit64_of_round _ _ (roundF64_pos_mid (1.4663) (3301814066806679 / 2251799813685248) 6603628133613358 (-52) (by norm_num) (by norm_num) (by norm_num) (by norm_num) (by norm_num) (by norm_num) (by norm_num))
  have h3 : lit64 1.4664 = (6604078493576095 / 4503599627370496) :=
    lit64_of_round _ _ (roundF64_pos_mid (1.4664) (6604078493576095 / 4503599627370496) 6604078493576095 (-52) (by norm_num) (by norm_num) (by norm_num) (by norm_num) (by norm_num) (by norm_num) (by norm_num))
  have h4 : fsub (3301814066806679 / 2251799813685248) (801077783718527 / 562949953421312) = some (97502931932571 / 2251799813685248) :=
    roundF64_pos_mid ((3301814066806679 / 2251799813685248) - (801077783718527 / 562949953421312)) (97502931932571 / 2251799813685248) 6240187643684544 (-57) (by norm_num) (by norm_num) (by norm_num) (by norm_num) (by norm_num) (by norm_num) (by norm_num)
  have h5 : fsub (6674334647763075 / 4503599627370496) (801077783718527 / 562949953421312) = some (265712378014859 / 4503599627370496) :=
    roundF64_pos_mid ((6674334647763075 / 4503599627370496) - (801077783718527 / 562949953421312)) (265712378014859 / 4503599627370496) 8502796096475488 (-57) (by norm_num) (by norm_num) (by norm_num) (by norm_num) (by norm_num) (by norm_num) (by norm_num)
  have h6 : fdiv (97502931932571 / 2251799813685248) (265712378014859 / 4503599627370496) = some (3305184133307495 / 4503599627370496) :=
    fdiv_of_round ((97502931932571 / 2251799813685248)) ((265712378014859 / 4503599627370496)) (3305184133307495 / 4503599627370496) (by norm_num) (roundF64_pos_mid ((97502931932571 / 2251799813685248) / (265712378014859 / 4503599627370496)) (3305184133307495 / 4503599627370496) 6610368266614990 (-53) (by norm_num) (by norm_num) (by norm_num) (by norm_num) (by norm_num) (by norm_num) (by norm_num))
  have h7 : fsub 48 44 = some 4 :=
    roundF64_pos (48 - 44) 4 4503599627370496 (-50) (by norm_num) (by norm_num) (by norm_num) (by norm_num) (by norm_num) (by norm_num) (by norm_num)
  have h8 : fmul (3305184133307495 / 4503599627370496) 4 = some (3305184133307495 / 1125899906842624) :=
    roundF64_pos_mid ((3305184133307495 / 4503599627370496) * 4) (3305184133307495 / 1125899906842624) 6610368266614990 (-51) (by norm_num) (by norm_num) (by norm_num) (by norm_num) (by norm_num) (by norm_num) (by norm_num)
  have h9 : fadd 44 (3305184133307495 / 1125899906842624) = some (6605597504297869 / 140737488355328) :=
    roundF64_pos_mid (44 + (3305184133307495 / 1125899906842624)) (6605597504297869 / 140737488355328) 6605597504297869 (-47) (by norm_num) (by norm_num) (by norm_num) (by norm_num) (by norm_num) (by norm_num) (by norm_num)
  have h10 : interpPair64 (44, (801077783718527 / 562949953421312)) (48, (6674334647763075 / 4503599627370496)) (3301814066806679 / 2251799813685248) = some (6605597504297869 / 140737488355328) :=
    interpPair64_eq _ _ _ _ _ _ _ _ _ _ _ h4 h5 h6 h7 h8 h9
  have h11 : interpLoop64 (3301814066806679 / 2251799813685248) [(0, 1), (32, (5710564327505789 / 4503599627370496)), (36, (5926737109619573 / 4503599627370496)), (40, (6160924290242839 / 4503599627370496)), (44, (801077783718527 / 562949953421312)), (48, (6674334647763075 / 4503599627370496)), (50, (3404721318292095 / 2251799813685248)), (51, (6876996630994747 / 4503599627370496)), (52, (6944550625405305 / 4503599627370496)), (53, (3506052309907931 / 2251799813685248))] = LoopOutcome.returned (6605597504297869 / 140737488355328) :=
    by
      rw [interpLoop64_skip _ _ _ _ (by norm_num)]
      rw [interpLoop64_skip _ _ _ _ (by norm_num)]
      rw [interpLoop64_skip _ _ _ _ (by norm_num)]
      rw [interpLoop64_skip _ _ _ _ (by norm_num)]
      exact interpLoop64_hit _ _ _ _ _ (by norm_num) h10
  have h12 : interp64 (tableRow64 60) (3301814066806679 / 2251799813685248) = some (6605597504297869 / 140737488355328) :=
    by
      rw [row64_60.1]
      exact interp64_of_returned _ _ _ h11
  have h13 : interpLoop64 (3301814066806679 / 2251799813685248) [(0, (1116892707587883 / 1125899906842624)), (40, (2961116754996101 / 2251799813685248)), (45, (1539105172653867 / 1125899906842624)), (48, (6327557476455547 / 4503599627370496)), (50, (6453658266021921 / 4503599627370496)), (51, (1629177165201277 / 1125899906842624)), (52, (6579759055588295 / 4503599627370496))] = LoopOutcome.finished :=
    by
      rw [interpLoop64_skip _ _ _ _ (by norm_num)]
      rw [interpLoop64_skip _ _ _ _ (by norm_num)]
      rw [interpLoop64_skip _ _ _ _ (by norm_num)]
      rw [interpLoop64_skip _ _ _ _ (by norm_num)]
      rw [interpLoop64_skip _ _ _ _ (by norm_num)]
      rw [interpLoop64_skip _ _ _ _ (by norm_num)]
      exact interpLoop64_single _ _
  have h14 : interp64 (tableRow64 80) (3301814066806679 / 2251799813685248) = some 52 :=
    by
      rw [row64_80.1, interp64_of_finished _ _ (0, (1116892707587883 / 1125899906842624)) (52, (6579759055588295 / 4503599627370496)) h13 rfl rfl]
      norm_num
  have h15 : fsub 52 (6605597504297869 / 140737488355328) = some (712751890179187 / 140737488355328) :=
    roundF64_pos_mid (52 - (6605597504297869 / 140737488355328)) (712751890179187 / 140737488355328) 5702015121433496 (-50) (by norm_num) (by norm_num) (by norm_num) (by norm_num) (by norm_num) (by norm_num) (by norm_num)
  have h16 : fsub 80 60 = some 20 :=
    roundF64_pos_mid (80 - 60) 20 5629499534213120 (-48) (by norm_num) (by norm_num) (by norm_num) (by norm_num) (by norm_num) (by norm_num) (by norm_num)
  have h17 : fdiv (712751890179187 / 140737488355328) 20 = some (4561612097146797 / 18014398509481984) :=
    fdiv_of_round ((712751890179187 / 140737488355328)) (20) (4561612097146797 / 18014398509481984) (by norm_num) (roundF64_pos_mid ((712751890179187 / 140737488355328) / 20) (4561612097146797 / 18014398509481984) 4561612097146797 (-54) (by norm_num) (by norm_num) (by norm_num) (by norm_num) (by norm_num) (by norm_num) (by norm_num))
  have h18 : fsub (2814749767106525 / 35184372088832) 60 = some (703687441776605 / 35184372088832) :=
    roundF64_pos_mid ((2814749767106525 / 35184372088832) - 60) (703687441776605 / 35184372088832) 5629499534212840 (-48) (by norm_num) (by norm_num) (by norm_num) (by norm_num) (by norm_num) (by norm_num) (by norm_num)
  have h19 : fmul (4561612097146797 / 18014398509481984) (703687441776605 / 35184372088832) = some (5702015121433213 / 1125899906842624) :=
    roundF64_pos_mid ((4561612097146797 / 18014398509481984) * (703687441776605 / 35184372088832)) (5702015121433213 / 1125899906842624) 5702015121433213 (-50) (by norm_num) (by norm_num) (by norm_num) (by norm_num) (by norm_num) (by norm_num) (by norm_num)
  have h20 : fadd (6605597504297869 / 140737488355328) (5702015121433213 / 1125899906842624) = some (7318349394477021 / 140737488355328) :=
    roundF64_pos_mid ((6605597504297869 / 140737488355328) + (5702015121433213 / 1125899906842624)) (7318349394477021 / 140737488355328) 7318349394477021 (-47) (by norm_num) (by norm_num) (by norm_num) (by norm_num) (by norm_num) (by norm_num) (by norm_num)
  have h21 : getConc64 (2814749767106525 / 35184372088832) (3301814066806679 / 2251799813685248) = some (7318349394477021 / 140737488355328) :=
    by
      rw [getConc64_between 60 80 _ _ _ _ (by rw [sortedKeys_eq]; simp) (by norm_num) (by norm_num) h12 h14]
      exact tempStep64_eq _ _ _ _ _ _ _ _ _ _ _ h15 h16 h17 h18 h19 h20
  have h22 : fsub (6604078493576095 / 4503599627370496) (801077783718527 / 562949953421312) = some (195456223827879 / 4503599627370496) :=
    roundF64_pos_mid ((6604078493576095 / 4503599627370496) - (801077783718527 / 562949953421312)) (195456223827879 / 4503599627370496) 6254599162492128 (-57) (by norm_num) (by norm_num) (by norm_num) (by norm_num) (by norm_num) (by norm_num) (by norm_num)
  have h23 : fsub (6674334647763075 / 4503599627370496) (801077783718527 / 562949953421312) = some (265712378014859 / 4503599627370496) :=
    roundF64_pos_mid ((6674334647763075 / 4503599627370496) - (801077783718527 / 562949953421312)) (265712378014859 / 4503599627370496) 8502796096475488 (-57) (by norm_num) (by norm_num) (by norm_num) (by norm_num) (by norm_num) (by norm_num) (by norm_num)
  have h24 : fdiv (195456223827879 / 4503599627370496) (265712378014859 / 4503599627370496) = some (6625634706029803 / 9007199254740992) :=
    fdiv_of_round ((195456223827879 / 4503599627370496)) ((265712378014859 / 4503599627370496)) (6625634706029803 / 9007199254740992) (by norm_num) (roundF64_pos_mid ((195456223827879 / 4503599627370496) / (265712378014859 / 4503599627370496)) (6625634706029803 / 9007199254740992) 6625634706029803 (-53) (by norm_num) (by norm_num) (by norm_num) (by norm_num) (by norm_num) (by norm_num) (by norm_num))
  have h25 : fsub 48 44 = some 4 :=
    roundF64_pos (48 - 44) 4 4503599627370496 (-50) (by norm_num) (by norm_num) (by norm_num) (by norm_num) (by norm_num) (by norm_num) (by norm_num)
  have h26 : fmul (6625634706029803 / 9007199254740992) 4 = some (6625634706029803 / 2251799813685248) :=
    roundF64_pos_mid ((6625634706029803 / 9007199254740992) * 4) (6625634706029803 / 2251799813685248) 6625634706029803 (-51) (by norm_num) (by norm_num) (by norm_num) (by norm_num) (by norm_num) (by norm_num) (by norm_num)
  have h27 : fadd 44 (6625634706029803 / 2251799813685248) = some (6606551656761295 / 140737488355328) :=
    roundF64_pos_mid (44 + (6625634706029803 / 2251799813685248)) (6606551656761295 / 140737488355328) 6606551656761295 (-47) (by norm_num) (by norm_num) (by norm_num) (by norm_num) (by norm_num) (by norm_num) (by norm_num)
  have h28 : interpPair64 (44, (801077783718527 / 562949953421312)) (48, (6674334647763075 / 4503599627370496)) (6604078493576095 / 4503599627370496) = some (6606551656761295 / 140737488355328) :=
    interpPair64_eq _ _ _ _ _ _ _ _ _ _ _ h22 h23 h24 h25 h26 h27
  have h29 : interpLoop64 (6604078493576095 / 4503599627370496) [(0, 1), (32, (5710564327505789 / 4503599627370496)), (36, (5926737109619573 / 4503599627370496)), (40, (6160924290242839 / 4503599627370496)), (44, (801077783718527 / 562949953421312)), (48, (6674334647763075 / 4503599627370496)), (50, (3404721318292095 / 2251799813685248)), (51, (6876996630994747 / 4503599627370496)), (52, (6944550625405305 / 4503599627370496)), (53, (3506052309907931 / 2251799813685248))] = LoopOutcome.returned (6606551656761295 / 140737488355328) :=
    by
      rw [interpLoop64_skip _ _ _ _ (by norm_num)]
      rw [interpLoop64_skip _ _ _ _ (by norm_num)]
      rw [interpLoop64_skip _ _ _ _ (by norm_num)]
      rw [interpLoop64_skip _ _ _ _ (by norm_num)]
      exact interpLoop64_hit _ _ _ _ _ (by norm_num) h28
  have h30 : interp64 (tableRow64 60) (6604078493576095 / 4503599627370496) = some (6606551656761295 / 140737488355328) :=
    by
      rw [row64_60.1]
      exact interp64_of_returned _ _ _ h29
  have h31 : interpLoop64 (6604078493576095 / 4503599627370496) [(0, (1116892707587883 / 1125899906842624)), (40, (2961116754996101 / 2251799813685248)), (45, (1539105172653867 / 1125899906842624)), (48, (6327557476455547 / 4503599627370496)), (50, (6453658266021921 / 4503599627370496)), (51, (1629177165201277 / 1125899906842624)), (52, (6579759055588295 / 4503599627370496))] = LoopOutcome.finished :=
    by
      rw [interpLoop64_skip _ _ _ _ (by norm_num)]
      rw [interpLoop64_skip _ _ _ _ (by norm_num)]
      rw [interpLoop64_skip _ _ _ _ (by norm_num)]
      rw [interpLoop64_skip _ _ _ _ (by norm_num)]
      rw [interpLoop64_skip _ _ _ _ (by norm_num)]
      rw [interpLoop64_skip _ _ _ _ (by norm_num)]
      exact interpLoop64_single _ _
  have h32 : interp64 (tableRow64 80) (6604078493576095 / 4503599627370496) = some 52 :=
    by
      rw [row64_80.1, interp64_of_finished _ _ (0, (1116892707587883 / 1125899906842624)) (52, (6579759055588295 / 4503599627370496)) h31 rfl rfl]
      norm_num
  have h33 : fsub 52 (6606551656761295 / 140737488355328) = some (711797737715761 / 140737488355328) :=
    roundF64_pos_mid (52 - (6606551656761295 / 140737488355328)) (711797737715761 / 140737488355328) 5694381901726088 (-50) (by norm_num) (by norm_num) (by norm_num) (by norm_num) (by norm_num) (by norm_num) (by norm_num)
  have h34 : fsub 80 60 = some 20 :=
    roundF64_pos_mid (80 - 60) 20 5629499534213120 (-48) (by norm_num) (by norm_num) (by norm_num) (by norm_num) (by norm_num) (by norm_num) (by norm_num)
  have h35 : fdiv (711797737715761 / 140737488355328) 20 = some (2277752760690435 / 9007199254740992) :=
    fdiv_of_round ((711797737715761 / 140737488355328)) (20) (2277752760690435 / 9007199254740992) (by norm_num) (roundF64_pos_mid ((711797737715761 / 140737488355328) / 20) (2277752760690435 / 9007199254740992) 4555505521380870 (-54) (by norm_num) (by norm_num) (by norm_num) (by norm_num) (by norm_num) (by norm_num) (by norm_num))
  have h36 : fsub (2814749767106525 / 35184372088832) 60 = some (703687441776605 / 35184372088832) :=
    roundF64_pos_mid ((2814749767106525 / 35184372088832) - 60) (703687441776605 / 35184372088832) 5629499534212840 (-48) (by norm_num) (by norm_num) (by norm_num) (by norm_num) (by norm_num) (by norm_num) (by norm_num)
  have h37 : fmul (2277752760690435 / 9007199254740992) (703687441776605 / 35184372088832) = some (1423595475431451 / 281474976710656) :=
    roundF64_pos_mid ((2277752760690435 / 9007199254740992) * (703687441776605 / 35184372088832)) (1423595475431451 / 281474976710656) 5694381901725804 (-50) (by norm_num) (by norm_num) (by norm_num) (by norm_num) (by norm_num) (by norm_num) (by norm_num)
  have h38 : fadd (6606551656761295 / 140737488355328) (1423595475431451 / 281474976710656) = some (1829587348619255 / 35184372088832) :=
    roundF64_pos_tie ((6606551656761295 / 140737488355328) + (1423595475431451 / 281474976710656)) (1829587348619255 / 35184372088832) 7318349394477020 (-47) (by norm_num) (by norm_num) (by norm_num) (by norm_num) (Or.inr (by norm_num)) (by decide) (by norm_num)
  have h39 : getConc64 (2814749767106525 / 35184372088832) (6604078493576095 / 4503599627370496) = some (1829587348619255 / 35184372088832) :=
    by
      rw [getConc64_between 60 80 _ _ _ _ (by rw [sortedKeys_eq]; simp) (by norm_num) (by norm_num) h30 h32]
      exact tempStep64_eq _ _ _ _ _ _ _ _ _ _ _ h33 h34 h35 h36 h37 h38
  rw [h1, h2, h3]
  exact ⟨by norm_num, by norm_num, h21, h39, by norm_num⟩

end Evaporator
